import Mathlib

/-!
Shallow embedding of the PyFAT12 driver (`pyfat12/fs.py`, `pyfat12/floppy.py`,
`pyfat12/path.py`) in Lean 4, together with theorems settling the frozen claims
about its natural-language specification.

Modelling conventions, used throughout and documented once here:

* Python `bytes`/`bytearray` values and CP437 `str` values are both modelled as
  `List Nat` of byte values.  `encode("cp437")` / `decode("cp437")` are the
  identity on this representation.  `str.upper()` is modelled on the ASCII
  range only (`a`..`z` map to `A`..`Z`, all other bytes are fixed); theorems
  that depend on name handling therefore carry ASCII well-formedness
  hypotheses, since Python additionally uppercases accented CP437 letters.

* The backing store of a `FloppyImage` is modelled as a total function
  `Nat → Nat` from byte addresses to byte values plus a `capacity` used by the
  bound checks of `read_sectors` / `write_sectors`, which are modelled exactly
  as in `floppy.py` (including the fact that `write_sectors` does not take the
  sector count into account in its bound check).  Python can grow the backing
  `bytearray` by writing past its end; no modelled operation does so after a
  passing bound check, and `capacity` is treated as constant.

* Python exceptions are modelled by the `Except PyErr` monad.  An unbounded
  Python `while` loop is modelled with an explicit fuel argument chosen large
  enough that fuel exhaustion (`PyErr.loopFuel`) can only occur in executions
  in which the Python loop would not terminate; all theorems below about
  successful executions are therefore unaffected by the fuel.

* Python `assert` statements are modelled as `PyErr.assertionError` throws,
  `struct.pack`/`struct.unpack` argument errors as `PyErr.structError`, and
  a reference to an unbound local variable (which `fs.py` really contains, in
  `move` and `remove_directory`) as `PyErr.nameError`.
-/

/-- Python exception kinds raised by the modelled code. -/
inductive PyErr where
  | valueError (msg : String)
  | notImplementedError
  | ioError (msg : String)
  | fileNotFoundError
  | indexError
  | typeError
  | nameError (msg : String)
  | assertionError
  | structError
  | loopFuel
  deriving DecidableEq, Repr

/-- Result monad for the embedded Python code. -/
abbrev M (α : Type) : Type := Except PyErr α

/-- Byte-addressed backing store of a floppy image. -/
def Image : Type := Nat → Nat

/-- Read `len` bytes starting at byte offset `off` (`FloppyImage.read`). -/
def imgRead (img : Image) (off len : Nat) : List Nat :=
  (List.range len).map fun i => img (off + i)

/-- Write the bytes `bs` at byte offset `off` (`FloppyImage.write`). -/
def imgWrite (img : Image) (off : Nat) (bs : List Nat) : Image :=
  fun a => if off ≤ a ∧ a < off + bs.length then bs.getD (a - off) 0 else img a

/-- Little-endian value of a byte list. -/
def unpackLE : List Nat → Nat
  | [] => 0
  | b :: bs => b + 256 * unpackLE bs

/-- `struct.unpack("<H", bs)`: exactly two bytes required. -/
def unpack16 (bs : List Nat) : M Nat :=
  if bs.length = 2 then pure (unpackLE bs) else throw .structError

/-- `struct.unpack("<I", bs)`: exactly four bytes required. -/
def unpack32 (bs : List Nat) : M Nat :=
  if bs.length = 4 then pure (unpackLE bs) else throw .structError

/-- `struct.pack("<H", v)` for `v < 2^16` (callers guarantee the bound). -/
def pack16 (v : Nat) : List Nat := [v % 256, v / 256 % 256]

/-- `struct.pack("<I", v)` for `v < 2^32` (callers guarantee the bound). -/
def pack32 (v : Nat) : List Nat :=
  [v % 256, v / 256 % 256, v / 65536 % 256, v / 16777216 % 256]

/-- Python `str.upper()` restricted to the ASCII range (see file comment). -/
def pyUpper (s : List Nat) : List Nat :=
  s.map fun b => if 97 ≤ b ∧ b ≤ 122 then b - 32 else b

/-- Byte values stripped by Python `str.rstrip()` after CP437 decoding
(ASCII whitespace plus the FS/GS/RS/US separator control characters). -/
def pyIsSpace (b : Nat) : Bool :=
  b == 32 || b == 9 || b == 10 || b == 11 || b == 12 || b == 13 ||
    b == 28 || b == 29 || b == 30 || b == 31

/-- Python `str.rstrip()` on the byte representation. -/
def pyRstrip (s : List Nat) : List Nat :=
  (s.reverse.dropWhile pyIsSpace).reverse

/-- Python `str.ljust(n)` (pad on the right with spaces). -/
def ljust (s : List Nat) (n : Nat) : List Nat :=
  s ++ List.replicate (n - s.length) 32

/-- In-memory `datetime.datetime` value. -/
structure DT where
  year : Nat
  month : Nat
  day : Nat
  hour : Nat
  minute : Nat
  second : Nat
  deriving DecidableEq, Repr

/-- Gregorian leap-year test used by `datetime`. -/
def isLeap (y : Nat) : Bool := y % 4 == 0 && (y % 100 != 0 || y % 400 == 0)

/-- Number of days in a month, as validated by the `datetime` constructor. -/
def daysInMonth (y m : Nat) : Nat :=
  if m = 2 then (if isLeap y then 29 else 28)
  else if m = 4 ∨ m = 6 ∨ m = 9 ∨ m = 11 then 30 else 31

/-- The `datetime.datetime(...)` constructor including its range validation. -/
def mkDatetime (year month day hour minute second : Nat) : M DT :=
  if 1 ≤ year ∧ year ≤ 9999 ∧ 1 ≤ month ∧ month ≤ 12 ∧ 1 ≤ day ∧
     day ≤ daysInMonth year month ∧ hour ≤ 23 ∧ minute ≤ 59 ∧ second ≤ 59
  then pure ⟨year, month, day, hour, minute, second⟩
  else throw (.valueError "datetime argument out of range")

/-- `FAT12._edt_to_pdt`: decode a packed 4-byte date/time. -/
def edt_to_pdt (dt : List Nat) : M DT := do
  let i ← unpack32 dt
  mkDatetime (1980 + ((i >>> 25) &&& 0x7F)) ((i >>> 21) &&& 0x0F)
    ((i >>> 16) &&& 0x1F) ((i >>> 11) &&& 0x1F) ((i >>> 5) &&& 0x3F)
    ((i &&& 0x1F) * 2)

/-- `FAT12._pdt_to_edt`: encode a `datetime` into the packed 4-byte form.
Python computes `(year - 1980) & 0x7F` on a possibly negative int; this is
`(year - 1980) mod 128` over ℤ, which is how it is modelled here. -/
def pdt_to_edt (dt : DT) : List Nat :=
  let year : Nat := ((((dt.year : Int) - 1980) % 128)).toNat
  let month := dt.month &&& 0x0F
  let day := dt.day &&& 0x1F
  let hour := dt.hour &&& 0x1F
  let minute := dt.minute &&& 0x3F
  let second := (dt.second / 2) &&& 0x1F
  pack32 ((year <<< 25) ||| (month <<< 21) ||| (day <<< 16) ||| (hour <<< 11) |||
    (minute <<< 5) ||| second)

/-- Core of `FAT12._readfat`: decode packed FAT bytes, three bytes giving two
12-bit entries (`struct.unpack("<I", data[i:i+3] + b"\0")`, then mask/shift).
A trailing chunk shorter than three bytes makes `struct.unpack` fail. -/
def readfatPairs : List Nat → M (List Nat)
  | [] => pure []
  | b0 :: b1 :: b2 :: rest => do
    let pair := b0 + 256 * b1 + 65536 * b2
    let tail ← readfatPairs rest
    pure ((pair &&& 0xFFF) :: ((pair >>> 12) &&& 0xFFF) :: tail)
  | _ => throw .structError

/-- Core packing loop of `FAT12._writefat`: consecutive entry pairs are packed
into three bytes via `struct.pack("<I", (e0 & 0xFFF) | ((e1 & 0xFFF) << 12))[:3]`.
`_writefat` pads the entry list to even length before this loop runs, so the
lone-entry case cannot occur there (it is mapped to `[]`). -/
def packFATPairs : List Nat → List Nat
  | e0 :: e1 :: rest =>
    (pack32 ((e0 &&& 0xFFF) ||| ((e1 &&& 0xFFF) <<< 12))).take 3 ++ packFATPairs rest
  | _ => []

/-- A parsed 32-byte directory entry (`FAT12._parsedirentry` result tuple:
`exists = None` is `endOfDir`, `exists = False` is `free`). -/
inductive DirEntry where
  | endOfDir
  | free
  | entry (filename : List Nat) (attributes : Nat) (modified : DT)
      (cluster : Nat) (file_size : Nat)
  deriving DecidableEq, Repr

/-- Mounted FAT12 volume: the `FAT12` object state plus its `FloppyImage`. -/
structure FAT12 where
  image : Image
  capacity : Nat
  fat : List Nat
  bytes_per_sector : Nat
  sectors_per_cluster : Nat
  fat_start_sector : Nat
  fat_count : Nat
  root_entries : Nat
  logical_sectors : Nat
  descriptor : Nat
  sectors_per_fat : Nat
  sectors_per_track : Nat
  number_of_heads : Nat
  hidden_sectors : Nat
  large_total_logical_sectors : Nat
  drive_number : Nat
  ebpb_flags : Nat
  has_ebpb : Bool
  serial : List Nat
  bpb_label : List Nat
  fs_type : List Nat
  root_dir_sector : Nat
  first_cluster_sector : Nat
  label : List Nat
  write_label : Bool
  dircluster : Nat
  dirparents : List Nat
  now : DT

/-- `FloppyImage.read_sectors` with its bound check. -/
def FAT12.read_sectors (st : FAT12) (sectornum sectorcount : Nat) : M (List Nat) :=
  if (sectornum + sectorcount) * 512 > st.capacity then
    throw (.valueError "invalid sector index")
  else pure (imgRead st.image (sectornum * 512) (sectorcount * 512))

/-- `FloppyImage.write_sectors` with its (count-ignoring) bound check. -/
def FAT12.write_sectors (st : FAT12) (sectornum sectorcount : Nat)
    (data : List Nat) : M FAT12 :=
  if sectornum * 512 ≥ st.capacity then throw (.valueError "invalid sector number")
  else if data.length ≠ sectorcount * 512 then
    throw (.valueError "invalid sector length")
  else pure { st with image := imgWrite st.image (sectornum * 512) data }

/-- Unchecked `FloppyImage.write` (used directly by `FAT12._writebpb`). -/
def FAT12.imageWriteAt (st : FAT12) (off : Nat) (bs : List Nat) : FAT12 :=
  { st with image := imgWrite st.image off bs }

/-- `self._fat[i]` with Python list index semantics (`IndexError` past end). -/
def fatGet (fat : List Nat) (i : Nat) : M Nat :=
  match fat.get? i with
  | some v => pure v
  | none => throw .indexError

/-- `FAT12._cluster_is_end_of_chain`. -/
def cluster_is_end_of_chain (cluster : Nat) : Bool := cluster &&& 0xFF8 == 0xFF8

/-- `FAT12._isvalidcluster`. -/
def isvalidcluster (cluster : Nat) : Bool := 2 ≤ cluster && cluster < 0xFF0

/-- `FAT12._cluster_index`. -/
def FAT12.cluster_index (st : FAT12) (cluster : Nat) : Nat :=
  st.first_cluster_sector + cluster * st.sectors_per_cluster

/-- `FAT12._readcluster`. -/
def FAT12.readcluster (st : FAT12) (cluster : Nat) : M (List Nat) :=
  st.read_sectors (st.cluster_index cluster) st.sectors_per_cluster

/-- `FAT12._writecluster`. -/
def FAT12.writecluster (st : FAT12) (cluster : Nat) (data : List Nat) : M FAT12 :=
  st.write_sectors (st.cluster_index cluster) st.sectors_per_cluster data

/-- `path.replace("\\", "/")`. -/
def pyReplaceBS (s : List Nat) : List Nat := s.map fun b => if b = 92 then 47 else b

/-- `FAT12._splitpath`: split off the first `/`-separated component (after
backslash normalisation). -/
def splitpath (path : List Nat) : List Nat × List Nat :=
  let path := pyReplaceBS path
  match path.findIdx? (fun b => b == 47) with
  | none => (path, [])
  | some i => (path.take i, path.drop (i + 1))

/-- `pyfat12.path.basename`. -/
def basename (path : List Nat) : List Nat :=
  ((pyReplaceBS path).reverse.takeWhile (fun b => b != 47)).reverse

/-- `FAT12._efn_to_cfn`: canonical 11-byte on-disk name to presentation form.
(Callers always pass at least one byte, so the `fn[0]` access cannot fail.) -/
def efn_to_cfn (fn : List Nat) : List Nat :=
  let fn := if fn.getD 0 0 = 5 then fn.set 0 0xE5 else fn
  let ext := pyRstrip (fn.drop 8)
  if ext ≠ [] then pyRstrip (fn.take 8) ++ [46] ++ ext else pyRstrip (fn.take 8)

/-- `FAT12._parsedirentry`. -/
def parsedirentry (data : List Nat) : M DirEntry := do
  match data.get? 0 with
  | none => throw .indexError
  | some b0 =>
    if b0 = 0 then pure .endOfDir
    else if b0 = 0xE5 then pure .free
    else do
      let attributes ← match data.get? 0x0B with
        | some a => pure a
        | none => throw .indexError
      let modified ← edt_to_pdt ((data.drop 0x16).take 4)
      let cluster ← unpack16 ((data.drop 0x1A).take 2)
      let file_size ← unpack32 ((data.drop 0x1C).take 4)
      pure (.entry (efn_to_cfn (data.take 0x0B)) attributes modified cluster file_size)

/-- Common tail of `FAT12._makedirentry` once name and extension bytes are
fixed: length checks, defaults, field range checks, 32-byte assembly. -/
def makedirentry_core (filename ext : List Nat) (attributes : Nat)
    (modified : Option DT) (cluster file_size : Nat) (now : DT) : M (List Nat) :=
  if filename.length > 8 ∨ ext.length > 3 then throw (.valueError "name too long")
  else
    -- `datetime.datetime.now()` is modelled by the volume `now` field
    let modified := modified.getD now
    if cluster ≥ 0xFF6 then throw (.valueError "invalid starting cluster")
    else if attributes ≥ 256 then throw (.valueError "byte must be in range")
    else if file_size ≥ 2 ^ 32 then throw .structError
    else pure (ljust filename 8 ++ ljust ext 3 ++ (attributes :: List.replicate 10 0) ++
      pdt_to_edt modified ++ pack16 cluster ++ pack32 file_size)

/-- Position of the last `.` in a name, for `str.rsplit(".", 1)`. -/
def rsplitDot (s : List Nat) : List Nat × List Nat :=
  let j := s.length - 1 - (s.reverse.findIdx (fun b => b == 46))
  (s.take j, s.drop (j + 1))

/-- `FAT12._makedirentry` on a `str` filename (uppercase, split at the last
dot, default three-space extension). -/
def makedirentry_str (filename : List Nat) (attributes : Nat) (modified : Option DT)
    (cluster file_size : Nat) (now : DT) : M (List Nat) :=
  let fnU := pyUpper filename
  let (fn, ext) := if fnU.contains 46 then rsplitDot fnU else (fnU, [32, 32, 32])
  makedirentry_core fn ext attributes modified cluster file_size now

/-- `FAT12._makedirentry` on a `bytes` filename (split 8 + rest). -/
def makedirentry_bytes (filename : List Nat) (attributes : Nat) (modified : Option DT)
    (cluster file_size : Nat) (now : DT) : M (List Nat) :=
  makedirentry_core (filename.take 8) (filename.drop 8) attributes modified
    cluster file_size now

/-- Python `buf[off : off + e.length] = e` slice assignment on a byte buffer. -/
def listSplice (l : List Nat) (off : Nat) (e : List Nat) : List Nat :=
  l.take off ++ e ++ l.drop (off + e.length)

/-- `FAT12._readdirentry`. -/
def FAT12.readdirentry (st : FAT12) (cluster offset : Nat) : M (List Nat) :=
  if cluster = 1 then do
    let rootdir ← st.read_sectors st.root_dir_sector (st.root_entries / 16)
    pure ((rootdir.drop offset).take 32)
  else do
    let data ← st.readcluster cluster
    pure ((data.drop offset).take 32)

/-- `FAT12._writedirentry`. -/
def FAT12.writedirentry (st : FAT12) (cluster offset : Nat) (entry : List Nat) :
    M FAT12 :=
  if entry.length ≠ 32 then throw .assertionError
  else if cluster = 1 then do
    let rootdir ← st.read_sectors st.root_dir_sector (st.root_entries / 16)
    st.write_sectors st.root_dir_sector (st.root_entries / 16)
      (listSplice rootdir offset entry)
  else do
    let data ← st.readcluster cluster
    st.writecluster cluster (listSplice data offset entry)

/-- `FAT12._rmdirentry`.  In the subdirectory branch the source then evaluates
`len(cluster)` on the int `cluster` inside the `all(...)` generator, which
raises `TypeError`, so the "maybe shorten directory" logic is unreachable. -/
def FAT12.rmdirentry (st : FAT12) (cluster offset _first_cluster : Nat) : M FAT12 := do
  if cluster = 1 then do
    let rootdir ← st.read_sectors st.root_dir_sector (st.root_entries / 16)
    if offset < rootdir.length then
      st.write_sectors st.root_dir_sector (st.root_entries / 16)
        (rootdir.set offset 0xE5)
    else throw .indexError
  else do
    let data ← st.readcluster cluster
    if offset < data.length then do
      let _ ← st.writecluster cluster (data.set offset 0xE5)
      -- `all(cluster[i] in [0x00, 0xE5] for i in range(0, len(cluster), 32))`:
      -- `cluster` is an int, so `len(cluster)` raises TypeError here
      throw .typeError
    else throw .indexError

/-- Scan loop of `FAT12._resolvefilesector`: walk 32-byte slots from index `i`,
stop at the end-of-directory sentinel, skip free and `0xC8`-attribute slots,
return the offset of the first slot matching `name` (already uppercased). -/
def resolvefilesectorAux (name sector : List Nat) : Nat → Nat → M (Option Nat)
  | 0, _ => throw .loopFuel
  | n + 1, i =>
    if i < sector.length then do
      let pe ← parsedirentry ((sector.drop i).take 32)
      match pe with
      | .endOfDir => pure none
      | .free => resolvefilesectorAux name sector n (i + 32)
      | .entry filename attributes _ _ _ =>
        if attributes &&& 0xC8 ≠ 0 then resolvefilesectorAux name sector n (i + 32)
        else if pyUpper filename = name then pure (some i)
        else resolvefilesectorAux name sector n (i + 32)
    else pure none

/-- `FAT12._resolvefilesector` (with its `offset % 32` assert).  The scan
advances 32 bytes per step, so `sector.length + 1` steps always suffice. -/
def resolvefilesector (name sector : List Nat) (offset : Nat) : M (Option Nat) :=
  if offset % 32 ≠ 0 then throw .assertionError
  else resolvefilesectorAux (pyUpper name) sector (sector.length + 1) offset

/-- Chain-walking branch of `FAT12._resolvefile`, with fuel (see file comment). -/
def FAT12.resolvefileChain (st : FAT12) (name : List Nat) :
    Nat → Nat → Nat → M (Option (Nat × Nat))
  | 0, _, _ => throw .loopFuel
  | fuel + 1, cluster, offset => do
    if cluster_is_end_of_chain cluster then pure none
    else do
      let data ← st.readcluster cluster
      let r ← resolvefilesector name data offset
      match r with
      | some off => pure (some (cluster, off))
      | none => do
        let next ← fatGet st.fat cluster
        st.resolvefileChain name fuel next 0

/-- `FAT12._resolvefile`. -/
def FAT12.resolvefile (st : FAT12) (name : List Nat) (cluster offset : Nat) :
    M (Option (Nat × Nat)) :=
  if cluster = 1 then do
    let rootdir ← st.read_sectors st.root_dir_sector (st.root_entries / 16)
    let r ← resolvefilesector name rootdir offset
    match r with
    | none => pure none
    | some off => pure (some (1, off))
  else st.resolvefileChain name (st.fat.length + 1) cluster offset

/-- Auxiliary bound for structural recursion over path strings: `splitpath`
strictly shrinks a nonempty path. -/
theorem splitpath_snd_length_lt (path : List Nat) (h : path ≠ []) :
    (splitpath path).2.length < path.length := by
  unfold splitpath
  simp only
  cases hf : (pyReplaceBS path).findIdx? (fun b => b == 47) with
  | none =>
    simpa using List.length_pos.mpr h
  | some i =>
    simp only [List.length_drop]
    have hlen : (pyReplaceBS path).length = path.length := by
      simp [pyReplaceBS]
    have hi : i < (pyReplaceBS path).length :=
      (List.findIdx?_eq_some_iff_findIdx_eq.mp hf).1
    omega

/-- Loop of `FAT12._resolvepath`.  `oc` is the current value of the local pair
`(ocluster, offset)` (initially `None, None`).  Note that the source never
updates `cluster` to a resolved subdirectory's starting cluster, so every
component is looked up in the directory the walk started in. -/
def FAT12.resolvepathAux (st : FAT12) :
    Nat → List Nat → Nat → Option (Nat × Nat) → M (Option (Nat × Nat × Nat))
  | 0, _, _, _ => throw .loopFuel
  | fuel + 1, path, cluster, oc =>
    if path = [] then
      match oc with
      | none => pure none
      | some (o, f) => pure (some (cluster, o, f))
    else
      let np := splitpath path
      let name := np.1
      let path' := np.2
      if name = [] ∧ path' = [] then
        match oc with
        | none => pure none
        | some (o, f) => pure (some (cluster, o, f))
      else if name = [] then st.resolvepathAux fuel path' 1 oc
      else do
        let r ← st.resolvefile name cluster 0
        match r with
        | none =>
          -- `ocluster, offset` were just assigned `None, None`
          if cluster = 1 ∧ name = [46] then st.resolvepathAux fuel path' cluster none
          else pure none
        | some (ocl, off) =>
          if path' = [] then pure (some (cluster, ocl, off))
          else do
            let pe ← parsedirentry (← st.readdirentry ocl off)
            -- `if entry is None:` is always false for a tuple; skipped
            match pe with
            | .entry _ attributes _ _ _ =>
              if attributes &&& 0x10 = 0 then pure none
              else st.resolvepathAux fuel path' cluster (some (ocl, off))
            | _ => pure none

/-- `FAT12._resolvepath`.  Every loop iteration strictly shrinks the remaining
path, so `path.length + 1` fuel always suffices. -/
def FAT12.resolvepath (st : FAT12) (path : List Nat) (at_root : Bool) :
    M (Option (Nat × Nat × Nat)) :=
  st.resolvepathAux (path.length + 1) path (if at_root then 1 else st.dircluster) none

/-- Loop of `FAT12._resolvedir`.  Unlike `_resolvepath` this walk does descend
(it rebinds `cluster` from the resolved entry) and maintains the parents
stack.  The Python list aliases `self._dirparents` when `at_root` is false;
no theorem below depends on that mutation, and the walk is modelled on a
by-value copy of the stack. -/
def FAT12.resolvedirAux (st : FAT12) :
    Nat → List Nat → Nat → List Nat → M (Option Nat × List Nat)
  | 0, _, _, _ => throw .loopFuel
  | fuel + 1, path, cluster, parents =>
    if path = [] then pure (some cluster, parents)
    else
      let np := splitpath path
      let name := np.1
      let path' := np.2
      if name = [] ∧ path' = [] then pure (some cluster, parents)
      else if name = [] then st.resolvedirAux fuel path' 1 []
      else do
        let r ← st.resolvefile name cluster 0
        match r with
        | none =>
          if cluster = 1 ∧ name = [46] then st.resolvedirAux fuel path' cluster parents
          else pure (none, [])
        | some (ocl, off) => do
          let pe ← parsedirentry (← st.readdirentry ocl off)
          -- `if entry is None:` is always false for a tuple; skipped
          let parents2 := parents ++ [cluster]
          match pe with
          | .entry _ attributes _ scluster _ =>
            if attributes &&& 0x10 = 0 then pure (none, [])
            else if scluster = 0 then do
              -- `assert name in [".", ".."]`
              if name ≠ [46] ∧ name ≠ [46, 46] then throw .assertionError
              else if name = [46] then
                -- `cluster = parents.pop()`; `parents2` is nonempty by construction
                st.resolvedirAux fuel path' (parents2.getLastD 0) parents2.dropLast
              else do
                -- `..`: `parents2` is nonempty so `if parents:` is taken; the
                -- first pop discards, the second raises IndexError when empty
                let parents3 := parents2.dropLast
                if parents3 = [] then throw .indexError
                else st.resolvedirAux fuel path' (parents3.getLastD 0) parents3.dropLast
            else st.resolvedirAux fuel path' scluster parents2
          | _ => pure (none, [])

/-- `FAT12._resolvedir` (`path.length + 1` fuel always suffices, as above). -/
def FAT12.resolvedir (st : FAT12) (path : List Nat) (at_root : Bool) :
    M (Option Nat × List Nat) :=
  st.resolvedirAux (path.length + 1) path (if at_root then 1 else st.dircluster)
    (if at_root then [] else st.dirparents)

/-- Free-slot scan of `FAT12._allocdirentrycluster` (pure; in-range reads). -/
def allocdirentryclusterAux (sector : List Nat) : Nat → Nat → M (Option Nat)
  | 0, _ => throw .loopFuel
  | n + 1, i =>
    if i < sector.length then
      if sector.getD i 0 = 0 ∨ sector.getD i 0 = 0xE5 then pure (some i)
      else allocdirentryclusterAux sector n (i + 32)
    else pure none

/-- `FAT12._allocdirentrycluster` (with its `offset % 32` assert). -/
def allocdirentrycluster (sector : List Nat) (offset : Nat) : M (Option Nat) :=
  if offset % 32 ≠ 0 then throw .assertionError
  else allocdirentryclusterAux sector (sector.length + 1) offset

/-- First-fit scan of `FAT12._alloccluster` over FAT indices from 2 upward. -/
def allocScan (fat : List Nat) : Nat → Nat → M (Option Nat)
  | 0, _ => throw .loopFuel
  | n + 1, i =>
    if i < fat.length then
      if fat.getD i 1 = 0 then pure (some i) else allocScan fat n (i + 1)
    else pure none

/-- `FAT12._alloccluster`: find the first free FAT entry, mark it end-of-chain
and optionally attach it to `attach_to`.  (`if attach_to:` in the source is
int truthiness; the preceding assert excludes `0`, so only `None` is falsy.) -/
def FAT12.alloccluster (st : FAT12) (attach_to : Option Nat) : M (Nat × FAT12) :=
  if (match attach_to with
      | some a => !(2 ≤ a && a < 0xFF0)
      | none => false) then
    throw .assertionError
  else do
    match ← allocScan st.fat (st.fat.length + 1) 2 with
    | none => throw (.ioError "floppy is full")
    | some i =>
      let fat1 := st.fat.set i 0xFFF
      let fat2 := match attach_to with
        | some a => fat1.set a i
        | none => fat1
      pure (i, { st with fat := fat2 })

/-- Chain-walking branch of `FAT12._allocdirentry`, with fuel.  The walk scans
each cluster for a free slot; at the end of the chain it allocates a fresh
cluster, zero-fills it and returns slot 0 there.  (The `return (None, None,
None)` at the end of the source function is unreachable.) -/
def FAT12.allocdirentryChain (st : FAT12) (ocluster : Nat) :
    Nat → Nat → Nat → Nat → M ((Nat × Nat × Nat) × FAT12)
  | 0, _, _, _ => throw .loopFuel
  | fuel + 1, pcluster, cluster, offset => do
    if cluster_is_end_of_chain cluster then do
      -- extend directory
      let (ncluster, st1) ← st.alloccluster (some pcluster)
      let st2 ← st1.writecluster ncluster
        (List.replicate (st1.bytes_per_sector * st1.sectors_per_cluster) 0)
      pure ((ocluster, ncluster, 0), st2)
    else do
      let data ← st.readcluster cluster
      let r ← allocdirentrycluster data offset
      match r with
      | some noffset => pure ((ocluster, cluster, noffset), st)
      | none => do
        let next ← fatGet st.fat cluster
        st.allocdirentryChain ocluster fuel cluster next 0

/-- `FAT12._allocdirentry`. -/
def FAT12.allocdirentry (st : FAT12) (cluster offset : Nat) :
    M ((Nat × Nat × Nat) × FAT12) :=
  if cluster = 1 then do
    let rootdir ← st.read_sectors st.root_dir_sector (st.root_entries / 16)
    let r ← allocdirentrycluster rootdir offset
    match r with
    | none => throw (.ioError "root directory is full")
    | some noffset => pure ((1, 1, noffset), st)
  else st.allocdirentryChain cluster (st.fat.length + 1) cluster cluster offset

/-- The `while not EOC(fat[l])` walk to the last cluster of a file in
`FAT12._writefile`, with fuel. -/
def chainTail (fat : List Nat) : Nat → Nat → M Nat
  | 0, _ => throw .loopFuel
  | fuel + 1, l => do
    let v ← fatGet fat l
    if cluster_is_end_of_chain v then pure l else chainTail fat fuel v

/-- The `for _ in range(file_clusters, new_file_clusters)` allocation loop of
`FAT12._writefile`: extend the chain from tail `l` by `k` clusters. -/
def FAT12.extendChain (st : FAT12) (l : Nat) : Nat → M (Nat × FAT12)
  | 0 => pure (l, st)
  | k + 1 => do
    let (i, st1) ← st.alloccluster (some l)
    st1.extendChain i k

/-- The data-writing loop of `FAT12._writefile`: write `n` cluster-sized
blocks (zero-padding the last) along the FAT chain from `datacluster`,
starting at content offset `i`.  The walk reads `self._fat[datacluster]`
after every block, including the final one. -/
def FAT12.writeChunks (st : FAT12) (contents : List Nat) :
    Nat → Nat → Nat → M FAT12
  | 0, _, _ => pure st
  | n + 1, datacluster, i => do
    if ¬(2 ≤ datacluster ∧ datacluster < 0xFF0) then throw .assertionError
    let bpc := st.bytes_per_sector * st.sectors_per_cluster
    let w := (contents.drop i).take bpc
    let w := w ++ List.replicate (bpc - w.length) 0
    let st1 ← st.writecluster datacluster w
    let next ← fatGet st1.fat datacluster
    st1.writeChunks contents n next (i + bpc)

/-- The truncation loop of `FAT12._writefile` (`while
self._isvalidcluster(fcluster)`, which erroneously tests the directory
cluster `fcluster` instead of walking the file chain), with fuel.  Returns
the updated state and the final value of the local `cluster`. -/
def FAT12.truncateFree (st : FAT12) (fcluster : Nat) :
    Nat → Nat → M (FAT12 × Nat)
  | 0, _ => throw .loopFuel
  | fuel + 1, cluster =>
    if ¬(2 ≤ fcluster ∧ fcluster < 0xFF0) then pure (st, cluster)
    else do
      let ncluster ← fatGet st.fat cluster
      let st1 : FAT12 := { st with fat := st.fat.set cluster 0 }
      st1.truncateFree fcluster fuel ncluster

/-- The chain-freeing loop of `delete_file` / `remove_directory`
(`while self._isvalidcluster(cluster)`), with fuel.  Returns the updated
state and the final value of `cluster`. -/
def FAT12.freeChain (st : FAT12) : Nat → Nat → M (FAT12 × Nat)
  | 0, _ => throw .loopFuel
  | fuel + 1, cluster =>
    if ¬(2 ≤ cluster ∧ cluster < 0xFF0) then pure (st, cluster)
    else do
      let n ← fatGet st.fat cluster
      let st1 : FAT12 := { st with fat := st.fat.set cluster 0 }
      st1.freeChain fuel n

/-- `FAT12._writebpb` (with the `struct.pack` range checks). -/
def FAT12.writebpb (st : FAT12) : M FAT12 :=
  if st.root_entries % 16 ≠ 0 then throw .assertionError
  else if ¬(st.bytes_per_sector < 2 ^ 16 ∧ st.sectors_per_cluster < 256 ∧
      st.fat_start_sector < 2 ^ 16 ∧ st.fat_count < 256 ∧
      st.root_entries < 2 ^ 16 ∧ st.logical_sectors < 2 ^ 16 ∧
      st.descriptor < 256 ∧ st.sectors_per_fat < 2 ^ 16) then
    throw .structError
  else
    let st := st.imageWriteAt 0x0B
      (pack16 st.bytes_per_sector ++ [st.sectors_per_cluster] ++
        pack16 st.fat_start_sector ++ [st.fat_count] ++ pack16 st.root_entries ++
        pack16 st.logical_sectors ++ [st.descriptor] ++ pack16 st.sectors_per_fat)
    if ¬(st.sectors_per_track < 2 ^ 16 ∧ st.number_of_heads < 2 ^ 16 ∧
        st.hidden_sectors < 2 ^ 32 ∧ st.large_total_logical_sectors < 2 ^ 32 ∧
        st.drive_number < 256 ∧ st.ebpb_flags < 256) then
      throw .structError
    else
      let st := st.imageWriteAt 0x18
        (pack16 st.sectors_per_track ++ pack16 st.number_of_heads ++
          pack32 st.hidden_sectors ++ pack32 st.large_total_logical_sectors ++
          [st.drive_number] ++ [st.ebpb_flags])
      if st.has_ebpb then
        if st.serial.length ≠ 4 then throw .assertionError
        else if st.fs_type ≠ [70, 65, 84, 32, 32, 32, 32, 32] ∧
            st.fs_type ≠ [70, 65, 84, 49, 50, 32, 32, 32] then
          throw .assertionError
        else
          let st := { st with bpb_label := st.label }
          let st := st.imageWriteAt 0x27 st.serial
          let st := st.imageWriteAt 0x2B st.bpb_label
          pure (st.imageWriteAt 0x36 st.fs_type)
      else pure st

/-- `FAT12._writefat`: pad the in-memory FAT to even length, pack it into a
sector-sized buffer and write `fat_count` copies of that buffer. -/
def FAT12.writefat (st : FAT12) : M FAT12 :=
  if ¬(st.fat.length ≤ st.sectors_per_fat * st.bytes_per_sector * 3 / 2) then
    throw .assertionError
  else
  let fat := if st.fat.length % 2 = 1 then st.fat ++ [0] else st.fat
  let st := { st with fat := fat }
  let triplets := packFATPairs fat
  let fats := triplets ++
    List.replicate (st.sectors_per_fat * st.bytes_per_sector - triplets.length) 0
  st.write_sectors st.fat_start_sector (st.sectors_per_fat * st.fat_count)
    (List.flatten (List.replicate st.fat_count fats))

/-- The `while i < len(rootdir) and rootdir[i] != 0` collection loop of
`FAT12._updatelabel`: the 32-byte entries before the sentinel, and the index
where the scan stopped. -/
def collectEntries (rootdir : List Nat) : Nat → Nat → M (List (List Nat) × Nat)
  | 0, _ => throw .loopFuel
  | n + 1, i =>
    if i < rootdir.length then
      if rootdir.getD i 0 ≠ 0 then do
        let (es, j) ← collectEntries rootdir n (i + 32)
        pure ((((rootdir.drop i).take 32)) :: es, j)
      else pure ([], i)
    else pure ([], i)

/-- The "readd volume label if possible" arm of `FAT12._updatelabel`. -/
def updatelabelRebuild (st : FAT12) (rootdir : List Nat) : M (List Nat) := do
  let (entries, i) ← collectEntries rootdir (rootdir.length + 1) 0
  if i < rootdir.length then do
    let num := entries.length
    let kept := entries.filter (fun e => e.getD 0x0B 0 &&& 0x0F = 8)
    let padded := kept ++ List.replicate (num - kept.length) (List.replicate 32 0)
    let lblEntry ← makedirentry_bytes st.label 8 none 0 0 st.now
    let entries2 := lblEntry :: padded
    if entries2.length * 32 ≤ rootdir.length then
      pure ((entries2.enum.foldl
        (fun acc ei => listSplice acc (ei.1 * 32) ei.2) rootdir))
    else pure rootdir
  else pure rootdir

/-- `FAT12._updatelabel`.  The label is always `bytes` in this model; the
branch that re-adds a label entry keeps only the slots whose attribute low
nibble is 8 (as the source does) and pads the rest with zero entries. -/
def FAT12.updatelabel (st : FAT12) : M FAT12 := do
  let lbl := st.label.take 11 ++
    (if st.label.length < 11 then List.replicate (11 - st.label.length) 0 else [])
  let st := { st with label := lbl }
  let rootdir ← st.read_sectors st.root_dir_sector (st.root_entries / 16)
  if st.write_label then do
    let st := { st with write_label := false }
    let b0 ← match rootdir.get? 0 with
      | some b => pure b
      | none => throw .indexError
    if hlbl : ¬(b0 = 0 ∨ b0 = 0xE5) then do
      let bA ← match rootdir.get? 0x0B with
        | some b => pure b
        | none => throw .indexError
      if bA &&& 8 = 8 then
        st.write_sectors st.root_dir_sector (st.root_entries / 16)
          (listSplice rootdir 0 st.label)
      else do
        let rootdir2 ← updatelabelRebuild st rootdir
        st.write_sectors st.root_dir_sector (st.root_entries / 16) rootdir2
    else do
      let rootdir2 ← updatelabelRebuild st rootdir
      st.write_sectors st.root_dir_sector (st.root_entries / 16) rootdir2
  else pure st

/-- `FAT12.commit`. -/
def FAT12.commit (st : FAT12) : M FAT12 := do
  let st ← st.updatelabel
  let st ← st.writebpb
  st.writefat

/-- `FAT12.set_label`: pad a short label with spaces to 11 bytes, reject a
longer one, store it (`self.label` and `self._label` coincide in this model:
`_updatelabel` re-normalises the stored value exactly as the source does),
mark the label dirty and commit. -/
def FAT12.set_label (st : FAT12) (label : List Nat) : M FAT12 :=
  if (label ++ (if label.length < 11 then List.replicate (11 - label.length) 32
      else [])).length > 11 then
    throw (.valueError "label too long")
  else
    FAT12.commit { st with
      label := label ++ (if label.length < 11 then
        List.replicate (11 - label.length) 32 else []),
      write_label := true }

/-- Tail of `FAT12._writefile` after the empty-file handling: walk to the
chain tail, allocate missing clusters, write the blocks, run the (broken)
truncation loop when shrinking, rewrite the directory entry, commit. -/
def FAT12.writefileBody (st : FAT12) (fcluster foffset : Nat)
    (contents filename : List Nat) (attributes cluster file_clusters : Nat) :
    M FAT12 := do
  let bpc := st.bytes_per_sector * st.sectors_per_cluster
  -- last cluster of file
  let _lcluster ← chainTail st.fat (st.fat.length + 1) cluster
  -- new clusters to allocate?
  let new_file_size := contents.length
  let new_file_clusters := (new_file_size + (bpc - 1)) / bpc
  let (_, st) ← st.extendChain _lcluster (new_file_clusters - file_clusters)
  -- write data
  let st ← st.writeChunks contents new_file_clusters cluster 0
  -- file keeps going?
  let (st, cluster) ←
    if file_clusters > new_file_clusters then
      st.truncateFree fcluster (2 * st.fat.length + 4) cluster
    else pure (st, cluster)
  -- update dir entry
  let entry ← makedirentry_str filename attributes none cluster new_file_size st.now
  let st ← st.writedirentry fcluster foffset entry
  st.commit

/-- `FAT12._writefile`. -/
def FAT12.writefile (st : FAT12) (fcluster foffset : Nat) (contents : List Nat)
    (ignore_readonly : Bool) : M FAT12 := do
  let bpc := st.bytes_per_sector * st.sectors_per_cluster
  let pe ← parsedirentry (← st.readdirentry fcluster foffset)
  match pe with
  | .entry filename attributes _modified cluster file_size =>
    if attributes &&& 0x10 ≠ 0 then throw (.valueError "cannot write to a directory")
    else if ¬ignore_readonly ∧ attributes &&& 1 = 1 then
      throw (.valueError "file is read-only")
    else if bpc = 0 then throw (.valueError "integer division or modulo by zero")
    else
      let file_clusters := (file_size + (bpc - 1)) / bpc
      -- empty file?
      if cluster = 0 then
        if file_size ≠ 0 then throw .assertionError
        else if contents.length = 0 then pure st   -- early return: entry untouched
        else do
          let (c, st1) ← st.alloccluster none
          st1.writefileBody fcluster foffset contents filename attributes c 1
      else
        st.writefileBody fcluster foffset contents filename attributes cluster file_clusters
  | _ => throw .typeError   -- `None & 0x10` on a free / end-of-directory slot

/-- Block-reading loop of `FAT12._readfile` (`for i in range(0, file_size,
bpc)`), reading `self._fat[cluster]` after every block including the last. -/
def FAT12.readChunks (st : FAT12) (bpc file_size : Nat) :
    Nat → Nat → Nat → M (List Nat)
  | 0, _, _ => throw .loopFuel
  | n + 1, cluster, i =>
    if bpc = 0 then throw (.valueError "range() arg 3 must not be zero")
    else if i < file_size then do
      let data ← st.readcluster cluster
      let next ← fatGet st.fat cluster
      let rest ← st.readChunks bpc file_size n next (i + bpc)
      pure (data.take (file_size - i) ++ rest)
    else pure []

/-- `FAT12._readfile`. -/
def FAT12.readfile (st : FAT12) (fcluster foffset : Nat) : M (List Nat) := do
  let bpc := st.bytes_per_sector * st.sectors_per_cluster
  let pe ← parsedirentry (← st.readdirentry fcluster foffset)
  match pe with
  | .entry _ attributes _ cluster file_size =>
    if attributes &&& 0x10 ≠ 0 then throw (.valueError "cannot read a directory")
    else st.readChunks bpc file_size (file_size + 1) cluster 0
  | _ => throw .typeError   -- `None & 0x10` on a free / end-of-directory slot

/-- Result of the scanning loop of `FAT12._createfile`: either the loop exited
(`brk`, with the last value bound to `name`, if any) or the function returned
the `(None, None, None)` triple (`failed`). -/
inductive CfLoop where
  | brk (name : Option (List Nat)) (cluster : Nat)
  | failed
  deriving DecidableEq, Repr

/-- Scanning loop of `FAT12._createfile`.  Like `_resolvepath`, the loop never
rebinds `cluster` from a resolved entry, so nested components are looked up in
the directory the walk started in. -/
def FAT12.createfileLoop (st : FAT12) :
    Nat → List Nat → Nat → Option (List Nat) → M CfLoop
  | 0, _, _, _ => throw .loopFuel
  | fuel + 1, path, cluster, lastName =>
    if path = [] then pure (.brk lastName cluster)
    else
      let np := splitpath path
      let name := np.1
      let path' := np.2
      if name = [] ∧ path' = [] then pure (.brk (some name) cluster)
      else if name = [] then st.createfileLoop fuel path' 1 (some name)
      else do
        let r ← st.resolvefile name cluster 0
        if path' = [] then
          match r with
          | none => pure (.brk (some name) cluster)
          | some _ => throw (.valueError "file already exists")
        else
          match r with
          | none =>
            if cluster = 1 ∧ name = [46] then st.createfileLoop fuel path' cluster (some name)
            else pure .failed
          | some (ocl, off) => do
            let pe ← parsedirentry (← st.readdirentry ocl off)
            match pe with
            | .entry _ attributes _ _ _ =>
              if attributes &&& 0x10 = 0 then pure .failed
              else st.createfileLoop fuel path' cluster (some name)
            | _ => pure .failed

/-- `FAT12._createfile`. -/
def FAT12.createfile (st : FAT12) (path : List Nat) (at_root : Bool) :
    M (Option (Nat × Nat × Nat) × FAT12) := do
  let cluster0 := if at_root then 1 else st.dircluster
  let r ← st.createfileLoop (path.length + 1) path cluster0 none
  match r with
  | .failed => pure (none, st)
  | .brk none _ =>
    -- the loop body never ran, so `name` is unbound at `if name in [...]`
    throw (.nameError "name")
  | .brk (some name) cluster =>
    if name = [46] ∨ name = [46, 46] then throw (.valueError "cannot create dotfile")
    else do
      let direntry ← makedirentry_str name 0x20 none 0 0 st.now
      let ((_dcluster, ocluster, offset), st) ← st.allocdirentry cluster 0
      let st ← st.writedirentry ocluster offset direntry
      pure (some (cluster, ocluster, offset), st)

/-- `FAT12._createdirectory`. -/
def FAT12.createdirectory (st : FAT12) (path : List Nat) (at_root chdir : Bool) :
    M (Option (Nat × Nat × Nat) × FAT12) :=
  let path := pyReplaceBS path
  let path := if path.getLast? = some 47 then path.dropLast else path
  if path = [] then throw (.valueError "cannot create root directory")
  else do
  let (ncluster, st) ← st.alloccluster none
  let (r, st) ← st.createfile path at_root
  match r with
  | some (cluster, ocluster, offset) =>
    -- `if cluster:` is int truthiness; only cluster 0 is falsy here
    if cluster ≠ 0 then do
      let name := basename path
      let e1 ← makedirentry_str name 16 none ncluster 0 st.now
      let st ← st.writedirentry ocluster offset e1
      let e2 ← makedirentry_bytes [46] 16 none 0 0 st.now
      let st ← st.writedirentry ncluster 0 e2
      let e3 ← makedirentry_bytes [46, 46] 16 none 0 0 st.now
      let st ← st.writedirentry ncluster 32 e3
      let st := if chdir then { st with dircluster := ncluster } else st
      pure (some (cluster, ocluster, offset), st)
    else pure (some (cluster, ocluster, offset), st)
  | none => pure (none, st)

/-- Information record returned by `stat` (`FAT12FileInfo`). -/
structure FAT12FileInfo where
  name : List Nat
  attributes : Nat
  date : Option DT
  starting_cluster : Nat
  size : Option Nat
  deriving DecidableEq, Repr

/-- `FAT12.read_file`. -/
def FAT12.read_file (st : FAT12) (path : List Nat) : M (List Nat) := do
  match ← st.resolvepath path false with
  | none => throw .fileNotFoundError
  | some (_, fcluster, foffset) => st.readfile fcluster foffset

/-- `FAT12.write_file`. -/
def FAT12.write_file (st : FAT12) (path contents : List Nat)
    (ignore_readonly : Bool) : M FAT12 := do
  let r ← st.resolvepath path false
  match r with
  | some (_, fcluster, foffset) => st.writefile fcluster foffset contents ignore_readonly
  | none => do
    let (r2, st) ← st.createfile path false
    match r2 with
    | none => throw .fileNotFoundError
    | some (_, fcluster, foffset) => st.writefile fcluster foffset contents ignore_readonly

/-- `FAT12.set_attributes`. -/
def FAT12.set_attributes (st : FAT12) (path : List Nat) (attrib : Nat) : M FAT12 := do
  match ← st.resolvepath path false with
  | none => throw .fileNotFoundError
  | some (dcluster, fcluster, foffset) => do
    let pe ← parsedirentry (← st.readdirentry fcluster foffset)
    match pe with
    | .entry filename attributes modified cluster file_size =>
      if dcluster ≠ 1 ∧ (filename = [46] ∨ filename = [46, 46]) then
        throw (.valueError "cannot edit dotfile")
      else do
        let attributes := (attributes &&& 0xD8) ||| (attrib &&& 0x27)
        let e ← makedirentry_str filename attributes (some modified) cluster
          file_size st.now
        st.writedirentry fcluster foffset e
    | _ => throw .typeError   -- `None & 0x10` computing `is_dir`

/-- `FAT12.delete_file`. -/
def FAT12.delete_file (st : FAT12) (path : List Nat) (ignore_readonly : Bool) :
    M FAT12 := do
  match ← st.resolvepath path false with
  | none => throw .fileNotFoundError
  | some (dcluster, fcluster, foffset) => do
    let pe ← parsedirentry (← st.readdirentry fcluster foffset)
    match pe with
    | .entry filename attributes _modified cluster _file_size =>
      if attributes &&& 0x10 ≠ 0 then
        throw (.valueError "cannot delete a directory with delete_file")
      else if ¬ignore_readonly ∧ attributes &&& 1 = 1 then
        throw (.valueError "file is read-only")
      else if dcluster ≠ 1 ∧ (filename = [46] ∨ filename = [46, 46]) then
        throw (.valueError "cannot delete dotfile")
      else do
        -- free clusters
        let (st, cluster) ← st.freeChain (st.fat.length + 4) cluster
        -- update dir entry
        let st ← st.rmdirentry fcluster foffset cluster
        st.commit
    | _ => throw .typeError   -- `None & 0x10` computing `is_dir`

/-- `FAT12.create_directory`. -/
def FAT12.create_directory (st : FAT12) (path : List Nat) (chdir : Bool) :
    M FAT12 := do
  let (_, st) ← st.createdirectory path false chdir
  st.commit

/-- `FAT12.remove_directory`.  After the directory check the source evaluates
`_isemptydir(cluster)` as a bare global name, which is unbound
(the method is `self._isemptydir`), so `NameError` is raised before any
emptiness check or mutation. -/
def FAT12.remove_directory (st : FAT12) (path : List Nat) : M FAT12 := do
  match ← st.resolvepath path false with
  | none => throw .fileNotFoundError
  | some (_dcluster, fcluster, foffset) => do
    let pe ← parsedirentry (← st.readdirentry fcluster foffset)
    match pe with
    | .entry _filename attributes _modified _cluster _file_size =>
      if attributes &&& 0x10 = 0 then
        throw (.valueError "cannot delete a file with remove_directory")
      else throw (.nameError "_isemptydir")
    | _ => throw .typeError   -- `None & 0x10` computing `is_dir`

/-- `FAT12.rename`. -/
def FAT12.rename (st : FAT12) (path name : List Nat) : M FAT12 := do
  match ← st.resolvepath path false with
  | none => throw .fileNotFoundError
  | some (dcluster, fcluster, foffset) => do
    let pe ← parsedirentry (← st.readdirentry fcluster foffset)
    match pe with
    | .entry filename attributes modified cluster file_size =>
      if dcluster ≠ 1 ∧ (filename = [46] ∨ filename = [46, 46]) then
        throw (.valueError "cannot rename dotfile")
      else do
        let e ← makedirentry_str name attributes (some modified) cluster
          file_size st.now
        st.writedirentry fcluster foffset e
    | _ => throw .typeError   -- `None & 0x10` computing `is_dir`

/-- `FAT12.move`.  The dotfile check `if cluster != 1 and filename in
[".", ".."]` reads the local `filename` before it is assigned; when the
source's parent directory is not the root the short-circuit does not save it
and `UnboundLocalError` is raised.  When it survives, the destination slot is
allocated with `self._allocdirentry(cluster, 0)` where `cluster` has been
rebound to the *file's starting cluster*, not the target directory. -/
def FAT12.move (st : FAT12) (path folder : List Nat) : M FAT12 := do
  let r ← st.resolvepath path false
  let d ← st.resolvedir folder false
  match r with
  | none => throw .fileNotFoundError
  | some (cluster, fcluster, foffset) =>
    match d.1 with
    | none => throw .fileNotFoundError
    | some dcluster =>
      if cluster ≠ 1 then throw (.nameError "filename")
      else if cluster = dcluster then pure st
      else do
        let oentry ← st.readdirentry fcluster foffset
        let pe ← parsedirentry oentry
        match pe with
        | .entry _filename attributes _modified cluster2 _file_size => do
          let is_dir := attributes &&& 0x10 ≠ 0
          let st := if is_dir ∧ cluster2 = st.dircluster then
            { st with dircluster := 1, dirparents := [] } else st
          let ((_, ocluster, offset), st) ← st.allocdirentry cluster2 0
          let st ← st.writedirentry ocluster offset oentry
          let st ← st.rmdirentry fcluster foffset cluster2
          st.commit
        | _ => throw .typeError   -- `None & 0x10` computing `is_dir`

/-- `FAT12.exists`. -/
def FAT12.existsPath (st : FAT12) (path : List Nat) : M Bool := do
  let r ← st.resolvepath path false
  pure r.isSome

/-- `FAT12.isfile`. -/
def FAT12.isfile (st : FAT12) (path : List Nat) : M Bool := do
  match ← st.resolvepath path false with
  | none => pure false
  | some (_, fcluster, foffset) => do
    let pe ← parsedirentry (← st.readdirentry fcluster foffset)
    match pe with
    | .entry _ attributes _ _ _ => pure (attributes &&& 0x10 = 0)
    | _ => throw .typeError   -- `None & 0x10`

/-- `FAT12.isdir` (`d is not None` is always true for the returned tuple, so
only the first component decides). -/
def FAT12.isdir (st : FAT12) (path : List Nat) : M Bool := do
  let d ← st.resolvedir path false
  pure d.1.isSome

/-- `FAT12.stat`. -/
def FAT12.stat (st : FAT12) (path : List Nat) : M FAT12FileInfo := do
  match ← st.resolvepath path false with
  | none => throw .fileNotFoundError
  | some (_, fcluster, foffset) => do
    let pe ← parsedirentry (← st.readdirentry fcluster foffset)
    match pe with
    | .entry filename attributes modified cluster file_size => do
      let is_dir := attributes &&& 0x10 ≠ 0
      pure ⟨filename, attributes, if is_dir then none else some modified,
        cluster, if is_dir then none else some file_size⟩
    | _ => throw .typeError   -- `None & 0x10`

/-- `FAT12.copy`. -/
def FAT12.copy (st : FAT12) (source destination : List Nat)
    (ignore_readonly : Bool) : M FAT12 := do
  let s ← st.resolvepath source false
  let d ← st.resolvepath destination false
  match s with
  | none => throw .fileNotFoundError
  | some (_scluster, sfcluster, sfoffset) =>
    if (match d with
        | some (_, dfc, dfo) => dfc = sfcluster && dfo = sfoffset
        | none => false) then
      throw (.valueError "cannot copy file to itself")
    else do
    let (d2, st) ← (match d with
      | some t => pure (some t, st)
      | none => st.createfile destination false)
    match d2 with
    | none => throw .fileNotFoundError
    | some (_dcluster, dfcluster, dfoffset) => do
      let spe ← parsedirentry (← st.readdirentry sfcluster sfoffset)
      match spe with
      | .entry _filename attributes _modified _cluster _file_size => do
        let dpe ← parsedirentry (← st.readdirentry dfcluster dfoffset)
        let dattributes ← (match dpe with
          | .entry _ a _ _ _ => pure a
          | _ => throw .typeError)   -- `dattributes & 0x10` with `None`
        if dattributes &&& 0x10 = 0x10 then
          -- `self._createfile(..., at_root)`: `at_root` is an unbound local
          throw (.nameError "at_root")
        else if ¬ignore_readonly ∧ dattributes &&& 1 = 1 then
          throw (.valueError "destination file is read-only")
        else do
          -- `attributes | 0x20 & ~0x04` parses as `attributes | (0x20 & ~0x04)`
          -- and over Python ints `0x20 & ~0x04 = 0x20`; the complement is
          -- written with an 8-bit mask here, which gives the same value
          let e ← makedirentry_str (basename destination)
            (attributes ||| (0x20 &&& 0xFB)) none 0 0 st.now
          let st ← st.writedirentry dfcluster dfoffset e
          let data ← st.readfile sfcluster sfoffset
          st.writefile dfcluster dfoffset data true
      | _ => throw .typeError

/-! ## Generic inversion and evaluation helpers -/

/-- Bind inversion for the `Except` monad. -/
theorem M.bind_ok {α β : Type} {x : M α} {f : α → M β} {b : β}
    (h : x.bind f = .ok b) : ∃ a, x = .ok a ∧ f a = .ok b := by
  cases x with
  | ok a => exact ⟨a, rfl, h⟩
  | error e => simp [Except.bind] at h

theorem M.ok_bind {α β : Type} (a : α) (f : α → M β) :
    (Except.ok a : M α).bind f = f a := rfl

/-! ## Claim C10: `exists("/")` vs `isdir("/")` -/

/-- Claim C10: on every volume, `exists("/")` returns `False` (resolution of a
path whose final component is empty yields not-found, so `stat("/")` and
`read_file("/")` raise `FileNotFoundError`), while `isdir("/")` returns
`True`. -/
theorem claim_C10_root_path (st : FAT12) :
    st.existsPath [47] = .ok false ∧
    st.isdir [47] = .ok true ∧
    st.stat [47] = .error .fileNotFoundError ∧
    st.read_file [47] = .error .fileNotFoundError :=
  ⟨rfl, rfl, rfl, rfl⟩

/-! ## Bitwise-to-arithmetic bridges -/

theorem and_mask_15 (x : Nat) : x &&& 15 = x % 16 := by
  have h := Nat.and_pow_two_sub_one_eq_mod x 4
  norm_num at h
  exact h

theorem and_mask_31 (x : Nat) : x &&& 31 = x % 32 := by
  have h := Nat.and_pow_two_sub_one_eq_mod x 5
  norm_num at h
  exact h

theorem and_mask_63 (x : Nat) : x &&& 63 = x % 64 := by
  have h := Nat.and_pow_two_sub_one_eq_mod x 6
  norm_num at h
  exact h

theorem and_mask_127 (x : Nat) : x &&& 127 = x % 128 := by
  have h := Nat.and_pow_two_sub_one_eq_mod x 7
  norm_num at h
  exact h

theorem and_mask_4095 (x : Nat) : x &&& 4095 = x % 4096 := by
  have h := Nat.and_pow_two_sub_one_eq_mod x 12
  norm_num at h
  exact h

theorem shr_4 (x : Nat) : x >>> 4 = x / 16 := by
  have h := Nat.shiftRight_eq_div_pow x 4
  norm_num at h
  exact h

theorem shr_5 (x : Nat) : x >>> 5 = x / 32 := by
  have h := Nat.shiftRight_eq_div_pow x 5
  norm_num at h
  exact h

theorem shr_11 (x : Nat) : x >>> 11 = x / 2048 := by
  have h := Nat.shiftRight_eq_div_pow x 11
  norm_num at h
  exact h

theorem shr_12 (x : Nat) : x >>> 12 = x / 4096 := by
  have h := Nat.shiftRight_eq_div_pow x 12
  norm_num at h
  exact h

theorem shr_16 (x : Nat) : x >>> 16 = x / 65536 := by
  have h := Nat.shiftRight_eq_div_pow x 16
  norm_num at h
  exact h

theorem shr_21 (x : Nat) : x >>> 21 = x / 2097152 := by
  have h := Nat.shiftRight_eq_div_pow x 21
  norm_num at h
  exact h

theorem shr_25 (x : Nat) : x >>> 25 = x / 33554432 := by
  have h := Nat.shiftRight_eq_div_pow x 25
  norm_num at h
  exact h

/-- Disjoint `or` is addition: `(b <<< k) ||| a = 2^k * b + a` for `a < 2^k`. -/
theorem shl_lor_eq_add (b a k : Nat) (h : a < 2 ^ k) :
    (b <<< k) ||| a = 2 ^ k * b + a := by
  rw [Nat.shiftLeft_eq, Nat.mul_comm b (2 ^ k)]
  exact (Nat.mul_add_lt_is_or h b).symm

theorem lor_shl_eq_add (a b k : Nat) (h : a < 2 ^ k) :
    a ||| (b <<< k) = 2 ^ k * b + a := by
  rw [Nat.lor_comm]
  exact shl_lor_eq_add b a k h

/-! ## Claim C7: FAT pack/unpack round-trip -/

/-- Structure of `readfatPairs` and `packFATPairs` on well-formed byte input:
decode succeeds, decodes by the 12-bit formulas, and re-packing restores the
bytes. -/
theorem readfat_pack_aux :
    ∀ data : List Nat, (∀ b ∈ data, b < 256) → data.length % 3 = 0 →
    ∃ es, readfatPairs data = .ok es ∧ packFATPairs es = data ∧
      ∀ k, es.getD (2 * k) 0 =
            data.getD (3 * k) 0 ||| ((data.getD (3 * k + 1) 0 &&& 15) <<< 8) ∧
          es.getD (2 * k + 1) 0 =
            (data.getD (3 * k + 1) 0 >>> 4) ||| (data.getD (3 * k + 2) 0 <<< 4)
  | [] => by
    intro _ _
    refine ⟨[], rfl, rfl, fun k => ⟨?_, ?_⟩⟩ <;> simp
  | [b0] => by
    intro _ h3
    simp at h3
  | [b0, b1] => by
    intro _ h3
    simp at h3
  | b0 :: b1 :: b2 :: rest => by
    intro hb h3
    have hb0 : b0 < 256 := hb b0 (by simp)
    have hb1 : b1 < 256 := hb b1 (by simp)
    have hb2 : b2 < 256 := hb b2 (by simp)
    have hrest : ∀ b ∈ rest, b < 256 := fun b hbm => hb b (by simp [hbm])
    have h3' : rest.length % 3 = 0 := by
      simp [List.length_cons] at h3
      omega
    obtain ⟨es, h1, hpack, hform⟩ := readfat_pack_aux rest hrest h3'
    refine ⟨((b0 + 256 * b1 + 65536 * b2) &&& 4095) ::
      (((b0 + 256 * b1 + 65536 * b2) >>> 12) &&& 4095) :: es, ?_, ?_, ?_⟩
    · show (readfatPairs rest).bind _ = _
      rw [h1]
      rfl
    · show (pack32 ((((b0 + 256 * b1 + 65536 * b2) &&& 4095) &&& 4095) |||
          (((((b0 + 256 * b1 + 65536 * b2) >>> 12) &&& 4095) &&& 4095) <<<
            12))).take 3 ++ packFATPairs es = b0 :: b1 :: b2 :: rest
      rw [hpack]
      rw [lor_shl_eq_add _ _ 12 (by rw [and_mask_4095, and_mask_4095]; omega)]
      simp only [and_mask_4095, shr_12, pack32, List.take_succ_cons, List.take_zero,
        List.cons_append, List.nil_append, List.cons.injEq]
      norm_num
      refine ⟨by omega, by omega, by omega⟩
    · intro k
      cases k with
      | zero =>
        simp only [Nat.mul_zero, List.getD_cons_zero, Nat.zero_add,
          List.getD_cons_succ]
        constructor
        · rw [and_mask_4095, and_mask_15,
            lor_shl_eq_add b0 (b1 % 16) 8 (by omega)]
          norm_num
          omega
        · rw [and_mask_4095, shr_12, shr_4,
            lor_shl_eq_add (b1 / 16) b2 4 (by omega)]
          norm_num
          omega
      | succ k' =>
        have e1 : 2 * (k' + 1) = 2 * k' + 1 + 1 := by omega
        have e2 : 2 * (k' + 1) + 1 = 2 * k' + 1 + 1 + 1 := by omega
        have e3 : 3 * (k' + 1) = 3 * k' + 1 + 1 + 1 := by omega
        have e4 : 3 * (k' + 1) + 1 = 3 * k' + 1 + 1 + 1 + 1 := by omega
        have e5 : 3 * (k' + 1) + 2 = 3 * k' + 2 + 1 + 1 + 1 := by omega
        rw [e5, e4, e2, e3, e1]
        simp only [List.getD_cons_succ]
        have h := hform k'
        have h14 : 3 * k' + 1 + 1 = 3 * k' + 2 := by omega
        rw [h14]
        exact h

/-- Claim C7: unpacking a FAT byte region decodes each three consecutive bytes
`b0,b1,b2` into the two 12-bit entries `b0 | ((b1 & 0x0F) << 8)` and
`(b1 >> 4) | (b2 << 4)`, and re-packing the decoded entry sequence reproduces
the original bytes: `pack(unpack(fat_bytes)) == fat_bytes` for any well-formed
packed FAT byte string (byte values, length a multiple of three). -/
theorem claim_C7_fat_pack_unpack_roundtrip (data : List Nat)
    (hb : ∀ b ∈ data, b < 256) (h3 : data.length % 3 = 0) :
    ∃ entries, readfatPairs data = .ok entries ∧
      (∀ k, entries.getD (2 * k) 0 =
              data.getD (3 * k) 0 ||| ((data.getD (3 * k + 1) 0 &&& 0x0F) <<< 8) ∧
            entries.getD (2 * k + 1) 0 =
              (data.getD (3 * k + 1) 0 >>> 4) ||| (data.getD (3 * k + 2) 0 <<< 4)) ∧
      packFATPairs entries = data := by
  obtain ⟨es, h1, hpack, hform⟩ := readfat_pack_aux data hb h3
  exact ⟨es, h1, hform, hpack⟩

/-- Concrete witness for C7 on the packed bytes `F0 FF FF 03 40 00`. -/
theorem claim_C7_witness :
    (∀ b ∈ ([240, 255, 255, 3, 64, 0] : List Nat), b < 256) ∧
    ([240, 255, 255, 3, 64, 0] : List Nat).length % 3 = 0 ∧
    (∃ entries, readfatPairs [240, 255, 255, 3, 64, 0] = .ok entries ∧
      (∀ k, entries.getD (2 * k) 0 =
              ([240, 255, 255, 3, 64, 0] : List Nat).getD (3 * k) 0 |||
                ((([240, 255, 255, 3, 64, 0] : List Nat).getD (3 * k + 1) 0 &&& 0x0F) <<< 8) ∧
            entries.getD (2 * k + 1) 0 =
              (([240, 255, 255, 3, 64, 0] : List Nat).getD (3 * k + 1) 0 >>> 4) |||
                (([240, 255, 255, 3, 64, 0] : List Nat).getD (3 * k + 2) 0 <<< 4)) ∧
      packFATPairs entries = [240, 255, 255, 3, 64, 0]) :=
  ⟨by decide, by decide,
    claim_C7_fat_pack_unpack_roundtrip [240, 255, 255, 3, 64, 0] (by decide) (by decide)⟩

/-! ## Claim C9: packed date/time round-trip -/

/-- Disjoint-bits `or` as addition. -/
theorem lor_eq_add (x y k : Nat) (hx : x % 2 ^ k = 0) (hy : y < 2 ^ k) :
    x ||| y = x + y := by
  have hdm := Nat.div_add_mod x (2 ^ k)
  rw [hx, Nat.add_zero] at hdm
  calc x ||| y = 2 ^ k * (x / 2 ^ k) ||| y := by rw [hdm]
    _ = 2 ^ k * (x / 2 ^ k) + y := (Nat.mul_add_lt_is_or hy _).symm
    _ = x + y := by rw [hdm]

/-- `struct.unpack("<I", struct.pack("<I", v)) = v` for 32-bit `v`. -/
theorem unpack32_pack32 (v : Nat) (h : v < 2 ^ 32) :
    unpack32 (pack32 v) = .ok v := by
  have hlen : (pack32 v).length = 4 := by simp [pack32]
  rw [unpack32, if_pos hlen]
  show Except.ok _ = Except.ok v
  congr 1
  simp only [pack32, unpackLE]
  omega

/-- Claim C9: for every valid `datetime` with year in `[1980, 2107]`, month in
`[1, 12]`, day in `[1, 31]` (and valid for the month), hour in `[0, 23]`,
minute in `[0, 59]` and even second in `[0, 58]`, decoding the 32-bit
little-endian encoding yields the same timestamp:
`_edt_to_pdt(_pdt_to_edt(t)) = t`. -/
theorem claim_C9_datetime_roundtrip (t : DT)
    (hy1 : 1980 ≤ t.year) (hy2 : t.year ≤ 2107)
    (hm1 : 1 ≤ t.month) (hm2 : t.month ≤ 12)
    (hd1 : 1 ≤ t.day) (hd2 : t.day ≤ 31)
    (hdv : t.day ≤ daysInMonth t.year t.month)
    (hh : t.hour ≤ 23) (hmi : t.minute ≤ 59)
    (hs : t.second ≤ 58) (hse : t.second % 2 = 0) :
    edt_to_pdt (pdt_to_edt t) = .ok t := by
  obtain ⟨y, mo, d, hr, mi, se⟩ := t
  simp only at hy1 hy2 hm1 hm2 hd1 hd2 hdv hh hmi hs hse
  have hY : ((((y : Int) - 1980) % 128)).toNat = y - 1980 := by omega
  have hmo : mo &&& 15 = mo := by rw [and_mask_15]; omega
  have hd : d &&& 31 = d := by rw [and_mask_31]; omega
  have hhr : hr &&& 31 = hr := by rw [and_mask_31]; omega
  have hmi2 : mi &&& 63 = mi := by rw [and_mask_63]; omega
  have hs2 : (se / 2) &&& 31 = se / 2 := by rw [and_mask_31]; omega
  have hi : ((y - 1980) <<< 25) ||| (mo <<< 21) ||| (d <<< 16) ||| (hr <<< 11) |||
      (mi <<< 5) ||| (se / 2) =
      33554432 * (y - 1980) + 2097152 * mo + 65536 * d + 2048 * hr + 32 * mi + se / 2 := by
    simp only [Nat.shiftLeft_eq]
    norm_num
    rw [lor_eq_add ((y - 1980) * 33554432) (mo * 2097152) 25
      (by norm_num <;> omega) (by norm_num <;> omega)]
    rw [lor_eq_add _ (d * 65536) 21 (by norm_num <;> omega) (by norm_num <;> omega)]
    rw [lor_eq_add _ (hr * 2048) 16 (by norm_num <;> omega) (by norm_num <;> omega)]
    rw [lor_eq_add _ (mi * 32) 11 (by norm_num <;> omega) (by norm_num <;> omega)]
    rw [lor_eq_add _ (se / 2) 5 (by norm_num <;> omega) (by norm_num <;> omega)]
    ring
  have henc : pdt_to_edt ⟨y, mo, d, hr, mi, se⟩ =
      pack32 (33554432 * (y - 1980) + 2097152 * mo + 65536 * d + 2048 * hr +
        32 * mi + se / 2) := by
    show pack32 (((((y : Int) - 1980) % 128).toNat <<< 25) ||| ((mo &&& 15) <<< 21) |||
      ((d &&& 31) <<< 16) ||| ((hr &&& 31) <<< 11) ||| ((mi &&& 63) <<< 5) |||
      ((se / 2) &&& 31)) = _
    rw [hY, hmo, hd, hhr, hmi2, hs2, hi]
  rw [henc]
  unfold edt_to_pdt
  rw [unpack32_pack32 _ (by omega)]
  show mkDatetime _ _ _ _ _ _ = _
  have g1 : 1980 + (((33554432 * (y - 1980) + 2097152 * mo + 65536 * d +
      2048 * hr + 32 * mi + se / 2) >>> 25) &&& 127) = y := by
    rw [shr_25, and_mask_127]; omega
  have g2 : ((33554432 * (y - 1980) + 2097152 * mo + 65536 * d + 2048 * hr +
      32 * mi + se / 2) >>> 21) &&& 15 = mo := by
    rw [shr_21, and_mask_15]; omega
  have g3 : ((33554432 * (y - 1980) + 2097152 * mo + 65536 * d + 2048 * hr +
      32 * mi + se / 2) >>> 16) &&& 31 = d := by
    rw [shr_16, and_mask_31]; omega
  have g4 : ((33554432 * (y - 1980) + 2097152 * mo + 65536 * d + 2048 * hr +
      32 * mi + se / 2) >>> 11) &&& 31 = hr := by
    rw [shr_11, and_mask_31]; omega
  have g5 : ((33554432 * (y - 1980) + 2097152 * mo + 65536 * d + 2048 * hr +
      32 * mi + se / 2) >>> 5) &&& 63 = mi := by
    rw [shr_5, and_mask_63]; omega
  have g6 : ((33554432 * (y - 1980) + 2097152 * mo + 65536 * d + 2048 * hr +
      32 * mi + se / 2) &&& 31) * 2 = se := by
    rw [and_mask_31]; omega
  rw [g1, g2, g3, g4, g5, g6]
  unfold mkDatetime
  rw [if_pos (show 1 ≤ y ∧ y ≤ 9999 ∧ 1 ≤ mo ∧ mo ≤ 12 ∧ 1 ≤ d ∧
    d ≤ daysInMonth y mo ∧ hr ≤ 23 ∧ mi ≤ 59 ∧ se ≤ 59 from
    ⟨by omega, by omega, by omega, hm2, by omega, hdv, hh, hmi, by omega⟩)]
  rfl

/-- Concrete witness for C9 at the timestamp 2020-02-29 23:59:58. -/
theorem claim_C9_witness :
    (1980 ≤ 2020 ∧ 2020 ≤ 2107 ∧ 1 ≤ 2 ∧ 2 ≤ 12 ∧ 1 ≤ 29 ∧ 29 ≤ 31 ∧
      29 ≤ daysInMonth 2020 2 ∧ 23 ≤ 23 ∧ 59 ≤ 59 ∧ 58 ≤ 58 ∧ 58 % 2 = 0) ∧
    edt_to_pdt (pdt_to_edt ⟨2020, 2, 29, 23, 59, 58⟩) =
      .ok ⟨2020, 2, 29, 23, 59, 58⟩ :=
  ⟨by decide,
    claim_C9_datetime_roundtrip ⟨2020, 2, 29, 23, 59, 58⟩ (by decide) (by decide)
      (by decide) (by decide) (by decide) (by decide) (by decide) (by decide)
      (by decide) (by decide) (by decide)⟩

/-! ## Concrete volumes for evaluating the claims -/

/-- Error projection of a state-returning operation (the state itself carries
a function-typed image and has no decidable equality). -/
def pyErrOf {α : Type} (x : M α) : Option PyErr :=
  match x with
  | .error e => some e
  | .ok _ => none

/-- Modelled from the spec: `free_bytes`, the free space of the volume, is one
cluster's worth of bytes for every free data-cluster FAT entry (the source has
no such function; P7 of the spec quantifies over `len(b) ≤ free_bytes`). -/
def FAT12.free_bytes (st : FAT12) : Nat :=
  ((st.fat.drop 2).filter (fun v => v = 0)).length *
    (st.bytes_per_sector * st.sectors_per_cluster)

/-- Fixed "current time" used by the concrete volumes. -/
def fixNow : DT := ⟨2020, 1, 1, 12, 0, 0⟩

/-- A 32-byte directory entry with the given on-disk name bytes, attribute,
starting cluster and size, stamped with `fixNow`. -/
def fixEntry (name : List Nat) (attrs cluster size : Nat) : List Nat :=
  name ++ [attrs] ++ List.replicate 10 0 ++ pdt_to_edt fixNow ++
    pack16 cluster ++ pack32 size

/-- On-disk 8.3 name bytes of `A.TXT`. -/
def nameATXT : List Nat := [65, 32, 32, 32, 32, 32, 32, 32, 84, 88, 84]

/-- On-disk 8.3 name bytes of `SUB`. -/
def nameSUB : List Nat := [83, 85, 66, 32, 32, 32, 32, 32, 32, 32, 32]

/-- A small empty mounted volume: 512-byte sectors, one sector per cluster,
one FAT sector per copy, two FAT copies at sector 1, a 16-entry root
directory at sector 3, data clusters from sector 4 (cluster 2). -/
def volBase : FAT12 := {
  image := fun _ => 0
  capacity := 8192
  fat := [0xFF0, 0xFFF, 0, 0, 0, 0, 0, 0, 0, 0, 0, 0]
  bytes_per_sector := 512
  sectors_per_cluster := 1
  fat_start_sector := 1
  fat_count := 2
  root_entries := 16
  logical_sectors := 16
  descriptor := 0xF0
  sectors_per_fat := 1
  sectors_per_track := 9
  number_of_heads := 2
  hidden_sectors := 0
  large_total_logical_sectors := 0
  drive_number := 0
  ebpb_flags := 0
  has_ebpb := false
  serial := []
  bpb_label := List.replicate 11 32
  fs_type := []
  root_dir_sector := 3
  first_cluster_sector := 2
  label := List.replicate 11 32
  write_label := false
  dircluster := 1
  dirparents := []
  now := fixNow }

def pathRoot : List Nat := [47]
def pathATXT : List Nat := [47, 65, 46, 84, 88, 84]
def pathBTXT : List Nat := [47, 66, 46, 84, 88, 84]
def pathSUB : List Nat := [47, 83, 85, 66]
def pathSUBATXT : List Nat := [47, 83, 85, 66, 47, 65, 46, 84, 88, 84]
def nameOnlyATXT : List Nat := [65, 46, 84, 88, 84]

/-- Volume holding `/A.TXT` of 5120 bytes in clusters 2..11 (scenario of
claim C2). -/
def volShrink : FAT12 := { volBase with
  fat := [0xFF0, 0xFFF, 3, 4, 5, 6, 7, 8, 9, 10, 11, 0xFFF]
  image := imgWrite (fun _ => 0) (3 * 512) (fixEntry nameATXT 0x20 2 5120) }

/-- Volume holding the non-empty directory `/SUB` (cluster 2 with `.`,
`..` and `A.TXT` at cluster 3). -/
def volSubdir : FAT12 := { volBase with
  fat := [0xFF0, 0xFFF, 0xFFF, 0xFFF, 0, 0, 0, 0, 0, 0, 0, 0]
  image := imgWrite
    (imgWrite (fun _ => 0) (3 * 512) (fixEntry nameSUB 0x10 2 0))
    (4 * 512)
    (fixEntry [46, 32, 32, 32, 32, 32, 32, 32, 32, 32, 32] 0x10 0 0 ++
     fixEntry [46, 46, 32, 32, 32, 32, 32, 32, 32, 32, 32] 0x10 0 0 ++
     fixEntry nameATXT 0x20 3 1) }

/-- `volSubdir` with the current working directory changed into `/SUB`. -/
def volSubdirCwd : FAT12 := { volSubdir with dircluster := 2, dirparents := [1] }

/-- Volume holding a system-attribute file `/A.TXT` (attributes `0x04`,
two bytes `hi` in cluster 2). -/
def volSystemFile : FAT12 := { volBase with
  fat := [0xFF0, 0xFFF, 0xFFF, 0, 0, 0, 0, 0, 0, 0, 0, 0]
  image := imgWrite
    (imgWrite (fun _ => 0) (3 * 512) (fixEntry nameATXT 0x04 2 2))
    (4 * 512) [104, 105] }

/-- Volume holding a read-only file `/A.TXT` (attributes `0x01`, three
bytes `old` in cluster 2). -/
def volReadonly : FAT12 := { volBase with
  fat := [0xFF0, 0xFFF, 0xFFF, 0, 0, 0, 0, 0, 0, 0, 0, 0]
  image := imgWrite
    (imgWrite (fun _ => 0) (3 * 512) (fixEntry nameATXT 0x01 2 3))
    (4 * 512) [111, 108, 100] }

/-- Decidable equality for `Except` results (not provided by core). -/
instance {e a : Type} [DecidableEq e] [DecidableEq a] : DecidableEq (Except e a) :=
  fun x y =>
  match x, y with
  | .ok u, .ok v =>
    if h : u = v then isTrue (by rw [h]) else isFalse (by intro hc; cases hc; exact h rfl)
  | .error u, .error v =>
    if h : u = v then isTrue (by rw [h]) else isFalse (by intro hc; cases hc; exact h rfl)
  | .ok _, .error _ => isFalse (by intro hc; cases hc)
  | .error _, .ok _ => isFalse (by intro hc; cases hc)

/-! ## Claims C2..C6: evaluating the code at the failing inputs -/

set_option maxRecDepth 1000000

/-- Claim C2 (code bug): overwriting the 5120-byte root file `/A.TXT`
(clusters 2..11) with 256 bytes completes and sets `size = 256` (bytes
28..32 of the entry are `00 01 00 00`), but the truncation loop of
`_writefile` tests the directory cluster `fcluster` instead of walking the
file chain, so the FAT is returned completely unchanged: the new tail
(cluster 2) still links to cluster 3 instead of being end-of-chain, and the
nine surplus clusters 3..11 keep their old chain values instead of being
freed to 0. -/
theorem claim_C2_shrink_does_not_free :
    (volShrink.write_file pathATXT (List.replicate 256 7) false).toOption.map
      (fun s => (s.fat, imgRead s.image (3 * 512 + 28) 4)) =
    some ([0xFF0, 0xFFF, 3, 4, 5, 6, 7, 8, 9, 10, 11, 0xFFF], [0, 1, 0, 0]) := by
  decide

/-- Claim C3 (code bug): after `create_directory("/SUB")` and
`write_file("/SUB/A.TXT", b"x")` (which, because `_resolvepath` and
`_createfile` never descend into subdirectories, actually creates `A.TXT`
in the root), `move("/SUB/A.TXT", "/")` resolves the source's parent as the
root, takes the `cluster == dcluster` early return and moves nothing; the
scenario then reports `exists("/SUB/A.TXT") = True` where the claim demands
`False`. -/
theorem claim_C3_move_scenario :
    (do
      let s1 ← volBase.create_directory pathSUB false
      let s2 ← s1.write_file pathSUBATXT [120] false
      let s3 ← s2.move pathSUBATXT pathRoot
      let e ← s3.existsPath pathSUBATXT
      let f ← s3.isfile pathATXT
      pure (e, f)) = .ok (true, true) := by
  decide

/-- Claim C4 (code bug): `remove_directory` on the non-empty directory
`/SUB` does not raise the not-empty error: it evaluates the unbound global
name `_isemptydir` (the method is `self._isemptydir`) and dies with
`NameError` before any emptiness check. -/
theorem claim_C4_remove_directory_name_error :
    pyErrOf (volSubdir.remove_directory pathSUB) =
      some (.nameError "_isemptydir") := by
  decide

/-- Claim C5 (code bug): removing a directory entry that lives in a
subdirectory cluster (`delete_file("A.TXT")` with cwd `/SUB`) writes `0xE5`
and then crashes with `TypeError`: `_rmdirentry` evaluates `len(cluster)`
on the int `cluster` in its `all(...)` generator, so the claimed
only-free-entries check and FAT splice are never executed. -/
theorem claim_C5_rmdirentry_type_error :
    pyErrOf (volSubdirCwd.delete_file nameOnlyATXT false) = some .typeError := by
  decide

/-- Claim C6 (code bug): copying `/A.TXT` whose attributes are `0x04`
(system) to `/B.TXT` completes and stamps the destination mtime with the
current time, but the destination attribute byte is `0x24`: Python parses
`attributes | 0x20 & ~0x04` as `attributes | (0x20 & ~0x04) = attributes |
0x20`, so bit `0x04` is *not* cleared as the claim demands. -/
theorem claim_C6_copy_attributes :
    (volSystemFile.copy pathATXT pathBTXT false).toOption.map
      (fun s => (imgRead s.image (3 * 512 + 32 + 0x0B) 1,
                 imgRead s.image (3 * 512 + 32 + 0x16) 4)) =
      some ([0x24], pdt_to_edt fixNow) := by
  decide

/-- Counterexample to claim C1 as stated, two ways.  First, for the
read-only file `/A.TXT` (three bytes `old`, ample free space), `write_file`
followed by `read_file` does not return the written bytes — the write raises
the read-only error.  Second, even granting the write a success proviso the
universal claim fails: `write_file("/", b)` completes without error (it
creates a blank-named root directory entry), yet `read_file("/")` raises
`FileNotFoundError` instead of returning `b`. -/
theorem claim_C1_counterexample :
    ([110, 101, 119] : List Nat).length ≤ volReadonly.free_bytes ∧
    (volReadonly.write_file pathATXT [110, 101, 119] false).bind
      (fun s => s.read_file pathATXT) = .error (.valueError "file is read-only") ∧
    (volReadonly.write_file pathATXT [110, 101, 119] false).bind
      (fun s => s.read_file pathATXT) ≠ .ok [110, 101, 119] ∧
    ((volBase.write_file pathRoot [104] false).toOption).isSome = true ∧
    (volBase.write_file pathRoot [104] false).bind
      (fun s => s.read_file pathRoot) = .error .fileNotFoundError := by
  refine ⟨by decide, by decide, ?_, by decide, by decide⟩
  intro h
  simp [show (volReadonly.write_file pathATXT [110, 101, 119] false).bind
      (fun s => s.read_file pathATXT) = .error (.valueError "file is read-only")
    from by decide] at h

/-! ## Claim C8: FAT copies are byte-identical duplicates -/

/-- The bytes of the `i`-th on-disk FAT copy. -/
def FAT12.fatCopy (st : FAT12) (i : Nat) : List Nat :=
  imgRead st.image ((st.fat_start_sector + i * st.sectors_per_fat) * 512)
    (st.sectors_per_fat * 512)

/-- All `fat_count` on-disk FAT copies are byte-identical. -/
def FAT12.fatCopiesEqual (st : FAT12) : Prop :=
  ∀ i < st.fat_count, st.fatCopy i = st.fatCopy 0

/-- The FAT region precedes both the root directory and the data region
(true of every real FAT12 layout; rules out overlapping regions). -/
def FAT12.fatRegionSafe (st : FAT12) : Prop :=
  st.fat_start_sector + st.sectors_per_fat * st.fat_count ≤ st.root_dir_sector ∧
  st.fat_start_sector + st.sectors_per_fat * st.fat_count ≤ st.first_cluster_sector

instance (st : FAT12) : Decidable st.fatRegionSafe := by
  unfold FAT12.fatRegionSafe
  infer_instance

instance (st : FAT12) : Decidable st.fatCopiesEqual := by
  unfold FAT12.fatCopiesEqual
  infer_instance

theorem imgRead_length (img : Image) (off n : Nat) : (imgRead img off n).length = n := by
  simp [imgRead]

/-- Reading entirely inside a just-written range returns the written slice. -/
theorem imgRead_write_inside (img : Image) (off : Nat) (bs : List Nat) (a n : Nat)
    (h1 : off ≤ a) (h2 : a + n ≤ off + bs.length) :
    imgRead (imgWrite img off bs) a n = (bs.drop (a - off)).take n := by
  apply List.ext_getElem
  · simp [imgRead_length, List.length_take, List.length_drop]
    omega
  · intro i hi1 hi2
    simp only [imgRead, imgWrite, List.getElem_map, List.getElem_range,
      List.length_map, List.length_range] at hi1 ⊢
    rw [List.getElem_take, List.getElem_drop]
    rw [if_pos (by omega)]
    rw [List.getD_eq_getElem _ _ (by omega)]
    congr 1
    omega

/-- Reading a range disjoint from a write is unchanged. -/
theorem imgRead_write_outside (img : Image) (off : Nat) (bs : List Nat) (a n : Nat)
    (h : a + n ≤ off ∨ off + bs.length ≤ a) :
    imgRead (imgWrite img off bs) a n = imgRead img a n := by
  apply List.ext_getElem
  · simp [imgRead_length]
  · intro i hi1 hi2
    simp only [imgRead, imgWrite, List.getElem_map, List.getElem_range,
      List.length_map, List.length_range] at hi1 ⊢
    rw [if_neg (by omega)]

/-- Slicing the `i`-th block out of `cnt` concatenated copies of `l`. -/
theorem flatten_replicate_slice (l : List Nat) :
    ∀ cnt i, i < cnt →
      (((List.replicate cnt l).flatten).drop (i * l.length)).take l.length = l
  | 0, i, h => absurd h (by omega)
  | cnt + 1, 0, _ => by
    simp [List.replicate_succ, List.take_left]
  | cnt + 1, i + 1, h => by
    rw [List.replicate_succ, List.flatten_cons]
    have : (i + 1) * l.length = l.length + i * l.length := by ring
    rw [this, ← List.drop_drop, List.drop_left]
    exact flatten_replicate_slice l cnt i (by omega)

theorem M.throw_ne_ok {α : Type} {e : PyErr} {a : α} (h : (throw e : M α) = .ok a) :
    False := Except.noConfusion h

theorem M.pure_ok {α : Type} {a b : α} (h : (pure a : M α) = .ok b) : a = b :=
  Except.ok.inj h

/-- Inversion for `write_sectors`. -/
theorem write_sectors_ok {st : FAT12} {n c : Nat} {data : List Nat} {st' : FAT12}
    (h : st.write_sectors n c data = .ok st') :
    data.length = c * 512 ∧ n * 512 < st.capacity ∧
    st' = { st with image := imgWrite st.image (n * 512) data } := by
  unfold FAT12.write_sectors at h
  split at h
  · exact absurd h M.throw_ne_ok
  · split at h
    · exact absurd h M.throw_ne_ok
    · refine ⟨by omega, by omega, (M.pure_ok h).symm⟩

/-- Inversion for `read_sectors`. -/
theorem read_sectors_ok {st : FAT12} {n c : Nat} {data : List Nat}
    (h : st.read_sectors n c = .ok data) :
    (n + c) * 512 ≤ st.capacity ∧ data = imgRead st.image (n * 512) (c * 512) := by
  unfold FAT12.read_sectors at h
  split at h
  · exact absurd h M.throw_ne_ok
  · exact ⟨by omega, (M.pure_ok h).symm⟩

/-- After a successful `_writefat`, all FAT copies on disk are byte-identical
(unconditionally: the write itself lays down `fat_count` copies of one
buffer). -/
theorem writefat_fatCopiesEqual {st st' : FAT12} (h : st.writefat = .ok st') :
    st'.fatCopiesEqual := by
  unfold FAT12.writefat at h
  split at h
  · exact absurd h M.throw_ne_ok
  · obtain ⟨hlen, _, hst⟩ := write_sectors_ok h
    intro i hi
    subst hst
    simp only [FAT12.fatCopy]
    dsimp only at hi ⊢
    rw [List.length_flatten] at hlen
    simp only [List.map_replicate, List.sum_replicate, smul_eq_mul] at hlen
    set fats := packFATPairs (if st.fat.length % 2 = 1 then st.fat ++ [0] else st.fat) ++
      List.replicate (st.sectors_per_fat * st.bytes_per_sector -
        (packFATPairs (if st.fat.length % 2 = 1 then st.fat ++ [0] else st.fat)).length) 0
      with hfats
    have hcnt : 0 < st.fat_count := by omega
    have hL : fats.length = st.sectors_per_fat * 512 := by
      by_cases hc : st.fat_count = 0
      · omega
      · have : st.fat_count * fats.length = st.sectors_per_fat * st.fat_count * 512 := hlen
        calc fats.length = st.fat_count * fats.length / st.fat_count := by
              rw [Nat.mul_div_cancel_left _ (by omega)]
          _ = st.sectors_per_fat * st.fat_count * 512 / st.fat_count := by rw [this]
          _ = st.sectors_per_fat * 512 := by
              rw [Nat.mul_comm st.sectors_per_fat st.fat_count, Nat.mul_assoc,
                Nat.mul_div_cancel_left _ (by omega)]
    have hread : ∀ j, j < st.fat_count →
        imgRead (imgWrite st.image (st.fat_start_sector * 512)
          ((List.replicate st.fat_count fats).flatten))
          ((st.fat_start_sector + j * st.sectors_per_fat) * 512)
          (st.sectors_per_fat * 512) = fats := by
      intro j hj
      rw [imgRead_write_inside]
      · have hd : (st.fat_start_sector + j * st.sectors_per_fat) * 512 -
            st.fat_start_sector * 512 = j * fats.length := by
          rw [hL]; ring_nf; omega
        rw [hd, ← hL]
        exact flatten_replicate_slice fats st.fat_count j hj
      · omega
      · rw [List.length_flatten]
        simp only [List.map_replicate, List.sum_replicate, smul_eq_mul]
        calc (st.fat_start_sector + j * st.sectors_per_fat) * 512 +
              st.sectors_per_fat * 512
            = st.fat_start_sector * 512 + (j + 1) * (st.sectors_per_fat * 512) := by ring
          _ ≤ st.fat_start_sector * 512 + st.fat_count * (st.sectors_per_fat * 512) := by
              have : (j + 1) * (st.sectors_per_fat * 512) ≤
                  st.fat_count * (st.sectors_per_fat * 512) :=
                Nat.mul_le_mul_right _ (by omega)
              omega
          _ = st.fat_start_sector * 512 + st.fat_count * fats.length := by rw [hL]
    rw [hread i hi, hread 0 hcnt]

/-- After a successful `commit`, all FAT copies are byte-identical (the last
thing `commit` does is `_writefat`). -/
theorem commit_fatCopiesEqual {st st' : FAT12} (h : st.commit = .ok st') :
    st'.fatCopiesEqual := by
  unfold FAT12.commit at h
  obtain ⟨s1, _, h⟩ := M.bind_ok h
  obtain ⟨s2, _, h⟩ := M.bind_ok h
  exact writefat_fatCopiesEqual h

/-- `st'` has the same FAT-copy geometry and the same FAT-copy bytes as
`st`. -/
def FAT12.sameFatRegion (st st' : FAT12) : Prop :=
  st'.fat_start_sector = st.fat_start_sector ∧
  st'.sectors_per_fat = st.sectors_per_fat ∧
  st'.fat_count = st.fat_count ∧
  ∀ i, i < st.fat_count → st'.fatCopy i = st.fatCopy i

theorem sameFatRegion_refl (st : FAT12) : st.sameFatRegion st :=
  ⟨rfl, rfl, rfl, fun _ _ => rfl⟩

theorem sameFatRegion_trans {s1 s2 s3 : FAT12} (h1 : s1.sameFatRegion s2)
    (h2 : s2.sameFatRegion s3) : s1.sameFatRegion s3 := by
  obtain ⟨a1, b1, c1, d1⟩ := h1
  obtain ⟨a2, b2, c2, d2⟩ := h2
  refine ⟨by omega, by omega, by omega, fun i hi => ?_⟩
  rw [d2 i (by omega), d1 i hi]

theorem sameFatRegion_copiesEqual {st st' : FAT12} (h : st.sameFatRegion st')
    (he : st.fatCopiesEqual) : st'.fatCopiesEqual := by
  obtain ⟨a, b, c, d⟩ := h
  intro i hi
  rw [d i (by omega), d 0 ?_, he i (by omega)]
  omega

/-- A successful `write_sectors` at or beyond the end of the FAT region
leaves the FAT copies (and the geometry) unchanged. -/
theorem write_sectors_sameFatRegion {st st' : FAT12} {n c : Nat} {data : List Nat}
    (h : st.write_sectors n c data = .ok st')
    (hn : st.fat_start_sector + st.sectors_per_fat * st.fat_count ≤ n) :
    st.sameFatRegion st' := by
  obtain ⟨hlen, _, hst⟩ := write_sectors_ok h
  subst hst
  refine ⟨rfl, rfl, rfl, fun i hi => ?_⟩
  show imgRead (imgWrite st.image (n * 512) data) _ _ = _
  apply imgRead_write_outside
  left
  have h1 : (st.fat_start_sector + i * st.sectors_per_fat) * 512 +
      st.sectors_per_fat * 512 =
      (st.fat_start_sector + (i + 1) * st.sectors_per_fat) * 512 := by ring
  have h2 : (i + 1) * st.sectors_per_fat ≤ st.fat_count * st.sectors_per_fat :=
    Nat.mul_le_mul_right _ (by omega)
  have h3 : st.fat_count * st.sectors_per_fat = st.sectors_per_fat * st.fat_count :=
    Nat.mul_comm _ _
  have h4 : (st.fat_start_sector + st.sectors_per_fat * st.fat_count) * 512 ≤ n * 512 :=
    Nat.mul_le_mul_right _ hn
  calc (st.fat_start_sector + i * st.sectors_per_fat) * 512 + st.sectors_per_fat * 512
      = (st.fat_start_sector + (i + 1) * st.sectors_per_fat) * 512 := h1
    _ ≤ (st.fat_start_sector + st.sectors_per_fat * st.fat_count) * 512 := by
        apply Nat.mul_le_mul_right
        omega
    _ ≤ n * 512 := h4

/-- A successful `_writecluster` leaves the FAT region unchanged (data
clusters live at `first_cluster_sector` or beyond). -/
theorem writecluster_sameFatRegion {st st' : FAT12} {c : Nat} {data : List Nat}
    (h : st.writecluster c data = .ok st') (hs : st.fatRegionSafe) :
    st.sameFatRegion st' := by
  apply write_sectors_sameFatRegion h
  unfold FAT12.cluster_index
  obtain ⟨_, h2⟩ := hs
  omega

/-- A successful `_writedirentry` leaves the FAT region unchanged. -/
theorem writedirentry_sameFatRegion {st st' : FAT12} {c off : Nat} {e : List Nat}
    (h : st.writedirentry c off e = .ok st') (hs : st.fatRegionSafe) :
    st.sameFatRegion st' := by
  unfold FAT12.writedirentry at h
  split at h
  · exact absurd h M.throw_ne_ok
  · split at h
    · obtain ⟨rd, _, h⟩ := M.bind_ok h
      exact write_sectors_sameFatRegion h hs.1
    · obtain ⟨d, _, h⟩ := M.bind_ok h
      exact writecluster_sameFatRegion h hs

/-- Inversion for `_alloccluster`: only the in-memory FAT changes. -/
theorem alloccluster_ok {st : FAT12} {att : Option Nat} {i : Nat} {st' : FAT12}
    (h : st.alloccluster att = .ok (i, st')) :
    ∃ fat2, st' = { st with fat := fat2 } := by
  unfold FAT12.alloccluster at h
  split at h
  · exact absurd h M.throw_ne_ok
  · obtain ⟨a, _, h⟩ := M.bind_ok h
    cases a with
    | none => exact absurd h M.throw_ne_ok
    | some j =>
      have heq := M.pure_ok h
      exact ⟨_, (congrArg Prod.snd heq).symm⟩

theorem alloccluster_frame {st : FAT12} {att : Option Nat} {i : Nat} {st' : FAT12}
    (h : st.alloccluster att = .ok (i, st')) (hs : st.fatRegionSafe) :
    st.sameFatRegion st' ∧ st'.fatRegionSafe := by
  obtain ⟨fat2, hst⟩ := alloccluster_ok h
  subst hst
  exact ⟨⟨rfl, rfl, rfl, fun _ _ => rfl⟩, hs⟩

theorem write_sectors_safe {st st' : FAT12} {n c : Nat} {data : List Nat}
    (h : st.write_sectors n c data = .ok st') (hs : st.fatRegionSafe) :
    st'.fatRegionSafe := by
  obtain ⟨_, _, hst⟩ := write_sectors_ok h
  subst hst
  exact hs

theorem writecluster_safe {st st' : FAT12} {c : Nat} {data : List Nat}
    (h : st.writecluster c data = .ok st') (hs : st.fatRegionSafe) :
    st'.fatRegionSafe :=
  write_sectors_safe h hs

theorem writedirentry_safe {st st' : FAT12} {c off : Nat} {e : List Nat}
    (h : st.writedirentry c off e = .ok st') (hs : st.fatRegionSafe) :
    st'.fatRegionSafe := by
  unfold FAT12.writedirentry at h
  split at h
  · exact absurd h M.throw_ne_ok
  · split at h
    · obtain ⟨rd, _, h⟩ := M.bind_ok h
      exact write_sectors_safe h hs
    · obtain ⟨d, _, h⟩ := M.bind_ok h
      exact writecluster_safe h hs

/-- Frame for the directory-entry allocator chain walk. -/
theorem allocdirentryChain_frame {st : FAT12} {oc : Nat} :
    ∀ fuel pc c off (r : Nat × Nat × Nat) (st' : FAT12),
      st.allocdirentryChain oc fuel pc c off = .ok (r, st') →
      st.fatRegionSafe → st.sameFatRegion st' ∧ st'.fatRegionSafe
  | 0, _, _, _, _, _, h, _ => absurd h M.throw_ne_ok
  | fuel + 1, pc, c, off, r, st', h, hs => by
    unfold FAT12.allocdirentryChain at h
    split at h
    · obtain ⟨a, h1, h⟩ := M.bind_ok h
      obtain ⟨nc, st1⟩ := a
      obtain ⟨hr1, hsafe1⟩ := alloccluster_frame h1 hs
      obtain ⟨st2, h2, h⟩ := M.bind_ok h
      have hr2 := writecluster_sameFatRegion h2 hsafe1
      have hsafe2 := writecluster_safe h2 hsafe1
      have := M.pure_ok h
      have hst : st' = st2 := (congrArg Prod.snd this).symm
      subst hst
      exact ⟨sameFatRegion_trans hr1 hr2, hsafe2⟩
    · obtain ⟨d, _, h⟩ := M.bind_ok h
      obtain ⟨a, _, h⟩ := M.bind_ok h
      cases a with
      | some noff =>
        have := M.pure_ok h
        have hst : st' = st := (congrArg Prod.snd this).symm
        subst hst
        exact ⟨sameFatRegion_refl _, hs⟩
      | none =>
        obtain ⟨v, _, h⟩ := M.bind_ok h
        exact allocdirentryChain_frame fuel c v 0 r st' h hs

/-- Frame for `_allocdirentry`. -/
theorem allocdirentry_frame {st : FAT12} {c off : Nat} {r : Nat × Nat × Nat}
    {st' : FAT12} (h : st.allocdirentry c off = .ok (r, st'))
    (hs : st.fatRegionSafe) : st.sameFatRegion st' ∧ st'.fatRegionSafe := by
  unfold FAT12.allocdirentry at h
  split at h
  · obtain ⟨rd, _, h⟩ := M.bind_ok h
    obtain ⟨a, _, h⟩ := M.bind_ok h
    cases a with
    | none => exact absurd h M.throw_ne_ok
    | some noff =>
      have := M.pure_ok h
      have hst : st' = st := (congrArg Prod.snd this).symm
      subst hst
      exact ⟨sameFatRegion_refl _, hs⟩
  · exact allocdirentryChain_frame _ _ _ _ _ _ h hs

/-- Frame for `_createfile`. -/
theorem createfile_frame {st : FAT12} {p : List Nat} {ar : Bool}
    {r : Option (Nat × Nat × Nat)} {st' : FAT12}
    (h : st.createfile p ar = .ok (r, st')) (hs : st.fatRegionSafe) :
    st.sameFatRegion st' ∧ st'.fatRegionSafe := by
  unfold FAT12.createfile at h
  obtain ⟨a, _, h⟩ := M.bind_ok h
  cases a with
  | failed =>
    have := M.pure_ok h
    have hst : st' = st := (congrArg Prod.snd this).symm
    subst hst
    exact ⟨sameFatRegion_refl _, hs⟩
  | brk nameOpt cluster =>
    cases nameOpt with
    | none => exact absurd h M.throw_ne_ok
    | some name =>
      simp only at h
      split at h
      · exact absurd h M.throw_ne_ok
      · obtain ⟨e, _, h⟩ := M.bind_ok h
        obtain ⟨a2, h2, h⟩ := M.bind_ok h
        obtain ⟨⟨dc, ocl, off⟩, st1⟩ := a2
        obtain ⟨hr1, hsafe1⟩ := allocdirentry_frame h2 hs
        obtain ⟨st2, h3, h⟩ := M.bind_ok h
        have hr2 := writedirentry_sameFatRegion h3 hsafe1
        have hsafe2 := writedirentry_safe h3 hsafe1
        have := M.pure_ok h
        have hst : st' = st2 := (congrArg Prod.snd this).symm
        subst hst
        exact ⟨sameFatRegion_trans hr1 hr2, hsafe2⟩

/-- A successful `_writefile` body execution ends in a `commit`. -/
theorem writefileBody_ok_commit {st st' : FAT12} {fc fo : Nat}
    {contents filename : List Nat} {attributes cluster file_clusters : Nat}
    (h : st.writefileBody fc fo contents filename attributes cluster
      file_clusters = .ok st') :
    ∃ s : FAT12, FAT12.commit s = .ok st' := by
  unfold FAT12.writefileBody at h
  obtain ⟨l, _, h⟩ := M.bind_ok h
  obtain ⟨a, _, h⟩ := M.bind_ok h
  obtain ⟨l2, st1⟩ := a
  obtain ⟨st2, _, h⟩ := M.bind_ok h
  split at h <;>
  · obtain ⟨a3, _, h⟩ := M.bind_ok h
    obtain ⟨st3, cl⟩ := a3
    obtain ⟨e, _, h⟩ := M.bind_ok h
    obtain ⟨st4, _, h⟩ := M.bind_ok h
    exact ⟨st4, h⟩

/-- A successful `_writefile` either returned early without touching the
volume (empty file, empty contents) or ended in a `commit`. -/
theorem writefile_ok_cases {st st' : FAT12} {fc fo : Nat} {contents : List Nat}
    {ro : Bool} (h : st.writefile fc fo contents ro = .ok st') :
    st' = st ∨ ∃ s : FAT12, FAT12.commit s = .ok st' := by
  unfold FAT12.writefile at h
  obtain ⟨e, _, h⟩ := M.bind_ok h
  obtain ⟨pe, _, h⟩ := M.bind_ok h
  cases pe with
  | endOfDir => exact absurd h M.throw_ne_ok
  | free => exact absurd h M.throw_ne_ok
  | entry filename attributes modified cluster file_size =>
    simp only at h
    split at h
    · exact absurd h M.throw_ne_ok
    · split at h
      · exact absurd h M.throw_ne_ok
      · split at h
        · exact absurd h M.throw_ne_ok
        · split at h
          · split at h
            · exact absurd h M.throw_ne_ok
            · split at h
              · exact Or.inl (M.pure_ok h).symm
              · obtain ⟨a, _, h⟩ := M.bind_ok h
                obtain ⟨c, st1⟩ := a
                exact Or.inr (writefileBody_ok_commit h)
          · exact Or.inr (writefileBody_ok_commit h)

/-- The public mutating operations of the volume API, with their arguments. -/
inductive PublicMutation where
  | writeFileOp (path contents : List Nat) (ignore_readonly : Bool)
  | deleteFileOp (path : List Nat) (ignore_readonly : Bool)
  | createDirectoryOp (path : List Nat) (chdir : Bool)
  | removeDirectoryOp (path : List Nat)
  | renameOp (path name : List Nat)
  | moveOp (path folder : List Nat)
  | copyOp (source destination : List Nat) (ignore_readonly : Bool)
  | setAttributesOp (path : List Nat) (attrib : Nat)
  | setLabelOp (label : List Nat)

/-- Run a public mutating operation on a volume. -/
def PublicMutation.run : PublicMutation → FAT12 → M FAT12
  | .writeFileOp p b ro, st => st.write_file p b ro
  | .deleteFileOp p ro, st => st.delete_file p ro
  | .createDirectoryOp p c, st => st.create_directory p c
  | .removeDirectoryOp p, st => st.remove_directory p
  | .renameOp p n, st => st.rename p n
  | .moveOp p f, st => st.move p f
  | .copyOp s d ro, st => st.copy s d ro
  | .setAttributesOp p a, st => st.set_attributes p a
  | .setLabelOp l, st => st.set_label l

/-- Claim C8: after every public mutating operation that completes without
error, all `fat_count` on-disk FAT copies are byte-identical duplicates of
each other.  (On any volume whose FAT region precedes the root directory and
the data region and whose copies were identical to begin with — operations
that commit — including `set_label` — re-establish equality
unconditionally, the in-place entry rewrites `rename` / `set_attributes`
never touch the FAT region.) -/
theorem claim_C8_fat_copies_identical (op : PublicMutation) (st st' : FAT12)
    (hs : st.fatRegionSafe) (heq : st.fatCopiesEqual)
    (h : op.run st = .ok st') : st'.fatCopiesEqual := by
  cases op with
  | writeFileOp p b ro =>
    unfold PublicMutation.run FAT12.write_file at h
    obtain ⟨r, _, h⟩ := M.bind_ok h
    cases r with
    | some t =>
      obtain ⟨c1, fc, fo⟩ := t
      rcases writefile_ok_cases h with heq2 | ⟨s, hc⟩
      · subst heq2; exact heq
      · exact commit_fatCopiesEqual hc
    | none =>
      obtain ⟨a, h1, h⟩ := M.bind_ok h
      obtain ⟨r2, st1⟩ := a
      obtain ⟨hr1, _⟩ := createfile_frame h1 hs
      cases r2 with
      | none => exact absurd h M.throw_ne_ok
      | some t =>
        obtain ⟨c1, fc, fo⟩ := t
        rcases writefile_ok_cases h with heq2 | ⟨s, hc⟩
        · subst heq2
          exact sameFatRegion_copiesEqual hr1 heq
        · exact commit_fatCopiesEqual hc
  | deleteFileOp p ro =>
    unfold PublicMutation.run FAT12.delete_file at h
    obtain ⟨r, _, h⟩ := M.bind_ok h
    cases r with
    | none => exact absurd h M.throw_ne_ok
    | some t =>
      obtain ⟨dc, fc, fo⟩ := t
      obtain ⟨e, _, h⟩ := M.bind_ok h
      obtain ⟨pe, _, h⟩ := M.bind_ok h
      cases pe with
      | endOfDir => exact absurd h M.throw_ne_ok
      | free => exact absurd h M.throw_ne_ok
      | entry fn at_ md cl fs =>
        simp only at h
        split at h
        · exact absurd h M.throw_ne_ok
        · split at h
          · exact absurd h M.throw_ne_ok
          · split at h
            · exact absurd h M.throw_ne_ok
            · obtain ⟨a, _, h⟩ := M.bind_ok h
              obtain ⟨st1, cl2⟩ := a
              obtain ⟨st2, _, h⟩ := M.bind_ok h
              exact commit_fatCopiesEqual h
  | createDirectoryOp p c =>
    unfold PublicMutation.run FAT12.create_directory at h
    obtain ⟨a, _, h⟩ := M.bind_ok h
    obtain ⟨r, st1⟩ := a
    exact commit_fatCopiesEqual h
  | removeDirectoryOp p =>
    unfold PublicMutation.run FAT12.remove_directory at h
    obtain ⟨r, _, h⟩ := M.bind_ok h
    cases r with
    | none => exact absurd h M.throw_ne_ok
    | some t =>
      obtain ⟨dc, fc, fo⟩ := t
      obtain ⟨e, _, h⟩ := M.bind_ok h
      obtain ⟨pe, _, h⟩ := M.bind_ok h
      cases pe with
      | endOfDir => exact absurd h M.throw_ne_ok
      | free => exact absurd h M.throw_ne_ok
      | entry fn at_ md cl fs =>
        simp only at h
        split at h
        · exact absurd h M.throw_ne_ok
        · exact absurd h M.throw_ne_ok
  | renameOp p n =>
    unfold PublicMutation.run FAT12.rename at h
    obtain ⟨r, _, h⟩ := M.bind_ok h
    cases r with
    | none => exact absurd h M.throw_ne_ok
    | some t =>
      obtain ⟨dc, fc, fo⟩ := t
      obtain ⟨e, _, h⟩ := M.bind_ok h
      obtain ⟨pe, _, h⟩ := M.bind_ok h
      cases pe with
      | endOfDir => exact absurd h M.throw_ne_ok
      | free => exact absurd h M.throw_ne_ok
      | entry fn at_ md cl fs =>
        simp only at h
        split at h
        · exact absurd h M.throw_ne_ok
        · obtain ⟨e2, _, h⟩ := M.bind_ok h
          exact sameFatRegion_copiesEqual (writedirentry_sameFatRegion h hs) heq
  | setAttributesOp p a =>
    unfold PublicMutation.run FAT12.set_attributes at h
    obtain ⟨r, _, h⟩ := M.bind_ok h
    cases r with
    | none => exact absurd h M.throw_ne_ok
    | some t =>
      obtain ⟨dc, fc, fo⟩ := t
      obtain ⟨e, _, h⟩ := M.bind_ok h
      obtain ⟨pe, _, h⟩ := M.bind_ok h
      cases pe with
      | endOfDir => exact absurd h M.throw_ne_ok
      | free => exact absurd h M.throw_ne_ok
      | entry fn at_ md cl fs =>
        simp only at h
        split at h
        · exact absurd h M.throw_ne_ok
        · obtain ⟨e2, _, h⟩ := M.bind_ok h
          exact sameFatRegion_copiesEqual (writedirentry_sameFatRegion h hs) heq
  | moveOp p f =>
    unfold PublicMutation.run FAT12.move at h
    obtain ⟨r, _, h⟩ := M.bind_ok h
    obtain ⟨d, _, h⟩ := M.bind_ok h
    cases r with
    | none => exact absurd h M.throw_ne_ok
    | some t =>
      obtain ⟨c1, fc, fo⟩ := t
      cases hd : d.1 with
      | none => rw [hd] at h; exact absurd h M.throw_ne_ok
      | some dcl =>
        rw [hd] at h
        simp only at h
        split at h
        · exact absurd h M.throw_ne_ok
        · split at h
          · have hst := M.pure_ok h
            subst hst
            exact heq
          · obtain ⟨e, _, h⟩ := M.bind_ok h
            obtain ⟨pe, _, h⟩ := M.bind_ok h
            cases pe with
            | endOfDir => exact absurd h M.throw_ne_ok
            | free => exact absurd h M.throw_ne_ok
            | entry fn at_ md cl fs =>
              simp only at h
              obtain ⟨a, _, h⟩ := M.bind_ok h
              obtain ⟨⟨x1, ocl, off⟩, st1⟩ := a
              obtain ⟨st2, _, h⟩ := M.bind_ok h
              obtain ⟨st3, _, h⟩ := M.bind_ok h
              exact commit_fatCopiesEqual h
  | copyOp src dst ro =>
    unfold PublicMutation.run FAT12.copy at h
    obtain ⟨rs, _, h⟩ := M.bind_ok h
    obtain ⟨rd, _, h⟩ := M.bind_ok h
    cases rs with
    | none => exact absurd h M.throw_ne_ok
    | some t =>
      obtain ⟨c1, sfc, sfo⟩ := t
      simp only at h
      split at h
      · exact absurd h M.throw_ne_ok
      · obtain ⟨a, hd2, h⟩ := M.bind_ok h
        obtain ⟨d2, st1⟩ := a
        have hfr1 : st.sameFatRegion st1 ∧ st1.fatRegionSafe := by
          cases rd with
          | some t2 =>
            have := M.pure_ok hd2
            have hst : st1 = st := (congrArg Prod.snd this).symm
            subst hst
            exact ⟨sameFatRegion_refl _, hs⟩
          | none => exact createfile_frame hd2 hs
        cases d2 with
        | none => exact absurd h M.throw_ne_ok
        | some t2 =>
          obtain ⟨x1, dfc, dfo⟩ := t2
          obtain ⟨e, _, h⟩ := M.bind_ok h
          obtain ⟨pe, _, h⟩ := M.bind_ok h
          cases pe with
          | endOfDir => exact absurd h M.throw_ne_ok
          | free => exact absurd h M.throw_ne_ok
          | entry fn at_ md cl fs =>
            simp only at h
            obtain ⟨e2, _, h⟩ := M.bind_ok h
            obtain ⟨pe2, _, h⟩ := M.bind_ok h
            obtain ⟨dat, _, h⟩ := M.bind_ok h
            split at h
            · exact absurd h M.throw_ne_ok
            · split at h
              · exact absurd h M.throw_ne_ok
              · obtain ⟨e3, _, h⟩ := M.bind_ok h
                obtain ⟨st2, h4, h⟩ := M.bind_ok h
                have hfr2 := writedirentry_sameFatRegion h4 hfr1.2
                obtain ⟨dat2, _, h⟩ := M.bind_ok h
                rcases writefile_ok_cases h with heq2 | ⟨s, hc⟩
                · subst heq2
                  exact sameFatRegion_copiesEqual
                    (sameFatRegion_trans hfr1.1 hfr2) heq
                · exact commit_fatCopiesEqual hc
  | setLabelOp l =>
    have h2 : st.set_label l = .ok st' := h
    unfold FAT12.set_label at h2
    split at h2 <;> split at h2 <;>
      first
      | exact absurd h2 M.throw_ne_ok
      | exact commit_fatCopiesEqual h2

/-- Volume whose FAT region (sectors 1..2) lies strictly before both the
root directory (sector 3) and the data region (`first_cluster_sector = 3`,
so cluster 2 starts at sector 5), holding a 1-byte file `/A.TXT`. -/
def volSafeAttr : FAT12 := { volBase with
  first_cluster_sector := 3
  fat := [0xFF0, 0xFFF, 0xFFF, 0, 0, 0, 0, 0, 0, 0, 0, 0]
  image := imgWrite (fun _ => 0) (3 * 512) (fixEntry nameATXT 0x20 2 1) }

/-- Witness for claim C8: `set_attributes("/A.TXT", 0x01)` succeeds on
`volSafeAttr` and the volume it returns still has both FAT copies
byte-identical. -/
theorem claim_C8_witness :
    ∃ st', (PublicMutation.setAttributesOp pathATXT 1).run volSafeAttr =
        .ok st' ∧ st'.fatCopiesEqual := by
  cases hrun : (PublicMutation.setAttributesOp pathATXT 1).run volSafeAttr with
  | ok st' =>
    exact ⟨st', rfl,
      claim_C8_fat_copies_identical (.setAttributesOp pathATXT 1) volSafeAttr st'
        (by decide) (by decide) hrun⟩
  | error e =>
    have hsome :
        ((PublicMutation.setAttributesOp pathATXT 1).run volSafeAttr).toOption.isSome
          = true := by decide
    rw [hrun] at hsome
    simp [Except.toOption] at hsome

/-! ## C1 infrastructure -/

/-- The family of volumes used by the C1 round-trip theorem: the `volBase`
geometry with an arbitrary image and FAT. -/
@[reducible] def mkC1 (img : Image) (fat : List Nat) : FAT12 := {
  image := img
  capacity := 8192
  fat := fat
  bytes_per_sector := 512
  sectors_per_cluster := 1
  fat_start_sector := 1
  fat_count := 2
  root_entries := 16
  logical_sectors := 16
  descriptor := 0xF0
  sectors_per_fat := 1
  sectors_per_track := 9
  number_of_heads := 2
  hidden_sectors := 0
  large_total_logical_sectors := 0
  drive_number := 0
  ebpb_flags := 0
  has_ebpb := false
  serial := []
  bpb_label := List.replicate 11 32
  fs_type := []
  root_dir_sector := 3
  first_cluster_sector := 2
  label := List.replicate 11 32
  write_label := false
  dircluster := 1
  dirparents := []
  now := fixNow }

def fatC1 : List Nat := [0xFF0, 0xFFF, 0xFFF, 0, 0, 0, 0, 0, 0, 0, 0, 0]

def entryA (n : Nat) : List Nat := fixEntry nameATXT 0x20 2 n

def root0 : List Nat := entryA 3 ++ List.replicate 480 0

def bpad (b : List Nat) : List Nat := b ++ List.replicate (512 - b.length) 0

def newroot (b : List Nat) : List Nat := entryA b.length ++ List.replicate 480 0

def bpbA : List Nat := [0, 2, 1, 1, 0, 2, 16, 0, 16, 0, 0xF0, 1, 0]

def bpbB : List Nat := [9, 0, 2, 0, 0, 0, 0, 0, 0, 0, 0, 0, 0, 0]

def fatsC1 : List Nat :=
  packFATPairs fatC1 ++ List.replicate (512 - (packFATPairs fatC1).length) 0

def fatImg : List Nat := List.flatten (List.replicate 2 fatsC1)

theorem parse_entryA (n : Nat) (h : n < 2 ^ 32) :
    parsedirentry (entryA n) = .ok (.entry nameOnlyATXT 0x20 fixNow 2 n) := by
  show (do
      let attributes ← match (entryA n).get? 0x0B with
        | some a => pure a
        | none => throw .indexError
      let modified ← edt_to_pdt (((entryA n).drop 0x16).take 4)
      let cluster ← unpack16 (((entryA n).drop 0x1A).take 2)
      let file_size ← unpack32 (((entryA n).drop 0x1C).take 4)
      pure (.entry (efn_to_cfn ((entryA n).take 0x0B)) attributes modified cluster
        file_size) : M DirEntry) = _
  rw [show ((entryA n).drop 0x16).take 4 = pdt_to_edt fixNow from rfl,
    show ((entryA n).drop 0x1A).take 2 = pack16 2 from rfl,
    show ((entryA n).drop 0x1C).take 4 = pack32 n from rfl,
    show efn_to_cfn ((entryA n).take 0x0B) = nameOnlyATXT from rfl]
  rw [show edt_to_pdt (pdt_to_edt fixNow) = (.ok fixNow : M DT) from by decide]
  rw [show unpack16 (pack16 2) = (.ok 2 : M Nat) from by decide]
  rw [unpack32_pack32 n h]
  rfl

theorem resolvefilesectorAux_succ (name sector : List Nat) (n i : Nat) :
    resolvefilesectorAux name sector (n + 1) i =
    (if i < sector.length then do
      let pe ← parsedirentry ((sector.drop i).take 32)
      match pe with
      | .endOfDir => pure none
      | .free => resolvefilesectorAux name sector n (i + 32)
      | .entry filename attributes _ _ _ =>
        if attributes &&& 0xC8 ≠ 0 then resolvefilesectorAux name sector n (i + 32)
        else if pyUpper filename = name then pure (some i)
        else resolvefilesectorAux name sector n (i + 32)
    else pure none) := rfl

theorem resolvefilesector_step (name sector : List Nat) :
    resolvefilesector name sector 0 =
    resolvefilesectorAux (pyUpper name) sector (sector.length + 1) 0 := rfl

theorem scan_newroot (b : List Nat) (h : b.length < 2 ^ 32) :
    resolvefilesector [65, 46, 84, 88, 84] (newroot b) 0 = .ok (some 0) := by
  rw [resolvefilesector_step]
  rw [show pyUpper [65, 46, 84, 88, 84] = nameOnlyATXT from rfl]
  rw [resolvefilesectorAux_succ]
  rw [if_pos (show 0 < (newroot b).length from by
    rw [show (newroot b).length = 512 from rfl]; omega)]
  rw [show ((newroot b).drop 0).take 32 = entryA b.length from rfl]
  rw [parse_entryA b.length h]
  rfl





theorem M.ok_bind2 {a b : Type} (x : a) (g : a -> M b) :
    (bind (Except.ok x : M a) g : M b) = g x := rfl

theorem rs_root_C1 (i : Image) (f : List Nat) :
    (mkC1 i f).read_sectors (mkC1 i f).root_dir_sector ((mkC1 i f).root_entries / 16)
      = .ok (imgRead i 1536 512) := by
  unfold FAT12.read_sectors
  norm_num
  rfl

theorem resolvefile_C1 (i : Image) (f rd : List Nat)
    (hread : imgRead i 1536 512 = rd)
    (hscan : resolvefilesector [65, 46, 84, 88, 84] rd 0 = .ok (some 0)) :
    (mkC1 i f).resolvefile [65, 46, 84, 88, 84] 1 0 = .ok (some (1, 0)) := by
  unfold FAT12.resolvefile
  rw [if_pos rfl]
  rw [rs_root_C1, hread, M.ok_bind2]
  beta_reduce
  rw [hscan, M.ok_bind2]
  rfl

theorem resolvepathAux_succ (st : FAT12) (fuel : Nat) (path : List Nat)
    (cluster : Nat) (oc : Option (Nat × Nat)) :
    st.resolvepathAux (fuel + 1) path cluster oc =
    (if path = [] then
      match oc with
      | none => pure none
      | some (o, fo) => pure (some (cluster, o, fo))
    else
      if (splitpath path).1 = [] ∧ (splitpath path).2 = [] then
        match oc with
        | none => pure none
        | some (o, fo) => pure (some (cluster, o, fo))
      else if (splitpath path).1 = [] then st.resolvepathAux fuel (splitpath path).2 1 oc
      else do
        let r ← st.resolvefile (splitpath path).1 cluster 0
        match r with
        | none =>
          if cluster = 1 ∧ (splitpath path).1 = [46] then
            st.resolvepathAux fuel (splitpath path).2 cluster none
          else pure none
        | some (ocl, off) =>
          if (splitpath path).2 = [] then pure (some (cluster, ocl, off))
          else do
            let pe ← parsedirentry (← st.readdirentry ocl off)
            match pe with
            | .entry _ attributes _ _ _ =>
              if attributes &&& 0x10 = 0 then pure none
              else st.resolvepathAux fuel (splitpath path).2 cluster (some (ocl, off))
            | _ => pure none) := rfl

theorem resolvepath_C1 (i : Image) (f rd : List Nat)
    (hread : imgRead i 1536 512 = rd)
    (hscan : resolvefilesector [65, 46, 84, 88, 84] rd 0 = .ok (some 0)) :
    (mkC1 i f).resolvepath pathATXT false = .ok (some (1, 1, 0)) := by
  unfold FAT12.resolvepath
  rw [if_neg (show ¬(false = true) from by simp)]
  rw [show (mkC1 i f).dircluster = 1 from rfl]
  rw [resolvepathAux_succ]
  rw [if_neg (show ¬(pathATXT = []) from by decide)]
  rw [show (splitpath pathATXT).1 = [] from by decide,
    show (splitpath pathATXT).2 = [65, 46, 84, 88, 84] from by decide]
  rw [if_neg (show ¬(([] : List Nat) = [] ∧ ([65, 46, 84, 88, 84] : List Nat) = [])
    from by decide)]
  rw [if_pos (show ([] : List Nat) = [] from rfl)]
  rw [show pathATXT.length = 5 + 1 from rfl]
  rw [resolvepathAux_succ]
  rw [if_neg (show ¬(([65, 46, 84, 88, 84] : List Nat) = []) from by decide)]
  rw [show (splitpath [65, 46, 84, 88, 84]).1 = [65, 46, 84, 88, 84] from by decide,
    show (splitpath [65, 46, 84, 88, 84]).2 = ([] : List Nat) from by decide]
  rw [if_neg (show ¬(([65, 46, 84, 88, 84] : List Nat) = [] ∧ ([] : List Nat) = [])
    from by decide)]
  rw [if_neg (show ¬(([65, 46, 84, 88, 84] : List Nat) = []) from by decide)]
  rw [resolvefile_C1 i f rd hread hscan, M.ok_bind2]
  rfl

theorem read_root0 (i : Image) : imgRead (imgWrite i 1536 root0) 1536 512 = root0 := by
  rw [imgRead_write_inside i 1536 root0 1536 512 (le_refl _) (by decide)]
  rfl

theorem scan_root0 : resolvefilesector [65, 46, 84, 88, 84] root0 0 = .ok (some 0) := by
  decide

theorem readdirentry_C1 (i : Image) (f rd : List Nat)
    (hread : imgRead i 1536 512 = rd) :
    (mkC1 i f).readdirentry 1 0 = .ok (rd.take 32) := by
  unfold FAT12.readdirentry
  rw [if_pos rfl]
  rw [rs_root_C1, hread, M.ok_bind2]
  rfl

theorem M.bind_step {a c : Type} (x : M a) (v : a) (g : a → M c) (r : M c)
    (hx : x = Except.ok v) (h : g v = r) : (bind x g : M c) = r := by
  rw [hx, M.ok_bind2, h]

theorem bpad_length (b : List Nat) (h : b.length ≤ 512) : (bpad b).length = 512 := by
  simp [bpad]
  omega

theorem writefileBody_eq (st : FAT12) (fcluster foffset : Nat)
    (contents filename : List Nat) (attributes cluster file_clusters : Nat) :
    st.writefileBody fcluster foffset contents filename attributes cluster
      file_clusters = (do
    let _lcluster ← chainTail st.fat (st.fat.length + 1) cluster
    let (_, st1) ← st.extendChain _lcluster
      ((contents.length + (st.bytes_per_sector * st.sectors_per_cluster - 1)) /
        (st.bytes_per_sector * st.sectors_per_cluster) - file_clusters)
    let st2 ← st1.writeChunks contents
      ((contents.length + (st.bytes_per_sector * st.sectors_per_cluster - 1)) /
        (st.bytes_per_sector * st.sectors_per_cluster)) cluster 0
    let (st3, cluster2) ←
      if file_clusters > ((contents.length +
          (st.bytes_per_sector * st.sectors_per_cluster - 1)) /
          (st.bytes_per_sector * st.sectors_per_cluster)) then
        st2.truncateFree fcluster (2 * st2.fat.length + 4) cluster
      else pure (st2, cluster)
    let entry ← makedirentry_str filename attributes none cluster2 contents.length
      st3.now
    let st4 ← st3.writedirentry fcluster foffset entry
    st4.commit : M FAT12) := rfl

theorem writeChunks_succ (st : FAT12) (contents : List Nat) (n dc i : Nat) :
    st.writeChunks contents (n + 1) dc i =
    (if ¬(2 ≤ dc ∧ dc < 0xFF0) then throw .assertionError
     else do
      let st1 ← st.writecluster dc ((contents.drop i).take
          (st.bytes_per_sector * st.sectors_per_cluster) ++
        List.replicate (st.bytes_per_sector * st.sectors_per_cluster -
          ((contents.drop i).take (st.bytes_per_sector * st.sectors_per_cluster)).length)
          0)
      let next ← fatGet st1.fat dc
      st1.writeChunks contents n next (i + st.bytes_per_sector * st.sectors_per_cluster)
      : M FAT12) := rfl

theorem mkdir_entryA (n : Nat) (h : n < 2 ^ 32) :
    makedirentry_str nameOnlyATXT 0x20 none 2 n fixNow = .ok (entryA n) := by
  show makedirentry_core [65] [84, 88, 84] 0x20 none 2 n fixNow = _
  unfold makedirentry_core
  rw [if_neg (show ¬([65].length > 8 ∨ [84, 88, 84].length > 3) from by decide)]
  rw [if_neg (show ¬((2 : Nat) ≥ 0xFF6) from by decide)]
  rw [if_neg (show ¬((0x20 : Nat) ≥ 256) from by decide)]
  rw [if_neg (show ¬(n ≥ 2 ^ 32) from by omega)]
  rfl

theorem updatelabel_C1 (i : Image) (f : List Nat) :
    (mkC1 i f).updatelabel = .ok (mkC1 i f) := by
  unfold FAT12.updatelabel
  norm_num [FAT12.read_sectors]
  rfl

theorem writebpb_C1 (i : Image) (f : List Nat) :
    (mkC1 i f).writebpb = .ok ((mkC1 (imgWrite (imgWrite i 11 bpbA) 24 bpbB) f)) := by
  unfold FAT12.writebpb
  norm_num [FAT12.imageWriteAt]
  rfl

theorem writefat_C1 (i : Image) :
    (mkC1 i fatC1).writefat = .ok (mkC1 (imgWrite i 512 fatImg) fatC1) := by
  unfold FAT12.writefat
  norm_num
  rfl

theorem commit_C1 (i : Image) :
    (mkC1 i fatC1).commit = .ok (mkC1 (imgWrite (imgWrite (imgWrite i 11 bpbA)
      24 bpbB) 512 fatImg) fatC1) := by
  unfold FAT12.commit
  refine M.bind_step _ (mkC1 i fatC1) _ _ (updatelabel_C1 i fatC1) ?_
  refine M.bind_step _ (mkC1 (imgWrite (imgWrite i 11 bpbA) 24 bpbB) fatC1) _ _
    (writebpb_C1 i fatC1) ?_
  exact writefat_C1 _

def wImg (x : Image) (b : List Nat) : Image :=
  imgWrite (imgWrite (imgWrite (imgWrite (imgWrite x
    2048 (bpad b)) 1536 (newroot b)) 11 bpbA) 24 bpbB) 512 fatImg

theorem writefileBody_C1 (x : Image) (rd b : List Nat) (h1 : 1 ≤ b.length)
    (h2 : b.length ≤ 512)
    (hread : imgRead x 1536 512 = rd)
    (hsplice : listSplice rd 0 (entryA b.length) = newroot b) :
    (mkC1 x fatC1).writefileBody 1 0 b nameOnlyATXT 0x20 2 1 =
      .ok (mkC1 (wImg x b) fatC1) := by
  rw [writefileBody_eq]
  refine M.bind_step _ 2 _ _ rfl ?_
  refine M.bind_step _ (2, mkC1 x fatC1) _ _ ?_ ?_
  · rw [show (mkC1 x fatC1).bytes_per_sector *
        (mkC1 x fatC1).sectors_per_cluster = 512 from rfl]
    rw [show (b.length + (512 - 1)) / 512 - 1 = 0 from by omega]
    rfl
  refine M.bind_step _ (mkC1 (imgWrite x 2048 (bpad b)) fatC1) _ _ ?_ ?_
  · rw [show (mkC1 x fatC1).bytes_per_sector *
        (mkC1 x fatC1).sectors_per_cluster = 512 from rfl]
    rw [show (b.length + (512 - 1)) / 512 = 0 + 1 from by omega]
    rw [writeChunks_succ]
    rw [if_neg (show ¬¬(2 ≤ 2 ∧ 2 < 0xFF0) from by decide)]
    rw [show (mkC1 x fatC1).bytes_per_sector *
        (mkC1 x fatC1).sectors_per_cluster = 512 from rfl]
    rw [show (b.drop 0).take 512 = b from by
      rw [List.drop_zero]; exact List.take_of_length_le h2]
    rw [show b ++ List.replicate (512 - b.length) 0 = bpad b from rfl]
    refine M.bind_step _ (mkC1 (imgWrite x 2048 (bpad b)) fatC1) _ _ ?_ ?_
    · have hbl : (bpad b).length = 512 := bpad_length b h2
      unfold FAT12.writecluster FAT12.write_sectors
      rw [if_neg (show ¬((mkC1 x fatC1).cluster_index 2 *
          512 ≥ (mkC1 x fatC1).capacity) from by
        norm_num [FAT12.cluster_index])]
      rw [if_neg (show ¬((bpad b).length ≠
          (mkC1 x fatC1).sectors_per_cluster * 512) from by
        rw [hbl]; norm_num)]
      rfl
    refine M.bind_step _ 4095 _ _ rfl ?_
    rfl
  rw [show (mkC1 x fatC1).bytes_per_sector *
      (mkC1 x fatC1).sectors_per_cluster = 512 from rfl]
  rw [show (b.length + (512 - 1)) / 512 = 1 from by omega]
  refine M.bind_step _
    (mkC1 (imgWrite x 2048 (bpad b)) fatC1, 2) _ _ rfl ?_
  refine M.bind_step _ (entryA b.length) _ _ ?_ ?_
  · rw [show (mkC1 (imgWrite x 2048 (bpad b)) fatC1).now = fixNow from rfl]
    exact mkdir_entryA b.length (by omega)
  refine M.bind_step _ (mkC1 (imgWrite (imgWrite x 2048
    (bpad b)) 1536 (newroot b)) fatC1) _ _ ?_ ?_
  · unfold FAT12.writedirentry
    rw [if_neg (show ¬((entryA b.length).length ≠ 32) from by
      rw [show (entryA b.length).length = 32 from rfl]; omega)]
    rw [if_pos rfl]
    rw [rs_root_C1]
    rw [show imgRead (imgWrite x 2048 (bpad b)) 1536 512 = rd from by
      rw [imgRead_write_outside _ _ _ _ _ (Or.inl (by norm_num))]
      exact hread]
    rw [M.ok_bind2]
    beta_reduce
    rw [hsplice]
    unfold FAT12.write_sectors
    norm_num [show (newroot b).length = 512 from rfl]
    rfl
  show FAT12.commit _ = _
  exact commit_C1 _

theorem writefile_over (i : Image) (b : List Nat) (h1 : 1 ≤ b.length)
    (h2 : b.length ≤ 512) :
    (mkC1 (imgWrite i 1536 root0) fatC1).write_file pathATXT b false =
      .ok (mkC1 (wImg (imgWrite i 1536 root0) b) fatC1) := by
  unfold FAT12.write_file
  rw [resolvepath_C1 _ _ root0 (read_root0 i) scan_root0, M.ok_bind2]
  beta_reduce
  show (mkC1 (imgWrite i 1536 root0) fatC1).writefile 1 0 b false = _
  unfold FAT12.writefile
  rw [readdirentry_C1 _ _ root0 (read_root0 i), M.ok_bind2]
  beta_reduce
  rw [show parsedirentry (root0.take 32) =
    .ok (.entry nameOnlyATXT 0x20 fixNow 2 3) from by decide, M.ok_bind2]
  beta_reduce
  show (mkC1 (imgWrite i 1536 root0) fatC1).writefileBody 1 0 b nameOnlyATXT 0x20 2
    ((3 + (512 - 1)) / 512) = _
  rw [show (3 + (512 - 1)) / 512 = 1 from by norm_num]
  exact writefileBody_C1 _ root0 b h1 h2 (read_root0 i) rfl

theorem readChunks_succ (st : FAT12) (bpc file_size n cluster i : Nat) :
    st.readChunks bpc file_size (n + 1) cluster i =
    (if bpc = 0 then throw (.valueError "range() arg 3 must not be zero")
    else if i < file_size then do
      let data ← st.readcluster cluster
      let next ← fatGet st.fat cluster
      let rest ← st.readChunks bpc file_size n next (i + bpc)
      pure (data.take (file_size - i) ++ rest)
    else pure [] : M (List Nat)) := rfl

theorem read_C1 (i : Image) (b : List Nat) (h1 : 1 ≤ b.length)
    (h2 : b.length ≤ 512)
    (hroot : imgRead i 1536 512 = newroot b)
    (hdata : imgRead i 2048 512 = bpad b) :
    (mkC1 i fatC1).read_file pathATXT = .ok b := by
  obtain ⟨m, hm⟩ : ∃ m, b.length = m + 1 := ⟨b.length - 1, by omega⟩
  unfold FAT12.read_file
  rw [resolvepath_C1 i fatC1 (newroot b) hroot (scan_newroot b (by omega)),
    M.ok_bind2]
  beta_reduce
  show (mkC1 i fatC1).readfile 1 0 = _
  unfold FAT12.readfile
  rw [readdirentry_C1 i fatC1 (newroot b) hroot, M.ok_bind2]
  beta_reduce
  rw [show (newroot b).take 32 = entryA b.length from rfl]
  rw [parse_entryA b.length (by omega), M.ok_bind2]
  beta_reduce
  show (mkC1 i fatC1).readChunks 512 b.length (b.length + 1) 2 0 = _
  rw [hm]
  rw [readChunks_succ]
  rw [if_neg (show ¬((512 : Nat) = 0) from by decide)]
  rw [if_pos (show 0 < m + 1 from by omega)]
  refine M.bind_step _ (bpad b) _ _ ?_ ?_
  · unfold FAT12.readcluster FAT12.read_sectors
    norm_num [FAT12.cluster_index]
    rw [hdata]
    rfl
  refine M.bind_step _ 4095 _ _ rfl ?_
  rw [readChunks_succ]
  rw [if_neg (show ¬((512 : Nat) = 0) from by decide)]
  rw [if_neg (show ¬(0 + 512 < m + 1) from by omega)]
  refine M.bind_step _ ([] : List Nat) _ _ rfl ?_
  rw [List.append_nil]
  rw [show (bpad b).take (m + 1 - 0) = b from by
    rw [show bpad b = b ++ List.replicate (512 - b.length) 0 from rfl]
    exact List.take_left' hm]
  rfl

theorem wImg_root (x : Image) (b : List Nat) (h2 : b.length ≤ 512) :
    imgRead (wImg x b) 1536 512 = newroot b := by
  unfold wImg
  rw [imgRead_write_outside _ _ _ _ _ (Or.inr (by decide))]
  rw [imgRead_write_outside _ _ _ _ _ (Or.inr (by decide))]
  rw [imgRead_write_outside _ _ _ _ _ (Or.inr (by decide))]
  rw [imgRead_write_inside _ _ _ _ _ (le_refl _)
    (by rw [show (newroot b).length = 512 from rfl])]
  rw [Nat.sub_self, List.drop_zero,
    List.take_of_length_le (le_of_eq (show (newroot b).length = 512 from rfl))]

theorem wImg_data (x : Image) (b : List Nat) (h2 : b.length ≤ 512) :
    imgRead (wImg x b) 2048 512 = bpad b := by
  unfold wImg
  rw [imgRead_write_outside _ _ _ _ _ (Or.inr (by decide))]
  rw [imgRead_write_outside _ _ _ _ _ (Or.inr (by decide))]
  rw [imgRead_write_outside _ _ _ _ _ (Or.inr (by decide))]
  rw [imgRead_write_outside _ _ _ _ _
    (Or.inr (by rw [show (newroot b).length = 512 from rfl]))]
  rw [imgRead_write_inside _ _ _ _ _ (le_refl _)
    (by rw [bpad_length b h2])]
  rw [Nat.sub_self, List.drop_zero,
    List.take_of_length_le (le_of_eq (bpad_length b h2))]

theorem roundtrip_over (i : Image) (b : List Nat) (h1 : 1 ≤ b.length)
    (h2 : b.length ≤ 512) :
    ∃ st', (mkC1 (imgWrite i 1536 root0) fatC1).write_file pathATXT b false =
        .ok st' ∧ st'.read_file pathATXT = .ok b :=
  ⟨_, writefile_over i b h1 h2,
    read_C1 _ b h1 h2 (wImg_root _ b h2) (wImg_data _ b h2)⟩

def rootE : List Nat := List.replicate 512 0

def fatE : List Nat := [0xFF0, 0xFFF, 0, 0, 0, 0, 0, 0, 0, 0, 0, 0]

def root1 : List Nat := fixEntry nameATXT 0x20 0 0 ++ List.replicate 480 0

def wImgNil (x : Image) : Image :=
  imgWrite (imgWrite (imgWrite (imgWrite x 1536 (newroot [])) 11 bpbA) 24 bpbB)
    512 fatImg

theorem read_rootE (i : Image) :
    imgRead (imgWrite i 1536 rootE) 1536 512 = rootE := by
  rw [imgRead_write_inside i 1536 rootE 1536 512 (le_refl _) (by decide)]
  rfl

theorem read_root1 (i : Image) :
    imgRead (imgWrite (imgWrite i 1536 rootE) 1536 root1) 1536 512 = root1 := by
  rw [imgRead_write_inside _ 1536 root1 1536 512 (le_refl _) (by decide)]
  rfl

theorem scan_rootE : resolvefilesector [65, 46, 84, 88, 84] rootE 0 = .ok none := by
  decide

theorem scan_root1 : resolvefilesector [65, 46, 84, 88, 84] root1 0 =
    .ok (some 0) := by decide

theorem resolvefile_C1_none (i : Image) (f rd : List Nat)
    (hread : imgRead i 1536 512 = rd)
    (hscan : resolvefilesector [65, 46, 84, 88, 84] rd 0 = .ok none) :
    (mkC1 i f).resolvefile [65, 46, 84, 88, 84] 1 0 = .ok none := by
  unfold FAT12.resolvefile
  rw [if_pos rfl]
  rw [rs_root_C1, hread, M.ok_bind2]
  beta_reduce
  rw [hscan, M.ok_bind2]
  rfl

theorem resolvepath_C1_none (i : Image) (f rd : List Nat)
    (hread : imgRead i 1536 512 = rd)
    (hscan : resolvefilesector [65, 46, 84, 88, 84] rd 0 = .ok none) :
    (mkC1 i f).resolvepath pathATXT false = .ok none := by
  unfold FAT12.resolvepath
  rw [if_neg (show ¬(false = true) from by simp)]
  rw [show (mkC1 i f).dircluster = 1 from rfl]
  rw [resolvepathAux_succ]
  rw [if_neg (show ¬(pathATXT = []) from by decide)]
  rw [show (splitpath pathATXT).1 = [] from by decide,
    show (splitpath pathATXT).2 = [65, 46, 84, 88, 84] from by decide]
  rw [if_neg (show ¬(([] : List Nat) = [] ∧ ([65, 46, 84, 88, 84] : List Nat) = [])
    from by decide)]
  rw [if_pos (show ([] : List Nat) = [] from rfl)]
  rw [show pathATXT.length = 5 + 1 from rfl]
  rw [resolvepathAux_succ]
  rw [if_neg (show ¬(([65, 46, 84, 88, 84] : List Nat) = []) from by decide)]
  rw [show (splitpath [65, 46, 84, 88, 84]).1 = [65, 46, 84, 88, 84] from by decide,
    show (splitpath [65, 46, 84, 88, 84]).2 = ([] : List Nat) from by decide]
  rw [if_neg (show ¬(([65, 46, 84, 88, 84] : List Nat) = [] ∧ ([] : List Nat) = [])
    from by decide)]
  rw [if_neg (show ¬(([65, 46, 84, 88, 84] : List Nat) = []) from by decide)]
  rw [resolvefile_C1_none i f rd hread hscan, M.ok_bind2]
  rfl

theorem read_empty (i : Image) (f rd : List Nat) (c : Nat)
    (hroot : imgRead i 1536 512 = rd)
    (hscan : resolvefilesector [65, 46, 84, 88, 84] rd 0 = .ok (some 0))
    (hparse : parsedirentry (rd.take 32) = .ok (.entry nameOnlyATXT 0x20 fixNow c 0)) :
    (mkC1 i f).read_file pathATXT = .ok [] := by
  unfold FAT12.read_file
  rw [resolvepath_C1 i f rd hroot hscan, M.ok_bind2]
  beta_reduce
  show (mkC1 i f).readfile 1 0 = _
  unfold FAT12.readfile
  rw [readdirentry_C1 i f rd hroot, M.ok_bind2]
  beta_reduce
  rw [hparse, M.ok_bind2]
  beta_reduce
  show (mkC1 i f).readChunks 512 0 (0 + 1) c 0 = _
  rw [readChunks_succ]
  rw [if_neg (show ¬((512 : Nat) = 0) from by decide)]
  rw [if_neg (show ¬((0 : Nat) < 0) from by decide)]
  rfl

theorem writefileBody_nil (x : Image) (rd : List Nat)
    (hread : imgRead x 1536 512 = rd)
    (hsplice : listSplice rd 0 (entryA 0) = newroot []) :
    (mkC1 x fatC1).writefileBody 1 0 [] nameOnlyATXT 0x20 2 1 =
      .ok (mkC1 (wImgNil x) fatC1) := by
  rw [writefileBody_eq]
  refine M.bind_step _ 2 _ _ rfl ?_
  rw [show (mkC1 x fatC1).bytes_per_sector *
      (mkC1 x fatC1).sectors_per_cluster = 512 from rfl]
  rw [show (List.length ([] : List Nat) + (512 - 1)) / 512 = 0 from by norm_num]
  refine M.bind_step _ (2, mkC1 x fatC1) _ _ rfl ?_
  refine M.bind_step _ (mkC1 x fatC1) _ _ rfl ?_
  refine M.bind_step _ (mkC1 x fatC1, 2) _ _ rfl ?_
  refine M.bind_step _ (entryA 0) _ _ ?_ ?_
  · rw [show (mkC1 x fatC1).now = fixNow from rfl]
    exact mkdir_entryA (List.length []) (by decide)
  refine M.bind_step _ (mkC1 (imgWrite x 1536 (newroot [])) fatC1) _ _ ?_ ?_
  · unfold FAT12.writedirentry
    rw [if_neg (show ¬((entryA 0).length ≠ 32) from by decide)]
    rw [if_pos rfl]
    rw [rs_root_C1]
    rw [hread, M.ok_bind2]
    beta_reduce
    rw [hsplice]
    unfold FAT12.write_sectors
    norm_num [show (newroot ([] : List Nat)).length = 512 from rfl]
    rfl
  show FAT12.commit _ = _
  exact commit_C1 _

theorem wImgNil_root (x : Image) :
    imgRead (wImgNil x) 1536 512 = newroot [] := by
  unfold wImgNil
  rw [imgRead_write_outside _ _ _ _ _ (Or.inr (by decide))]
  rw [imgRead_write_outside _ _ _ _ _ (Or.inr (by decide))]
  rw [imgRead_write_outside _ _ _ _ _ (Or.inr (by decide))]
  rw [imgRead_write_inside _ _ _ _ _ (le_refl _)
    (by rw [show (newroot ([] : List Nat)).length = 512 from rfl])]
  rw [Nat.sub_self, List.drop_zero, List.take_of_length_le
    (le_of_eq (show (newroot ([] : List Nat)).length = 512 from rfl))]

theorem writefile_over_nil (i : Image) :
    (mkC1 (imgWrite i 1536 root0) fatC1).write_file pathATXT [] false =
      .ok (mkC1 (wImgNil (imgWrite i 1536 root0)) fatC1) := by
  unfold FAT12.write_file
  rw [resolvepath_C1 _ _ root0 (read_root0 i) scan_root0, M.ok_bind2]
  beta_reduce
  show (mkC1 (imgWrite i 1536 root0) fatC1).writefile 1 0 [] false = _
  unfold FAT12.writefile
  rw [readdirentry_C1 _ _ root0 (read_root0 i), M.ok_bind2]
  beta_reduce
  rw [show parsedirentry (root0.take 32) =
    .ok (.entry nameOnlyATXT 0x20 fixNow 2 3) from by decide, M.ok_bind2]
  beta_reduce
  show (mkC1 (imgWrite i 1536 root0) fatC1).writefileBody 1 0 [] nameOnlyATXT 0x20 2
    ((3 + (512 - 1)) / 512) = _
  rw [show (3 + (512 - 1)) / 512 = 1 from by norm_num]
  exact writefileBody_nil _ root0 (read_root0 i) rfl

theorem createfileLoop_succ (st : FAT12) (fuel : Nat) (path : List Nat)
    (cluster : Nat) (lastName : Option (List Nat)) :
    st.createfileLoop (fuel + 1) path cluster lastName =
    (if path = [] then pure (.brk lastName cluster)
    else
      if (splitpath path).1 = [] ∧ (splitpath path).2 = [] then
        pure (.brk (some (splitpath path).1) cluster)
      else if (splitpath path).1 = [] then
        st.createfileLoop fuel (splitpath path).2 1 (some (splitpath path).1)
      else do
        let r ← st.resolvefile (splitpath path).1 cluster 0
        if (splitpath path).2 = [] then
          match r with
          | none => pure (.brk (some (splitpath path).1) cluster)
          | some _ => throw (.valueError "file already exists")
        else
          match r with
          | none =>
            if cluster = 1 ∧ (splitpath path).1 = [46] then
              (st.createfileLoop fuel (splitpath path).2 cluster
                (some (splitpath path).1))
            else pure .failed
          | some (ocl, off) => do
            let pe ← parsedirentry (← st.readdirentry ocl off)
            match pe with
            | .entry _ attributes _ _ _ =>
              if attributes &&& 0x10 = 0 then pure .failed
              else (st.createfileLoop fuel (splitpath path).2 cluster
                (some (splitpath path).1))
            | _ => pure .failed) := rfl

theorem createfile_C1 (i : Image) :
    (mkC1 (imgWrite i 1536 rootE) fatE).createfile pathATXT false =
      .ok (some (1, 1, 0),
        mkC1 (imgWrite (imgWrite i 1536 rootE) 1536 root1) fatE) := by
  unfold FAT12.createfile
  rw [if_neg (show ¬(false = true) from by simp)]
  rw [show (mkC1 (imgWrite i 1536 rootE) fatE).dircluster = 1 from rfl]
  refine M.bind_step _ (CfLoop.brk (some [65, 46, 84, 88, 84]) 1) _ _ ?_ ?_
  · rw [createfileLoop_succ]
    rw [if_neg (show ¬(pathATXT = []) from by decide)]
    rw [show (splitpath pathATXT).1 = [] from by decide,
      show (splitpath pathATXT).2 = [65, 46, 84, 88, 84] from by decide]
    rw [if_neg (show ¬(([] : List Nat) = [] ∧ ([65, 46, 84, 88, 84] : List Nat) = [])
      from by decide)]
    rw [if_pos (show ([] : List Nat) = [] from rfl)]
    rw [show pathATXT.length = 5 + 1 from rfl]
    rw [createfileLoop_succ]
    rw [if_neg (show ¬(([65, 46, 84, 88, 84] : List Nat) = []) from by decide)]
    rw [show (splitpath [65, 46, 84, 88, 84]).1 = [65, 46, 84, 88, 84] from by decide,
      show (splitpath [65, 46, 84, 88, 84]).2 = ([] : List Nat) from by decide]
    rw [if_neg (show ¬(([65, 46, 84, 88, 84] : List Nat) = [] ∧ ([] : List Nat) = [])
      from by decide)]
    rw [if_neg (show ¬(([65, 46, 84, 88, 84] : List Nat) = []) from by decide)]
    rw [resolvefile_C1_none _ _ rootE (read_rootE i) scan_rootE, M.ok_bind2]
    rfl
  refine M.bind_step _ (fixEntry nameATXT 0x20 0 0) _ _ ?_ ?_
  · rw [show (mkC1 (imgWrite i 1536 rootE) fatE).now = fixNow from rfl]
    decide
  refine M.bind_step _ ((1, 1, 0), mkC1 (imgWrite i 1536 rootE) fatE) _ _ ?_ ?_
  · unfold FAT12.allocdirentry
    rw [if_pos rfl]
    rw [rs_root_C1, read_rootE i, M.ok_bind2]
    beta_reduce
    rw [show allocdirentrycluster rootE 0 = .ok (some 0) from by decide, M.ok_bind2]
    rfl
  refine M.bind_step _ (mkC1 (imgWrite (imgWrite i 1536 rootE) 1536 root1) fatE)
    _ _ ?_ ?_
  · unfold FAT12.writedirentry
    rw [if_neg (show ¬((fixEntry nameATXT 0x20 0 0).length ≠ 32) from by decide)]
    rw [if_pos rfl]
    rw [rs_root_C1, read_rootE i, M.ok_bind2]
    beta_reduce
    rw [show listSplice rootE 0 (fixEntry nameATXT 0x20 0 0) = root1 from by decide]
    unfold FAT12.write_sectors
    norm_num [show root1.length = 512 from by decide]
    rfl
  rfl

theorem writefile_create (i : Image) (b : List Nat) (h1 : 1 ≤ b.length)
    (h2 : b.length ≤ 512) :
    (mkC1 (imgWrite i 1536 rootE) fatE).write_file pathATXT b false =
      .ok (mkC1 (wImg (imgWrite (imgWrite i 1536 rootE) 1536 root1) b) fatC1) := by
  unfold FAT12.write_file
  rw [resolvepath_C1_none _ _ rootE (read_rootE i) scan_rootE, M.ok_bind2]
  beta_reduce
  refine M.bind_step _ (some (1, 1, 0),
    mkC1 (imgWrite (imgWrite i 1536 rootE) 1536 root1) fatE) _ _
    (createfile_C1 i) ?_
  show (mkC1 (imgWrite (imgWrite i 1536 rootE) 1536 root1) fatE).writefile
    1 0 b false = _
  unfold FAT12.writefile
  rw [readdirentry_C1 _ _ root1 (read_root1 i), M.ok_bind2]
  beta_reduce
  rw [show parsedirentry (root1.take 32) =
    .ok (.entry nameOnlyATXT 0x20 fixNow 0 0) from by decide, M.ok_bind2]
  beta_reduce
  show (if b.length = 0 then
      pure (mkC1 (imgWrite (imgWrite i 1536 rootE) 1536 root1) fatE)
    else do
      let (c, st1) ←
        (mkC1 (imgWrite (imgWrite i 1536 rootE) 1536 root1) fatE).alloccluster none
      st1.writefileBody 1 0 b nameOnlyATXT 0x20 c 1 : M FAT12) = _
  rw [if_neg (show ¬(b.length = 0) from by omega)]
  refine M.bind_step _ (2, mkC1 (imgWrite (imgWrite i 1536 rootE) 1536 root1) fatC1)
    _ _ ?_ ?_
  · refine M.bind_step _ (some 2) _ _ rfl ?_
    rfl
  show (mkC1 (imgWrite (imgWrite i 1536 rootE) 1536 root1) fatC1).writefileBody
    1 0 b nameOnlyATXT 0x20 2 1 = _
  exact writefileBody_C1 _ root1 b h1 h2 (read_root1 i) rfl

theorem writefile_create_nil (i : Image) :
    (mkC1 (imgWrite i 1536 rootE) fatE).write_file pathATXT [] false =
      .ok (mkC1 (imgWrite (imgWrite i 1536 rootE) 1536 root1) fatE) := by
  unfold FAT12.write_file
  rw [resolvepath_C1_none _ _ rootE (read_rootE i) scan_rootE, M.ok_bind2]
  beta_reduce
  refine M.bind_step _ (some (1, 1, 0),
    mkC1 (imgWrite (imgWrite i 1536 rootE) 1536 root1) fatE) _ _
    (createfile_C1 i) ?_
  show (mkC1 (imgWrite (imgWrite i 1536 rootE) 1536 root1) fatE).writefile
    1 0 [] false = _
  unfold FAT12.writefile
  rw [readdirentry_C1 _ _ root1 (read_root1 i), M.ok_bind2]
  beta_reduce
  rw [show parsedirentry (root1.take 32) =
    .ok (.entry nameOnlyATXT 0x20 fixNow 0 0) from by decide, M.ok_bind2]
  beta_reduce
  rfl

/-- Both factors of `bytes_per_sector * sectors_per_cluster` on a `mkC1`
volume, folded. -/
theorem mkC1_bpc (x : Image) (f : List Nat) :
    (mkC1 x f).bytes_per_sector * (mkC1 x f).sectors_per_cluster = 512 := rfl

/-- The 512-byte zero-padded block of `b` starting at offset `d` (the block
`_writefile` writes to one cluster). -/
def bchunk (b : List Nat) (d : Nat) : List Nat :=
  (b.drop d).take 512 ++ List.replicate (512 - ((b.drop d).take 512).length) 0

theorem bchunk_length (b : List Nat) (d : Nat) : (bchunk b d).length = 512 := by
  simp [bchunk]

theorem bchunk_take_full (b : List Nat) (d n : Nat) (h : d + 512 ≤ b.length)
    (hn : 512 ≤ n) : (bchunk b d).take n = (b.drop d).take 512 := by
  have hl : ((b.drop d).take 512).length = 512 := by simp; omega
  unfold bchunk
  rw [hl, Nat.sub_self, List.replicate_zero, List.append_nil]
  exact List.take_of_length_le (le_trans (le_of_eq hl) hn)

theorem bchunk_take_last (b : List Nat) (d : Nat) (h : b.length ≤ d + 512) :
    (bchunk b d).take (b.length - d) = b.drop d := by
  unfold bchunk
  rw [List.take_of_length_le (show (b.drop d).length ≤ 512 from by simp; omega)]
  exact List.take_left' (by simp)

theorem drop_glue (b : List Nat) (d : Nat) :
    (b.drop d).take 512 ++ b.drop (d + 512) = b.drop d := by
  rw [show b.drop (d + 512) = (b.drop d).drop 512 from by
    rw [List.drop_drop, Nat.add_comm]]
  exact List.take_append_drop 512 (b.drop d)

theorem extendChain_succ (st : FAT12) (l k : Nat) :
    st.extendChain l (k + 1) = (do
      let (i, st1) ← st.alloccluster (some l)
      st1.extendChain i k : M (Nat × FAT12)) := rfl

/-- `write_file` on the overwrite volume reduces to `_writefile`'s body on the
existing entry for `/A.TXT` (cluster 2, one file cluster). -/
theorem write_file_over_body (i : Image) (b : List Nat) :
    (mkC1 (imgWrite i 1536 root0) fatC1).write_file pathATXT b false =
      (mkC1 (imgWrite i 1536 root0) fatC1).writefileBody 1 0 b nameOnlyATXT
        0x20 2 1 := by
  unfold FAT12.write_file
  rw [resolvepath_C1 _ _ root0 (read_root0 i) scan_root0, M.ok_bind2]
  beta_reduce
  show (mkC1 (imgWrite i 1536 root0) fatC1).writefile 1 0 b false = _
  unfold FAT12.writefile
  rw [readdirentry_C1 _ _ root0 (read_root0 i), M.ok_bind2]
  beta_reduce
  rw [show parsedirentry (root0.take 32) =
    .ok (.entry nameOnlyATXT 0x20 fixNow 2 3) from by decide, M.ok_bind2]
  beta_reduce
  show (mkC1 (imgWrite i 1536 root0) fatC1).writefileBody 1 0 b nameOnlyATXT 0x20 2
    ((3 + (512 - 1)) / 512) = _
  rw [show (3 + (512 - 1)) / 512 = 1 from by norm_num]

/-- `write_file` on the empty volume first creates the entry for `/A.TXT` and
allocates cluster 2, then runs `_writefile`'s body on it. -/
theorem write_file_create_body (i : Image) (b : List Nat) (h1 : 1 ≤ b.length) :
    (mkC1 (imgWrite i 1536 rootE) fatE).write_file pathATXT b false =
      (mkC1 (imgWrite (imgWrite i 1536 rootE) 1536 root1) fatC1).writefileBody
        1 0 b nameOnlyATXT 0x20 2 1 := by
  unfold FAT12.write_file
  rw [resolvepath_C1_none _ _ rootE (read_rootE i) scan_rootE, M.ok_bind2]
  beta_reduce
  refine M.bind_step _ (some (1, 1, 0),
    mkC1 (imgWrite (imgWrite i 1536 rootE) 1536 root1) fatE) _ _
    (createfile_C1 i) ?_
  show (mkC1 (imgWrite (imgWrite i 1536 rootE) 1536 root1) fatE).writefile
    1 0 b false = _
  unfold FAT12.writefile
  rw [readdirentry_C1 _ _ root1 (read_root1 i), M.ok_bind2]
  beta_reduce
  rw [show parsedirentry (root1.take 32) =
    .ok (.entry nameOnlyATXT 0x20 fixNow 0 0) from by decide, M.ok_bind2]
  beta_reduce
  show (if b.length = 0 then
      pure (mkC1 (imgWrite (imgWrite i 1536 rootE) 1536 root1) fatE)
    else do
      let (c, st1) ←
        (mkC1 (imgWrite (imgWrite i 1536 rootE) 1536 root1) fatE).alloccluster none
      st1.writefileBody 1 0 b nameOnlyATXT 0x20 c 1 : M FAT12) = _
  rw [if_neg (show ¬(b.length = 0) from by omega)]
  refine M.bind_step _ (2, mkC1 (imgWrite (imgWrite i 1536 rootE) 1536 root1) fatC1)
    _ _ ?_ ?_
  · refine M.bind_step _ (some 2) _ _ rfl ?_
    rfl
  show (mkC1 (imgWrite (imgWrite i 1536 rootE) 1536 root1) fatC1).writefileBody
    1 0 b nameOnlyATXT 0x20 2 1 = _
  rfl

/-- The FAT after `/A.TXT` has been rewritten over a chain of 2 clusters (2 → … → 3). -/
def fatC2 : List Nat := [0xFF0, 0xFFF, 3, 0xFFF, 0, 0, 0, 0, 0, 0, 0, 0]

def fatsC2 : List Nat :=
  packFATPairs fatC2 ++ List.replicate (512 - (packFATPairs fatC2).length) 0

def fatImgC2 : List Nat := List.flatten (List.replicate 2 fatsC2)

/-- The disk image after `write_file` stored `b` over 2 clusters. -/
def wImgK2 (x : Image) (b : List Nat) : Image :=
  imgWrite (imgWrite (imgWrite (imgWrite (imgWrite (imgWrite x 2048 (bchunk b 0)) 2560 (bchunk b 512)) 1536 (newroot b)) 11 bpbA) 24 bpbB) 512 fatImgC2

theorem writefat_C2 (i : Image) :
    (mkC1 i fatC2).writefat = .ok (mkC1 (imgWrite i 512 fatImgC2) fatC2) := by
  unfold FAT12.writefat
  norm_num
  rfl

theorem commit_C2 (i : Image) :
    (mkC1 i fatC2).commit = .ok (mkC1 (imgWrite (imgWrite (imgWrite i 11 bpbA)
      24 bpbB) 512 fatImgC2) fatC2) := by
  unfold FAT12.commit
  refine M.bind_step _ (mkC1 i fatC2) _ _ (updatelabel_C1 i fatC2) ?_
  refine M.bind_step _ (mkC1 (imgWrite (imgWrite i 11 bpbA) 24 bpbB) fatC2) _ _
    (writebpb_C1 i fatC2) ?_
  exact writefat_C2 _

/-- `_writefile`'s body on the `/A.TXT` entry with contents spanning 2
clusters: 1 clusters are allocated onto the chain, the data blocks are
written, the entry is rewritten and the volume committed. -/
theorem writefileBody_C1_k2 (x : Image) (rd b : List Nat)
    (h1 : 512 < b.length) (h2 : b.length ≤ 1024)
    (hread : imgRead x 1536 512 = rd)
    (hsplice : listSplice rd 0 (entryA b.length) = newroot b) :
    (mkC1 x fatC1).writefileBody 1 0 b nameOnlyATXT 0x20 2 1 =
      .ok (mkC1 (wImgK2 x b) fatC2) := by
  rw [writefileBody_eq]
  refine M.bind_step _ 2 _ _ rfl ?_
  refine M.bind_step _ (3, mkC1 x fatC2) _ _ ?_ ?_
  · rw [mkC1_bpc]
    rw [show (b.length + (512 - 1)) / 512 - 1 = 1 from by omega]
    show (mkC1 x fatC1).extendChain 2 (0 + 1) = _
    rw [extendChain_succ]
    refine M.bind_step _ (3, mkC1 x fatC2) _ _ rfl ?_
    rfl
  rw [mkC1_bpc]
  rw [show (b.length + (512 - 1)) / 512 = 1 + 1 from by omega]
  refine M.bind_step _ (mkC1 (imgWrite (imgWrite x 2048 (bchunk b 0)) 2560 (bchunk b 512)) fatC2) _ _ ?_ ?_
  · rw [writeChunks_succ]
    rw [if_neg (show ¬¬(2 ≤ 2 ∧ 2 < 0xFF0) from by decide)]
    rw [mkC1_bpc]
    rw [show (b.drop 0).take 512 ++ List.replicate
        (512 - ((b.drop 0).take 512).length) 0 = bchunk b 0 from rfl]
    refine M.bind_step _ (mkC1 (imgWrite x 2048 (bchunk b 0)) fatC2) _ _ ?_ ?_
    · unfold FAT12.writecluster FAT12.write_sectors
      rw [show (mkC1 (x) fatC2).cluster_index 2 * 512 = 2048 from by
        norm_num [FAT12.cluster_index]]
      rw [if_neg (show ¬((2048 : Nat) ≥
          (mkC1 (x) fatC2).capacity) from by norm_num)]
      rw [if_neg (show ¬((bchunk b 0).length ≠
          (mkC1 (x) fatC2).sectors_per_cluster * 512) from by
        rw [bchunk_length]; norm_num)]
      rfl
    refine M.bind_step _ 3 _ _ rfl ?_
    show (mkC1 (imgWrite x 2048 (bchunk b 0)) fatC2).writeChunks b (0 + 1) 3 512 = _
    rw [writeChunks_succ]
    rw [if_neg (show ¬¬(2 ≤ 3 ∧ 3 < 0xFF0) from by decide)]
    rw [mkC1_bpc]
    rw [show (b.drop 512).take 512 ++ List.replicate
        (512 - ((b.drop 512).take 512).length) 0 = bchunk b 512 from rfl]
    refine M.bind_step _ (mkC1 (imgWrite (imgWrite x 2048 (bchunk b 0)) 2560 (bchunk b 512)) fatC2) _ _ ?_ ?_
    · unfold FAT12.writecluster FAT12.write_sectors
      rw [show (mkC1 (imgWrite x 2048 (bchunk b 0)) fatC2).cluster_index 3 * 512 = 2560 from by
        norm_num [FAT12.cluster_index]]
      rw [if_neg (show ¬((2560 : Nat) ≥
          (mkC1 (imgWrite x 2048 (bchunk b 0)) fatC2).capacity) from by norm_num)]
      rw [if_neg (show ¬((bchunk b 512).length ≠
          (mkC1 (imgWrite x 2048 (bchunk b 0)) fatC2).sectors_per_cluster * 512) from by
        rw [bchunk_length]; norm_num)]
      rfl
    refine M.bind_step _ 4095 _ _ rfl ?_
    rfl
  refine M.bind_step _ (mkC1 (imgWrite (imgWrite x 2048 (bchunk b 0)) 2560 (bchunk b 512)) fatC2, 2) _ _ rfl ?_
  refine M.bind_step _ (entryA b.length) _ _ ?_ ?_
  · rw [show (mkC1 (imgWrite (imgWrite x 2048 (bchunk b 0)) 2560 (bchunk b 512)) fatC2).now = fixNow from rfl]
    exact mkdir_entryA b.length (by omega)
  refine M.bind_step _ (mkC1 (imgWrite (imgWrite (imgWrite x 2048 (bchunk b 0)) 2560 (bchunk b 512)) 1536 (newroot b)) fatC2) _ _ ?_ ?_
  · unfold FAT12.writedirentry
    rw [if_neg (show ¬((entryA b.length).length ≠ 32) from by
      rw [show (entryA b.length).length = 32 from rfl]; omega)]
    rw [if_pos rfl]
    rw [rs_root_C1]
    rw [show imgRead (imgWrite (imgWrite x 2048 (bchunk b 0)) 2560 (bchunk b 512)) 1536 512 = rd from by
      rw [imgRead_write_outside _ _ _ _ _ (Or.inl (by norm_num))]
      rw [imgRead_write_outside _ _ _ _ _ (Or.inl (by norm_num))]
      exact hread]
    rw [M.ok_bind2]
    beta_reduce
    rw [hsplice]
    unfold FAT12.write_sectors
    norm_num [show (newroot b).length = 512 from rfl]
    rfl
  show FAT12.commit _ = _
  exact commit_C2 _

/-- `read_file("/A.TXT")` returns exactly `b` on a volume holding `b`
over the 2-cluster chain. -/
theorem read_C1_k2 (i : Image) (b : List Nat)
    (h1 : 512 < b.length) (h2 : b.length ≤ 1024)
    (hroot : imgRead i 1536 512 = newroot b)
    (hd0 : imgRead i 2048 512 = bchunk b 0)
    (hd1 : imgRead i 2560 512 = bchunk b 512)
    : (mkC1 i fatC2).read_file pathATXT = .ok b := by
  obtain ⟨m, hm⟩ : ∃ m, b.length = m + 2 := ⟨b.length - 2, by omega⟩
  unfold FAT12.read_file
  rw [resolvepath_C1 i fatC2 (newroot b) hroot (scan_newroot b (by omega)),
    M.ok_bind2]
  beta_reduce
  show (mkC1 i fatC2).readfile 1 0 = _
  unfold FAT12.readfile
  rw [readdirentry_C1 i fatC2 (newroot b) hroot, M.ok_bind2]
  beta_reduce
  rw [show (newroot b).take 32 = entryA b.length from rfl]
  rw [parse_entryA b.length (by omega), M.ok_bind2]
  beta_reduce
  show (mkC1 i fatC2).readChunks 512 b.length (b.length + 1) 2 0 = _
  rw [hm]
  rw [readChunks_succ]
  rw [if_neg (show ¬((512 : Nat) = 0) from by decide)]
  rw [if_pos (show 0 < m + 2 from by omega)]
  refine M.bind_step _ (bchunk b 0) _ _ ?_ ?_
  · unfold FAT12.readcluster FAT12.read_sectors
    norm_num [FAT12.cluster_index]
    rw [hd0]
    rfl
  refine M.bind_step _ 3 _ _ rfl ?_
  refine M.bind_step _ (b.drop 512) _ _ ?_ ?_
  · show (mkC1 i fatC2).readChunks 512 (m + 2) ((m + 1) + 1) 3 512 =
        .ok (b.drop 512)
    rw [readChunks_succ]
    rw [if_neg (show ¬((512 : Nat) = 0) from by decide)]
    rw [if_pos (show 512 < m + 2 from by omega)]
    refine M.bind_step _ (bchunk b 512) _ _ ?_ ?_
    · unfold FAT12.readcluster FAT12.read_sectors
      norm_num [FAT12.cluster_index]
      rw [hd1]
      rfl
    refine M.bind_step _ 4095 _ _ rfl ?_
    refine M.bind_step _ ([] : List Nat) _ _ ?_ ?_
    · show (mkC1 i fatC2).readChunks 512 (m + 2) (m + 1) 4095 1024 = .ok []
      rw [readChunks_succ]
      rw [if_neg (show ¬((512 : Nat) = 0) from by decide)]
      rw [if_neg (show ¬(1024 < m + 2) from by omega)]
      rfl
    rw [List.append_nil]
    rw [show (bchunk b 512).take (m + 2 - 512) = b.drop 512 from by
      have hx := bchunk_take_last b 512 (by omega)
      rw [hm] at hx
      exact hx]
    rfl
  rw [show (bchunk b 0).take (m + 2 - 0) = b.take 512 from by
    have hx := bchunk_take_full b 0 (m + 2 - 0) (by omega) (by omega)
    rw [List.drop_zero] at hx
    exact hx]
  rw [show b.take 512 ++ b.drop 512 = b from List.take_append_drop 512 b]
  rfl

theorem wImgK2_root (x : Image) (b : List Nat) :
    imgRead (wImgK2 x b) 1536 512 = newroot b := by
  unfold wImgK2
  rw [imgRead_write_outside _ _ _ _ _ (Or.inr (by decide))]
  rw [imgRead_write_outside _ _ _ _ _ (Or.inr (by decide))]
  rw [imgRead_write_outside _ _ _ _ _ (Or.inr (by decide))]
  rw [imgRead_write_inside _ _ _ _ _ (le_refl _)
    (by rw [show (newroot b).length = 512 from rfl])]
  rw [Nat.sub_self, List.drop_zero,
    List.take_of_length_le (le_of_eq (show (newroot b).length = 512 from rfl))]

theorem wImgK2_data0 (x : Image) (b : List Nat) :
    imgRead (wImgK2 x b) 2048 512 = bchunk b 0 := by
  unfold wImgK2
  rw [imgRead_write_outside _ _ _ _ _ (Or.inr (by decide))]
  rw [imgRead_write_outside _ _ _ _ _ (Or.inr (by decide))]
  rw [imgRead_write_outside _ _ _ _ _ (Or.inr (by decide))]
  rw [imgRead_write_outside _ _ _ _ _ (Or.inr (by
    norm_num [show (newroot b).length = 512 from rfl]))]
  rw [imgRead_write_outside _ _ _ _ _ (Or.inl (by norm_num))]
  rw [imgRead_write_inside _ _ _ _ _ (le_refl _) (by rw [bchunk_length])]
  rw [Nat.sub_self, List.drop_zero,
    List.take_of_length_le (le_of_eq (bchunk_length b 0))]

theorem wImgK2_data1 (x : Image) (b : List Nat) :
    imgRead (wImgK2 x b) 2560 512 = bchunk b 512 := by
  unfold wImgK2
  rw [imgRead_write_outside _ _ _ _ _ (Or.inr (by decide))]
  rw [imgRead_write_outside _ _ _ _ _ (Or.inr (by decide))]
  rw [imgRead_write_outside _ _ _ _ _ (Or.inr (by decide))]
  rw [imgRead_write_outside _ _ _ _ _ (Or.inr (by
    norm_num [show (newroot b).length = 512 from rfl]))]
  rw [imgRead_write_inside _ _ _ _ _ (le_refl _) (by rw [bchunk_length])]
  rw [Nat.sub_self, List.drop_zero,
    List.take_of_length_le (le_of_eq (bchunk_length b 512))]

theorem roundtrip_over_k2 (i : Image) (b : List Nat)
    (h1 : 512 < b.length) (h2 : b.length ≤ 1024) :
    ∃ st', (mkC1 (imgWrite i 1536 root0) fatC1).write_file pathATXT b false =
        .ok st' ∧ st'.read_file pathATXT = .ok b :=
  ⟨_, by
      rw [write_file_over_body i b]
      exact writefileBody_C1_k2 _ root0 b h1 h2 (read_root0 i) rfl,
    read_C1_k2 _ b h1 h2 (wImgK2_root _ b)
      (wImgK2_data0 _ b) (wImgK2_data1 _ b)⟩

theorem roundtrip_create_k2 (i : Image) (b : List Nat)
    (h1 : 512 < b.length) (h2 : b.length ≤ 1024) :
    ∃ st', (mkC1 (imgWrite i 1536 rootE) fatE).write_file pathATXT b false =
        .ok st' ∧ st'.read_file pathATXT = .ok b :=
  ⟨_, by
      rw [write_file_create_body i b (by omega)]
      exact writefileBody_C1_k2 _ root1 b h1 h2 (read_root1 i) rfl,
    read_C1_k2 _ b h1 h2 (wImgK2_root _ b)
      (wImgK2_data0 _ b) (wImgK2_data1 _ b)⟩

/-- The FAT after `/A.TXT` has been rewritten over a chain of 3 clusters (2 → … → 4). -/
def fatC3 : List Nat := [0xFF0, 0xFFF, 3, 4, 0xFFF, 0, 0, 0, 0, 0, 0, 0]

def fatsC3 : List Nat :=
  packFATPairs fatC3 ++ List.replicate (512 - (packFATPairs fatC3).length) 0

def fatImgC3 : List Nat := List.flatten (List.replicate 2 fatsC3)

/-- The disk image after `write_file` stored `b` over 3 clusters. -/
def wImgK3 (x : Image) (b : List Nat) : Image :=
  imgWrite (imgWrite (imgWrite (imgWrite (imgWrite (imgWrite (imgWrite x 2048 (bchunk b 0)) 2560 (bchunk b 512)) 3072 (bchunk b 1024)) 1536 (newroot b)) 11 bpbA) 24 bpbB) 512 fatImgC3

theorem writefat_C3 (i : Image) :
    (mkC1 i fatC3).writefat = .ok (mkC1 (imgWrite i 512 fatImgC3) fatC3) := by
  unfold FAT12.writefat
  norm_num
  rfl

theorem commit_C3 (i : Image) :
    (mkC1 i fatC3).commit = .ok (mkC1 (imgWrite (imgWrite (imgWrite i 11 bpbA)
      24 bpbB) 512 fatImgC3) fatC3) := by
  unfold FAT12.commit
  refine M.bind_step _ (mkC1 i fatC3) _ _ (updatelabel_C1 i fatC3) ?_
  refine M.bind_step _ (mkC1 (imgWrite (imgWrite i 11 bpbA) 24 bpbB) fatC3) _ _
    (writebpb_C1 i fatC3) ?_
  exact writefat_C3 _

/-- `_writefile`'s body on the `/A.TXT` entry with contents spanning 3
clusters: 2 clusters are allocated onto the chain, the data blocks are
written, the entry is rewritten and the volume committed. -/
theorem writefileBody_C1_k3 (x : Image) (rd b : List Nat)
    (h1 : 1024 < b.length) (h2 : b.length ≤ 1536)
    (hread : imgRead x 1536 512 = rd)
    (hsplice : listSplice rd 0 (entryA b.length) = newroot b) :
    (mkC1 x fatC1).writefileBody 1 0 b nameOnlyATXT 0x20 2 1 =
      .ok (mkC1 (wImgK3 x b) fatC3) := by
  rw [writefileBody_eq]
  refine M.bind_step _ 2 _ _ rfl ?_
  refine M.bind_step _ (4, mkC1 x fatC3) _ _ ?_ ?_
  · rw [mkC1_bpc]
    rw [show (b.length + (512 - 1)) / 512 - 1 = 2 from by omega]
    show (mkC1 x fatC1).extendChain 2 (1 + 1) = _
    rw [extendChain_succ]
    refine M.bind_step _ (3, mkC1 x fatC2) _ _ rfl ?_
    show (mkC1 x fatC2).extendChain 3 (0 + 1) = _
    rw [extendChain_succ]
    refine M.bind_step _ (4, mkC1 x fatC3) _ _ rfl ?_
    rfl
  rw [mkC1_bpc]
  rw [show (b.length + (512 - 1)) / 512 = 2 + 1 from by omega]
  refine M.bind_step _ (mkC1 (imgWrite (imgWrite (imgWrite x 2048 (bchunk b 0)) 2560 (bchunk b 512)) 3072 (bchunk b 1024)) fatC3) _ _ ?_ ?_
  · rw [writeChunks_succ]
    rw [if_neg (show ¬¬(2 ≤ 2 ∧ 2 < 0xFF0) from by decide)]
    rw [mkC1_bpc]
    rw [show (b.drop 0).take 512 ++ List.replicate
        (512 - ((b.drop 0).take 512).length) 0 = bchunk b 0 from rfl]
    refine M.bind_step _ (mkC1 (imgWrite x 2048 (bchunk b 0)) fatC3) _ _ ?_ ?_
    · unfold FAT12.writecluster FAT12.write_sectors
      rw [show (mkC1 (x) fatC3).cluster_index 2 * 512 = 2048 from by
        norm_num [FAT12.cluster_index]]
      rw [if_neg (show ¬((2048 : Nat) ≥
          (mkC1 (x) fatC3).capacity) from by norm_num)]
      rw [if_neg (show ¬((bchunk b 0).length ≠
          (mkC1 (x) fatC3).sectors_per_cluster * 512) from by
        rw [bchunk_length]; norm_num)]
      rfl
    refine M.bind_step _ 3 _ _ rfl ?_
    show (mkC1 (imgWrite x 2048 (bchunk b 0)) fatC3).writeChunks b (1 + 1) 3 512 = _
    rw [writeChunks_succ]
    rw [if_neg (show ¬¬(2 ≤ 3 ∧ 3 < 0xFF0) from by decide)]
    rw [mkC1_bpc]
    rw [show (b.drop 512).take 512 ++ List.replicate
        (512 - ((b.drop 512).take 512).length) 0 = bchunk b 512 from rfl]
    refine M.bind_step _ (mkC1 (imgWrite (imgWrite x 2048 (bchunk b 0)) 2560 (bchunk b 512)) fatC3) _ _ ?_ ?_
    · unfold FAT12.writecluster FAT12.write_sectors
      rw [show (mkC1 (imgWrite x 2048 (bchunk b 0)) fatC3).cluster_index 3 * 512 = 2560 from by
        norm_num [FAT12.cluster_index]]
      rw [if_neg (show ¬((2560 : Nat) ≥
          (mkC1 (imgWrite x 2048 (bchunk b 0)) fatC3).capacity) from by norm_num)]
      rw [if_neg (show ¬((bchunk b 512).length ≠
          (mkC1 (imgWrite x 2048 (bchunk b 0)) fatC3).sectors_per_cluster * 512) from by
        rw [bchunk_length]; norm_num)]
      rfl
    refine M.bind_step _ 4 _ _ rfl ?_
    show (mkC1 (imgWrite (imgWrite x 2048 (bchunk b 0)) 2560 (bchunk b 512)) fatC3).writeChunks b (0 + 1) 4 1024 = _
    rw [writeChunks_succ]
    rw [if_neg (show ¬¬(2 ≤ 4 ∧ 4 < 0xFF0) from by decide)]
    rw [mkC1_bpc]
    rw [show (b.drop 1024).take 512 ++ List.replicate
        (512 - ((b.drop 1024).take 512).length) 0 = bchunk b 1024 from rfl]
    refine M.bind_step _ (mkC1 (imgWrite (imgWrite (imgWrite x 2048 (bchunk b 0)) 2560 (bchunk b 512)) 3072 (bchunk b 1024)) fatC3) _ _ ?_ ?_
    · unfold FAT12.writecluster FAT12.write_sectors
      rw [show (mkC1 (imgWrite (imgWrite x 2048 (bchunk b 0)) 2560 (bchunk b 512)) fatC3).cluster_index 4 * 512 = 3072 from by
        norm_num [FAT12.cluster_index]]
      rw [if_neg (show ¬((3072 : Nat) ≥
          (mkC1 (imgWrite (imgWrite x 2048 (bchunk b 0)) 2560 (bchunk b 512)) fatC3).capacity) from by norm_num)]
      rw [if_neg (show ¬((bchunk b 1024).length ≠
          (mkC1 (imgWrite (imgWrite x 2048 (bchunk b 0)) 2560 (bchunk b 512)) fatC3).sectors_per_cluster * 512) from by
        rw [bchunk_length]; norm_num)]
      rfl
    refine M.bind_step _ 4095 _ _ rfl ?_
    rfl
  refine M.bind_step _ (mkC1 (imgWrite (imgWrite (imgWrite x 2048 (bchunk b 0)) 2560 (bchunk b 512)) 3072 (bchunk b 1024)) fatC3, 2) _ _ rfl ?_
  refine M.bind_step _ (entryA b.length) _ _ ?_ ?_
  · rw [show (mkC1 (imgWrite (imgWrite (imgWrite x 2048 (bchunk b 0)) 2560 (bchunk b 512)) 3072 (bchunk b 1024)) fatC3).now = fixNow from rfl]
    exact mkdir_entryA b.length (by omega)
  refine M.bind_step _ (mkC1 (imgWrite (imgWrite (imgWrite (imgWrite x 2048 (bchunk b 0)) 2560 (bchunk b 512)) 3072 (bchunk b 1024)) 1536 (newroot b)) fatC3) _ _ ?_ ?_
  · unfold FAT12.writedirentry
    rw [if_neg (show ¬((entryA b.length).length ≠ 32) from by
      rw [show (entryA b.length).length = 32 from rfl]; omega)]
    rw [if_pos rfl]
    rw [rs_root_C1]
    rw [show imgRead (imgWrite (imgWrite (imgWrite x 2048 (bchunk b 0)) 2560 (bchunk b 512)) 3072 (bchunk b 1024)) 1536 512 = rd from by
      rw [imgRead_write_outside _ _ _ _ _ (Or.inl (by norm_num))]
      rw [imgRead_write_outside _ _ _ _ _ (Or.inl (by norm_num))]
      rw [imgRead_write_outside _ _ _ _ _ (Or.inl (by norm_num))]
      exact hread]
    rw [M.ok_bind2]
    beta_reduce
    rw [hsplice]
    unfold FAT12.write_sectors
    norm_num [show (newroot b).length = 512 from rfl]
    rfl
  show FAT12.commit _ = _
  exact commit_C3 _

/-- `read_file("/A.TXT")` returns exactly `b` on a volume holding `b`
over the 3-cluster chain. -/
theorem read_C1_k3 (i : Image) (b : List Nat)
    (h1 : 1024 < b.length) (h2 : b.length ≤ 1536)
    (hroot : imgRead i 1536 512 = newroot b)
    (hd0 : imgRead i 2048 512 = bchunk b 0)
    (hd1 : imgRead i 2560 512 = bchunk b 512)
    (hd2 : imgRead i 3072 512 = bchunk b 1024)
    : (mkC1 i fatC3).read_file pathATXT = .ok b := by
  obtain ⟨m, hm⟩ : ∃ m, b.length = m + 3 := ⟨b.length - 3, by omega⟩
  unfold FAT12.read_file
  rw [resolvepath_C1 i fatC3 (newroot b) hroot (scan_newroot b (by omega)),
    M.ok_bind2]
  beta_reduce
  show (mkC1 i fatC3).readfile 1 0 = _
  unfold FAT12.readfile
  rw [readdirentry_C1 i fatC3 (newroot b) hroot, M.ok_bind2]
  beta_reduce
  rw [show (newroot b).take 32 = entryA b.length from rfl]
  rw [parse_entryA b.length (by omega), M.ok_bind2]
  beta_reduce
  show (mkC1 i fatC3).readChunks 512 b.length (b.length + 1) 2 0 = _
  rw [hm]
  rw [readChunks_succ]
  rw [if_neg (show ¬((512 : Nat) = 0) from by decide)]
  rw [if_pos (show 0 < m + 3 from by omega)]
  refine M.bind_step _ (bchunk b 0) _ _ ?_ ?_
  · unfold FAT12.readcluster FAT12.read_sectors
    norm_num [FAT12.cluster_index]
    rw [hd0]
    rfl
  refine M.bind_step _ 3 _ _ rfl ?_
  refine M.bind_step _ (b.drop 512) _ _ ?_ ?_
  · show (mkC1 i fatC3).readChunks 512 (m + 3) ((m + 2) + 1) 3 512 =
        .ok (b.drop 512)
    rw [readChunks_succ]
    rw [if_neg (show ¬((512 : Nat) = 0) from by decide)]
    rw [if_pos (show 512 < m + 3 from by omega)]
    refine M.bind_step _ (bchunk b 512) _ _ ?_ ?_
    · unfold FAT12.readcluster FAT12.read_sectors
      norm_num [FAT12.cluster_index]
      rw [hd1]
      rfl
    refine M.bind_step _ 4 _ _ rfl ?_
    refine M.bind_step _ (b.drop 1024) _ _ ?_ ?_
    · show (mkC1 i fatC3).readChunks 512 (m + 3) ((m + 1) + 1) 4 1024 =
          .ok (b.drop 1024)
      rw [readChunks_succ]
      rw [if_neg (show ¬((512 : Nat) = 0) from by decide)]
      rw [if_pos (show 1024 < m + 3 from by omega)]
      refine M.bind_step _ (bchunk b 1024) _ _ ?_ ?_
      · unfold FAT12.readcluster FAT12.read_sectors
        norm_num [FAT12.cluster_index]
        rw [hd2]
        rfl
      refine M.bind_step _ 4095 _ _ rfl ?_
      refine M.bind_step _ ([] : List Nat) _ _ ?_ ?_
      · show (mkC1 i fatC3).readChunks 512 (m + 3) (m + 1) 4095 1536 = .ok []
        rw [readChunks_succ]
        rw [if_neg (show ¬((512 : Nat) = 0) from by decide)]
        rw [if_neg (show ¬(1536 < m + 3) from by omega)]
        rfl
      rw [List.append_nil]
      rw [show (bchunk b 1024).take (m + 3 - 1024) = b.drop 1024 from by
        have hx := bchunk_take_last b 1024 (by omega)
        rw [hm] at hx
        exact hx]
      rfl
    rw [show (bchunk b 512).take (m + 3 - 512) = (b.drop 512).take 512 from
      bchunk_take_full b 512 (m + 3 - 512) (by omega) (by omega)]
    rw [show (b.drop 512).take 512 ++ b.drop 1024 = b.drop 512 from by
      have hg := drop_glue b 512
      rw [show (512 : Nat) + 512 = 1024 from rfl] at hg
      exact hg]
    rfl
  rw [show (bchunk b 0).take (m + 3 - 0) = b.take 512 from by
    have hx := bchunk_take_full b 0 (m + 3 - 0) (by omega) (by omega)
    rw [List.drop_zero] at hx
    exact hx]
  rw [show b.take 512 ++ b.drop 512 = b from List.take_append_drop 512 b]
  rfl

theorem wImgK3_root (x : Image) (b : List Nat) :
    imgRead (wImgK3 x b) 1536 512 = newroot b := by
  unfold wImgK3
  rw [imgRead_write_outside _ _ _ _ _ (Or.inr (by decide))]
  rw [imgRead_write_outside _ _ _ _ _ (Or.inr (by decide))]
  rw [imgRead_write_outside _ _ _ _ _ (Or.inr (by decide))]
  rw [imgRead_write_inside _ _ _ _ _ (le_refl _)
    (by rw [show (newroot b).length = 512 from rfl])]
  rw [Nat.sub_self, List.drop_zero,
    List.take_of_length_le (le_of_eq (show (newroot b).length = 512 from rfl))]

theorem wImgK3_data0 (x : Image) (b : List Nat) :
    imgRead (wImgK3 x b) 2048 512 = bchunk b 0 := by
  unfold wImgK3
  rw [imgRead_write_outside _ _ _ _ _ (Or.inr (by decide))]
  rw [imgRead_write_outside _ _ _ _ _ (Or.inr (by decide))]
  rw [imgRead_write_outside _ _ _ _ _ (Or.inr (by decide))]
  rw [imgRead_write_outside _ _ _ _ _ (Or.inr (by
    norm_num [show (newroot b).length = 512 from rfl]))]
  rw [imgRead_write_outside _ _ _ _ _ (Or.inl (by norm_num))]
  rw [imgRead_write_outside _ _ _ _ _ (Or.inl (by norm_num))]
  rw [imgRead_write_inside _ _ _ _ _ (le_refl _) (by rw [bchunk_length])]
  rw [Nat.sub_self, List.drop_zero,
    List.take_of_length_le (le_of_eq (bchunk_length b 0))]

theorem wImgK3_data1 (x : Image) (b : List Nat) :
    imgRead (wImgK3 x b) 2560 512 = bchunk b 512 := by
  unfold wImgK3
  rw [imgRead_write_outside _ _ _ _ _ (Or.inr (by decide))]
  rw [imgRead_write_outside _ _ _ _ _ (Or.inr (by decide))]
  rw [imgRead_write_outside _ _ _ _ _ (Or.inr (by decide))]
  rw [imgRead_write_outside _ _ _ _ _ (Or.inr (by
    norm_num [show (newroot b).length = 512 from rfl]))]
  rw [imgRead_write_outside _ _ _ _ _ (Or.inl (by norm_num))]
  rw [imgRead_write_inside _ _ _ _ _ (le_refl _) (by rw [bchunk_length])]
  rw [Nat.sub_self, List.drop_zero,
    List.take_of_length_le (le_of_eq (bchunk_length b 512))]

theorem wImgK3_data2 (x : Image) (b : List Nat) :
    imgRead (wImgK3 x b) 3072 512 = bchunk b 1024 := by
  unfold wImgK3
  rw [imgRead_write_outside _ _ _ _ _ (Or.inr (by decide))]
  rw [imgRead_write_outside _ _ _ _ _ (Or.inr (by decide))]
  rw [imgRead_write_outside _ _ _ _ _ (Or.inr (by decide))]
  rw [imgRead_write_outside _ _ _ _ _ (Or.inr (by
    norm_num [show (newroot b).length = 512 from rfl]))]
  rw [imgRead_write_inside _ _ _ _ _ (le_refl _) (by rw [bchunk_length])]
  rw [Nat.sub_self, List.drop_zero,
    List.take_of_length_le (le_of_eq (bchunk_length b 1024))]

theorem roundtrip_over_k3 (i : Image) (b : List Nat)
    (h1 : 1024 < b.length) (h2 : b.length ≤ 1536) :
    ∃ st', (mkC1 (imgWrite i 1536 root0) fatC1).write_file pathATXT b false =
        .ok st' ∧ st'.read_file pathATXT = .ok b :=
  ⟨_, by
      rw [write_file_over_body i b]
      exact writefileBody_C1_k3 _ root0 b h1 h2 (read_root0 i) rfl,
    read_C1_k3 _ b h1 h2 (wImgK3_root _ b)
      (wImgK3_data0 _ b) (wImgK3_data1 _ b) (wImgK3_data2 _ b)⟩

theorem roundtrip_create_k3 (i : Image) (b : List Nat)
    (h1 : 1024 < b.length) (h2 : b.length ≤ 1536) :
    ∃ st', (mkC1 (imgWrite i 1536 rootE) fatE).write_file pathATXT b false =
        .ok st' ∧ st'.read_file pathATXT = .ok b :=
  ⟨_, by
      rw [write_file_create_body i b (by omega)]
      exact writefileBody_C1_k3 _ root1 b h1 h2 (read_root1 i) rfl,
    read_C1_k3 _ b h1 h2 (wImgK3_root _ b)
      (wImgK3_data0 _ b) (wImgK3_data1 _ b) (wImgK3_data2 _ b)⟩

/-- The FAT after `/A.TXT` has been rewritten over a chain of 4 clusters (2 → … → 5). -/
def fatC4 : List Nat := [0xFF0, 0xFFF, 3, 4, 5, 0xFFF, 0, 0, 0, 0, 0, 0]

def fatsC4 : List Nat :=
  packFATPairs fatC4 ++ List.replicate (512 - (packFATPairs fatC4).length) 0

def fatImgC4 : List Nat := List.flatten (List.replicate 2 fatsC4)

/-- The disk image after `write_file` stored `b` over 4 clusters. -/
def wImgK4 (x : Image) (b : List Nat) : Image :=
  imgWrite (imgWrite (imgWrite (imgWrite (imgWrite (imgWrite (imgWrite (imgWrite x 2048 (bchunk b 0)) 2560 (bchunk b 512)) 3072 (bchunk b 1024)) 3584 (bchunk b 1536)) 1536 (newroot b)) 11 bpbA) 24 bpbB) 512 fatImgC4

theorem writefat_C4 (i : Image) :
    (mkC1 i fatC4).writefat = .ok (mkC1 (imgWrite i 512 fatImgC4) fatC4) := by
  unfold FAT12.writefat
  norm_num
  rfl

theorem commit_C4 (i : Image) :
    (mkC1 i fatC4).commit = .ok (mkC1 (imgWrite (imgWrite (imgWrite i 11 bpbA)
      24 bpbB) 512 fatImgC4) fatC4) := by
  unfold FAT12.commit
  refine M.bind_step _ (mkC1 i fatC4) _ _ (updatelabel_C1 i fatC4) ?_
  refine M.bind_step _ (mkC1 (imgWrite (imgWrite i 11 bpbA) 24 bpbB) fatC4) _ _
    (writebpb_C1 i fatC4) ?_
  exact writefat_C4 _

/-- `_writefile`'s body on the `/A.TXT` entry with contents spanning 4
clusters: 3 clusters are allocated onto the chain, the data blocks are
written, the entry is rewritten and the volume committed. -/
theorem writefileBody_C1_k4 (x : Image) (rd b : List Nat)
    (h1 : 1536 < b.length) (h2 : b.length ≤ 2048)
    (hread : imgRead x 1536 512 = rd)
    (hsplice : listSplice rd 0 (entryA b.length) = newroot b) :
    (mkC1 x fatC1).writefileBody 1 0 b nameOnlyATXT 0x20 2 1 =
      .ok (mkC1 (wImgK4 x b) fatC4) := by
  rw [writefileBody_eq]
  refine M.bind_step _ 2 _ _ rfl ?_
  refine M.bind_step _ (5, mkC1 x fatC4) _ _ ?_ ?_
  · rw [mkC1_bpc]
    rw [show (b.length + (512 - 1)) / 512 - 1 = 3 from by omega]
    show (mkC1 x fatC1).extendChain 2 (2 + 1) = _
    rw [extendChain_succ]
    refine M.bind_step _ (3, mkC1 x fatC2) _ _ rfl ?_
    show (mkC1 x fatC2).extendChain 3 (1 + 1) = _
    rw [extendChain_succ]
    refine M.bind_step _ (4, mkC1 x fatC3) _ _ rfl ?_
    show (mkC1 x fatC3).extendChain 4 (0 + 1) = _
    rw [extendChain_succ]
    refine M.bind_step _ (5, mkC1 x fatC4) _ _ rfl ?_
    rfl
  rw [mkC1_bpc]
  rw [show (b.length + (512 - 1)) / 512 = 3 + 1 from by omega]
  refine M.bind_step _ (mkC1 (imgWrite (imgWrite (imgWrite (imgWrite x 2048 (bchunk b 0)) 2560 (bchunk b 512)) 3072 (bchunk b 1024)) 3584 (bchunk b 1536)) fatC4) _ _ ?_ ?_
  · rw [writeChunks_succ]
    rw [if_neg (show ¬¬(2 ≤ 2 ∧ 2 < 0xFF0) from by decide)]
    rw [mkC1_bpc]
    rw [show (b.drop 0).take 512 ++ List.replicate
        (512 - ((b.drop 0).take 512).length) 0 = bchunk b 0 from rfl]
    refine M.bind_step _ (mkC1 (imgWrite x 2048 (bchunk b 0)) fatC4) _ _ ?_ ?_
    · unfold FAT12.writecluster FAT12.write_sectors
      rw [show (mkC1 (x) fatC4).cluster_index 2 * 512 = 2048 from by
        norm_num [FAT12.cluster_index]]
      rw [if_neg (show ¬((2048 : Nat) ≥
          (mkC1 (x) fatC4).capacity) from by norm_num)]
      rw [if_neg (show ¬((bchunk b 0).length ≠
          (mkC1 (x) fatC4).sectors_per_cluster * 512) from by
        rw [bchunk_length]; norm_num)]
      rfl
    refine M.bind_step _ 3 _ _ rfl ?_
    show (mkC1 (imgWrite x 2048 (bchunk b 0)) fatC4).writeChunks b (2 + 1) 3 512 = _
    rw [writeChunks_succ]
    rw [if_neg (show ¬¬(2 ≤ 3 ∧ 3 < 0xFF0) from by decide)]
    rw [mkC1_bpc]
    rw [show (b.drop 512).take 512 ++ List.replicate
        (512 - ((b.drop 512).take 512).length) 0 = bchunk b 512 from rfl]
    refine M.bind_step _ (mkC1 (imgWrite (imgWrite x 2048 (bchunk b 0)) 2560 (bchunk b 512)) fatC4) _ _ ?_ ?_
    · unfold FAT12.writecluster FAT12.write_sectors
      rw [show (mkC1 (imgWrite x 2048 (bchunk b 0)) fatC4).cluster_index 3 * 512 = 2560 from by
        norm_num [FAT12.cluster_index]]
      rw [if_neg (show ¬((2560 : Nat) ≥
          (mkC1 (imgWrite x 2048 (bchunk b 0)) fatC4).capacity) from by norm_num)]
      rw [if_neg (show ¬((bchunk b 512).length ≠
          (mkC1 (imgWrite x 2048 (bchunk b 0)) fatC4).sectors_per_cluster * 512) from by
        rw [bchunk_length]; norm_num)]
      rfl
    refine M.bind_step _ 4 _ _ rfl ?_
    show (mkC1 (imgWrite (imgWrite x 2048 (bchunk b 0)) 2560 (bchunk b 512)) fatC4).writeChunks b (1 + 1) 4 1024 = _
    rw [writeChunks_succ]
    rw [if_neg (show ¬¬(2 ≤ 4 ∧ 4 < 0xFF0) from by decide)]
    rw [mkC1_bpc]
    rw [show (b.drop 1024).take 512 ++ List.replicate
        (512 - ((b.drop 1024).take 512).length) 0 = bchunk b 1024 from rfl]
    refine M.bind_step _ (mkC1 (imgWrite (imgWrite (imgWrite x 2048 (bchunk b 0)) 2560 (bchunk b 512)) 3072 (bchunk b 1024)) fatC4) _ _ ?_ ?_
    · unfold FAT12.writecluster FAT12.write_sectors
      rw [show (mkC1 (imgWrite (imgWrite x 2048 (bchunk b 0)) 2560 (bchunk b 512)) fatC4).cluster_index 4 * 512 = 3072 from by
        norm_num [FAT12.cluster_index]]
      rw [if_neg (show ¬((3072 : Nat) ≥
          (mkC1 (imgWrite (imgWrite x 2048 (bchunk b 0)) 2560 (bchunk b 512)) fatC4).capacity) from by norm_num)]
      rw [if_neg (show ¬((bchunk b 1024).length ≠
          (mkC1 (imgWrite (imgWrite x 2048 (bchunk b 0)) 2560 (bchunk b 512)) fatC4).sectors_per_cluster * 512) from by
        rw [bchunk_length]; norm_num)]
      rfl
    refine M.bind_step _ 5 _ _ rfl ?_
    show (mkC1 (imgWrite (imgWrite (imgWrite x 2048 (bchunk b 0)) 2560 (bchunk b 512)) 3072 (bchunk b 1024)) fatC4).writeChunks b (0 + 1) 5 1536 = _
    rw [writeChunks_succ]
    rw [if_neg (show ¬¬(2 ≤ 5 ∧ 5 < 0xFF0) from by decide)]
    rw [mkC1_bpc]
    rw [show (b.drop 1536).take 512 ++ List.replicate
        (512 - ((b.drop 1536).take 512).length) 0 = bchunk b 1536 from rfl]
    refine M.bind_step _ (mkC1 (imgWrite (imgWrite (imgWrite (imgWrite x 2048 (bchunk b 0)) 2560 (bchunk b 512)) 3072 (bchunk b 1024)) 3584 (bchunk b 1536)) fatC4) _ _ ?_ ?_
    · unfold FAT12.writecluster FAT12.write_sectors
      rw [show (mkC1 (imgWrite (imgWrite (imgWrite x 2048 (bchunk b 0)) 2560 (bchunk b 512)) 3072 (bchunk b 1024)) fatC4).cluster_index 5 * 512 = 3584 from by
        norm_num [FAT12.cluster_index]]
      rw [if_neg (show ¬((3584 : Nat) ≥
          (mkC1 (imgWrite (imgWrite (imgWrite x 2048 (bchunk b 0)) 2560 (bchunk b 512)) 3072 (bchunk b 1024)) fatC4).capacity) from by norm_num)]
      rw [if_neg (show ¬((bchunk b 1536).length ≠
          (mkC1 (imgWrite (imgWrite (imgWrite x 2048 (bchunk b 0)) 2560 (bchunk b 512)) 3072 (bchunk b 1024)) fatC4).sectors_per_cluster * 512) from by
        rw [bchunk_length]; norm_num)]
      rfl
    refine M.bind_step _ 4095 _ _ rfl ?_
    rfl
  refine M.bind_step _ (mkC1 (imgWrite (imgWrite (imgWrite (imgWrite x 2048 (bchunk b 0)) 2560 (bchunk b 512)) 3072 (bchunk b 1024)) 3584 (bchunk b 1536)) fatC4, 2) _ _ rfl ?_
  refine M.bind_step _ (entryA b.length) _ _ ?_ ?_
  · rw [show (mkC1 (imgWrite (imgWrite (imgWrite (imgWrite x 2048 (bchunk b 0)) 2560 (bchunk b 512)) 3072 (bchunk b 1024)) 3584 (bchunk b 1536)) fatC4).now = fixNow from rfl]
    exact mkdir_entryA b.length (by omega)
  refine M.bind_step _ (mkC1 (imgWrite (imgWrite (imgWrite (imgWrite (imgWrite x 2048 (bchunk b 0)) 2560 (bchunk b 512)) 3072 (bchunk b 1024)) 3584 (bchunk b 1536)) 1536 (newroot b)) fatC4) _ _ ?_ ?_
  · unfold FAT12.writedirentry
    rw [if_neg (show ¬((entryA b.length).length ≠ 32) from by
      rw [show (entryA b.length).length = 32 from rfl]; omega)]
    rw [if_pos rfl]
    rw [rs_root_C1]
    rw [show imgRead (imgWrite (imgWrite (imgWrite (imgWrite x 2048 (bchunk b 0)) 2560 (bchunk b 512)) 3072 (bchunk b 1024)) 3584 (bchunk b 1536)) 1536 512 = rd from by
      rw [imgRead_write_outside _ _ _ _ _ (Or.inl (by norm_num))]
      rw [imgRead_write_outside _ _ _ _ _ (Or.inl (by norm_num))]
      rw [imgRead_write_outside _ _ _ _ _ (Or.inl (by norm_num))]
      rw [imgRead_write_outside _ _ _ _ _ (Or.inl (by norm_num))]
      exact hread]
    rw [M.ok_bind2]
    beta_reduce
    rw [hsplice]
    unfold FAT12.write_sectors
    norm_num [show (newroot b).length = 512 from rfl]
    rfl
  show FAT12.commit _ = _
  exact commit_C4 _

/-- `read_file("/A.TXT")` returns exactly `b` on a volume holding `b`
over the 4-cluster chain. -/
theorem read_C1_k4 (i : Image) (b : List Nat)
    (h1 : 1536 < b.length) (h2 : b.length ≤ 2048)
    (hroot : imgRead i 1536 512 = newroot b)
    (hd0 : imgRead i 2048 512 = bchunk b 0)
    (hd1 : imgRead i 2560 512 = bchunk b 512)
    (hd2 : imgRead i 3072 512 = bchunk b 1024)
    (hd3 : imgRead i 3584 512 = bchunk b 1536)
    : (mkC1 i fatC4).read_file pathATXT = .ok b := by
  obtain ⟨m, hm⟩ : ∃ m, b.length = m + 4 := ⟨b.length - 4, by omega⟩
  unfold FAT12.read_file
  rw [resolvepath_C1 i fatC4 (newroot b) hroot (scan_newroot b (by omega)),
    M.ok_bind2]
  beta_reduce
  show (mkC1 i fatC4).readfile 1 0 = _
  unfold FAT12.readfile
  rw [readdirentry_C1 i fatC4 (newroot b) hroot, M.ok_bind2]
  beta_reduce
  rw [show (newroot b).take 32 = entryA b.length from rfl]
  rw [parse_entryA b.length (by omega), M.ok_bind2]
  beta_reduce
  show (mkC1 i fatC4).readChunks 512 b.length (b.length + 1) 2 0 = _
  rw [hm]
  rw [readChunks_succ]
  rw [if_neg (show ¬((512 : Nat) = 0) from by decide)]
  rw [if_pos (show 0 < m + 4 from by omega)]
  refine M.bind_step _ (bchunk b 0) _ _ ?_ ?_
  · unfold FAT12.readcluster FAT12.read_sectors
    norm_num [FAT12.cluster_index]
    rw [hd0]
    rfl
  refine M.bind_step _ 3 _ _ rfl ?_
  refine M.bind_step _ (b.drop 512) _ _ ?_ ?_
  · show (mkC1 i fatC4).readChunks 512 (m + 4) ((m + 3) + 1) 3 512 =
        .ok (b.drop 512)
    rw [readChunks_succ]
    rw [if_neg (show ¬((512 : Nat) = 0) from by decide)]
    rw [if_pos (show 512 < m + 4 from by omega)]
    refine M.bind_step _ (bchunk b 512) _ _ ?_ ?_
    · unfold FAT12.readcluster FAT12.read_sectors
      norm_num [FAT12.cluster_index]
      rw [hd1]
      rfl
    refine M.bind_step _ 4 _ _ rfl ?_
    refine M.bind_step _ (b.drop 1024) _ _ ?_ ?_
    · show (mkC1 i fatC4).readChunks 512 (m + 4) ((m + 2) + 1) 4 1024 =
          .ok (b.drop 1024)
      rw [readChunks_succ]
      rw [if_neg (show ¬((512 : Nat) = 0) from by decide)]
      rw [if_pos (show 1024 < m + 4 from by omega)]
      refine M.bind_step _ (bchunk b 1024) _ _ ?_ ?_
      · unfold FAT12.readcluster FAT12.read_sectors
        norm_num [FAT12.cluster_index]
        rw [hd2]
        rfl
      refine M.bind_step _ 5 _ _ rfl ?_
      refine M.bind_step _ (b.drop 1536) _ _ ?_ ?_
      · show (mkC1 i fatC4).readChunks 512 (m + 4) ((m + 1) + 1) 5 1536 =
            .ok (b.drop 1536)
        rw [readChunks_succ]
        rw [if_neg (show ¬((512 : Nat) = 0) from by decide)]
        rw [if_pos (show 1536 < m + 4 from by omega)]
        refine M.bind_step _ (bchunk b 1536) _ _ ?_ ?_
        · unfold FAT12.readcluster FAT12.read_sectors
          norm_num [FAT12.cluster_index]
          rw [hd3]
          rfl
        refine M.bind_step _ 4095 _ _ rfl ?_
        refine M.bind_step _ ([] : List Nat) _ _ ?_ ?_
        · show (mkC1 i fatC4).readChunks 512 (m + 4) (m + 1) 4095 2048 = .ok []
          rw [readChunks_succ]
          rw [if_neg (show ¬((512 : Nat) = 0) from by decide)]
          rw [if_neg (show ¬(2048 < m + 4) from by omega)]
          rfl
        rw [List.append_nil]
        rw [show (bchunk b 1536).take (m + 4 - 1536) = b.drop 1536 from by
          have hx := bchunk_take_last b 1536 (by omega)
          rw [hm] at hx
          exact hx]
        rfl
      rw [show (bchunk b 1024).take (m + 4 - 1024) = (b.drop 1024).take 512 from
        bchunk_take_full b 1024 (m + 4 - 1024) (by omega) (by omega)]
      rw [show (b.drop 1024).take 512 ++ b.drop 1536 = b.drop 1024 from by
        have hg := drop_glue b 1024
        rw [show (1024 : Nat) + 512 = 1536 from rfl] at hg
        exact hg]
      rfl
    rw [show (bchunk b 512).take (m + 4 - 512) = (b.drop 512).take 512 from
      bchunk_take_full b 512 (m + 4 - 512) (by omega) (by omega)]
    rw [show (b.drop 512).take 512 ++ b.drop 1024 = b.drop 512 from by
      have hg := drop_glue b 512
      rw [show (512 : Nat) + 512 = 1024 from rfl] at hg
      exact hg]
    rfl
  rw [show (bchunk b 0).take (m + 4 - 0) = b.take 512 from by
    have hx := bchunk_take_full b 0 (m + 4 - 0) (by omega) (by omega)
    rw [List.drop_zero] at hx
    exact hx]
  rw [show b.take 512 ++ b.drop 512 = b from List.take_append_drop 512 b]
  rfl

theorem wImgK4_root (x : Image) (b : List Nat) :
    imgRead (wImgK4 x b) 1536 512 = newroot b := by
  unfold wImgK4
  rw [imgRead_write_outside _ _ _ _ _ (Or.inr (by decide))]
  rw [imgRead_write_outside _ _ _ _ _ (Or.inr (by decide))]
  rw [imgRead_write_outside _ _ _ _ _ (Or.inr (by decide))]
  rw [imgRead_write_inside _ _ _ _ _ (le_refl _)
    (by rw [show (newroot b).length = 512 from rfl])]
  rw [Nat.sub_self, List.drop_zero,
    List.take_of_length_le (le_of_eq (show (newroot b).length = 512 from rfl))]

theorem wImgK4_data0 (x : Image) (b : List Nat) :
    imgRead (wImgK4 x b) 2048 512 = bchunk b 0 := by
  unfold wImgK4
  rw [imgRead_write_outside _ _ _ _ _ (Or.inr (by decide))]
  rw [imgRead_write_outside _ _ _ _ _ (Or.inr (by decide))]
  rw [imgRead_write_outside _ _ _ _ _ (Or.inr (by decide))]
  rw [imgRead_write_outside _ _ _ _ _ (Or.inr (by
    norm_num [show (newroot b).length = 512 from rfl]))]
  rw [imgRead_write_outside _ _ _ _ _ (Or.inl (by norm_num))]
  rw [imgRead_write_outside _ _ _ _ _ (Or.inl (by norm_num))]
  rw [imgRead_write_outside _ _ _ _ _ (Or.inl (by norm_num))]
  rw [imgRead_write_inside _ _ _ _ _ (le_refl _) (by rw [bchunk_length])]
  rw [Nat.sub_self, List.drop_zero,
    List.take_of_length_le (le_of_eq (bchunk_length b 0))]

theorem wImgK4_data1 (x : Image) (b : List Nat) :
    imgRead (wImgK4 x b) 2560 512 = bchunk b 512 := by
  unfold wImgK4
  rw [imgRead_write_outside _ _ _ _ _ (Or.inr (by decide))]
  rw [imgRead_write_outside _ _ _ _ _ (Or.inr (by decide))]
  rw [imgRead_write_outside _ _ _ _ _ (Or.inr (by decide))]
  rw [imgRead_write_outside _ _ _ _ _ (Or.inr (by
    norm_num [show (newroot b).length = 512 from rfl]))]
  rw [imgRead_write_outside _ _ _ _ _ (Or.inl (by norm_num))]
  rw [imgRead_write_outside _ _ _ _ _ (Or.inl (by norm_num))]
  rw [imgRead_write_inside _ _ _ _ _ (le_refl _) (by rw [bchunk_length])]
  rw [Nat.sub_self, List.drop_zero,
    List.take_of_length_le (le_of_eq (bchunk_length b 512))]

theorem wImgK4_data2 (x : Image) (b : List Nat) :
    imgRead (wImgK4 x b) 3072 512 = bchunk b 1024 := by
  unfold wImgK4
  rw [imgRead_write_outside _ _ _ _ _ (Or.inr (by decide))]
  rw [imgRead_write_outside _ _ _ _ _ (Or.inr (by decide))]
  rw [imgRead_write_outside _ _ _ _ _ (Or.inr (by decide))]
  rw [imgRead_write_outside _ _ _ _ _ (Or.inr (by
    norm_num [show (newroot b).length = 512 from rfl]))]
  rw [imgRead_write_outside _ _ _ _ _ (Or.inl (by norm_num))]
  rw [imgRead_write_inside _ _ _ _ _ (le_refl _) (by rw [bchunk_length])]
  rw [Nat.sub_self, List.drop_zero,
    List.take_of_length_le (le_of_eq (bchunk_length b 1024))]

theorem wImgK4_data3 (x : Image) (b : List Nat) :
    imgRead (wImgK4 x b) 3584 512 = bchunk b 1536 := by
  unfold wImgK4
  rw [imgRead_write_outside _ _ _ _ _ (Or.inr (by decide))]
  rw [imgRead_write_outside _ _ _ _ _ (Or.inr (by decide))]
  rw [imgRead_write_outside _ _ _ _ _ (Or.inr (by decide))]
  rw [imgRead_write_outside _ _ _ _ _ (Or.inr (by
    norm_num [show (newroot b).length = 512 from rfl]))]
  rw [imgRead_write_inside _ _ _ _ _ (le_refl _) (by rw [bchunk_length])]
  rw [Nat.sub_self, List.drop_zero,
    List.take_of_length_le (le_of_eq (bchunk_length b 1536))]

theorem roundtrip_over_k4 (i : Image) (b : List Nat)
    (h1 : 1536 < b.length) (h2 : b.length ≤ 2048) :
    ∃ st', (mkC1 (imgWrite i 1536 root0) fatC1).write_file pathATXT b false =
        .ok st' ∧ st'.read_file pathATXT = .ok b :=
  ⟨_, by
      rw [write_file_over_body i b]
      exact writefileBody_C1_k4 _ root0 b h1 h2 (read_root0 i) rfl,
    read_C1_k4 _ b h1 h2 (wImgK4_root _ b)
      (wImgK4_data0 _ b) (wImgK4_data1 _ b) (wImgK4_data2 _ b) (wImgK4_data3 _ b)⟩

theorem roundtrip_create_k4 (i : Image) (b : List Nat)
    (h1 : 1536 < b.length) (h2 : b.length ≤ 2048) :
    ∃ st', (mkC1 (imgWrite i 1536 rootE) fatE).write_file pathATXT b false =
        .ok st' ∧ st'.read_file pathATXT = .ok b :=
  ⟨_, by
      rw [write_file_create_body i b (by omega)]
      exact writefileBody_C1_k4 _ root1 b h1 h2 (read_root1 i) rfl,
    read_C1_k4 _ b h1 h2 (wImgK4_root _ b)
      (wImgK4_data0 _ b) (wImgK4_data1 _ b) (wImgK4_data2 _ b) (wImgK4_data3 _ b)⟩

/-- The FAT after `/A.TXT` has been rewritten over a chain of 5 clusters (2 → … → 6). -/
def fatC5 : List Nat := [0xFF0, 0xFFF, 3, 4, 5, 6, 0xFFF, 0, 0, 0, 0, 0]

def fatsC5 : List Nat :=
  packFATPairs fatC5 ++ List.replicate (512 - (packFATPairs fatC5).length) 0

def fatImgC5 : List Nat := List.flatten (List.replicate 2 fatsC5)

/-- The disk image after `write_file` stored `b` over 5 clusters. -/
def wImgK5 (x : Image) (b : List Nat) : Image :=
  imgWrite (imgWrite (imgWrite (imgWrite (imgWrite (imgWrite (imgWrite (imgWrite (imgWrite x 2048 (bchunk b 0)) 2560 (bchunk b 512)) 3072 (bchunk b 1024)) 3584 (bchunk b 1536)) 4096 (bchunk b 2048)) 1536 (newroot b)) 11 bpbA) 24 bpbB) 512 fatImgC5

theorem writefat_C5 (i : Image) :
    (mkC1 i fatC5).writefat = .ok (mkC1 (imgWrite i 512 fatImgC5) fatC5) := by
  unfold FAT12.writefat
  norm_num
  rfl

theorem commit_C5 (i : Image) :
    (mkC1 i fatC5).commit = .ok (mkC1 (imgWrite (imgWrite (imgWrite i 11 bpbA)
      24 bpbB) 512 fatImgC5) fatC5) := by
  unfold FAT12.commit
  refine M.bind_step _ (mkC1 i fatC5) _ _ (updatelabel_C1 i fatC5) ?_
  refine M.bind_step _ (mkC1 (imgWrite (imgWrite i 11 bpbA) 24 bpbB) fatC5) _ _
    (writebpb_C1 i fatC5) ?_
  exact writefat_C5 _

/-- `_writefile`'s body on the `/A.TXT` entry with contents spanning 5
clusters: 4 clusters are allocated onto the chain, the data blocks are
written, the entry is rewritten and the volume committed. -/
theorem writefileBody_C1_k5 (x : Image) (rd b : List Nat)
    (h1 : 2048 < b.length) (h2 : b.length ≤ 2560)
    (hread : imgRead x 1536 512 = rd)
    (hsplice : listSplice rd 0 (entryA b.length) = newroot b) :
    (mkC1 x fatC1).writefileBody 1 0 b nameOnlyATXT 0x20 2 1 =
      .ok (mkC1 (wImgK5 x b) fatC5) := by
  rw [writefileBody_eq]
  refine M.bind_step _ 2 _ _ rfl ?_
  refine M.bind_step _ (6, mkC1 x fatC5) _ _ ?_ ?_
  · rw [mkC1_bpc]
    rw [show (b.length + (512 - 1)) / 512 - 1 = 4 from by omega]
    show (mkC1 x fatC1).extendChain 2 (3 + 1) = _
    rw [extendChain_succ]
    refine M.bind_step _ (3, mkC1 x fatC2) _ _ rfl ?_
    show (mkC1 x fatC2).extendChain 3 (2 + 1) = _
    rw [extendChain_succ]
    refine M.bind_step _ (4, mkC1 x fatC3) _ _ rfl ?_
    show (mkC1 x fatC3).extendChain 4 (1 + 1) = _
    rw [extendChain_succ]
    refine M.bind_step _ (5, mkC1 x fatC4) _ _ rfl ?_
    show (mkC1 x fatC4).extendChain 5 (0 + 1) = _
    rw [extendChain_succ]
    refine M.bind_step _ (6, mkC1 x fatC5) _ _ rfl ?_
    rfl
  rw [mkC1_bpc]
  rw [show (b.length + (512 - 1)) / 512 = 4 + 1 from by omega]
  refine M.bind_step _ (mkC1 (imgWrite (imgWrite (imgWrite (imgWrite (imgWrite x 2048 (bchunk b 0)) 2560 (bchunk b 512)) 3072 (bchunk b 1024)) 3584 (bchunk b 1536)) 4096 (bchunk b 2048)) fatC5) _ _ ?_ ?_
  · rw [writeChunks_succ]
    rw [if_neg (show ¬¬(2 ≤ 2 ∧ 2 < 0xFF0) from by decide)]
    rw [mkC1_bpc]
    rw [show (b.drop 0).take 512 ++ List.replicate
        (512 - ((b.drop 0).take 512).length) 0 = bchunk b 0 from rfl]
    refine M.bind_step _ (mkC1 (imgWrite x 2048 (bchunk b 0)) fatC5) _ _ ?_ ?_
    · unfold FAT12.writecluster FAT12.write_sectors
      rw [show (mkC1 (x) fatC5).cluster_index 2 * 512 = 2048 from by
        norm_num [FAT12.cluster_index]]
      rw [if_neg (show ¬((2048 : Nat) ≥
          (mkC1 (x) fatC5).capacity) from by norm_num)]
      rw [if_neg (show ¬((bchunk b 0).length ≠
          (mkC1 (x) fatC5).sectors_per_cluster * 512) from by
        rw [bchunk_length]; norm_num)]
      rfl
    refine M.bind_step _ 3 _ _ rfl ?_
    show (mkC1 (imgWrite x 2048 (bchunk b 0)) fatC5).writeChunks b (3 + 1) 3 512 = _
    rw [writeChunks_succ]
    rw [if_neg (show ¬¬(2 ≤ 3 ∧ 3 < 0xFF0) from by decide)]
    rw [mkC1_bpc]
    rw [show (b.drop 512).take 512 ++ List.replicate
        (512 - ((b.drop 512).take 512).length) 0 = bchunk b 512 from rfl]
    refine M.bind_step _ (mkC1 (imgWrite (imgWrite x 2048 (bchunk b 0)) 2560 (bchunk b 512)) fatC5) _ _ ?_ ?_
    · unfold FAT12.writecluster FAT12.write_sectors
      rw [show (mkC1 (imgWrite x 2048 (bchunk b 0)) fatC5).cluster_index 3 * 512 = 2560 from by
        norm_num [FAT12.cluster_index]]
      rw [if_neg (show ¬((2560 : Nat) ≥
          (mkC1 (imgWrite x 2048 (bchunk b 0)) fatC5).capacity) from by norm_num)]
      rw [if_neg (show ¬((bchunk b 512).length ≠
          (mkC1 (imgWrite x 2048 (bchunk b 0)) fatC5).sectors_per_cluster * 512) from by
        rw [bchunk_length]; norm_num)]
      rfl
    refine M.bind_step _ 4 _ _ rfl ?_
    show (mkC1 (imgWrite (imgWrite x 2048 (bchunk b 0)) 2560 (bchunk b 512)) fatC5).writeChunks b (2 + 1) 4 1024 = _
    rw [writeChunks_succ]
    rw [if_neg (show ¬¬(2 ≤ 4 ∧ 4 < 0xFF0) from by decide)]
    rw [mkC1_bpc]
    rw [show (b.drop 1024).take 512 ++ List.replicate
        (512 - ((b.drop 1024).take 512).length) 0 = bchunk b 1024 from rfl]
    refine M.bind_step _ (mkC1 (imgWrite (imgWrite (imgWrite x 2048 (bchunk b 0)) 2560 (bchunk b 512)) 3072 (bchunk b 1024)) fatC5) _ _ ?_ ?_
    · unfold FAT12.writecluster FAT12.write_sectors
      rw [show (mkC1 (imgWrite (imgWrite x 2048 (bchunk b 0)) 2560 (bchunk b 512)) fatC5).cluster_index 4 * 512 = 3072 from by
        norm_num [FAT12.cluster_index]]
      rw [if_neg (show ¬((3072 : Nat) ≥
          (mkC1 (imgWrite (imgWrite x 2048 (bchunk b 0)) 2560 (bchunk b 512)) fatC5).capacity) from by norm_num)]
      rw [if_neg (show ¬((bchunk b 1024).length ≠
          (mkC1 (imgWrite (imgWrite x 2048 (bchunk b 0)) 2560 (bchunk b 512)) fatC5).sectors_per_cluster * 512) from by
        rw [bchunk_length]; norm_num)]
      rfl
    refine M.bind_step _ 5 _ _ rfl ?_
    show (mkC1 (imgWrite (imgWrite (imgWrite x 2048 (bchunk b 0)) 2560 (bchunk b 512)) 3072 (bchunk b 1024)) fatC5).writeChunks b (1 + 1) 5 1536 = _
    rw [writeChunks_succ]
    rw [if_neg (show ¬¬(2 ≤ 5 ∧ 5 < 0xFF0) from by decide)]
    rw [mkC1_bpc]
    rw [show (b.drop 1536).take 512 ++ List.replicate
        (512 - ((b.drop 1536).take 512).length) 0 = bchunk b 1536 from rfl]
    refine M.bind_step _ (mkC1 (imgWrite (imgWrite (imgWrite (imgWrite x 2048 (bchunk b 0)) 2560 (bchunk b 512)) 3072 (bchunk b 1024)) 3584 (bchunk b 1536)) fatC5) _ _ ?_ ?_
    · unfold FAT12.writecluster FAT12.write_sectors
      rw [show (mkC1 (imgWrite (imgWrite (imgWrite x 2048 (bchunk b 0)) 2560 (bchunk b 512)) 3072 (bchunk b 1024)) fatC5).cluster_index 5 * 512 = 3584 from by
        norm_num [FAT12.cluster_index]]
      rw [if_neg (show ¬((3584 : Nat) ≥
          (mkC1 (imgWrite (imgWrite (imgWrite x 2048 (bchunk b 0)) 2560 (bchunk b 512)) 3072 (bchunk b 1024)) fatC5).capacity) from by norm_num)]
      rw [if_neg (show ¬((bchunk b 1536).length ≠
          (mkC1 (imgWrite (imgWrite (imgWrite x 2048 (bchunk b 0)) 2560 (bchunk b 512)) 3072 (bchunk b 1024)) fatC5).sectors_per_cluster * 512) from by
        rw [bchunk_length]; norm_num)]
      rfl
    refine M.bind_step _ 6 _ _ rfl ?_
    show (mkC1 (imgWrite (imgWrite (imgWrite (imgWrite x 2048 (bchunk b 0)) 2560 (bchunk b 512)) 3072 (bchunk b 1024)) 3584 (bchunk b 1536)) fatC5).writeChunks b (0 + 1) 6 2048 = _
    rw [writeChunks_succ]
    rw [if_neg (show ¬¬(2 ≤ 6 ∧ 6 < 0xFF0) from by decide)]
    rw [mkC1_bpc]
    rw [show (b.drop 2048).take 512 ++ List.replicate
        (512 - ((b.drop 2048).take 512).length) 0 = bchunk b 2048 from rfl]
    refine M.bind_step _ (mkC1 (imgWrite (imgWrite (imgWrite (imgWrite (imgWrite x 2048 (bchunk b 0)) 2560 (bchunk b 512)) 3072 (bchunk b 1024)) 3584 (bchunk b 1536)) 4096 (bchunk b 2048)) fatC5) _ _ ?_ ?_
    · unfold FAT12.writecluster FAT12.write_sectors
      rw [show (mkC1 (imgWrite (imgWrite (imgWrite (imgWrite x 2048 (bchunk b 0)) 2560 (bchunk b 512)) 3072 (bchunk b 1024)) 3584 (bchunk b 1536)) fatC5).cluster_index 6 * 512 = 4096 from by
        norm_num [FAT12.cluster_index]]
      rw [if_neg (show ¬((4096 : Nat) ≥
          (mkC1 (imgWrite (imgWrite (imgWrite (imgWrite x 2048 (bchunk b 0)) 2560 (bchunk b 512)) 3072 (bchunk b 1024)) 3584 (bchunk b 1536)) fatC5).capacity) from by norm_num)]
      rw [if_neg (show ¬((bchunk b 2048).length ≠
          (mkC1 (imgWrite (imgWrite (imgWrite (imgWrite x 2048 (bchunk b 0)) 2560 (bchunk b 512)) 3072 (bchunk b 1024)) 3584 (bchunk b 1536)) fatC5).sectors_per_cluster * 512) from by
        rw [bchunk_length]; norm_num)]
      rfl
    refine M.bind_step _ 4095 _ _ rfl ?_
    rfl
  refine M.bind_step _ (mkC1 (imgWrite (imgWrite (imgWrite (imgWrite (imgWrite x 2048 (bchunk b 0)) 2560 (bchunk b 512)) 3072 (bchunk b 1024)) 3584 (bchunk b 1536)) 4096 (bchunk b 2048)) fatC5, 2) _ _ rfl ?_
  refine M.bind_step _ (entryA b.length) _ _ ?_ ?_
  · rw [show (mkC1 (imgWrite (imgWrite (imgWrite (imgWrite (imgWrite x 2048 (bchunk b 0)) 2560 (bchunk b 512)) 3072 (bchunk b 1024)) 3584 (bchunk b 1536)) 4096 (bchunk b 2048)) fatC5).now = fixNow from rfl]
    exact mkdir_entryA b.length (by omega)
  refine M.bind_step _ (mkC1 (imgWrite (imgWrite (imgWrite (imgWrite (imgWrite (imgWrite x 2048 (bchunk b 0)) 2560 (bchunk b 512)) 3072 (bchunk b 1024)) 3584 (bchunk b 1536)) 4096 (bchunk b 2048)) 1536 (newroot b)) fatC5) _ _ ?_ ?_
  · unfold FAT12.writedirentry
    rw [if_neg (show ¬((entryA b.length).length ≠ 32) from by
      rw [show (entryA b.length).length = 32 from rfl]; omega)]
    rw [if_pos rfl]
    rw [rs_root_C1]
    rw [show imgRead (imgWrite (imgWrite (imgWrite (imgWrite (imgWrite x 2048 (bchunk b 0)) 2560 (bchunk b 512)) 3072 (bchunk b 1024)) 3584 (bchunk b 1536)) 4096 (bchunk b 2048)) 1536 512 = rd from by
      rw [imgRead_write_outside _ _ _ _ _ (Or.inl (by norm_num))]
      rw [imgRead_write_outside _ _ _ _ _ (Or.inl (by norm_num))]
      rw [imgRead_write_outside _ _ _ _ _ (Or.inl (by norm_num))]
      rw [imgRead_write_outside _ _ _ _ _ (Or.inl (by norm_num))]
      rw [imgRead_write_outside _ _ _ _ _ (Or.inl (by norm_num))]
      exact hread]
    rw [M.ok_bind2]
    beta_reduce
    rw [hsplice]
    unfold FAT12.write_sectors
    norm_num [show (newroot b).length = 512 from rfl]
    rfl
  show FAT12.commit _ = _
  exact commit_C5 _

/-- `read_file("/A.TXT")` returns exactly `b` on a volume holding `b`
over the 5-cluster chain. -/
theorem read_C1_k5 (i : Image) (b : List Nat)
    (h1 : 2048 < b.length) (h2 : b.length ≤ 2560)
    (hroot : imgRead i 1536 512 = newroot b)
    (hd0 : imgRead i 2048 512 = bchunk b 0)
    (hd1 : imgRead i 2560 512 = bchunk b 512)
    (hd2 : imgRead i 3072 512 = bchunk b 1024)
    (hd3 : imgRead i 3584 512 = bchunk b 1536)
    (hd4 : imgRead i 4096 512 = bchunk b 2048)
    : (mkC1 i fatC5).read_file pathATXT = .ok b := by
  obtain ⟨m, hm⟩ : ∃ m, b.length = m + 5 := ⟨b.length - 5, by omega⟩
  unfold FAT12.read_file
  rw [resolvepath_C1 i fatC5 (newroot b) hroot (scan_newroot b (by omega)),
    M.ok_bind2]
  beta_reduce
  show (mkC1 i fatC5).readfile 1 0 = _
  unfold FAT12.readfile
  rw [readdirentry_C1 i fatC5 (newroot b) hroot, M.ok_bind2]
  beta_reduce
  rw [show (newroot b).take 32 = entryA b.length from rfl]
  rw [parse_entryA b.length (by omega), M.ok_bind2]
  beta_reduce
  show (mkC1 i fatC5).readChunks 512 b.length (b.length + 1) 2 0 = _
  rw [hm]
  rw [readChunks_succ]
  rw [if_neg (show ¬((512 : Nat) = 0) from by decide)]
  rw [if_pos (show 0 < m + 5 from by omega)]
  refine M.bind_step _ (bchunk b 0) _ _ ?_ ?_
  · unfold FAT12.readcluster FAT12.read_sectors
    norm_num [FAT12.cluster_index]
    rw [hd0]
    rfl
  refine M.bind_step _ 3 _ _ rfl ?_
  refine M.bind_step _ (b.drop 512) _ _ ?_ ?_
  · show (mkC1 i fatC5).readChunks 512 (m + 5) ((m + 4) + 1) 3 512 =
        .ok (b.drop 512)
    rw [readChunks_succ]
    rw [if_neg (show ¬((512 : Nat) = 0) from by decide)]
    rw [if_pos (show 512 < m + 5 from by omega)]
    refine M.bind_step _ (bchunk b 512) _ _ ?_ ?_
    · unfold FAT12.readcluster FAT12.read_sectors
      norm_num [FAT12.cluster_index]
      rw [hd1]
      rfl
    refine M.bind_step _ 4 _ _ rfl ?_
    refine M.bind_step _ (b.drop 1024) _ _ ?_ ?_
    · show (mkC1 i fatC5).readChunks 512 (m + 5) ((m + 3) + 1) 4 1024 =
          .ok (b.drop 1024)
      rw [readChunks_succ]
      rw [if_neg (show ¬((512 : Nat) = 0) from by decide)]
      rw [if_pos (show 1024 < m + 5 from by omega)]
      refine M.bind_step _ (bchunk b 1024) _ _ ?_ ?_
      · unfold FAT12.readcluster FAT12.read_sectors
        norm_num [FAT12.cluster_index]
        rw [hd2]
        rfl
      refine M.bind_step _ 5 _ _ rfl ?_
      refine M.bind_step _ (b.drop 1536) _ _ ?_ ?_
      · show (mkC1 i fatC5).readChunks 512 (m + 5) ((m + 2) + 1) 5 1536 =
            .ok (b.drop 1536)
        rw [readChunks_succ]
        rw [if_neg (show ¬((512 : Nat) = 0) from by decide)]
        rw [if_pos (show 1536 < m + 5 from by omega)]
        refine M.bind_step _ (bchunk b 1536) _ _ ?_ ?_
        · unfold FAT12.readcluster FAT12.read_sectors
          norm_num [FAT12.cluster_index]
          rw [hd3]
          rfl
        refine M.bind_step _ 6 _ _ rfl ?_
        refine M.bind_step _ (b.drop 2048) _ _ ?_ ?_
        · show (mkC1 i fatC5).readChunks 512 (m + 5) ((m + 1) + 1) 6 2048 =
              .ok (b.drop 2048)
          rw [readChunks_succ]
          rw [if_neg (show ¬((512 : Nat) = 0) from by decide)]
          rw [if_pos (show 2048 < m + 5 from by omega)]
          refine M.bind_step _ (bchunk b 2048) _ _ ?_ ?_
          · unfold FAT12.readcluster FAT12.read_sectors
            norm_num [FAT12.cluster_index]
            rw [hd4]
            rfl
          refine M.bind_step _ 4095 _ _ rfl ?_
          refine M.bind_step _ ([] : List Nat) _ _ ?_ ?_
          · show (mkC1 i fatC5).readChunks 512 (m + 5) (m + 1) 4095 2560 = .ok []
            rw [readChunks_succ]
            rw [if_neg (show ¬((512 : Nat) = 0) from by decide)]
            rw [if_neg (show ¬(2560 < m + 5) from by omega)]
            rfl
          rw [List.append_nil]
          rw [show (bchunk b 2048).take (m + 5 - 2048) = b.drop 2048 from by
            have hx := bchunk_take_last b 2048 (by omega)
            rw [hm] at hx
            exact hx]
          rfl
        rw [show (bchunk b 1536).take (m + 5 - 1536) = (b.drop 1536).take 512 from
          bchunk_take_full b 1536 (m + 5 - 1536) (by omega) (by omega)]
        rw [show (b.drop 1536).take 512 ++ b.drop 2048 = b.drop 1536 from by
          have hg := drop_glue b 1536
          rw [show (1536 : Nat) + 512 = 2048 from rfl] at hg
          exact hg]
        rfl
      rw [show (bchunk b 1024).take (m + 5 - 1024) = (b.drop 1024).take 512 from
        bchunk_take_full b 1024 (m + 5 - 1024) (by omega) (by omega)]
      rw [show (b.drop 1024).take 512 ++ b.drop 1536 = b.drop 1024 from by
        have hg := drop_glue b 1024
        rw [show (1024 : Nat) + 512 = 1536 from rfl] at hg
        exact hg]
      rfl
    rw [show (bchunk b 512).take (m + 5 - 512) = (b.drop 512).take 512 from
      bchunk_take_full b 512 (m + 5 - 512) (by omega) (by omega)]
    rw [show (b.drop 512).take 512 ++ b.drop 1024 = b.drop 512 from by
      have hg := drop_glue b 512
      rw [show (512 : Nat) + 512 = 1024 from rfl] at hg
      exact hg]
    rfl
  rw [show (bchunk b 0).take (m + 5 - 0) = b.take 512 from by
    have hx := bchunk_take_full b 0 (m + 5 - 0) (by omega) (by omega)
    rw [List.drop_zero] at hx
    exact hx]
  rw [show b.take 512 ++ b.drop 512 = b from List.take_append_drop 512 b]
  rfl

theorem wImgK5_root (x : Image) (b : List Nat) :
    imgRead (wImgK5 x b) 1536 512 = newroot b := by
  unfold wImgK5
  rw [imgRead_write_outside _ _ _ _ _ (Or.inr (by decide))]
  rw [imgRead_write_outside _ _ _ _ _ (Or.inr (by decide))]
  rw [imgRead_write_outside _ _ _ _ _ (Or.inr (by decide))]
  rw [imgRead_write_inside _ _ _ _ _ (le_refl _)
    (by rw [show (newroot b).length = 512 from rfl])]
  rw [Nat.sub_self, List.drop_zero,
    List.take_of_length_le (le_of_eq (show (newroot b).length = 512 from rfl))]

theorem wImgK5_data0 (x : Image) (b : List Nat) :
    imgRead (wImgK5 x b) 2048 512 = bchunk b 0 := by
  unfold wImgK5
  rw [imgRead_write_outside _ _ _ _ _ (Or.inr (by decide))]
  rw [imgRead_write_outside _ _ _ _ _ (Or.inr (by decide))]
  rw [imgRead_write_outside _ _ _ _ _ (Or.inr (by decide))]
  rw [imgRead_write_outside _ _ _ _ _ (Or.inr (by
    norm_num [show (newroot b).length = 512 from rfl]))]
  rw [imgRead_write_outside _ _ _ _ _ (Or.inl (by norm_num))]
  rw [imgRead_write_outside _ _ _ _ _ (Or.inl (by norm_num))]
  rw [imgRead_write_outside _ _ _ _ _ (Or.inl (by norm_num))]
  rw [imgRead_write_outside _ _ _ _ _ (Or.inl (by norm_num))]
  rw [imgRead_write_inside _ _ _ _ _ (le_refl _) (by rw [bchunk_length])]
  rw [Nat.sub_self, List.drop_zero,
    List.take_of_length_le (le_of_eq (bchunk_length b 0))]

theorem wImgK5_data1 (x : Image) (b : List Nat) :
    imgRead (wImgK5 x b) 2560 512 = bchunk b 512 := by
  unfold wImgK5
  rw [imgRead_write_outside _ _ _ _ _ (Or.inr (by decide))]
  rw [imgRead_write_outside _ _ _ _ _ (Or.inr (by decide))]
  rw [imgRead_write_outside _ _ _ _ _ (Or.inr (by decide))]
  rw [imgRead_write_outside _ _ _ _ _ (Or.inr (by
    norm_num [show (newroot b).length = 512 from rfl]))]
  rw [imgRead_write_outside _ _ _ _ _ (Or.inl (by norm_num))]
  rw [imgRead_write_outside _ _ _ _ _ (Or.inl (by norm_num))]
  rw [imgRead_write_outside _ _ _ _ _ (Or.inl (by norm_num))]
  rw [imgRead_write_inside _ _ _ _ _ (le_refl _) (by rw [bchunk_length])]
  rw [Nat.sub_self, List.drop_zero,
    List.take_of_length_le (le_of_eq (bchunk_length b 512))]

theorem wImgK5_data2 (x : Image) (b : List Nat) :
    imgRead (wImgK5 x b) 3072 512 = bchunk b 1024 := by
  unfold wImgK5
  rw [imgRead_write_outside _ _ _ _ _ (Or.inr (by decide))]
  rw [imgRead_write_outside _ _ _ _ _ (Or.inr (by decide))]
  rw [imgRead_write_outside _ _ _ _ _ (Or.inr (by decide))]
  rw [imgRead_write_outside _ _ _ _ _ (Or.inr (by
    norm_num [show (newroot b).length = 512 from rfl]))]
  rw [imgRead_write_outside _ _ _ _ _ (Or.inl (by norm_num))]
  rw [imgRead_write_outside _ _ _ _ _ (Or.inl (by norm_num))]
  rw [imgRead_write_inside _ _ _ _ _ (le_refl _) (by rw [bchunk_length])]
  rw [Nat.sub_self, List.drop_zero,
    List.take_of_length_le (le_of_eq (bchunk_length b 1024))]

theorem wImgK5_data3 (x : Image) (b : List Nat) :
    imgRead (wImgK5 x b) 3584 512 = bchunk b 1536 := by
  unfold wImgK5
  rw [imgRead_write_outside _ _ _ _ _ (Or.inr (by decide))]
  rw [imgRead_write_outside _ _ _ _ _ (Or.inr (by decide))]
  rw [imgRead_write_outside _ _ _ _ _ (Or.inr (by decide))]
  rw [imgRead_write_outside _ _ _ _ _ (Or.inr (by
    norm_num [show (newroot b).length = 512 from rfl]))]
  rw [imgRead_write_outside _ _ _ _ _ (Or.inl (by norm_num))]
  rw [imgRead_write_inside _ _ _ _ _ (le_refl _) (by rw [bchunk_length])]
  rw [Nat.sub_self, List.drop_zero,
    List.take_of_length_le (le_of_eq (bchunk_length b 1536))]

theorem wImgK5_data4 (x : Image) (b : List Nat) :
    imgRead (wImgK5 x b) 4096 512 = bchunk b 2048 := by
  unfold wImgK5
  rw [imgRead_write_outside _ _ _ _ _ (Or.inr (by decide))]
  rw [imgRead_write_outside _ _ _ _ _ (Or.inr (by decide))]
  rw [imgRead_write_outside _ _ _ _ _ (Or.inr (by decide))]
  rw [imgRead_write_outside _ _ _ _ _ (Or.inr (by
    norm_num [show (newroot b).length = 512 from rfl]))]
  rw [imgRead_write_inside _ _ _ _ _ (le_refl _) (by rw [bchunk_length])]
  rw [Nat.sub_self, List.drop_zero,
    List.take_of_length_le (le_of_eq (bchunk_length b 2048))]

theorem roundtrip_over_k5 (i : Image) (b : List Nat)
    (h1 : 2048 < b.length) (h2 : b.length ≤ 2560) :
    ∃ st', (mkC1 (imgWrite i 1536 root0) fatC1).write_file pathATXT b false =
        .ok st' ∧ st'.read_file pathATXT = .ok b :=
  ⟨_, by
      rw [write_file_over_body i b]
      exact writefileBody_C1_k5 _ root0 b h1 h2 (read_root0 i) rfl,
    read_C1_k5 _ b h1 h2 (wImgK5_root _ b)
      (wImgK5_data0 _ b) (wImgK5_data1 _ b) (wImgK5_data2 _ b) (wImgK5_data3 _ b) (wImgK5_data4 _ b)⟩

theorem roundtrip_create_k5 (i : Image) (b : List Nat)
    (h1 : 2048 < b.length) (h2 : b.length ≤ 2560) :
    ∃ st', (mkC1 (imgWrite i 1536 rootE) fatE).write_file pathATXT b false =
        .ok st' ∧ st'.read_file pathATXT = .ok b :=
  ⟨_, by
      rw [write_file_create_body i b (by omega)]
      exact writefileBody_C1_k5 _ root1 b h1 h2 (read_root1 i) rfl,
    read_C1_k5 _ b h1 h2 (wImgK5_root _ b)
      (wImgK5_data0 _ b) (wImgK5_data1 _ b) (wImgK5_data2 _ b) (wImgK5_data3 _ b) (wImgK5_data4 _ b)⟩

/-- The FAT after `/A.TXT` has been rewritten over a chain of 6 clusters (2 → … → 7). -/
def fatC6 : List Nat := [0xFF0, 0xFFF, 3, 4, 5, 6, 7, 0xFFF, 0, 0, 0, 0]

def fatsC6 : List Nat :=
  packFATPairs fatC6 ++ List.replicate (512 - (packFATPairs fatC6).length) 0

def fatImgC6 : List Nat := List.flatten (List.replicate 2 fatsC6)

/-- The disk image after `write_file` stored `b` over 6 clusters. -/
def wImgK6 (x : Image) (b : List Nat) : Image :=
  imgWrite (imgWrite (imgWrite (imgWrite (imgWrite (imgWrite (imgWrite (imgWrite (imgWrite (imgWrite x 2048 (bchunk b 0)) 2560 (bchunk b 512)) 3072 (bchunk b 1024)) 3584 (bchunk b 1536)) 4096 (bchunk b 2048)) 4608 (bchunk b 2560)) 1536 (newroot b)) 11 bpbA) 24 bpbB) 512 fatImgC6

theorem writefat_C6 (i : Image) :
    (mkC1 i fatC6).writefat = .ok (mkC1 (imgWrite i 512 fatImgC6) fatC6) := by
  unfold FAT12.writefat
  norm_num
  rfl

theorem commit_C6 (i : Image) :
    (mkC1 i fatC6).commit = .ok (mkC1 (imgWrite (imgWrite (imgWrite i 11 bpbA)
      24 bpbB) 512 fatImgC6) fatC6) := by
  unfold FAT12.commit
  refine M.bind_step _ (mkC1 i fatC6) _ _ (updatelabel_C1 i fatC6) ?_
  refine M.bind_step _ (mkC1 (imgWrite (imgWrite i 11 bpbA) 24 bpbB) fatC6) _ _
    (writebpb_C1 i fatC6) ?_
  exact writefat_C6 _

/-- `_writefile`'s body on the `/A.TXT` entry with contents spanning 6
clusters: 5 clusters are allocated onto the chain, the data blocks are
written, the entry is rewritten and the volume committed. -/
theorem writefileBody_C1_k6 (x : Image) (rd b : List Nat)
    (h1 : 2560 < b.length) (h2 : b.length ≤ 3072)
    (hread : imgRead x 1536 512 = rd)
    (hsplice : listSplice rd 0 (entryA b.length) = newroot b) :
    (mkC1 x fatC1).writefileBody 1 0 b nameOnlyATXT 0x20 2 1 =
      .ok (mkC1 (wImgK6 x b) fatC6) := by
  rw [writefileBody_eq]
  refine M.bind_step _ 2 _ _ rfl ?_
  refine M.bind_step _ (7, mkC1 x fatC6) _ _ ?_ ?_
  · rw [mkC1_bpc]
    rw [show (b.length + (512 - 1)) / 512 - 1 = 5 from by omega]
    show (mkC1 x fatC1).extendChain 2 (4 + 1) = _
    rw [extendChain_succ]
    refine M.bind_step _ (3, mkC1 x fatC2) _ _ rfl ?_
    show (mkC1 x fatC2).extendChain 3 (3 + 1) = _
    rw [extendChain_succ]
    refine M.bind_step _ (4, mkC1 x fatC3) _ _ rfl ?_
    show (mkC1 x fatC3).extendChain 4 (2 + 1) = _
    rw [extendChain_succ]
    refine M.bind_step _ (5, mkC1 x fatC4) _ _ rfl ?_
    show (mkC1 x fatC4).extendChain 5 (1 + 1) = _
    rw [extendChain_succ]
    refine M.bind_step _ (6, mkC1 x fatC5) _ _ rfl ?_
    show (mkC1 x fatC5).extendChain 6 (0 + 1) = _
    rw [extendChain_succ]
    refine M.bind_step _ (7, mkC1 x fatC6) _ _ rfl ?_
    rfl
  rw [mkC1_bpc]
  rw [show (b.length + (512 - 1)) / 512 = 5 + 1 from by omega]
  refine M.bind_step _ (mkC1 (imgWrite (imgWrite (imgWrite (imgWrite (imgWrite (imgWrite x 2048 (bchunk b 0)) 2560 (bchunk b 512)) 3072 (bchunk b 1024)) 3584 (bchunk b 1536)) 4096 (bchunk b 2048)) 4608 (bchunk b 2560)) fatC6) _ _ ?_ ?_
  · rw [writeChunks_succ]
    rw [if_neg (show ¬¬(2 ≤ 2 ∧ 2 < 0xFF0) from by decide)]
    rw [mkC1_bpc]
    rw [show (b.drop 0).take 512 ++ List.replicate
        (512 - ((b.drop 0).take 512).length) 0 = bchunk b 0 from rfl]
    refine M.bind_step _ (mkC1 (imgWrite x 2048 (bchunk b 0)) fatC6) _ _ ?_ ?_
    · unfold FAT12.writecluster FAT12.write_sectors
      rw [show (mkC1 (x) fatC6).cluster_index 2 * 512 = 2048 from by
        norm_num [FAT12.cluster_index]]
      rw [if_neg (show ¬((2048 : Nat) ≥
          (mkC1 (x) fatC6).capacity) from by norm_num)]
      rw [if_neg (show ¬((bchunk b 0).length ≠
          (mkC1 (x) fatC6).sectors_per_cluster * 512) from by
        rw [bchunk_length]; norm_num)]
      rfl
    refine M.bind_step _ 3 _ _ rfl ?_
    show (mkC1 (imgWrite x 2048 (bchunk b 0)) fatC6).writeChunks b (4 + 1) 3 512 = _
    rw [writeChunks_succ]
    rw [if_neg (show ¬¬(2 ≤ 3 ∧ 3 < 0xFF0) from by decide)]
    rw [mkC1_bpc]
    rw [show (b.drop 512).take 512 ++ List.replicate
        (512 - ((b.drop 512).take 512).length) 0 = bchunk b 512 from rfl]
    refine M.bind_step _ (mkC1 (imgWrite (imgWrite x 2048 (bchunk b 0)) 2560 (bchunk b 512)) fatC6) _ _ ?_ ?_
    · unfold FAT12.writecluster FAT12.write_sectors
      rw [show (mkC1 (imgWrite x 2048 (bchunk b 0)) fatC6).cluster_index 3 * 512 = 2560 from by
        norm_num [FAT12.cluster_index]]
      rw [if_neg (show ¬((2560 : Nat) ≥
          (mkC1 (imgWrite x 2048 (bchunk b 0)) fatC6).capacity) from by norm_num)]
      rw [if_neg (show ¬((bchunk b 512).length ≠
          (mkC1 (imgWrite x 2048 (bchunk b 0)) fatC6).sectors_per_cluster * 512) from by
        rw [bchunk_length]; norm_num)]
      rfl
    refine M.bind_step _ 4 _ _ rfl ?_
    show (mkC1 (imgWrite (imgWrite x 2048 (bchunk b 0)) 2560 (bchunk b 512)) fatC6).writeChunks b (3 + 1) 4 1024 = _
    rw [writeChunks_succ]
    rw [if_neg (show ¬¬(2 ≤ 4 ∧ 4 < 0xFF0) from by decide)]
    rw [mkC1_bpc]
    rw [show (b.drop 1024).take 512 ++ List.replicate
        (512 - ((b.drop 1024).take 512).length) 0 = bchunk b 1024 from rfl]
    refine M.bind_step _ (mkC1 (imgWrite (imgWrite (imgWrite x 2048 (bchunk b 0)) 2560 (bchunk b 512)) 3072 (bchunk b 1024)) fatC6) _ _ ?_ ?_
    · unfold FAT12.writecluster FAT12.write_sectors
      rw [show (mkC1 (imgWrite (imgWrite x 2048 (bchunk b 0)) 2560 (bchunk b 512)) fatC6).cluster_index 4 * 512 = 3072 from by
        norm_num [FAT12.cluster_index]]
      rw [if_neg (show ¬((3072 : Nat) ≥
          (mkC1 (imgWrite (imgWrite x 2048 (bchunk b 0)) 2560 (bchunk b 512)) fatC6).capacity) from by norm_num)]
      rw [if_neg (show ¬((bchunk b 1024).length ≠
          (mkC1 (imgWrite (imgWrite x 2048 (bchunk b 0)) 2560 (bchunk b 512)) fatC6).sectors_per_cluster * 512) from by
        rw [bchunk_length]; norm_num)]
      rfl
    refine M.bind_step _ 5 _ _ rfl ?_
    show (mkC1 (imgWrite (imgWrite (imgWrite x 2048 (bchunk b 0)) 2560 (bchunk b 512)) 3072 (bchunk b 1024)) fatC6).writeChunks b (2 + 1) 5 1536 = _
    rw [writeChunks_succ]
    rw [if_neg (show ¬¬(2 ≤ 5 ∧ 5 < 0xFF0) from by decide)]
    rw [mkC1_bpc]
    rw [show (b.drop 1536).take 512 ++ List.replicate
        (512 - ((b.drop 1536).take 512).length) 0 = bchunk b 1536 from rfl]
    refine M.bind_step _ (mkC1 (imgWrite (imgWrite (imgWrite (imgWrite x 2048 (bchunk b 0)) 2560 (bchunk b 512)) 3072 (bchunk b 1024)) 3584 (bchunk b 1536)) fatC6) _ _ ?_ ?_
    · unfold FAT12.writecluster FAT12.write_sectors
      rw [show (mkC1 (imgWrite (imgWrite (imgWrite x 2048 (bchunk b 0)) 2560 (bchunk b 512)) 3072 (bchunk b 1024)) fatC6).cluster_index 5 * 512 = 3584 from by
        norm_num [FAT12.cluster_index]]
      rw [if_neg (show ¬((3584 : Nat) ≥
          (mkC1 (imgWrite (imgWrite (imgWrite x 2048 (bchunk b 0)) 2560 (bchunk b 512)) 3072 (bchunk b 1024)) fatC6).capacity) from by norm_num)]
      rw [if_neg (show ¬((bchunk b 1536).length ≠
          (mkC1 (imgWrite (imgWrite (imgWrite x 2048 (bchunk b 0)) 2560 (bchunk b 512)) 3072 (bchunk b 1024)) fatC6).sectors_per_cluster * 512) from by
        rw [bchunk_length]; norm_num)]
      rfl
    refine M.bind_step _ 6 _ _ rfl ?_
    show (mkC1 (imgWrite (imgWrite (imgWrite (imgWrite x 2048 (bchunk b 0)) 2560 (bchunk b 512)) 3072 (bchunk b 1024)) 3584 (bchunk b 1536)) fatC6).writeChunks b (1 + 1) 6 2048 = _
    rw [writeChunks_succ]
    rw [if_neg (show ¬¬(2 ≤ 6 ∧ 6 < 0xFF0) from by decide)]
    rw [mkC1_bpc]
    rw [show (b.drop 2048).take 512 ++ List.replicate
        (512 - ((b.drop 2048).take 512).length) 0 = bchunk b 2048 from rfl]
    refine M.bind_step _ (mkC1 (imgWrite (imgWrite (imgWrite (imgWrite (imgWrite x 2048 (bchunk b 0)) 2560 (bchunk b 512)) 3072 (bchunk b 1024)) 3584 (bchunk b 1536)) 4096 (bchunk b 2048)) fatC6) _ _ ?_ ?_
    · unfold FAT12.writecluster FAT12.write_sectors
      rw [show (mkC1 (imgWrite (imgWrite (imgWrite (imgWrite x 2048 (bchunk b 0)) 2560 (bchunk b 512)) 3072 (bchunk b 1024)) 3584 (bchunk b 1536)) fatC6).cluster_index 6 * 512 = 4096 from by
        norm_num [FAT12.cluster_index]]
      rw [if_neg (show ¬((4096 : Nat) ≥
          (mkC1 (imgWrite (imgWrite (imgWrite (imgWrite x 2048 (bchunk b 0)) 2560 (bchunk b 512)) 3072 (bchunk b 1024)) 3584 (bchunk b 1536)) fatC6).capacity) from by norm_num)]
      rw [if_neg (show ¬((bchunk b 2048).length ≠
          (mkC1 (imgWrite (imgWrite (imgWrite (imgWrite x 2048 (bchunk b 0)) 2560 (bchunk b 512)) 3072 (bchunk b 1024)) 3584 (bchunk b 1536)) fatC6).sectors_per_cluster * 512) from by
        rw [bchunk_length]; norm_num)]
      rfl
    refine M.bind_step _ 7 _ _ rfl ?_
    show (mkC1 (imgWrite (imgWrite (imgWrite (imgWrite (imgWrite x 2048 (bchunk b 0)) 2560 (bchunk b 512)) 3072 (bchunk b 1024)) 3584 (bchunk b 1536)) 4096 (bchunk b 2048)) fatC6).writeChunks b (0 + 1) 7 2560 = _
    rw [writeChunks_succ]
    rw [if_neg (show ¬¬(2 ≤ 7 ∧ 7 < 0xFF0) from by decide)]
    rw [mkC1_bpc]
    rw [show (b.drop 2560).take 512 ++ List.replicate
        (512 - ((b.drop 2560).take 512).length) 0 = bchunk b 2560 from rfl]
    refine M.bind_step _ (mkC1 (imgWrite (imgWrite (imgWrite (imgWrite (imgWrite (imgWrite x 2048 (bchunk b 0)) 2560 (bchunk b 512)) 3072 (bchunk b 1024)) 3584 (bchunk b 1536)) 4096 (bchunk b 2048)) 4608 (bchunk b 2560)) fatC6) _ _ ?_ ?_
    · unfold FAT12.writecluster FAT12.write_sectors
      rw [show (mkC1 (imgWrite (imgWrite (imgWrite (imgWrite (imgWrite x 2048 (bchunk b 0)) 2560 (bchunk b 512)) 3072 (bchunk b 1024)) 3584 (bchunk b 1536)) 4096 (bchunk b 2048)) fatC6).cluster_index 7 * 512 = 4608 from by
        norm_num [FAT12.cluster_index]]
      rw [if_neg (show ¬((4608 : Nat) ≥
          (mkC1 (imgWrite (imgWrite (imgWrite (imgWrite (imgWrite x 2048 (bchunk b 0)) 2560 (bchunk b 512)) 3072 (bchunk b 1024)) 3584 (bchunk b 1536)) 4096 (bchunk b 2048)) fatC6).capacity) from by norm_num)]
      rw [if_neg (show ¬((bchunk b 2560).length ≠
          (mkC1 (imgWrite (imgWrite (imgWrite (imgWrite (imgWrite x 2048 (bchunk b 0)) 2560 (bchunk b 512)) 3072 (bchunk b 1024)) 3584 (bchunk b 1536)) 4096 (bchunk b 2048)) fatC6).sectors_per_cluster * 512) from by
        rw [bchunk_length]; norm_num)]
      rfl
    refine M.bind_step _ 4095 _ _ rfl ?_
    rfl
  refine M.bind_step _ (mkC1 (imgWrite (imgWrite (imgWrite (imgWrite (imgWrite (imgWrite x 2048 (bchunk b 0)) 2560 (bchunk b 512)) 3072 (bchunk b 1024)) 3584 (bchunk b 1536)) 4096 (bchunk b 2048)) 4608 (bchunk b 2560)) fatC6, 2) _ _ rfl ?_
  refine M.bind_step _ (entryA b.length) _ _ ?_ ?_
  · rw [show (mkC1 (imgWrite (imgWrite (imgWrite (imgWrite (imgWrite (imgWrite x 2048 (bchunk b 0)) 2560 (bchunk b 512)) 3072 (bchunk b 1024)) 3584 (bchunk b 1536)) 4096 (bchunk b 2048)) 4608 (bchunk b 2560)) fatC6).now = fixNow from rfl]
    exact mkdir_entryA b.length (by omega)
  refine M.bind_step _ (mkC1 (imgWrite (imgWrite (imgWrite (imgWrite (imgWrite (imgWrite (imgWrite x 2048 (bchunk b 0)) 2560 (bchunk b 512)) 3072 (bchunk b 1024)) 3584 (bchunk b 1536)) 4096 (bchunk b 2048)) 4608 (bchunk b 2560)) 1536 (newroot b)) fatC6) _ _ ?_ ?_
  · unfold FAT12.writedirentry
    rw [if_neg (show ¬((entryA b.length).length ≠ 32) from by
      rw [show (entryA b.length).length = 32 from rfl]; omega)]
    rw [if_pos rfl]
    rw [rs_root_C1]
    rw [show imgRead (imgWrite (imgWrite (imgWrite (imgWrite (imgWrite (imgWrite x 2048 (bchunk b 0)) 2560 (bchunk b 512)) 3072 (bchunk b 1024)) 3584 (bchunk b 1536)) 4096 (bchunk b 2048)) 4608 (bchunk b 2560)) 1536 512 = rd from by
      rw [imgRead_write_outside _ _ _ _ _ (Or.inl (by norm_num))]
      rw [imgRead_write_outside _ _ _ _ _ (Or.inl (by norm_num))]
      rw [imgRead_write_outside _ _ _ _ _ (Or.inl (by norm_num))]
      rw [imgRead_write_outside _ _ _ _ _ (Or.inl (by norm_num))]
      rw [imgRead_write_outside _ _ _ _ _ (Or.inl (by norm_num))]
      rw [imgRead_write_outside _ _ _ _ _ (Or.inl (by norm_num))]
      exact hread]
    rw [M.ok_bind2]
    beta_reduce
    rw [hsplice]
    unfold FAT12.write_sectors
    norm_num [show (newroot b).length = 512 from rfl]
    rfl
  show FAT12.commit _ = _
  exact commit_C6 _

/-- `read_file("/A.TXT")` returns exactly `b` on a volume holding `b`
over the 6-cluster chain. -/
theorem read_C1_k6 (i : Image) (b : List Nat)
    (h1 : 2560 < b.length) (h2 : b.length ≤ 3072)
    (hroot : imgRead i 1536 512 = newroot b)
    (hd0 : imgRead i 2048 512 = bchunk b 0)
    (hd1 : imgRead i 2560 512 = bchunk b 512)
    (hd2 : imgRead i 3072 512 = bchunk b 1024)
    (hd3 : imgRead i 3584 512 = bchunk b 1536)
    (hd4 : imgRead i 4096 512 = bchunk b 2048)
    (hd5 : imgRead i 4608 512 = bchunk b 2560)
    : (mkC1 i fatC6).read_file pathATXT = .ok b := by
  obtain ⟨m, hm⟩ : ∃ m, b.length = m + 6 := ⟨b.length - 6, by omega⟩
  unfold FAT12.read_file
  rw [resolvepath_C1 i fatC6 (newroot b) hroot (scan_newroot b (by omega)),
    M.ok_bind2]
  beta_reduce
  show (mkC1 i fatC6).readfile 1 0 = _
  unfold FAT12.readfile
  rw [readdirentry_C1 i fatC6 (newroot b) hroot, M.ok_bind2]
  beta_reduce
  rw [show (newroot b).take 32 = entryA b.length from rfl]
  rw [parse_entryA b.length (by omega), M.ok_bind2]
  beta_reduce
  show (mkC1 i fatC6).readChunks 512 b.length (b.length + 1) 2 0 = _
  rw [hm]
  rw [readChunks_succ]
  rw [if_neg (show ¬((512 : Nat) = 0) from by decide)]
  rw [if_pos (show 0 < m + 6 from by omega)]
  refine M.bind_step _ (bchunk b 0) _ _ ?_ ?_
  · unfold FAT12.readcluster FAT12.read_sectors
    norm_num [FAT12.cluster_index]
    rw [hd0]
    rfl
  refine M.bind_step _ 3 _ _ rfl ?_
  refine M.bind_step _ (b.drop 512) _ _ ?_ ?_
  · show (mkC1 i fatC6).readChunks 512 (m + 6) ((m + 5) + 1) 3 512 =
        .ok (b.drop 512)
    rw [readChunks_succ]
    rw [if_neg (show ¬((512 : Nat) = 0) from by decide)]
    rw [if_pos (show 512 < m + 6 from by omega)]
    refine M.bind_step _ (bchunk b 512) _ _ ?_ ?_
    · unfold FAT12.readcluster FAT12.read_sectors
      norm_num [FAT12.cluster_index]
      rw [hd1]
      rfl
    refine M.bind_step _ 4 _ _ rfl ?_
    refine M.bind_step _ (b.drop 1024) _ _ ?_ ?_
    · show (mkC1 i fatC6).readChunks 512 (m + 6) ((m + 4) + 1) 4 1024 =
          .ok (b.drop 1024)
      rw [readChunks_succ]
      rw [if_neg (show ¬((512 : Nat) = 0) from by decide)]
      rw [if_pos (show 1024 < m + 6 from by omega)]
      refine M.bind_step _ (bchunk b 1024) _ _ ?_ ?_
      · unfold FAT12.readcluster FAT12.read_sectors
        norm_num [FAT12.cluster_index]
        rw [hd2]
        rfl
      refine M.bind_step _ 5 _ _ rfl ?_
      refine M.bind_step _ (b.drop 1536) _ _ ?_ ?_
      · show (mkC1 i fatC6).readChunks 512 (m + 6) ((m + 3) + 1) 5 1536 =
            .ok (b.drop 1536)
        rw [readChunks_succ]
        rw [if_neg (show ¬((512 : Nat) = 0) from by decide)]
        rw [if_pos (show 1536 < m + 6 from by omega)]
        refine M.bind_step _ (bchunk b 1536) _ _ ?_ ?_
        · unfold FAT12.readcluster FAT12.read_sectors
          norm_num [FAT12.cluster_index]
          rw [hd3]
          rfl
        refine M.bind_step _ 6 _ _ rfl ?_
        refine M.bind_step _ (b.drop 2048) _ _ ?_ ?_
        · show (mkC1 i fatC6).readChunks 512 (m + 6) ((m + 2) + 1) 6 2048 =
              .ok (b.drop 2048)
          rw [readChunks_succ]
          rw [if_neg (show ¬((512 : Nat) = 0) from by decide)]
          rw [if_pos (show 2048 < m + 6 from by omega)]
          refine M.bind_step _ (bchunk b 2048) _ _ ?_ ?_
          · unfold FAT12.readcluster FAT12.read_sectors
            norm_num [FAT12.cluster_index]
            rw [hd4]
            rfl
          refine M.bind_step _ 7 _ _ rfl ?_
          refine M.bind_step _ (b.drop 2560) _ _ ?_ ?_
          · show (mkC1 i fatC6).readChunks 512 (m + 6) ((m + 1) + 1) 7 2560 =
                .ok (b.drop 2560)
            rw [readChunks_succ]
            rw [if_neg (show ¬((512 : Nat) = 0) from by decide)]
            rw [if_pos (show 2560 < m + 6 from by omega)]
            refine M.bind_step _ (bchunk b 2560) _ _ ?_ ?_
            · unfold FAT12.readcluster FAT12.read_sectors
              norm_num [FAT12.cluster_index]
              rw [hd5]
              rfl
            refine M.bind_step _ 4095 _ _ rfl ?_
            refine M.bind_step _ ([] : List Nat) _ _ ?_ ?_
            · show (mkC1 i fatC6).readChunks 512 (m + 6) (m + 1) 4095 3072 = .ok []
              rw [readChunks_succ]
              rw [if_neg (show ¬((512 : Nat) = 0) from by decide)]
              rw [if_neg (show ¬(3072 < m + 6) from by omega)]
              rfl
            rw [List.append_nil]
            rw [show (bchunk b 2560).take (m + 6 - 2560) = b.drop 2560 from by
              have hx := bchunk_take_last b 2560 (by omega)
              rw [hm] at hx
              exact hx]
            rfl
          rw [show (bchunk b 2048).take (m + 6 - 2048) = (b.drop 2048).take 512 from
            bchunk_take_full b 2048 (m + 6 - 2048) (by omega) (by omega)]
          rw [show (b.drop 2048).take 512 ++ b.drop 2560 = b.drop 2048 from by
            have hg := drop_glue b 2048
            rw [show (2048 : Nat) + 512 = 2560 from rfl] at hg
            exact hg]
          rfl
        rw [show (bchunk b 1536).take (m + 6 - 1536) = (b.drop 1536).take 512 from
          bchunk_take_full b 1536 (m + 6 - 1536) (by omega) (by omega)]
        rw [show (b.drop 1536).take 512 ++ b.drop 2048 = b.drop 1536 from by
          have hg := drop_glue b 1536
          rw [show (1536 : Nat) + 512 = 2048 from rfl] at hg
          exact hg]
        rfl
      rw [show (bchunk b 1024).take (m + 6 - 1024) = (b.drop 1024).take 512 from
        bchunk_take_full b 1024 (m + 6 - 1024) (by omega) (by omega)]
      rw [show (b.drop 1024).take 512 ++ b.drop 1536 = b.drop 1024 from by
        have hg := drop_glue b 1024
        rw [show (1024 : Nat) + 512 = 1536 from rfl] at hg
        exact hg]
      rfl
    rw [show (bchunk b 512).take (m + 6 - 512) = (b.drop 512).take 512 from
      bchunk_take_full b 512 (m + 6 - 512) (by omega) (by omega)]
    rw [show (b.drop 512).take 512 ++ b.drop 1024 = b.drop 512 from by
      have hg := drop_glue b 512
      rw [show (512 : Nat) + 512 = 1024 from rfl] at hg
      exact hg]
    rfl
  rw [show (bchunk b 0).take (m + 6 - 0) = b.take 512 from by
    have hx := bchunk_take_full b 0 (m + 6 - 0) (by omega) (by omega)
    rw [List.drop_zero] at hx
    exact hx]
  rw [show b.take 512 ++ b.drop 512 = b from List.take_append_drop 512 b]
  rfl

theorem wImgK6_root (x : Image) (b : List Nat) :
    imgRead (wImgK6 x b) 1536 512 = newroot b := by
  unfold wImgK6
  rw [imgRead_write_outside _ _ _ _ _ (Or.inr (by decide))]
  rw [imgRead_write_outside _ _ _ _ _ (Or.inr (by decide))]
  rw [imgRead_write_outside _ _ _ _ _ (Or.inr (by decide))]
  rw [imgRead_write_inside _ _ _ _ _ (le_refl _)
    (by rw [show (newroot b).length = 512 from rfl])]
  rw [Nat.sub_self, List.drop_zero,
    List.take_of_length_le (le_of_eq (show (newroot b).length = 512 from rfl))]

theorem wImgK6_data0 (x : Image) (b : List Nat) :
    imgRead (wImgK6 x b) 2048 512 = bchunk b 0 := by
  unfold wImgK6
  rw [imgRead_write_outside _ _ _ _ _ (Or.inr (by decide))]
  rw [imgRead_write_outside _ _ _ _ _ (Or.inr (by decide))]
  rw [imgRead_write_outside _ _ _ _ _ (Or.inr (by decide))]
  rw [imgRead_write_outside _ _ _ _ _ (Or.inr (by
    norm_num [show (newroot b).length = 512 from rfl]))]
  rw [imgRead_write_outside _ _ _ _ _ (Or.inl (by norm_num))]
  rw [imgRead_write_outside _ _ _ _ _ (Or.inl (by norm_num))]
  rw [imgRead_write_outside _ _ _ _ _ (Or.inl (by norm_num))]
  rw [imgRead_write_outside _ _ _ _ _ (Or.inl (by norm_num))]
  rw [imgRead_write_outside _ _ _ _ _ (Or.inl (by norm_num))]
  rw [imgRead_write_inside _ _ _ _ _ (le_refl _) (by rw [bchunk_length])]
  rw [Nat.sub_self, List.drop_zero,
    List.take_of_length_le (le_of_eq (bchunk_length b 0))]

theorem wImgK6_data1 (x : Image) (b : List Nat) :
    imgRead (wImgK6 x b) 2560 512 = bchunk b 512 := by
  unfold wImgK6
  rw [imgRead_write_outside _ _ _ _ _ (Or.inr (by decide))]
  rw [imgRead_write_outside _ _ _ _ _ (Or.inr (by decide))]
  rw [imgRead_write_outside _ _ _ _ _ (Or.inr (by decide))]
  rw [imgRead_write_outside _ _ _ _ _ (Or.inr (by
    norm_num [show (newroot b).length = 512 from rfl]))]
  rw [imgRead_write_outside _ _ _ _ _ (Or.inl (by norm_num))]
  rw [imgRead_write_outside _ _ _ _ _ (Or.inl (by norm_num))]
  rw [imgRead_write_outside _ _ _ _ _ (Or.inl (by norm_num))]
  rw [imgRead_write_outside _ _ _ _ _ (Or.inl (by norm_num))]
  rw [imgRead_write_inside _ _ _ _ _ (le_refl _) (by rw [bchunk_length])]
  rw [Nat.sub_self, List.drop_zero,
    List.take_of_length_le (le_of_eq (bchunk_length b 512))]

theorem wImgK6_data2 (x : Image) (b : List Nat) :
    imgRead (wImgK6 x b) 3072 512 = bchunk b 1024 := by
  unfold wImgK6
  rw [imgRead_write_outside _ _ _ _ _ (Or.inr (by decide))]
  rw [imgRead_write_outside _ _ _ _ _ (Or.inr (by decide))]
  rw [imgRead_write_outside _ _ _ _ _ (Or.inr (by decide))]
  rw [imgRead_write_outside _ _ _ _ _ (Or.inr (by
    norm_num [show (newroot b).length = 512 from rfl]))]
  rw [imgRead_write_outside _ _ _ _ _ (Or.inl (by norm_num))]
  rw [imgRead_write_outside _ _ _ _ _ (Or.inl (by norm_num))]
  rw [imgRead_write_outside _ _ _ _ _ (Or.inl (by norm_num))]
  rw [imgRead_write_inside _ _ _ _ _ (le_refl _) (by rw [bchunk_length])]
  rw [Nat.sub_self, List.drop_zero,
    List.take_of_length_le (le_of_eq (bchunk_length b 1024))]

theorem wImgK6_data3 (x : Image) (b : List Nat) :
    imgRead (wImgK6 x b) 3584 512 = bchunk b 1536 := by
  unfold wImgK6
  rw [imgRead_write_outside _ _ _ _ _ (Or.inr (by decide))]
  rw [imgRead_write_outside _ _ _ _ _ (Or.inr (by decide))]
  rw [imgRead_write_outside _ _ _ _ _ (Or.inr (by decide))]
  rw [imgRead_write_outside _ _ _ _ _ (Or.inr (by
    norm_num [show (newroot b).length = 512 from rfl]))]
  rw [imgRead_write_outside _ _ _ _ _ (Or.inl (by norm_num))]
  rw [imgRead_write_outside _ _ _ _ _ (Or.inl (by norm_num))]
  rw [imgRead_write_inside _ _ _ _ _ (le_refl _) (by rw [bchunk_length])]
  rw [Nat.sub_self, List.drop_zero,
    List.take_of_length_le (le_of_eq (bchunk_length b 1536))]

theorem wImgK6_data4 (x : Image) (b : List Nat) :
    imgRead (wImgK6 x b) 4096 512 = bchunk b 2048 := by
  unfold wImgK6
  rw [imgRead_write_outside _ _ _ _ _ (Or.inr (by decide))]
  rw [imgRead_write_outside _ _ _ _ _ (Or.inr (by decide))]
  rw [imgRead_write_outside _ _ _ _ _ (Or.inr (by decide))]
  rw [imgRead_write_outside _ _ _ _ _ (Or.inr (by
    norm_num [show (newroot b).length = 512 from rfl]))]
  rw [imgRead_write_outside _ _ _ _ _ (Or.inl (by norm_num))]
  rw [imgRead_write_inside _ _ _ _ _ (le_refl _) (by rw [bchunk_length])]
  rw [Nat.sub_self, List.drop_zero,
    List.take_of_length_le (le_of_eq (bchunk_length b 2048))]

theorem wImgK6_data5 (x : Image) (b : List Nat) :
    imgRead (wImgK6 x b) 4608 512 = bchunk b 2560 := by
  unfold wImgK6
  rw [imgRead_write_outside _ _ _ _ _ (Or.inr (by decide))]
  rw [imgRead_write_outside _ _ _ _ _ (Or.inr (by decide))]
  rw [imgRead_write_outside _ _ _ _ _ (Or.inr (by decide))]
  rw [imgRead_write_outside _ _ _ _ _ (Or.inr (by
    norm_num [show (newroot b).length = 512 from rfl]))]
  rw [imgRead_write_inside _ _ _ _ _ (le_refl _) (by rw [bchunk_length])]
  rw [Nat.sub_self, List.drop_zero,
    List.take_of_length_le (le_of_eq (bchunk_length b 2560))]

theorem roundtrip_over_k6 (i : Image) (b : List Nat)
    (h1 : 2560 < b.length) (h2 : b.length ≤ 3072) :
    ∃ st', (mkC1 (imgWrite i 1536 root0) fatC1).write_file pathATXT b false =
        .ok st' ∧ st'.read_file pathATXT = .ok b :=
  ⟨_, by
      rw [write_file_over_body i b]
      exact writefileBody_C1_k6 _ root0 b h1 h2 (read_root0 i) rfl,
    read_C1_k6 _ b h1 h2 (wImgK6_root _ b)
      (wImgK6_data0 _ b) (wImgK6_data1 _ b) (wImgK6_data2 _ b) (wImgK6_data3 _ b) (wImgK6_data4 _ b) (wImgK6_data5 _ b)⟩

theorem roundtrip_create_k6 (i : Image) (b : List Nat)
    (h1 : 2560 < b.length) (h2 : b.length ≤ 3072) :
    ∃ st', (mkC1 (imgWrite i 1536 rootE) fatE).write_file pathATXT b false =
        .ok st' ∧ st'.read_file pathATXT = .ok b :=
  ⟨_, by
      rw [write_file_create_body i b (by omega)]
      exact writefileBody_C1_k6 _ root1 b h1 h2 (read_root1 i) rfl,
    read_C1_k6 _ b h1 h2 (wImgK6_root _ b)
      (wImgK6_data0 _ b) (wImgK6_data1 _ b) (wImgK6_data2 _ b) (wImgK6_data3 _ b) (wImgK6_data4 _ b) (wImgK6_data5 _ b)⟩

/-- The FAT after `/A.TXT` has been rewritten over a chain of 7 clusters (2 → … → 8). -/
def fatC7 : List Nat := [0xFF0, 0xFFF, 3, 4, 5, 6, 7, 8, 0xFFF, 0, 0, 0]

def fatsC7 : List Nat :=
  packFATPairs fatC7 ++ List.replicate (512 - (packFATPairs fatC7).length) 0

def fatImgC7 : List Nat := List.flatten (List.replicate 2 fatsC7)

/-- The disk image after `write_file` stored `b` over 7 clusters. -/
def wImgK7 (x : Image) (b : List Nat) : Image :=
  imgWrite (imgWrite (imgWrite (imgWrite (imgWrite (imgWrite (imgWrite (imgWrite (imgWrite (imgWrite (imgWrite x 2048 (bchunk b 0)) 2560 (bchunk b 512)) 3072 (bchunk b 1024)) 3584 (bchunk b 1536)) 4096 (bchunk b 2048)) 4608 (bchunk b 2560)) 5120 (bchunk b 3072)) 1536 (newroot b)) 11 bpbA) 24 bpbB) 512 fatImgC7

theorem writefat_C7 (i : Image) :
    (mkC1 i fatC7).writefat = .ok (mkC1 (imgWrite i 512 fatImgC7) fatC7) := by
  unfold FAT12.writefat
  norm_num
  rfl

theorem commit_C7 (i : Image) :
    (mkC1 i fatC7).commit = .ok (mkC1 (imgWrite (imgWrite (imgWrite i 11 bpbA)
      24 bpbB) 512 fatImgC7) fatC7) := by
  unfold FAT12.commit
  refine M.bind_step _ (mkC1 i fatC7) _ _ (updatelabel_C1 i fatC7) ?_
  refine M.bind_step _ (mkC1 (imgWrite (imgWrite i 11 bpbA) 24 bpbB) fatC7) _ _
    (writebpb_C1 i fatC7) ?_
  exact writefat_C7 _

/-- `_writefile`'s body on the `/A.TXT` entry with contents spanning 7
clusters: 6 clusters are allocated onto the chain, the data blocks are
written, the entry is rewritten and the volume committed. -/
theorem writefileBody_C1_k7 (x : Image) (rd b : List Nat)
    (h1 : 3072 < b.length) (h2 : b.length ≤ 3584)
    (hread : imgRead x 1536 512 = rd)
    (hsplice : listSplice rd 0 (entryA b.length) = newroot b) :
    (mkC1 x fatC1).writefileBody 1 0 b nameOnlyATXT 0x20 2 1 =
      .ok (mkC1 (wImgK7 x b) fatC7) := by
  rw [writefileBody_eq]
  refine M.bind_step _ 2 _ _ rfl ?_
  refine M.bind_step _ (8, mkC1 x fatC7) _ _ ?_ ?_
  · rw [mkC1_bpc]
    rw [show (b.length + (512 - 1)) / 512 - 1 = 6 from by omega]
    show (mkC1 x fatC1).extendChain 2 (5 + 1) = _
    rw [extendChain_succ]
    refine M.bind_step _ (3, mkC1 x fatC2) _ _ rfl ?_
    show (mkC1 x fatC2).extendChain 3 (4 + 1) = _
    rw [extendChain_succ]
    refine M.bind_step _ (4, mkC1 x fatC3) _ _ rfl ?_
    show (mkC1 x fatC3).extendChain 4 (3 + 1) = _
    rw [extendChain_succ]
    refine M.bind_step _ (5, mkC1 x fatC4) _ _ rfl ?_
    show (mkC1 x fatC4).extendChain 5 (2 + 1) = _
    rw [extendChain_succ]
    refine M.bind_step _ (6, mkC1 x fatC5) _ _ rfl ?_
    show (mkC1 x fatC5).extendChain 6 (1 + 1) = _
    rw [extendChain_succ]
    refine M.bind_step _ (7, mkC1 x fatC6) _ _ rfl ?_
    show (mkC1 x fatC6).extendChain 7 (0 + 1) = _
    rw [extendChain_succ]
    refine M.bind_step _ (8, mkC1 x fatC7) _ _ rfl ?_
    rfl
  rw [mkC1_bpc]
  rw [show (b.length + (512 - 1)) / 512 = 6 + 1 from by omega]
  refine M.bind_step _ (mkC1 (imgWrite (imgWrite (imgWrite (imgWrite (imgWrite (imgWrite (imgWrite x 2048 (bchunk b 0)) 2560 (bchunk b 512)) 3072 (bchunk b 1024)) 3584 (bchunk b 1536)) 4096 (bchunk b 2048)) 4608 (bchunk b 2560)) 5120 (bchunk b 3072)) fatC7) _ _ ?_ ?_
  · rw [writeChunks_succ]
    rw [if_neg (show ¬¬(2 ≤ 2 ∧ 2 < 0xFF0) from by decide)]
    rw [mkC1_bpc]
    rw [show (b.drop 0).take 512 ++ List.replicate
        (512 - ((b.drop 0).take 512).length) 0 = bchunk b 0 from rfl]
    refine M.bind_step _ (mkC1 (imgWrite x 2048 (bchunk b 0)) fatC7) _ _ ?_ ?_
    · unfold FAT12.writecluster FAT12.write_sectors
      rw [show (mkC1 (x) fatC7).cluster_index 2 * 512 = 2048 from by
        norm_num [FAT12.cluster_index]]
      rw [if_neg (show ¬((2048 : Nat) ≥
          (mkC1 (x) fatC7).capacity) from by norm_num)]
      rw [if_neg (show ¬((bchunk b 0).length ≠
          (mkC1 (x) fatC7).sectors_per_cluster * 512) from by
        rw [bchunk_length]; norm_num)]
      rfl
    refine M.bind_step _ 3 _ _ rfl ?_
    show (mkC1 (imgWrite x 2048 (bchunk b 0)) fatC7).writeChunks b (5 + 1) 3 512 = _
    rw [writeChunks_succ]
    rw [if_neg (show ¬¬(2 ≤ 3 ∧ 3 < 0xFF0) from by decide)]
    rw [mkC1_bpc]
    rw [show (b.drop 512).take 512 ++ List.replicate
        (512 - ((b.drop 512).take 512).length) 0 = bchunk b 512 from rfl]
    refine M.bind_step _ (mkC1 (imgWrite (imgWrite x 2048 (bchunk b 0)) 2560 (bchunk b 512)) fatC7) _ _ ?_ ?_
    · unfold FAT12.writecluster FAT12.write_sectors
      rw [show (mkC1 (imgWrite x 2048 (bchunk b 0)) fatC7).cluster_index 3 * 512 = 2560 from by
        norm_num [FAT12.cluster_index]]
      rw [if_neg (show ¬((2560 : Nat) ≥
          (mkC1 (imgWrite x 2048 (bchunk b 0)) fatC7).capacity) from by norm_num)]
      rw [if_neg (show ¬((bchunk b 512).length ≠
          (mkC1 (imgWrite x 2048 (bchunk b 0)) fatC7).sectors_per_cluster * 512) from by
        rw [bchunk_length]; norm_num)]
      rfl
    refine M.bind_step _ 4 _ _ rfl ?_
    show (mkC1 (imgWrite (imgWrite x 2048 (bchunk b 0)) 2560 (bchunk b 512)) fatC7).writeChunks b (4 + 1) 4 1024 = _
    rw [writeChunks_succ]
    rw [if_neg (show ¬¬(2 ≤ 4 ∧ 4 < 0xFF0) from by decide)]
    rw [mkC1_bpc]
    rw [show (b.drop 1024).take 512 ++ List.replicate
        (512 - ((b.drop 1024).take 512).length) 0 = bchunk b 1024 from rfl]
    refine M.bind_step _ (mkC1 (imgWrite (imgWrite (imgWrite x 2048 (bchunk b 0)) 2560 (bchunk b 512)) 3072 (bchunk b 1024)) fatC7) _ _ ?_ ?_
    · unfold FAT12.writecluster FAT12.write_sectors
      rw [show (mkC1 (imgWrite (imgWrite x 2048 (bchunk b 0)) 2560 (bchunk b 512)) fatC7).cluster_index 4 * 512 = 3072 from by
        norm_num [FAT12.cluster_index]]
      rw [if_neg (show ¬((3072 : Nat) ≥
          (mkC1 (imgWrite (imgWrite x 2048 (bchunk b 0)) 2560 (bchunk b 512)) fatC7).capacity) from by norm_num)]
      rw [if_neg (show ¬((bchunk b 1024).length ≠
          (mkC1 (imgWrite (imgWrite x 2048 (bchunk b 0)) 2560 (bchunk b 512)) fatC7).sectors_per_cluster * 512) from by
        rw [bchunk_length]; norm_num)]
      rfl
    refine M.bind_step _ 5 _ _ rfl ?_
    show (mkC1 (imgWrite (imgWrite (imgWrite x 2048 (bchunk b 0)) 2560 (bchunk b 512)) 3072 (bchunk b 1024)) fatC7).writeChunks b (3 + 1) 5 1536 = _
    rw [writeChunks_succ]
    rw [if_neg (show ¬¬(2 ≤ 5 ∧ 5 < 0xFF0) from by decide)]
    rw [mkC1_bpc]
    rw [show (b.drop 1536).take 512 ++ List.replicate
        (512 - ((b.drop 1536).take 512).length) 0 = bchunk b 1536 from rfl]
    refine M.bind_step _ (mkC1 (imgWrite (imgWrite (imgWrite (imgWrite x 2048 (bchunk b 0)) 2560 (bchunk b 512)) 3072 (bchunk b 1024)) 3584 (bchunk b 1536)) fatC7) _ _ ?_ ?_
    · unfold FAT12.writecluster FAT12.write_sectors
      rw [show (mkC1 (imgWrite (imgWrite (imgWrite x 2048 (bchunk b 0)) 2560 (bchunk b 512)) 3072 (bchunk b 1024)) fatC7).cluster_index 5 * 512 = 3584 from by
        norm_num [FAT12.cluster_index]]
      rw [if_neg (show ¬((3584 : Nat) ≥
          (mkC1 (imgWrite (imgWrite (imgWrite x 2048 (bchunk b 0)) 2560 (bchunk b 512)) 3072 (bchunk b 1024)) fatC7).capacity) from by norm_num)]
      rw [if_neg (show ¬((bchunk b 1536).length ≠
          (mkC1 (imgWrite (imgWrite (imgWrite x 2048 (bchunk b 0)) 2560 (bchunk b 512)) 3072 (bchunk b 1024)) fatC7).sectors_per_cluster * 512) from by
        rw [bchunk_length]; norm_num)]
      rfl
    refine M.bind_step _ 6 _ _ rfl ?_
    show (mkC1 (imgWrite (imgWrite (imgWrite (imgWrite x 2048 (bchunk b 0)) 2560 (bchunk b 512)) 3072 (bchunk b 1024)) 3584 (bchunk b 1536)) fatC7).writeChunks b (2 + 1) 6 2048 = _
    rw [writeChunks_succ]
    rw [if_neg (show ¬¬(2 ≤ 6 ∧ 6 < 0xFF0) from by decide)]
    rw [mkC1_bpc]
    rw [show (b.drop 2048).take 512 ++ List.replicate
        (512 - ((b.drop 2048).take 512).length) 0 = bchunk b 2048 from rfl]
    refine M.bind_step _ (mkC1 (imgWrite (imgWrite (imgWrite (imgWrite (imgWrite x 2048 (bchunk b 0)) 2560 (bchunk b 512)) 3072 (bchunk b 1024)) 3584 (bchunk b 1536)) 4096 (bchunk b 2048)) fatC7) _ _ ?_ ?_
    · unfold FAT12.writecluster FAT12.write_sectors
      rw [show (mkC1 (imgWrite (imgWrite (imgWrite (imgWrite x 2048 (bchunk b 0)) 2560 (bchunk b 512)) 3072 (bchunk b 1024)) 3584 (bchunk b 1536)) fatC7).cluster_index 6 * 512 = 4096 from by
        norm_num [FAT12.cluster_index]]
      rw [if_neg (show ¬((4096 : Nat) ≥
          (mkC1 (imgWrite (imgWrite (imgWrite (imgWrite x 2048 (bchunk b 0)) 2560 (bchunk b 512)) 3072 (bchunk b 1024)) 3584 (bchunk b 1536)) fatC7).capacity) from by norm_num)]
      rw [if_neg (show ¬((bchunk b 2048).length ≠
          (mkC1 (imgWrite (imgWrite (imgWrite (imgWrite x 2048 (bchunk b 0)) 2560 (bchunk b 512)) 3072 (bchunk b 1024)) 3584 (bchunk b 1536)) fatC7).sectors_per_cluster * 512) from by
        rw [bchunk_length]; norm_num)]
      rfl
    refine M.bind_step _ 7 _ _ rfl ?_
    show (mkC1 (imgWrite (imgWrite (imgWrite (imgWrite (imgWrite x 2048 (bchunk b 0)) 2560 (bchunk b 512)) 3072 (bchunk b 1024)) 3584 (bchunk b 1536)) 4096 (bchunk b 2048)) fatC7).writeChunks b (1 + 1) 7 2560 = _
    rw [writeChunks_succ]
    rw [if_neg (show ¬¬(2 ≤ 7 ∧ 7 < 0xFF0) from by decide)]
    rw [mkC1_bpc]
    rw [show (b.drop 2560).take 512 ++ List.replicate
        (512 - ((b.drop 2560).take 512).length) 0 = bchunk b 2560 from rfl]
    refine M.bind_step _ (mkC1 (imgWrite (imgWrite (imgWrite (imgWrite (imgWrite (imgWrite x 2048 (bchunk b 0)) 2560 (bchunk b 512)) 3072 (bchunk b 1024)) 3584 (bchunk b 1536)) 4096 (bchunk b 2048)) 4608 (bchunk b 2560)) fatC7) _ _ ?_ ?_
    · unfold FAT12.writecluster FAT12.write_sectors
      rw [show (mkC1 (imgWrite (imgWrite (imgWrite (imgWrite (imgWrite x 2048 (bchunk b 0)) 2560 (bchunk b 512)) 3072 (bchunk b 1024)) 3584 (bchunk b 1536)) 4096 (bchunk b 2048)) fatC7).cluster_index 7 * 512 = 4608 from by
        norm_num [FAT12.cluster_index]]
      rw [if_neg (show ¬((4608 : Nat) ≥
          (mkC1 (imgWrite (imgWrite (imgWrite (imgWrite (imgWrite x 2048 (bchunk b 0)) 2560 (bchunk b 512)) 3072 (bchunk b 1024)) 3584 (bchunk b 1536)) 4096 (bchunk b 2048)) fatC7).capacity) from by norm_num)]
      rw [if_neg (show ¬((bchunk b 2560).length ≠
          (mkC1 (imgWrite (imgWrite (imgWrite (imgWrite (imgWrite x 2048 (bchunk b 0)) 2560 (bchunk b 512)) 3072 (bchunk b 1024)) 3584 (bchunk b 1536)) 4096 (bchunk b 2048)) fatC7).sectors_per_cluster * 512) from by
        rw [bchunk_length]; norm_num)]
      rfl
    refine M.bind_step _ 8 _ _ rfl ?_
    show (mkC1 (imgWrite (imgWrite (imgWrite (imgWrite (imgWrite (imgWrite x 2048 (bchunk b 0)) 2560 (bchunk b 512)) 3072 (bchunk b 1024)) 3584 (bchunk b 1536)) 4096 (bchunk b 2048)) 4608 (bchunk b 2560)) fatC7).writeChunks b (0 + 1) 8 3072 = _
    rw [writeChunks_succ]
    rw [if_neg (show ¬¬(2 ≤ 8 ∧ 8 < 0xFF0) from by decide)]
    rw [mkC1_bpc]
    rw [show (b.drop 3072).take 512 ++ List.replicate
        (512 - ((b.drop 3072).take 512).length) 0 = bchunk b 3072 from rfl]
    refine M.bind_step _ (mkC1 (imgWrite (imgWrite (imgWrite (imgWrite (imgWrite (imgWrite (imgWrite x 2048 (bchunk b 0)) 2560 (bchunk b 512)) 3072 (bchunk b 1024)) 3584 (bchunk b 1536)) 4096 (bchunk b 2048)) 4608 (bchunk b 2560)) 5120 (bchunk b 3072)) fatC7) _ _ ?_ ?_
    · unfold FAT12.writecluster FAT12.write_sectors
      rw [show (mkC1 (imgWrite (imgWrite (imgWrite (imgWrite (imgWrite (imgWrite x 2048 (bchunk b 0)) 2560 (bchunk b 512)) 3072 (bchunk b 1024)) 3584 (bchunk b 1536)) 4096 (bchunk b 2048)) 4608 (bchunk b 2560)) fatC7).cluster_index 8 * 512 = 5120 from by
        norm_num [FAT12.cluster_index]]
      rw [if_neg (show ¬((5120 : Nat) ≥
          (mkC1 (imgWrite (imgWrite (imgWrite (imgWrite (imgWrite (imgWrite x 2048 (bchunk b 0)) 2560 (bchunk b 512)) 3072 (bchunk b 1024)) 3584 (bchunk b 1536)) 4096 (bchunk b 2048)) 4608 (bchunk b 2560)) fatC7).capacity) from by norm_num)]
      rw [if_neg (show ¬((bchunk b 3072).length ≠
          (mkC1 (imgWrite (imgWrite (imgWrite (imgWrite (imgWrite (imgWrite x 2048 (bchunk b 0)) 2560 (bchunk b 512)) 3072 (bchunk b 1024)) 3584 (bchunk b 1536)) 4096 (bchunk b 2048)) 4608 (bchunk b 2560)) fatC7).sectors_per_cluster * 512) from by
        rw [bchunk_length]; norm_num)]
      rfl
    refine M.bind_step _ 4095 _ _ rfl ?_
    rfl
  refine M.bind_step _ (mkC1 (imgWrite (imgWrite (imgWrite (imgWrite (imgWrite (imgWrite (imgWrite x 2048 (bchunk b 0)) 2560 (bchunk b 512)) 3072 (bchunk b 1024)) 3584 (bchunk b 1536)) 4096 (bchunk b 2048)) 4608 (bchunk b 2560)) 5120 (bchunk b 3072)) fatC7, 2) _ _ rfl ?_
  refine M.bind_step _ (entryA b.length) _ _ ?_ ?_
  · rw [show (mkC1 (imgWrite (imgWrite (imgWrite (imgWrite (imgWrite (imgWrite (imgWrite x 2048 (bchunk b 0)) 2560 (bchunk b 512)) 3072 (bchunk b 1024)) 3584 (bchunk b 1536)) 4096 (bchunk b 2048)) 4608 (bchunk b 2560)) 5120 (bchunk b 3072)) fatC7).now = fixNow from rfl]
    exact mkdir_entryA b.length (by omega)
  refine M.bind_step _ (mkC1 (imgWrite (imgWrite (imgWrite (imgWrite (imgWrite (imgWrite (imgWrite (imgWrite x 2048 (bchunk b 0)) 2560 (bchunk b 512)) 3072 (bchunk b 1024)) 3584 (bchunk b 1536)) 4096 (bchunk b 2048)) 4608 (bchunk b 2560)) 5120 (bchunk b 3072)) 1536 (newroot b)) fatC7) _ _ ?_ ?_
  · unfold FAT12.writedirentry
    rw [if_neg (show ¬((entryA b.length).length ≠ 32) from by
      rw [show (entryA b.length).length = 32 from rfl]; omega)]
    rw [if_pos rfl]
    rw [rs_root_C1]
    rw [show imgRead (imgWrite (imgWrite (imgWrite (imgWrite (imgWrite (imgWrite (imgWrite x 2048 (bchunk b 0)) 2560 (bchunk b 512)) 3072 (bchunk b 1024)) 3584 (bchunk b 1536)) 4096 (bchunk b 2048)) 4608 (bchunk b 2560)) 5120 (bchunk b 3072)) 1536 512 = rd from by
      rw [imgRead_write_outside _ _ _ _ _ (Or.inl (by norm_num))]
      rw [imgRead_write_outside _ _ _ _ _ (Or.inl (by norm_num))]
      rw [imgRead_write_outside _ _ _ _ _ (Or.inl (by norm_num))]
      rw [imgRead_write_outside _ _ _ _ _ (Or.inl (by norm_num))]
      rw [imgRead_write_outside _ _ _ _ _ (Or.inl (by norm_num))]
      rw [imgRead_write_outside _ _ _ _ _ (Or.inl (by norm_num))]
      rw [imgRead_write_outside _ _ _ _ _ (Or.inl (by norm_num))]
      exact hread]
    rw [M.ok_bind2]
    beta_reduce
    rw [hsplice]
    unfold FAT12.write_sectors
    norm_num [show (newroot b).length = 512 from rfl]
    rfl
  show FAT12.commit _ = _
  exact commit_C7 _

/-- `read_file("/A.TXT")` returns exactly `b` on a volume holding `b`
over the 7-cluster chain. -/
theorem read_C1_k7 (i : Image) (b : List Nat)
    (h1 : 3072 < b.length) (h2 : b.length ≤ 3584)
    (hroot : imgRead i 1536 512 = newroot b)
    (hd0 : imgRead i 2048 512 = bchunk b 0)
    (hd1 : imgRead i 2560 512 = bchunk b 512)
    (hd2 : imgRead i 3072 512 = bchunk b 1024)
    (hd3 : imgRead i 3584 512 = bchunk b 1536)
    (hd4 : imgRead i 4096 512 = bchunk b 2048)
    (hd5 : imgRead i 4608 512 = bchunk b 2560)
    (hd6 : imgRead i 5120 512 = bchunk b 3072)
    : (mkC1 i fatC7).read_file pathATXT = .ok b := by
  obtain ⟨m, hm⟩ : ∃ m, b.length = m + 7 := ⟨b.length - 7, by omega⟩
  unfold FAT12.read_file
  rw [resolvepath_C1 i fatC7 (newroot b) hroot (scan_newroot b (by omega)),
    M.ok_bind2]
  beta_reduce
  show (mkC1 i fatC7).readfile 1 0 = _
  unfold FAT12.readfile
  rw [readdirentry_C1 i fatC7 (newroot b) hroot, M.ok_bind2]
  beta_reduce
  rw [show (newroot b).take 32 = entryA b.length from rfl]
  rw [parse_entryA b.length (by omega), M.ok_bind2]
  beta_reduce
  show (mkC1 i fatC7).readChunks 512 b.length (b.length + 1) 2 0 = _
  rw [hm]
  rw [readChunks_succ]
  rw [if_neg (show ¬((512 : Nat) = 0) from by decide)]
  rw [if_pos (show 0 < m + 7 from by omega)]
  refine M.bind_step _ (bchunk b 0) _ _ ?_ ?_
  · unfold FAT12.readcluster FAT12.read_sectors
    norm_num [FAT12.cluster_index]
    rw [hd0]
    rfl
  refine M.bind_step _ 3 _ _ rfl ?_
  refine M.bind_step _ (b.drop 512) _ _ ?_ ?_
  · show (mkC1 i fatC7).readChunks 512 (m + 7) ((m + 6) + 1) 3 512 =
        .ok (b.drop 512)
    rw [readChunks_succ]
    rw [if_neg (show ¬((512 : Nat) = 0) from by decide)]
    rw [if_pos (show 512 < m + 7 from by omega)]
    refine M.bind_step _ (bchunk b 512) _ _ ?_ ?_
    · unfold FAT12.readcluster FAT12.read_sectors
      norm_num [FAT12.cluster_index]
      rw [hd1]
      rfl
    refine M.bind_step _ 4 _ _ rfl ?_
    refine M.bind_step _ (b.drop 1024) _ _ ?_ ?_
    · show (mkC1 i fatC7).readChunks 512 (m + 7) ((m + 5) + 1) 4 1024 =
          .ok (b.drop 1024)
      rw [readChunks_succ]
      rw [if_neg (show ¬((512 : Nat) = 0) from by decide)]
      rw [if_pos (show 1024 < m + 7 from by omega)]
      refine M.bind_step _ (bchunk b 1024) _ _ ?_ ?_
      · unfold FAT12.readcluster FAT12.read_sectors
        norm_num [FAT12.cluster_index]
        rw [hd2]
        rfl
      refine M.bind_step _ 5 _ _ rfl ?_
      refine M.bind_step _ (b.drop 1536) _ _ ?_ ?_
      · show (mkC1 i fatC7).readChunks 512 (m + 7) ((m + 4) + 1) 5 1536 =
            .ok (b.drop 1536)
        rw [readChunks_succ]
        rw [if_neg (show ¬((512 : Nat) = 0) from by decide)]
        rw [if_pos (show 1536 < m + 7 from by omega)]
        refine M.bind_step _ (bchunk b 1536) _ _ ?_ ?_
        · unfold FAT12.readcluster FAT12.read_sectors
          norm_num [FAT12.cluster_index]
          rw [hd3]
          rfl
        refine M.bind_step _ 6 _ _ rfl ?_
        refine M.bind_step _ (b.drop 2048) _ _ ?_ ?_
        · show (mkC1 i fatC7).readChunks 512 (m + 7) ((m + 3) + 1) 6 2048 =
              .ok (b.drop 2048)
          rw [readChunks_succ]
          rw [if_neg (show ¬((512 : Nat) = 0) from by decide)]
          rw [if_pos (show 2048 < m + 7 from by omega)]
          refine M.bind_step _ (bchunk b 2048) _ _ ?_ ?_
          · unfold FAT12.readcluster FAT12.read_sectors
            norm_num [FAT12.cluster_index]
            rw [hd4]
            rfl
          refine M.bind_step _ 7 _ _ rfl ?_
          refine M.bind_step _ (b.drop 2560) _ _ ?_ ?_
          · show (mkC1 i fatC7).readChunks 512 (m + 7) ((m + 2) + 1) 7 2560 =
                .ok (b.drop 2560)
            rw [readChunks_succ]
            rw [if_neg (show ¬((512 : Nat) = 0) from by decide)]
            rw [if_pos (show 2560 < m + 7 from by omega)]
            refine M.bind_step _ (bchunk b 2560) _ _ ?_ ?_
            · unfold FAT12.readcluster FAT12.read_sectors
              norm_num [FAT12.cluster_index]
              rw [hd5]
              rfl
            refine M.bind_step _ 8 _ _ rfl ?_
            refine M.bind_step _ (b.drop 3072) _ _ ?_ ?_
            · show (mkC1 i fatC7).readChunks 512 (m + 7) ((m + 1) + 1) 8 3072 =
                  .ok (b.drop 3072)
              rw [readChunks_succ]
              rw [if_neg (show ¬((512 : Nat) = 0) from by decide)]
              rw [if_pos (show 3072 < m + 7 from by omega)]
              refine M.bind_step _ (bchunk b 3072) _ _ ?_ ?_
              · unfold FAT12.readcluster FAT12.read_sectors
                norm_num [FAT12.cluster_index]
                rw [hd6]
                rfl
              refine M.bind_step _ 4095 _ _ rfl ?_
              refine M.bind_step _ ([] : List Nat) _ _ ?_ ?_
              · show (mkC1 i fatC7).readChunks 512 (m + 7) (m + 1) 4095 3584 = .ok []
                rw [readChunks_succ]
                rw [if_neg (show ¬((512 : Nat) = 0) from by decide)]
                rw [if_neg (show ¬(3584 < m + 7) from by omega)]
                rfl
              rw [List.append_nil]
              rw [show (bchunk b 3072).take (m + 7 - 3072) = b.drop 3072 from by
                have hx := bchunk_take_last b 3072 (by omega)
                rw [hm] at hx
                exact hx]
              rfl
            rw [show (bchunk b 2560).take (m + 7 - 2560) = (b.drop 2560).take 512 from
              bchunk_take_full b 2560 (m + 7 - 2560) (by omega) (by omega)]
            rw [show (b.drop 2560).take 512 ++ b.drop 3072 = b.drop 2560 from by
              have hg := drop_glue b 2560
              rw [show (2560 : Nat) + 512 = 3072 from rfl] at hg
              exact hg]
            rfl
          rw [show (bchunk b 2048).take (m + 7 - 2048) = (b.drop 2048).take 512 from
            bchunk_take_full b 2048 (m + 7 - 2048) (by omega) (by omega)]
          rw [show (b.drop 2048).take 512 ++ b.drop 2560 = b.drop 2048 from by
            have hg := drop_glue b 2048
            rw [show (2048 : Nat) + 512 = 2560 from rfl] at hg
            exact hg]
          rfl
        rw [show (bchunk b 1536).take (m + 7 - 1536) = (b.drop 1536).take 512 from
          bchunk_take_full b 1536 (m + 7 - 1536) (by omega) (by omega)]
        rw [show (b.drop 1536).take 512 ++ b.drop 2048 = b.drop 1536 from by
          have hg := drop_glue b 1536
          rw [show (1536 : Nat) + 512 = 2048 from rfl] at hg
          exact hg]
        rfl
      rw [show (bchunk b 1024).take (m + 7 - 1024) = (b.drop 1024).take 512 from
        bchunk_take_full b 1024 (m + 7 - 1024) (by omega) (by omega)]
      rw [show (b.drop 1024).take 512 ++ b.drop 1536 = b.drop 1024 from by
        have hg := drop_glue b 1024
        rw [show (1024 : Nat) + 512 = 1536 from rfl] at hg
        exact hg]
      rfl
    rw [show (bchunk b 512).take (m + 7 - 512) = (b.drop 512).take 512 from
      bchunk_take_full b 512 (m + 7 - 512) (by omega) (by omega)]
    rw [show (b.drop 512).take 512 ++ b.drop 1024 = b.drop 512 from by
      have hg := drop_glue b 512
      rw [show (512 : Nat) + 512 = 1024 from rfl] at hg
      exact hg]
    rfl
  rw [show (bchunk b 0).take (m + 7 - 0) = b.take 512 from by
    have hx := bchunk_take_full b 0 (m + 7 - 0) (by omega) (by omega)
    rw [List.drop_zero] at hx
    exact hx]
  rw [show b.take 512 ++ b.drop 512 = b from List.take_append_drop 512 b]
  rfl

theorem wImgK7_root (x : Image) (b : List Nat) :
    imgRead (wImgK7 x b) 1536 512 = newroot b := by
  unfold wImgK7
  rw [imgRead_write_outside _ _ _ _ _ (Or.inr (by decide))]
  rw [imgRead_write_outside _ _ _ _ _ (Or.inr (by decide))]
  rw [imgRead_write_outside _ _ _ _ _ (Or.inr (by decide))]
  rw [imgRead_write_inside _ _ _ _ _ (le_refl _)
    (by rw [show (newroot b).length = 512 from rfl])]
  rw [Nat.sub_self, List.drop_zero,
    List.take_of_length_le (le_of_eq (show (newroot b).length = 512 from rfl))]

theorem wImgK7_data0 (x : Image) (b : List Nat) :
    imgRead (wImgK7 x b) 2048 512 = bchunk b 0 := by
  unfold wImgK7
  rw [imgRead_write_outside _ _ _ _ _ (Or.inr (by decide))]
  rw [imgRead_write_outside _ _ _ _ _ (Or.inr (by decide))]
  rw [imgRead_write_outside _ _ _ _ _ (Or.inr (by decide))]
  rw [imgRead_write_outside _ _ _ _ _ (Or.inr (by
    norm_num [show (newroot b).length = 512 from rfl]))]
  rw [imgRead_write_outside _ _ _ _ _ (Or.inl (by norm_num))]
  rw [imgRead_write_outside _ _ _ _ _ (Or.inl (by norm_num))]
  rw [imgRead_write_outside _ _ _ _ _ (Or.inl (by norm_num))]
  rw [imgRead_write_outside _ _ _ _ _ (Or.inl (by norm_num))]
  rw [imgRead_write_outside _ _ _ _ _ (Or.inl (by norm_num))]
  rw [imgRead_write_outside _ _ _ _ _ (Or.inl (by norm_num))]
  rw [imgRead_write_inside _ _ _ _ _ (le_refl _) (by rw [bchunk_length])]
  rw [Nat.sub_self, List.drop_zero,
    List.take_of_length_le (le_of_eq (bchunk_length b 0))]

theorem wImgK7_data1 (x : Image) (b : List Nat) :
    imgRead (wImgK7 x b) 2560 512 = bchunk b 512 := by
  unfold wImgK7
  rw [imgRead_write_outside _ _ _ _ _ (Or.inr (by decide))]
  rw [imgRead_write_outside _ _ _ _ _ (Or.inr (by decide))]
  rw [imgRead_write_outside _ _ _ _ _ (Or.inr (by decide))]
  rw [imgRead_write_outside _ _ _ _ _ (Or.inr (by
    norm_num [show (newroot b).length = 512 from rfl]))]
  rw [imgRead_write_outside _ _ _ _ _ (Or.inl (by norm_num))]
  rw [imgRead_write_outside _ _ _ _ _ (Or.inl (by norm_num))]
  rw [imgRead_write_outside _ _ _ _ _ (Or.inl (by norm_num))]
  rw [imgRead_write_outside _ _ _ _ _ (Or.inl (by norm_num))]
  rw [imgRead_write_outside _ _ _ _ _ (Or.inl (by norm_num))]
  rw [imgRead_write_inside _ _ _ _ _ (le_refl _) (by rw [bchunk_length])]
  rw [Nat.sub_self, List.drop_zero,
    List.take_of_length_le (le_of_eq (bchunk_length b 512))]

theorem wImgK7_data2 (x : Image) (b : List Nat) :
    imgRead (wImgK7 x b) 3072 512 = bchunk b 1024 := by
  unfold wImgK7
  rw [imgRead_write_outside _ _ _ _ _ (Or.inr (by decide))]
  rw [imgRead_write_outside _ _ _ _ _ (Or.inr (by decide))]
  rw [imgRead_write_outside _ _ _ _ _ (Or.inr (by decide))]
  rw [imgRead_write_outside _ _ _ _ _ (Or.inr (by
    norm_num [show (newroot b).length = 512 from rfl]))]
  rw [imgRead_write_outside _ _ _ _ _ (Or.inl (by norm_num))]
  rw [imgRead_write_outside _ _ _ _ _ (Or.inl (by norm_num))]
  rw [imgRead_write_outside _ _ _ _ _ (Or.inl (by norm_num))]
  rw [imgRead_write_outside _ _ _ _ _ (Or.inl (by norm_num))]
  rw [imgRead_write_inside _ _ _ _ _ (le_refl _) (by rw [bchunk_length])]
  rw [Nat.sub_self, List.drop_zero,
    List.take_of_length_le (le_of_eq (bchunk_length b 1024))]

theorem wImgK7_data3 (x : Image) (b : List Nat) :
    imgRead (wImgK7 x b) 3584 512 = bchunk b 1536 := by
  unfold wImgK7
  rw [imgRead_write_outside _ _ _ _ _ (Or.inr (by decide))]
  rw [imgRead_write_outside _ _ _ _ _ (Or.inr (by decide))]
  rw [imgRead_write_outside _ _ _ _ _ (Or.inr (by decide))]
  rw [imgRead_write_outside _ _ _ _ _ (Or.inr (by
    norm_num [show (newroot b).length = 512 from rfl]))]
  rw [imgRead_write_outside _ _ _ _ _ (Or.inl (by norm_num))]
  rw [imgRead_write_outside _ _ _ _ _ (Or.inl (by norm_num))]
  rw [imgRead_write_outside _ _ _ _ _ (Or.inl (by norm_num))]
  rw [imgRead_write_inside _ _ _ _ _ (le_refl _) (by rw [bchunk_length])]
  rw [Nat.sub_self, List.drop_zero,
    List.take_of_length_le (le_of_eq (bchunk_length b 1536))]

theorem wImgK7_data4 (x : Image) (b : List Nat) :
    imgRead (wImgK7 x b) 4096 512 = bchunk b 2048 := by
  unfold wImgK7
  rw [imgRead_write_outside _ _ _ _ _ (Or.inr (by decide))]
  rw [imgRead_write_outside _ _ _ _ _ (Or.inr (by decide))]
  rw [imgRead_write_outside _ _ _ _ _ (Or.inr (by decide))]
  rw [imgRead_write_outside _ _ _ _ _ (Or.inr (by
    norm_num [show (newroot b).length = 512 from rfl]))]
  rw [imgRead_write_outside _ _ _ _ _ (Or.inl (by norm_num))]
  rw [imgRead_write_outside _ _ _ _ _ (Or.inl (by norm_num))]
  rw [imgRead_write_inside _ _ _ _ _ (le_refl _) (by rw [bchunk_length])]
  rw [Nat.sub_self, List.drop_zero,
    List.take_of_length_le (le_of_eq (bchunk_length b 2048))]

theorem wImgK7_data5 (x : Image) (b : List Nat) :
    imgRead (wImgK7 x b) 4608 512 = bchunk b 2560 := by
  unfold wImgK7
  rw [imgRead_write_outside _ _ _ _ _ (Or.inr (by decide))]
  rw [imgRead_write_outside _ _ _ _ _ (Or.inr (by decide))]
  rw [imgRead_write_outside _ _ _ _ _ (Or.inr (by decide))]
  rw [imgRead_write_outside _ _ _ _ _ (Or.inr (by
    norm_num [show (newroot b).length = 512 from rfl]))]
  rw [imgRead_write_outside _ _ _ _ _ (Or.inl (by norm_num))]
  rw [imgRead_write_inside _ _ _ _ _ (le_refl _) (by rw [bchunk_length])]
  rw [Nat.sub_self, List.drop_zero,
    List.take_of_length_le (le_of_eq (bchunk_length b 2560))]

theorem wImgK7_data6 (x : Image) (b : List Nat) :
    imgRead (wImgK7 x b) 5120 512 = bchunk b 3072 := by
  unfold wImgK7
  rw [imgRead_write_outside _ _ _ _ _ (Or.inr (by decide))]
  rw [imgRead_write_outside _ _ _ _ _ (Or.inr (by decide))]
  rw [imgRead_write_outside _ _ _ _ _ (Or.inr (by decide))]
  rw [imgRead_write_outside _ _ _ _ _ (Or.inr (by
    norm_num [show (newroot b).length = 512 from rfl]))]
  rw [imgRead_write_inside _ _ _ _ _ (le_refl _) (by rw [bchunk_length])]
  rw [Nat.sub_self, List.drop_zero,
    List.take_of_length_le (le_of_eq (bchunk_length b 3072))]

theorem roundtrip_over_k7 (i : Image) (b : List Nat)
    (h1 : 3072 < b.length) (h2 : b.length ≤ 3584) :
    ∃ st', (mkC1 (imgWrite i 1536 root0) fatC1).write_file pathATXT b false =
        .ok st' ∧ st'.read_file pathATXT = .ok b :=
  ⟨_, by
      rw [write_file_over_body i b]
      exact writefileBody_C1_k7 _ root0 b h1 h2 (read_root0 i) rfl,
    read_C1_k7 _ b h1 h2 (wImgK7_root _ b)
      (wImgK7_data0 _ b) (wImgK7_data1 _ b) (wImgK7_data2 _ b) (wImgK7_data3 _ b) (wImgK7_data4 _ b) (wImgK7_data5 _ b) (wImgK7_data6 _ b)⟩

theorem roundtrip_create_k7 (i : Image) (b : List Nat)
    (h1 : 3072 < b.length) (h2 : b.length ≤ 3584) :
    ∃ st', (mkC1 (imgWrite i 1536 rootE) fatE).write_file pathATXT b false =
        .ok st' ∧ st'.read_file pathATXT = .ok b :=
  ⟨_, by
      rw [write_file_create_body i b (by omega)]
      exact writefileBody_C1_k7 _ root1 b h1 h2 (read_root1 i) rfl,
    read_C1_k7 _ b h1 h2 (wImgK7_root _ b)
      (wImgK7_data0 _ b) (wImgK7_data1 _ b) (wImgK7_data2 _ b) (wImgK7_data3 _ b) (wImgK7_data4 _ b) (wImgK7_data5 _ b) (wImgK7_data6 _ b)⟩

/-- The FAT after `/A.TXT` has been rewritten over a chain of 8 clusters (2 → … → 9). -/
def fatC8 : List Nat := [0xFF0, 0xFFF, 3, 4, 5, 6, 7, 8, 9, 0xFFF, 0, 0]

def fatsC8 : List Nat :=
  packFATPairs fatC8 ++ List.replicate (512 - (packFATPairs fatC8).length) 0

def fatImgC8 : List Nat := List.flatten (List.replicate 2 fatsC8)

/-- The disk image after `write_file` stored `b` over 8 clusters. -/
def wImgK8 (x : Image) (b : List Nat) : Image :=
  imgWrite (imgWrite (imgWrite (imgWrite (imgWrite (imgWrite (imgWrite (imgWrite (imgWrite (imgWrite (imgWrite (imgWrite x 2048 (bchunk b 0)) 2560 (bchunk b 512)) 3072 (bchunk b 1024)) 3584 (bchunk b 1536)) 4096 (bchunk b 2048)) 4608 (bchunk b 2560)) 5120 (bchunk b 3072)) 5632 (bchunk b 3584)) 1536 (newroot b)) 11 bpbA) 24 bpbB) 512 fatImgC8

theorem writefat_C8 (i : Image) :
    (mkC1 i fatC8).writefat = .ok (mkC1 (imgWrite i 512 fatImgC8) fatC8) := by
  unfold FAT12.writefat
  norm_num
  rfl

theorem commit_C8 (i : Image) :
    (mkC1 i fatC8).commit = .ok (mkC1 (imgWrite (imgWrite (imgWrite i 11 bpbA)
      24 bpbB) 512 fatImgC8) fatC8) := by
  unfold FAT12.commit
  refine M.bind_step _ (mkC1 i fatC8) _ _ (updatelabel_C1 i fatC8) ?_
  refine M.bind_step _ (mkC1 (imgWrite (imgWrite i 11 bpbA) 24 bpbB) fatC8) _ _
    (writebpb_C1 i fatC8) ?_
  exact writefat_C8 _

/-- `_writefile`'s body on the `/A.TXT` entry with contents spanning 8
clusters: 7 clusters are allocated onto the chain, the data blocks are
written, the entry is rewritten and the volume committed. -/
theorem writefileBody_C1_k8 (x : Image) (rd b : List Nat)
    (h1 : 3584 < b.length) (h2 : b.length ≤ 4096)
    (hread : imgRead x 1536 512 = rd)
    (hsplice : listSplice rd 0 (entryA b.length) = newroot b) :
    (mkC1 x fatC1).writefileBody 1 0 b nameOnlyATXT 0x20 2 1 =
      .ok (mkC1 (wImgK8 x b) fatC8) := by
  rw [writefileBody_eq]
  refine M.bind_step _ 2 _ _ rfl ?_
  refine M.bind_step _ (9, mkC1 x fatC8) _ _ ?_ ?_
  · rw [mkC1_bpc]
    rw [show (b.length + (512 - 1)) / 512 - 1 = 7 from by omega]
    show (mkC1 x fatC1).extendChain 2 (6 + 1) = _
    rw [extendChain_succ]
    refine M.bind_step _ (3, mkC1 x fatC2) _ _ rfl ?_
    show (mkC1 x fatC2).extendChain 3 (5 + 1) = _
    rw [extendChain_succ]
    refine M.bind_step _ (4, mkC1 x fatC3) _ _ rfl ?_
    show (mkC1 x fatC3).extendChain 4 (4 + 1) = _
    rw [extendChain_succ]
    refine M.bind_step _ (5, mkC1 x fatC4) _ _ rfl ?_
    show (mkC1 x fatC4).extendChain 5 (3 + 1) = _
    rw [extendChain_succ]
    refine M.bind_step _ (6, mkC1 x fatC5) _ _ rfl ?_
    show (mkC1 x fatC5).extendChain 6 (2 + 1) = _
    rw [extendChain_succ]
    refine M.bind_step _ (7, mkC1 x fatC6) _ _ rfl ?_
    show (mkC1 x fatC6).extendChain 7 (1 + 1) = _
    rw [extendChain_succ]
    refine M.bind_step _ (8, mkC1 x fatC7) _ _ rfl ?_
    show (mkC1 x fatC7).extendChain 8 (0 + 1) = _
    rw [extendChain_succ]
    refine M.bind_step _ (9, mkC1 x fatC8) _ _ rfl ?_
    rfl
  rw [mkC1_bpc]
  rw [show (b.length + (512 - 1)) / 512 = 7 + 1 from by omega]
  refine M.bind_step _ (mkC1 (imgWrite (imgWrite (imgWrite (imgWrite (imgWrite (imgWrite (imgWrite (imgWrite x 2048 (bchunk b 0)) 2560 (bchunk b 512)) 3072 (bchunk b 1024)) 3584 (bchunk b 1536)) 4096 (bchunk b 2048)) 4608 (bchunk b 2560)) 5120 (bchunk b 3072)) 5632 (bchunk b 3584)) fatC8) _ _ ?_ ?_
  · rw [writeChunks_succ]
    rw [if_neg (show ¬¬(2 ≤ 2 ∧ 2 < 0xFF0) from by decide)]
    rw [mkC1_bpc]
    rw [show (b.drop 0).take 512 ++ List.replicate
        (512 - ((b.drop 0).take 512).length) 0 = bchunk b 0 from rfl]
    refine M.bind_step _ (mkC1 (imgWrite x 2048 (bchunk b 0)) fatC8) _ _ ?_ ?_
    · unfold FAT12.writecluster FAT12.write_sectors
      rw [show (mkC1 (x) fatC8).cluster_index 2 * 512 = 2048 from by
        norm_num [FAT12.cluster_index]]
      rw [if_neg (show ¬((2048 : Nat) ≥
          (mkC1 (x) fatC8).capacity) from by norm_num)]
      rw [if_neg (show ¬((bchunk b 0).length ≠
          (mkC1 (x) fatC8).sectors_per_cluster * 512) from by
        rw [bchunk_length]; norm_num)]
      rfl
    refine M.bind_step _ 3 _ _ rfl ?_
    show (mkC1 (imgWrite x 2048 (bchunk b 0)) fatC8).writeChunks b (6 + 1) 3 512 = _
    rw [writeChunks_succ]
    rw [if_neg (show ¬¬(2 ≤ 3 ∧ 3 < 0xFF0) from by decide)]
    rw [mkC1_bpc]
    rw [show (b.drop 512).take 512 ++ List.replicate
        (512 - ((b.drop 512).take 512).length) 0 = bchunk b 512 from rfl]
    refine M.bind_step _ (mkC1 (imgWrite (imgWrite x 2048 (bchunk b 0)) 2560 (bchunk b 512)) fatC8) _ _ ?_ ?_
    · unfold FAT12.writecluster FAT12.write_sectors
      rw [show (mkC1 (imgWrite x 2048 (bchunk b 0)) fatC8).cluster_index 3 * 512 = 2560 from by
        norm_num [FAT12.cluster_index]]
      rw [if_neg (show ¬((2560 : Nat) ≥
          (mkC1 (imgWrite x 2048 (bchunk b 0)) fatC8).capacity) from by norm_num)]
      rw [if_neg (show ¬((bchunk b 512).length ≠
          (mkC1 (imgWrite x 2048 (bchunk b 0)) fatC8).sectors_per_cluster * 512) from by
        rw [bchunk_length]; norm_num)]
      rfl
    refine M.bind_step _ 4 _ _ rfl ?_
    show (mkC1 (imgWrite (imgWrite x 2048 (bchunk b 0)) 2560 (bchunk b 512)) fatC8).writeChunks b (5 + 1) 4 1024 = _
    rw [writeChunks_succ]
    rw [if_neg (show ¬¬(2 ≤ 4 ∧ 4 < 0xFF0) from by decide)]
    rw [mkC1_bpc]
    rw [show (b.drop 1024).take 512 ++ List.replicate
        (512 - ((b.drop 1024).take 512).length) 0 = bchunk b 1024 from rfl]
    refine M.bind_step _ (mkC1 (imgWrite (imgWrite (imgWrite x 2048 (bchunk b 0)) 2560 (bchunk b 512)) 3072 (bchunk b 1024)) fatC8) _ _ ?_ ?_
    · unfold FAT12.writecluster FAT12.write_sectors
      rw [show (mkC1 (imgWrite (imgWrite x 2048 (bchunk b 0)) 2560 (bchunk b 512)) fatC8).cluster_index 4 * 512 = 3072 from by
        norm_num [FAT12.cluster_index]]
      rw [if_neg (show ¬((3072 : Nat) ≥
          (mkC1 (imgWrite (imgWrite x 2048 (bchunk b 0)) 2560 (bchunk b 512)) fatC8).capacity) from by norm_num)]
      rw [if_neg (show ¬((bchunk b 1024).length ≠
          (mkC1 (imgWrite (imgWrite x 2048 (bchunk b 0)) 2560 (bchunk b 512)) fatC8).sectors_per_cluster * 512) from by
        rw [bchunk_length]; norm_num)]
      rfl
    refine M.bind_step _ 5 _ _ rfl ?_
    show (mkC1 (imgWrite (imgWrite (imgWrite x 2048 (bchunk b 0)) 2560 (bchunk b 512)) 3072 (bchunk b 1024)) fatC8).writeChunks b (4 + 1) 5 1536 = _
    rw [writeChunks_succ]
    rw [if_neg (show ¬¬(2 ≤ 5 ∧ 5 < 0xFF0) from by decide)]
    rw [mkC1_bpc]
    rw [show (b.drop 1536).take 512 ++ List.replicate
        (512 - ((b.drop 1536).take 512).length) 0 = bchunk b 1536 from rfl]
    refine M.bind_step _ (mkC1 (imgWrite (imgWrite (imgWrite (imgWrite x 2048 (bchunk b 0)) 2560 (bchunk b 512)) 3072 (bchunk b 1024)) 3584 (bchunk b 1536)) fatC8) _ _ ?_ ?_
    · unfold FAT12.writecluster FAT12.write_sectors
      rw [show (mkC1 (imgWrite (imgWrite (imgWrite x 2048 (bchunk b 0)) 2560 (bchunk b 512)) 3072 (bchunk b 1024)) fatC8).cluster_index 5 * 512 = 3584 from by
        norm_num [FAT12.cluster_index]]
      rw [if_neg (show ¬((3584 : Nat) ≥
          (mkC1 (imgWrite (imgWrite (imgWrite x 2048 (bchunk b 0)) 2560 (bchunk b 512)) 3072 (bchunk b 1024)) fatC8).capacity) from by norm_num)]
      rw [if_neg (show ¬((bchunk b 1536).length ≠
          (mkC1 (imgWrite (imgWrite (imgWrite x 2048 (bchunk b 0)) 2560 (bchunk b 512)) 3072 (bchunk b 1024)) fatC8).sectors_per_cluster * 512) from by
        rw [bchunk_length]; norm_num)]
      rfl
    refine M.bind_step _ 6 _ _ rfl ?_
    show (mkC1 (imgWrite (imgWrite (imgWrite (imgWrite x 2048 (bchunk b 0)) 2560 (bchunk b 512)) 3072 (bchunk b 1024)) 3584 (bchunk b 1536)) fatC8).writeChunks b (3 + 1) 6 2048 = _
    rw [writeChunks_succ]
    rw [if_neg (show ¬¬(2 ≤ 6 ∧ 6 < 0xFF0) from by decide)]
    rw [mkC1_bpc]
    rw [show (b.drop 2048).take 512 ++ List.replicate
        (512 - ((b.drop 2048).take 512).length) 0 = bchunk b 2048 from rfl]
    refine M.bind_step _ (mkC1 (imgWrite (imgWrite (imgWrite (imgWrite (imgWrite x 2048 (bchunk b 0)) 2560 (bchunk b 512)) 3072 (bchunk b 1024)) 3584 (bchunk b 1536)) 4096 (bchunk b 2048)) fatC8) _ _ ?_ ?_
    · unfold FAT12.writecluster FAT12.write_sectors
      rw [show (mkC1 (imgWrite (imgWrite (imgWrite (imgWrite x 2048 (bchunk b 0)) 2560 (bchunk b 512)) 3072 (bchunk b 1024)) 3584 (bchunk b 1536)) fatC8).cluster_index 6 * 512 = 4096 from by
        norm_num [FAT12.cluster_index]]
      rw [if_neg (show ¬((4096 : Nat) ≥
          (mkC1 (imgWrite (imgWrite (imgWrite (imgWrite x 2048 (bchunk b 0)) 2560 (bchunk b 512)) 3072 (bchunk b 1024)) 3584 (bchunk b 1536)) fatC8).capacity) from by norm_num)]
      rw [if_neg (show ¬((bchunk b 2048).length ≠
          (mkC1 (imgWrite (imgWrite (imgWrite (imgWrite x 2048 (bchunk b 0)) 2560 (bchunk b 512)) 3072 (bchunk b 1024)) 3584 (bchunk b 1536)) fatC8).sectors_per_cluster * 512) from by
        rw [bchunk_length]; norm_num)]
      rfl
    refine M.bind_step _ 7 _ _ rfl ?_
    show (mkC1 (imgWrite (imgWrite (imgWrite (imgWrite (imgWrite x 2048 (bchunk b 0)) 2560 (bchunk b 512)) 3072 (bchunk b 1024)) 3584 (bchunk b 1536)) 4096 (bchunk b 2048)) fatC8).writeChunks b (2 + 1) 7 2560 = _
    rw [writeChunks_succ]
    rw [if_neg (show ¬¬(2 ≤ 7 ∧ 7 < 0xFF0) from by decide)]
    rw [mkC1_bpc]
    rw [show (b.drop 2560).take 512 ++ List.replicate
        (512 - ((b.drop 2560).take 512).length) 0 = bchunk b 2560 from rfl]
    refine M.bind_step _ (mkC1 (imgWrite (imgWrite (imgWrite (imgWrite (imgWrite (imgWrite x 2048 (bchunk b 0)) 2560 (bchunk b 512)) 3072 (bchunk b 1024)) 3584 (bchunk b 1536)) 4096 (bchunk b 2048)) 4608 (bchunk b 2560)) fatC8) _ _ ?_ ?_
    · unfold FAT12.writecluster FAT12.write_sectors
      rw [show (mkC1 (imgWrite (imgWrite (imgWrite (imgWrite (imgWrite x 2048 (bchunk b 0)) 2560 (bchunk b 512)) 3072 (bchunk b 1024)) 3584 (bchunk b 1536)) 4096 (bchunk b 2048)) fatC8).cluster_index 7 * 512 = 4608 from by
        norm_num [FAT12.cluster_index]]
      rw [if_neg (show ¬((4608 : Nat) ≥
          (mkC1 (imgWrite (imgWrite (imgWrite (imgWrite (imgWrite x 2048 (bchunk b 0)) 2560 (bchunk b 512)) 3072 (bchunk b 1024)) 3584 (bchunk b 1536)) 4096 (bchunk b 2048)) fatC8).capacity) from by norm_num)]
      rw [if_neg (show ¬((bchunk b 2560).length ≠
          (mkC1 (imgWrite (imgWrite (imgWrite (imgWrite (imgWrite x 2048 (bchunk b 0)) 2560 (bchunk b 512)) 3072 (bchunk b 1024)) 3584 (bchunk b 1536)) 4096 (bchunk b 2048)) fatC8).sectors_per_cluster * 512) from by
        rw [bchunk_length]; norm_num)]
      rfl
    refine M.bind_step _ 8 _ _ rfl ?_
    show (mkC1 (imgWrite (imgWrite (imgWrite (imgWrite (imgWrite (imgWrite x 2048 (bchunk b 0)) 2560 (bchunk b 512)) 3072 (bchunk b 1024)) 3584 (bchunk b 1536)) 4096 (bchunk b 2048)) 4608 (bchunk b 2560)) fatC8).writeChunks b (1 + 1) 8 3072 = _
    rw [writeChunks_succ]
    rw [if_neg (show ¬¬(2 ≤ 8 ∧ 8 < 0xFF0) from by decide)]
    rw [mkC1_bpc]
    rw [show (b.drop 3072).take 512 ++ List.replicate
        (512 - ((b.drop 3072).take 512).length) 0 = bchunk b 3072 from rfl]
    refine M.bind_step _ (mkC1 (imgWrite (imgWrite (imgWrite (imgWrite (imgWrite (imgWrite (imgWrite x 2048 (bchunk b 0)) 2560 (bchunk b 512)) 3072 (bchunk b 1024)) 3584 (bchunk b 1536)) 4096 (bchunk b 2048)) 4608 (bchunk b 2560)) 5120 (bchunk b 3072)) fatC8) _ _ ?_ ?_
    · unfold FAT12.writecluster FAT12.write_sectors
      rw [show (mkC1 (imgWrite (imgWrite (imgWrite (imgWrite (imgWrite (imgWrite x 2048 (bchunk b 0)) 2560 (bchunk b 512)) 3072 (bchunk b 1024)) 3584 (bchunk b 1536)) 4096 (bchunk b 2048)) 4608 (bchunk b 2560)) fatC8).cluster_index 8 * 512 = 5120 from by
        norm_num [FAT12.cluster_index]]
      rw [if_neg (show ¬((5120 : Nat) ≥
          (mkC1 (imgWrite (imgWrite (imgWrite (imgWrite (imgWrite (imgWrite x 2048 (bchunk b 0)) 2560 (bchunk b 512)) 3072 (bchunk b 1024)) 3584 (bchunk b 1536)) 4096 (bchunk b 2048)) 4608 (bchunk b 2560)) fatC8).capacity) from by norm_num)]
      rw [if_neg (show ¬((bchunk b 3072).length ≠
          (mkC1 (imgWrite (imgWrite (imgWrite (imgWrite (imgWrite (imgWrite x 2048 (bchunk b 0)) 2560 (bchunk b 512)) 3072 (bchunk b 1024)) 3584 (bchunk b 1536)) 4096 (bchunk b 2048)) 4608 (bchunk b 2560)) fatC8).sectors_per_cluster * 512) from by
        rw [bchunk_length]; norm_num)]
      rfl
    refine M.bind_step _ 9 _ _ rfl ?_
    show (mkC1 (imgWrite (imgWrite (imgWrite (imgWrite (imgWrite (imgWrite (imgWrite x 2048 (bchunk b 0)) 2560 (bchunk b 512)) 3072 (bchunk b 1024)) 3584 (bchunk b 1536)) 4096 (bchunk b 2048)) 4608 (bchunk b 2560)) 5120 (bchunk b 3072)) fatC8).writeChunks b (0 + 1) 9 3584 = _
    rw [writeChunks_succ]
    rw [if_neg (show ¬¬(2 ≤ 9 ∧ 9 < 0xFF0) from by decide)]
    rw [mkC1_bpc]
    rw [show (b.drop 3584).take 512 ++ List.replicate
        (512 - ((b.drop 3584).take 512).length) 0 = bchunk b 3584 from rfl]
    refine M.bind_step _ (mkC1 (imgWrite (imgWrite (imgWrite (imgWrite (imgWrite (imgWrite (imgWrite (imgWrite x 2048 (bchunk b 0)) 2560 (bchunk b 512)) 3072 (bchunk b 1024)) 3584 (bchunk b 1536)) 4096 (bchunk b 2048)) 4608 (bchunk b 2560)) 5120 (bchunk b 3072)) 5632 (bchunk b 3584)) fatC8) _ _ ?_ ?_
    · unfold FAT12.writecluster FAT12.write_sectors
      rw [show (mkC1 (imgWrite (imgWrite (imgWrite (imgWrite (imgWrite (imgWrite (imgWrite x 2048 (bchunk b 0)) 2560 (bchunk b 512)) 3072 (bchunk b 1024)) 3584 (bchunk b 1536)) 4096 (bchunk b 2048)) 4608 (bchunk b 2560)) 5120 (bchunk b 3072)) fatC8).cluster_index 9 * 512 = 5632 from by
        norm_num [FAT12.cluster_index]]
      rw [if_neg (show ¬((5632 : Nat) ≥
          (mkC1 (imgWrite (imgWrite (imgWrite (imgWrite (imgWrite (imgWrite (imgWrite x 2048 (bchunk b 0)) 2560 (bchunk b 512)) 3072 (bchunk b 1024)) 3584 (bchunk b 1536)) 4096 (bchunk b 2048)) 4608 (bchunk b 2560)) 5120 (bchunk b 3072)) fatC8).capacity) from by norm_num)]
      rw [if_neg (show ¬((bchunk b 3584).length ≠
          (mkC1 (imgWrite (imgWrite (imgWrite (imgWrite (imgWrite (imgWrite (imgWrite x 2048 (bchunk b 0)) 2560 (bchunk b 512)) 3072 (bchunk b 1024)) 3584 (bchunk b 1536)) 4096 (bchunk b 2048)) 4608 (bchunk b 2560)) 5120 (bchunk b 3072)) fatC8).sectors_per_cluster * 512) from by
        rw [bchunk_length]; norm_num)]
      rfl
    refine M.bind_step _ 4095 _ _ rfl ?_
    rfl
  refine M.bind_step _ (mkC1 (imgWrite (imgWrite (imgWrite (imgWrite (imgWrite (imgWrite (imgWrite (imgWrite x 2048 (bchunk b 0)) 2560 (bchunk b 512)) 3072 (bchunk b 1024)) 3584 (bchunk b 1536)) 4096 (bchunk b 2048)) 4608 (bchunk b 2560)) 5120 (bchunk b 3072)) 5632 (bchunk b 3584)) fatC8, 2) _ _ rfl ?_
  refine M.bind_step _ (entryA b.length) _ _ ?_ ?_
  · rw [show (mkC1 (imgWrite (imgWrite (imgWrite (imgWrite (imgWrite (imgWrite (imgWrite (imgWrite x 2048 (bchunk b 0)) 2560 (bchunk b 512)) 3072 (bchunk b 1024)) 3584 (bchunk b 1536)) 4096 (bchunk b 2048)) 4608 (bchunk b 2560)) 5120 (bchunk b 3072)) 5632 (bchunk b 3584)) fatC8).now = fixNow from rfl]
    exact mkdir_entryA b.length (by omega)
  refine M.bind_step _ (mkC1 (imgWrite (imgWrite (imgWrite (imgWrite (imgWrite (imgWrite (imgWrite (imgWrite (imgWrite x 2048 (bchunk b 0)) 2560 (bchunk b 512)) 3072 (bchunk b 1024)) 3584 (bchunk b 1536)) 4096 (bchunk b 2048)) 4608 (bchunk b 2560)) 5120 (bchunk b 3072)) 5632 (bchunk b 3584)) 1536 (newroot b)) fatC8) _ _ ?_ ?_
  · unfold FAT12.writedirentry
    rw [if_neg (show ¬((entryA b.length).length ≠ 32) from by
      rw [show (entryA b.length).length = 32 from rfl]; omega)]
    rw [if_pos rfl]
    rw [rs_root_C1]
    rw [show imgRead (imgWrite (imgWrite (imgWrite (imgWrite (imgWrite (imgWrite (imgWrite (imgWrite x 2048 (bchunk b 0)) 2560 (bchunk b 512)) 3072 (bchunk b 1024)) 3584 (bchunk b 1536)) 4096 (bchunk b 2048)) 4608 (bchunk b 2560)) 5120 (bchunk b 3072)) 5632 (bchunk b 3584)) 1536 512 = rd from by
      rw [imgRead_write_outside _ _ _ _ _ (Or.inl (by norm_num))]
      rw [imgRead_write_outside _ _ _ _ _ (Or.inl (by norm_num))]
      rw [imgRead_write_outside _ _ _ _ _ (Or.inl (by norm_num))]
      rw [imgRead_write_outside _ _ _ _ _ (Or.inl (by norm_num))]
      rw [imgRead_write_outside _ _ _ _ _ (Or.inl (by norm_num))]
      rw [imgRead_write_outside _ _ _ _ _ (Or.inl (by norm_num))]
      rw [imgRead_write_outside _ _ _ _ _ (Or.inl (by norm_num))]
      rw [imgRead_write_outside _ _ _ _ _ (Or.inl (by norm_num))]
      exact hread]
    rw [M.ok_bind2]
    beta_reduce
    rw [hsplice]
    unfold FAT12.write_sectors
    norm_num [show (newroot b).length = 512 from rfl]
    rfl
  show FAT12.commit _ = _
  exact commit_C8 _

/-- `read_file("/A.TXT")` returns exactly `b` on a volume holding `b`
over the 8-cluster chain. -/
theorem read_C1_k8 (i : Image) (b : List Nat)
    (h1 : 3584 < b.length) (h2 : b.length ≤ 4096)
    (hroot : imgRead i 1536 512 = newroot b)
    (hd0 : imgRead i 2048 512 = bchunk b 0)
    (hd1 : imgRead i 2560 512 = bchunk b 512)
    (hd2 : imgRead i 3072 512 = bchunk b 1024)
    (hd3 : imgRead i 3584 512 = bchunk b 1536)
    (hd4 : imgRead i 4096 512 = bchunk b 2048)
    (hd5 : imgRead i 4608 512 = bchunk b 2560)
    (hd6 : imgRead i 5120 512 = bchunk b 3072)
    (hd7 : imgRead i 5632 512 = bchunk b 3584)
    : (mkC1 i fatC8).read_file pathATXT = .ok b := by
  obtain ⟨m, hm⟩ : ∃ m, b.length = m + 8 := ⟨b.length - 8, by omega⟩
  unfold FAT12.read_file
  rw [resolvepath_C1 i fatC8 (newroot b) hroot (scan_newroot b (by omega)),
    M.ok_bind2]
  beta_reduce
  show (mkC1 i fatC8).readfile 1 0 = _
  unfold FAT12.readfile
  rw [readdirentry_C1 i fatC8 (newroot b) hroot, M.ok_bind2]
  beta_reduce
  rw [show (newroot b).take 32 = entryA b.length from rfl]
  rw [parse_entryA b.length (by omega), M.ok_bind2]
  beta_reduce
  show (mkC1 i fatC8).readChunks 512 b.length (b.length + 1) 2 0 = _
  rw [hm]
  rw [readChunks_succ]
  rw [if_neg (show ¬((512 : Nat) = 0) from by decide)]
  rw [if_pos (show 0 < m + 8 from by omega)]
  refine M.bind_step _ (bchunk b 0) _ _ ?_ ?_
  · unfold FAT12.readcluster FAT12.read_sectors
    norm_num [FAT12.cluster_index]
    rw [hd0]
    rfl
  refine M.bind_step _ 3 _ _ rfl ?_
  refine M.bind_step _ (b.drop 512) _ _ ?_ ?_
  · show (mkC1 i fatC8).readChunks 512 (m + 8) ((m + 7) + 1) 3 512 =
        .ok (b.drop 512)
    rw [readChunks_succ]
    rw [if_neg (show ¬((512 : Nat) = 0) from by decide)]
    rw [if_pos (show 512 < m + 8 from by omega)]
    refine M.bind_step _ (bchunk b 512) _ _ ?_ ?_
    · unfold FAT12.readcluster FAT12.read_sectors
      norm_num [FAT12.cluster_index]
      rw [hd1]
      rfl
    refine M.bind_step _ 4 _ _ rfl ?_
    refine M.bind_step _ (b.drop 1024) _ _ ?_ ?_
    · show (mkC1 i fatC8).readChunks 512 (m + 8) ((m + 6) + 1) 4 1024 =
          .ok (b.drop 1024)
      rw [readChunks_succ]
      rw [if_neg (show ¬((512 : Nat) = 0) from by decide)]
      rw [if_pos (show 1024 < m + 8 from by omega)]
      refine M.bind_step _ (bchunk b 1024) _ _ ?_ ?_
      · unfold FAT12.readcluster FAT12.read_sectors
        norm_num [FAT12.cluster_index]
        rw [hd2]
        rfl
      refine M.bind_step _ 5 _ _ rfl ?_
      refine M.bind_step _ (b.drop 1536) _ _ ?_ ?_
      · show (mkC1 i fatC8).readChunks 512 (m + 8) ((m + 5) + 1) 5 1536 =
            .ok (b.drop 1536)
        rw [readChunks_succ]
        rw [if_neg (show ¬((512 : Nat) = 0) from by decide)]
        rw [if_pos (show 1536 < m + 8 from by omega)]
        refine M.bind_step _ (bchunk b 1536) _ _ ?_ ?_
        · unfold FAT12.readcluster FAT12.read_sectors
          norm_num [FAT12.cluster_index]
          rw [hd3]
          rfl
        refine M.bind_step _ 6 _ _ rfl ?_
        refine M.bind_step _ (b.drop 2048) _ _ ?_ ?_
        · show (mkC1 i fatC8).readChunks 512 (m + 8) ((m + 4) + 1) 6 2048 =
              .ok (b.drop 2048)
          rw [readChunks_succ]
          rw [if_neg (show ¬((512 : Nat) = 0) from by decide)]
          rw [if_pos (show 2048 < m + 8 from by omega)]
          refine M.bind_step _ (bchunk b 2048) _ _ ?_ ?_
          · unfold FAT12.readcluster FAT12.read_sectors
            norm_num [FAT12.cluster_index]
            rw [hd4]
            rfl
          refine M.bind_step _ 7 _ _ rfl ?_
          refine M.bind_step _ (b.drop 2560) _ _ ?_ ?_
          · show (mkC1 i fatC8).readChunks 512 (m + 8) ((m + 3) + 1) 7 2560 =
                .ok (b.drop 2560)
            rw [readChunks_succ]
            rw [if_neg (show ¬((512 : Nat) = 0) from by decide)]
            rw [if_pos (show 2560 < m + 8 from by omega)]
            refine M.bind_step _ (bchunk b 2560) _ _ ?_ ?_
            · unfold FAT12.readcluster FAT12.read_sectors
              norm_num [FAT12.cluster_index]
              rw [hd5]
              rfl
            refine M.bind_step _ 8 _ _ rfl ?_
            refine M.bind_step _ (b.drop 3072) _ _ ?_ ?_
            · show (mkC1 i fatC8).readChunks 512 (m + 8) ((m + 2) + 1) 8 3072 =
                  .ok (b.drop 3072)
              rw [readChunks_succ]
              rw [if_neg (show ¬((512 : Nat) = 0) from by decide)]
              rw [if_pos (show 3072 < m + 8 from by omega)]
              refine M.bind_step _ (bchunk b 3072) _ _ ?_ ?_
              · unfold FAT12.readcluster FAT12.read_sectors
                norm_num [FAT12.cluster_index]
                rw [hd6]
                rfl
              refine M.bind_step _ 9 _ _ rfl ?_
              refine M.bind_step _ (b.drop 3584) _ _ ?_ ?_
              · show (mkC1 i fatC8).readChunks 512 (m + 8) ((m + 1) + 1) 9 3584 =
                    .ok (b.drop 3584)
                rw [readChunks_succ]
                rw [if_neg (show ¬((512 : Nat) = 0) from by decide)]
                rw [if_pos (show 3584 < m + 8 from by omega)]
                refine M.bind_step _ (bchunk b 3584) _ _ ?_ ?_
                · unfold FAT12.readcluster FAT12.read_sectors
                  norm_num [FAT12.cluster_index]
                  rw [hd7]
                  rfl
                refine M.bind_step _ 4095 _ _ rfl ?_
                refine M.bind_step _ ([] : List Nat) _ _ ?_ ?_
                · show (mkC1 i fatC8).readChunks 512 (m + 8) (m + 1) 4095 4096 = .ok []
                  rw [readChunks_succ]
                  rw [if_neg (show ¬((512 : Nat) = 0) from by decide)]
                  rw [if_neg (show ¬(4096 < m + 8) from by omega)]
                  rfl
                rw [List.append_nil]
                rw [show (bchunk b 3584).take (m + 8 - 3584) = b.drop 3584 from by
                  have hx := bchunk_take_last b 3584 (by omega)
                  rw [hm] at hx
                  exact hx]
                rfl
              rw [show (bchunk b 3072).take (m + 8 - 3072) = (b.drop 3072).take 512 from
                bchunk_take_full b 3072 (m + 8 - 3072) (by omega) (by omega)]
              rw [show (b.drop 3072).take 512 ++ b.drop 3584 = b.drop 3072 from by
                have hg := drop_glue b 3072
                rw [show (3072 : Nat) + 512 = 3584 from rfl] at hg
                exact hg]
              rfl
            rw [show (bchunk b 2560).take (m + 8 - 2560) = (b.drop 2560).take 512 from
              bchunk_take_full b 2560 (m + 8 - 2560) (by omega) (by omega)]
            rw [show (b.drop 2560).take 512 ++ b.drop 3072 = b.drop 2560 from by
              have hg := drop_glue b 2560
              rw [show (2560 : Nat) + 512 = 3072 from rfl] at hg
              exact hg]
            rfl
          rw [show (bchunk b 2048).take (m + 8 - 2048) = (b.drop 2048).take 512 from
            bchunk_take_full b 2048 (m + 8 - 2048) (by omega) (by omega)]
          rw [show (b.drop 2048).take 512 ++ b.drop 2560 = b.drop 2048 from by
            have hg := drop_glue b 2048
            rw [show (2048 : Nat) + 512 = 2560 from rfl] at hg
            exact hg]
          rfl
        rw [show (bchunk b 1536).take (m + 8 - 1536) = (b.drop 1536).take 512 from
          bchunk_take_full b 1536 (m + 8 - 1536) (by omega) (by omega)]
        rw [show (b.drop 1536).take 512 ++ b.drop 2048 = b.drop 1536 from by
          have hg := drop_glue b 1536
          rw [show (1536 : Nat) + 512 = 2048 from rfl] at hg
          exact hg]
        rfl
      rw [show (bchunk b 1024).take (m + 8 - 1024) = (b.drop 1024).take 512 from
        bchunk_take_full b 1024 (m + 8 - 1024) (by omega) (by omega)]
      rw [show (b.drop 1024).take 512 ++ b.drop 1536 = b.drop 1024 from by
        have hg := drop_glue b 1024
        rw [show (1024 : Nat) + 512 = 1536 from rfl] at hg
        exact hg]
      rfl
    rw [show (bchunk b 512).take (m + 8 - 512) = (b.drop 512).take 512 from
      bchunk_take_full b 512 (m + 8 - 512) (by omega) (by omega)]
    rw [show (b.drop 512).take 512 ++ b.drop 1024 = b.drop 512 from by
      have hg := drop_glue b 512
      rw [show (512 : Nat) + 512 = 1024 from rfl] at hg
      exact hg]
    rfl
  rw [show (bchunk b 0).take (m + 8 - 0) = b.take 512 from by
    have hx := bchunk_take_full b 0 (m + 8 - 0) (by omega) (by omega)
    rw [List.drop_zero] at hx
    exact hx]
  rw [show b.take 512 ++ b.drop 512 = b from List.take_append_drop 512 b]
  rfl

theorem wImgK8_root (x : Image) (b : List Nat) :
    imgRead (wImgK8 x b) 1536 512 = newroot b := by
  unfold wImgK8
  rw [imgRead_write_outside _ _ _ _ _ (Or.inr (by decide))]
  rw [imgRead_write_outside _ _ _ _ _ (Or.inr (by decide))]
  rw [imgRead_write_outside _ _ _ _ _ (Or.inr (by decide))]
  rw [imgRead_write_inside _ _ _ _ _ (le_refl _)
    (by rw [show (newroot b).length = 512 from rfl])]
  rw [Nat.sub_self, List.drop_zero,
    List.take_of_length_le (le_of_eq (show (newroot b).length = 512 from rfl))]

theorem wImgK8_data0 (x : Image) (b : List Nat) :
    imgRead (wImgK8 x b) 2048 512 = bchunk b 0 := by
  unfold wImgK8
  rw [imgRead_write_outside _ _ _ _ _ (Or.inr (by decide))]
  rw [imgRead_write_outside _ _ _ _ _ (Or.inr (by decide))]
  rw [imgRead_write_outside _ _ _ _ _ (Or.inr (by decide))]
  rw [imgRead_write_outside _ _ _ _ _ (Or.inr (by
    norm_num [show (newroot b).length = 512 from rfl]))]
  rw [imgRead_write_outside _ _ _ _ _ (Or.inl (by norm_num))]
  rw [imgRead_write_outside _ _ _ _ _ (Or.inl (by norm_num))]
  rw [imgRead_write_outside _ _ _ _ _ (Or.inl (by norm_num))]
  rw [imgRead_write_outside _ _ _ _ _ (Or.inl (by norm_num))]
  rw [imgRead_write_outside _ _ _ _ _ (Or.inl (by norm_num))]
  rw [imgRead_write_outside _ _ _ _ _ (Or.inl (by norm_num))]
  rw [imgRead_write_outside _ _ _ _ _ (Or.inl (by norm_num))]
  rw [imgRead_write_inside _ _ _ _ _ (le_refl _) (by rw [bchunk_length])]
  rw [Nat.sub_self, List.drop_zero,
    List.take_of_length_le (le_of_eq (bchunk_length b 0))]

theorem wImgK8_data1 (x : Image) (b : List Nat) :
    imgRead (wImgK8 x b) 2560 512 = bchunk b 512 := by
  unfold wImgK8
  rw [imgRead_write_outside _ _ _ _ _ (Or.inr (by decide))]
  rw [imgRead_write_outside _ _ _ _ _ (Or.inr (by decide))]
  rw [imgRead_write_outside _ _ _ _ _ (Or.inr (by decide))]
  rw [imgRead_write_outside _ _ _ _ _ (Or.inr (by
    norm_num [show (newroot b).length = 512 from rfl]))]
  rw [imgRead_write_outside _ _ _ _ _ (Or.inl (by norm_num))]
  rw [imgRead_write_outside _ _ _ _ _ (Or.inl (by norm_num))]
  rw [imgRead_write_outside _ _ _ _ _ (Or.inl (by norm_num))]
  rw [imgRead_write_outside _ _ _ _ _ (Or.inl (by norm_num))]
  rw [imgRead_write_outside _ _ _ _ _ (Or.inl (by norm_num))]
  rw [imgRead_write_outside _ _ _ _ _ (Or.inl (by norm_num))]
  rw [imgRead_write_inside _ _ _ _ _ (le_refl _) (by rw [bchunk_length])]
  rw [Nat.sub_self, List.drop_zero,
    List.take_of_length_le (le_of_eq (bchunk_length b 512))]

theorem wImgK8_data2 (x : Image) (b : List Nat) :
    imgRead (wImgK8 x b) 3072 512 = bchunk b 1024 := by
  unfold wImgK8
  rw [imgRead_write_outside _ _ _ _ _ (Or.inr (by decide))]
  rw [imgRead_write_outside _ _ _ _ _ (Or.inr (by decide))]
  rw [imgRead_write_outside _ _ _ _ _ (Or.inr (by decide))]
  rw [imgRead_write_outside _ _ _ _ _ (Or.inr (by
    norm_num [show (newroot b).length = 512 from rfl]))]
  rw [imgRead_write_outside _ _ _ _ _ (Or.inl (by norm_num))]
  rw [imgRead_write_outside _ _ _ _ _ (Or.inl (by norm_num))]
  rw [imgRead_write_outside _ _ _ _ _ (Or.inl (by norm_num))]
  rw [imgRead_write_outside _ _ _ _ _ (Or.inl (by norm_num))]
  rw [imgRead_write_outside _ _ _ _ _ (Or.inl (by norm_num))]
  rw [imgRead_write_inside _ _ _ _ _ (le_refl _) (by rw [bchunk_length])]
  rw [Nat.sub_self, List.drop_zero,
    List.take_of_length_le (le_of_eq (bchunk_length b 1024))]

theorem wImgK8_data3 (x : Image) (b : List Nat) :
    imgRead (wImgK8 x b) 3584 512 = bchunk b 1536 := by
  unfold wImgK8
  rw [imgRead_write_outside _ _ _ _ _ (Or.inr (by decide))]
  rw [imgRead_write_outside _ _ _ _ _ (Or.inr (by decide))]
  rw [imgRead_write_outside _ _ _ _ _ (Or.inr (by decide))]
  rw [imgRead_write_outside _ _ _ _ _ (Or.inr (by
    norm_num [show (newroot b).length = 512 from rfl]))]
  rw [imgRead_write_outside _ _ _ _ _ (Or.inl (by norm_num))]
  rw [imgRead_write_outside _ _ _ _ _ (Or.inl (by norm_num))]
  rw [imgRead_write_outside _ _ _ _ _ (Or.inl (by norm_num))]
  rw [imgRead_write_outside _ _ _ _ _ (Or.inl (by norm_num))]
  rw [imgRead_write_inside _ _ _ _ _ (le_refl _) (by rw [bchunk_length])]
  rw [Nat.sub_self, List.drop_zero,
    List.take_of_length_le (le_of_eq (bchunk_length b 1536))]

theorem wImgK8_data4 (x : Image) (b : List Nat) :
    imgRead (wImgK8 x b) 4096 512 = bchunk b 2048 := by
  unfold wImgK8
  rw [imgRead_write_outside _ _ _ _ _ (Or.inr (by decide))]
  rw [imgRead_write_outside _ _ _ _ _ (Or.inr (by decide))]
  rw [imgRead_write_outside _ _ _ _ _ (Or.inr (by decide))]
  rw [imgRead_write_outside _ _ _ _ _ (Or.inr (by
    norm_num [show (newroot b).length = 512 from rfl]))]
  rw [imgRead_write_outside _ _ _ _ _ (Or.inl (by norm_num))]
  rw [imgRead_write_outside _ _ _ _ _ (Or.inl (by norm_num))]
  rw [imgRead_write_outside _ _ _ _ _ (Or.inl (by norm_num))]
  rw [imgRead_write_inside _ _ _ _ _ (le_refl _) (by rw [bchunk_length])]
  rw [Nat.sub_self, List.drop_zero,
    List.take_of_length_le (le_of_eq (bchunk_length b 2048))]

theorem wImgK8_data5 (x : Image) (b : List Nat) :
    imgRead (wImgK8 x b) 4608 512 = bchunk b 2560 := by
  unfold wImgK8
  rw [imgRead_write_outside _ _ _ _ _ (Or.inr (by decide))]
  rw [imgRead_write_outside _ _ _ _ _ (Or.inr (by decide))]
  rw [imgRead_write_outside _ _ _ _ _ (Or.inr (by decide))]
  rw [imgRead_write_outside _ _ _ _ _ (Or.inr (by
    norm_num [show (newroot b).length = 512 from rfl]))]
  rw [imgRead_write_outside _ _ _ _ _ (Or.inl (by norm_num))]
  rw [imgRead_write_outside _ _ _ _ _ (Or.inl (by norm_num))]
  rw [imgRead_write_inside _ _ _ _ _ (le_refl _) (by rw [bchunk_length])]
  rw [Nat.sub_self, List.drop_zero,
    List.take_of_length_le (le_of_eq (bchunk_length b 2560))]

theorem wImgK8_data6 (x : Image) (b : List Nat) :
    imgRead (wImgK8 x b) 5120 512 = bchunk b 3072 := by
  unfold wImgK8
  rw [imgRead_write_outside _ _ _ _ _ (Or.inr (by decide))]
  rw [imgRead_write_outside _ _ _ _ _ (Or.inr (by decide))]
  rw [imgRead_write_outside _ _ _ _ _ (Or.inr (by decide))]
  rw [imgRead_write_outside _ _ _ _ _ (Or.inr (by
    norm_num [show (newroot b).length = 512 from rfl]))]
  rw [imgRead_write_outside _ _ _ _ _ (Or.inl (by norm_num))]
  rw [imgRead_write_inside _ _ _ _ _ (le_refl _) (by rw [bchunk_length])]
  rw [Nat.sub_self, List.drop_zero,
    List.take_of_length_le (le_of_eq (bchunk_length b 3072))]

theorem wImgK8_data7 (x : Image) (b : List Nat) :
    imgRead (wImgK8 x b) 5632 512 = bchunk b 3584 := by
  unfold wImgK8
  rw [imgRead_write_outside _ _ _ _ _ (Or.inr (by decide))]
  rw [imgRead_write_outside _ _ _ _ _ (Or.inr (by decide))]
  rw [imgRead_write_outside _ _ _ _ _ (Or.inr (by decide))]
  rw [imgRead_write_outside _ _ _ _ _ (Or.inr (by
    norm_num [show (newroot b).length = 512 from rfl]))]
  rw [imgRead_write_inside _ _ _ _ _ (le_refl _) (by rw [bchunk_length])]
  rw [Nat.sub_self, List.drop_zero,
    List.take_of_length_le (le_of_eq (bchunk_length b 3584))]

theorem roundtrip_over_k8 (i : Image) (b : List Nat)
    (h1 : 3584 < b.length) (h2 : b.length ≤ 4096) :
    ∃ st', (mkC1 (imgWrite i 1536 root0) fatC1).write_file pathATXT b false =
        .ok st' ∧ st'.read_file pathATXT = .ok b :=
  ⟨_, by
      rw [write_file_over_body i b]
      exact writefileBody_C1_k8 _ root0 b h1 h2 (read_root0 i) rfl,
    read_C1_k8 _ b h1 h2 (wImgK8_root _ b)
      (wImgK8_data0 _ b) (wImgK8_data1 _ b) (wImgK8_data2 _ b) (wImgK8_data3 _ b) (wImgK8_data4 _ b) (wImgK8_data5 _ b) (wImgK8_data6 _ b) (wImgK8_data7 _ b)⟩

theorem roundtrip_create_k8 (i : Image) (b : List Nat)
    (h1 : 3584 < b.length) (h2 : b.length ≤ 4096) :
    ∃ st', (mkC1 (imgWrite i 1536 rootE) fatE).write_file pathATXT b false =
        .ok st' ∧ st'.read_file pathATXT = .ok b :=
  ⟨_, by
      rw [write_file_create_body i b (by omega)]
      exact writefileBody_C1_k8 _ root1 b h1 h2 (read_root1 i) rfl,
    read_C1_k8 _ b h1 h2 (wImgK8_root _ b)
      (wImgK8_data0 _ b) (wImgK8_data1 _ b) (wImgK8_data2 _ b) (wImgK8_data3 _ b) (wImgK8_data4 _ b) (wImgK8_data5 _ b) (wImgK8_data6 _ b) (wImgK8_data7 _ b)⟩

/-- The FAT after `/A.TXT` has been rewritten over a chain of 9 clusters (2 → … → 10). -/
def fatC9 : List Nat := [0xFF0, 0xFFF, 3, 4, 5, 6, 7, 8, 9, 10, 0xFFF, 0]

def fatsC9 : List Nat :=
  packFATPairs fatC9 ++ List.replicate (512 - (packFATPairs fatC9).length) 0

def fatImgC9 : List Nat := List.flatten (List.replicate 2 fatsC9)

/-- The disk image after `write_file` stored `b` over 9 clusters. -/
def wImgK9 (x : Image) (b : List Nat) : Image :=
  imgWrite (imgWrite (imgWrite (imgWrite (imgWrite (imgWrite (imgWrite (imgWrite (imgWrite (imgWrite (imgWrite (imgWrite (imgWrite x 2048 (bchunk b 0)) 2560 (bchunk b 512)) 3072 (bchunk b 1024)) 3584 (bchunk b 1536)) 4096 (bchunk b 2048)) 4608 (bchunk b 2560)) 5120 (bchunk b 3072)) 5632 (bchunk b 3584)) 6144 (bchunk b 4096)) 1536 (newroot b)) 11 bpbA) 24 bpbB) 512 fatImgC9

theorem writefat_C9 (i : Image) :
    (mkC1 i fatC9).writefat = .ok (mkC1 (imgWrite i 512 fatImgC9) fatC9) := by
  unfold FAT12.writefat
  norm_num
  rfl

theorem commit_C9 (i : Image) :
    (mkC1 i fatC9).commit = .ok (mkC1 (imgWrite (imgWrite (imgWrite i 11 bpbA)
      24 bpbB) 512 fatImgC9) fatC9) := by
  unfold FAT12.commit
  refine M.bind_step _ (mkC1 i fatC9) _ _ (updatelabel_C1 i fatC9) ?_
  refine M.bind_step _ (mkC1 (imgWrite (imgWrite i 11 bpbA) 24 bpbB) fatC9) _ _
    (writebpb_C1 i fatC9) ?_
  exact writefat_C9 _

/-- `_writefile`'s body on the `/A.TXT` entry with contents spanning 9
clusters: 8 clusters are allocated onto the chain, the data blocks are
written, the entry is rewritten and the volume committed. -/
theorem writefileBody_C1_k9 (x : Image) (rd b : List Nat)
    (h1 : 4096 < b.length) (h2 : b.length ≤ 4608)
    (hread : imgRead x 1536 512 = rd)
    (hsplice : listSplice rd 0 (entryA b.length) = newroot b) :
    (mkC1 x fatC1).writefileBody 1 0 b nameOnlyATXT 0x20 2 1 =
      .ok (mkC1 (wImgK9 x b) fatC9) := by
  rw [writefileBody_eq]
  refine M.bind_step _ 2 _ _ rfl ?_
  refine M.bind_step _ (10, mkC1 x fatC9) _ _ ?_ ?_
  · rw [mkC1_bpc]
    rw [show (b.length + (512 - 1)) / 512 - 1 = 8 from by omega]
    show (mkC1 x fatC1).extendChain 2 (7 + 1) = _
    rw [extendChain_succ]
    refine M.bind_step _ (3, mkC1 x fatC2) _ _ rfl ?_
    show (mkC1 x fatC2).extendChain 3 (6 + 1) = _
    rw [extendChain_succ]
    refine M.bind_step _ (4, mkC1 x fatC3) _ _ rfl ?_
    show (mkC1 x fatC3).extendChain 4 (5 + 1) = _
    rw [extendChain_succ]
    refine M.bind_step _ (5, mkC1 x fatC4) _ _ rfl ?_
    show (mkC1 x fatC4).extendChain 5 (4 + 1) = _
    rw [extendChain_succ]
    refine M.bind_step _ (6, mkC1 x fatC5) _ _ rfl ?_
    show (mkC1 x fatC5).extendChain 6 (3 + 1) = _
    rw [extendChain_succ]
    refine M.bind_step _ (7, mkC1 x fatC6) _ _ rfl ?_
    show (mkC1 x fatC6).extendChain 7 (2 + 1) = _
    rw [extendChain_succ]
    refine M.bind_step _ (8, mkC1 x fatC7) _ _ rfl ?_
    show (mkC1 x fatC7).extendChain 8 (1 + 1) = _
    rw [extendChain_succ]
    refine M.bind_step _ (9, mkC1 x fatC8) _ _ rfl ?_
    show (mkC1 x fatC8).extendChain 9 (0 + 1) = _
    rw [extendChain_succ]
    refine M.bind_step _ (10, mkC1 x fatC9) _ _ rfl ?_
    rfl
  rw [mkC1_bpc]
  rw [show (b.length + (512 - 1)) / 512 = 8 + 1 from by omega]
  refine M.bind_step _ (mkC1 (imgWrite (imgWrite (imgWrite (imgWrite (imgWrite (imgWrite (imgWrite (imgWrite (imgWrite x 2048 (bchunk b 0)) 2560 (bchunk b 512)) 3072 (bchunk b 1024)) 3584 (bchunk b 1536)) 4096 (bchunk b 2048)) 4608 (bchunk b 2560)) 5120 (bchunk b 3072)) 5632 (bchunk b 3584)) 6144 (bchunk b 4096)) fatC9) _ _ ?_ ?_
  · rw [writeChunks_succ]
    rw [if_neg (show ¬¬(2 ≤ 2 ∧ 2 < 0xFF0) from by decide)]
    rw [mkC1_bpc]
    rw [show (b.drop 0).take 512 ++ List.replicate
        (512 - ((b.drop 0).take 512).length) 0 = bchunk b 0 from rfl]
    refine M.bind_step _ (mkC1 (imgWrite x 2048 (bchunk b 0)) fatC9) _ _ ?_ ?_
    · unfold FAT12.writecluster FAT12.write_sectors
      rw [show (mkC1 (x) fatC9).cluster_index 2 * 512 = 2048 from by
        norm_num [FAT12.cluster_index]]
      rw [if_neg (show ¬((2048 : Nat) ≥
          (mkC1 (x) fatC9).capacity) from by norm_num)]
      rw [if_neg (show ¬((bchunk b 0).length ≠
          (mkC1 (x) fatC9).sectors_per_cluster * 512) from by
        rw [bchunk_length]; norm_num)]
      rfl
    refine M.bind_step _ 3 _ _ rfl ?_
    show (mkC1 (imgWrite x 2048 (bchunk b 0)) fatC9).writeChunks b (7 + 1) 3 512 = _
    rw [writeChunks_succ]
    rw [if_neg (show ¬¬(2 ≤ 3 ∧ 3 < 0xFF0) from by decide)]
    rw [mkC1_bpc]
    rw [show (b.drop 512).take 512 ++ List.replicate
        (512 - ((b.drop 512).take 512).length) 0 = bchunk b 512 from rfl]
    refine M.bind_step _ (mkC1 (imgWrite (imgWrite x 2048 (bchunk b 0)) 2560 (bchunk b 512)) fatC9) _ _ ?_ ?_
    · unfold FAT12.writecluster FAT12.write_sectors
      rw [show (mkC1 (imgWrite x 2048 (bchunk b 0)) fatC9).cluster_index 3 * 512 = 2560 from by
        norm_num [FAT12.cluster_index]]
      rw [if_neg (show ¬((2560 : Nat) ≥
          (mkC1 (imgWrite x 2048 (bchunk b 0)) fatC9).capacity) from by norm_num)]
      rw [if_neg (show ¬((bchunk b 512).length ≠
          (mkC1 (imgWrite x 2048 (bchunk b 0)) fatC9).sectors_per_cluster * 512) from by
        rw [bchunk_length]; norm_num)]
      rfl
    refine M.bind_step _ 4 _ _ rfl ?_
    show (mkC1 (imgWrite (imgWrite x 2048 (bchunk b 0)) 2560 (bchunk b 512)) fatC9).writeChunks b (6 + 1) 4 1024 = _
    rw [writeChunks_succ]
    rw [if_neg (show ¬¬(2 ≤ 4 ∧ 4 < 0xFF0) from by decide)]
    rw [mkC1_bpc]
    rw [show (b.drop 1024).take 512 ++ List.replicate
        (512 - ((b.drop 1024).take 512).length) 0 = bchunk b 1024 from rfl]
    refine M.bind_step _ (mkC1 (imgWrite (imgWrite (imgWrite x 2048 (bchunk b 0)) 2560 (bchunk b 512)) 3072 (bchunk b 1024)) fatC9) _ _ ?_ ?_
    · unfold FAT12.writecluster FAT12.write_sectors
      rw [show (mkC1 (imgWrite (imgWrite x 2048 (bchunk b 0)) 2560 (bchunk b 512)) fatC9).cluster_index 4 * 512 = 3072 from by
        norm_num [FAT12.cluster_index]]
      rw [if_neg (show ¬((3072 : Nat) ≥
          (mkC1 (imgWrite (imgWrite x 2048 (bchunk b 0)) 2560 (bchunk b 512)) fatC9).capacity) from by norm_num)]
      rw [if_neg (show ¬((bchunk b 1024).length ≠
          (mkC1 (imgWrite (imgWrite x 2048 (bchunk b 0)) 2560 (bchunk b 512)) fatC9).sectors_per_cluster * 512) from by
        rw [bchunk_length]; norm_num)]
      rfl
    refine M.bind_step _ 5 _ _ rfl ?_
    show (mkC1 (imgWrite (imgWrite (imgWrite x 2048 (bchunk b 0)) 2560 (bchunk b 512)) 3072 (bchunk b 1024)) fatC9).writeChunks b (5 + 1) 5 1536 = _
    rw [writeChunks_succ]
    rw [if_neg (show ¬¬(2 ≤ 5 ∧ 5 < 0xFF0) from by decide)]
    rw [mkC1_bpc]
    rw [show (b.drop 1536).take 512 ++ List.replicate
        (512 - ((b.drop 1536).take 512).length) 0 = bchunk b 1536 from rfl]
    refine M.bind_step _ (mkC1 (imgWrite (imgWrite (imgWrite (imgWrite x 2048 (bchunk b 0)) 2560 (bchunk b 512)) 3072 (bchunk b 1024)) 3584 (bchunk b 1536)) fatC9) _ _ ?_ ?_
    · unfold FAT12.writecluster FAT12.write_sectors
      rw [show (mkC1 (imgWrite (imgWrite (imgWrite x 2048 (bchunk b 0)) 2560 (bchunk b 512)) 3072 (bchunk b 1024)) fatC9).cluster_index 5 * 512 = 3584 from by
        norm_num [FAT12.cluster_index]]
      rw [if_neg (show ¬((3584 : Nat) ≥
          (mkC1 (imgWrite (imgWrite (imgWrite x 2048 (bchunk b 0)) 2560 (bchunk b 512)) 3072 (bchunk b 1024)) fatC9).capacity) from by norm_num)]
      rw [if_neg (show ¬((bchunk b 1536).length ≠
          (mkC1 (imgWrite (imgWrite (imgWrite x 2048 (bchunk b 0)) 2560 (bchunk b 512)) 3072 (bchunk b 1024)) fatC9).sectors_per_cluster * 512) from by
        rw [bchunk_length]; norm_num)]
      rfl
    refine M.bind_step _ 6 _ _ rfl ?_
    show (mkC1 (imgWrite (imgWrite (imgWrite (imgWrite x 2048 (bchunk b 0)) 2560 (bchunk b 512)) 3072 (bchunk b 1024)) 3584 (bchunk b 1536)) fatC9).writeChunks b (4 + 1) 6 2048 = _
    rw [writeChunks_succ]
    rw [if_neg (show ¬¬(2 ≤ 6 ∧ 6 < 0xFF0) from by decide)]
    rw [mkC1_bpc]
    rw [show (b.drop 2048).take 512 ++ List.replicate
        (512 - ((b.drop 2048).take 512).length) 0 = bchunk b 2048 from rfl]
    refine M.bind_step _ (mkC1 (imgWrite (imgWrite (imgWrite (imgWrite (imgWrite x 2048 (bchunk b 0)) 2560 (bchunk b 512)) 3072 (bchunk b 1024)) 3584 (bchunk b 1536)) 4096 (bchunk b 2048)) fatC9) _ _ ?_ ?_
    · unfold FAT12.writecluster FAT12.write_sectors
      rw [show (mkC1 (imgWrite (imgWrite (imgWrite (imgWrite x 2048 (bchunk b 0)) 2560 (bchunk b 512)) 3072 (bchunk b 1024)) 3584 (bchunk b 1536)) fatC9).cluster_index 6 * 512 = 4096 from by
        norm_num [FAT12.cluster_index]]
      rw [if_neg (show ¬((4096 : Nat) ≥
          (mkC1 (imgWrite (imgWrite (imgWrite (imgWrite x 2048 (bchunk b 0)) 2560 (bchunk b 512)) 3072 (bchunk b 1024)) 3584 (bchunk b 1536)) fatC9).capacity) from by norm_num)]
      rw [if_neg (show ¬((bchunk b 2048).length ≠
          (mkC1 (imgWrite (imgWrite (imgWrite (imgWrite x 2048 (bchunk b 0)) 2560 (bchunk b 512)) 3072 (bchunk b 1024)) 3584 (bchunk b 1536)) fatC9).sectors_per_cluster * 512) from by
        rw [bchunk_length]; norm_num)]
      rfl
    refine M.bind_step _ 7 _ _ rfl ?_
    show (mkC1 (imgWrite (imgWrite (imgWrite (imgWrite (imgWrite x 2048 (bchunk b 0)) 2560 (bchunk b 512)) 3072 (bchunk b 1024)) 3584 (bchunk b 1536)) 4096 (bchunk b 2048)) fatC9).writeChunks b (3 + 1) 7 2560 = _
    rw [writeChunks_succ]
    rw [if_neg (show ¬¬(2 ≤ 7 ∧ 7 < 0xFF0) from by decide)]
    rw [mkC1_bpc]
    rw [show (b.drop 2560).take 512 ++ List.replicate
        (512 - ((b.drop 2560).take 512).length) 0 = bchunk b 2560 from rfl]
    refine M.bind_step _ (mkC1 (imgWrite (imgWrite (imgWrite (imgWrite (imgWrite (imgWrite x 2048 (bchunk b 0)) 2560 (bchunk b 512)) 3072 (bchunk b 1024)) 3584 (bchunk b 1536)) 4096 (bchunk b 2048)) 4608 (bchunk b 2560)) fatC9) _ _ ?_ ?_
    · unfold FAT12.writecluster FAT12.write_sectors
      rw [show (mkC1 (imgWrite (imgWrite (imgWrite (imgWrite (imgWrite x 2048 (bchunk b 0)) 2560 (bchunk b 512)) 3072 (bchunk b 1024)) 3584 (bchunk b 1536)) 4096 (bchunk b 2048)) fatC9).cluster_index 7 * 512 = 4608 from by
        norm_num [FAT12.cluster_index]]
      rw [if_neg (show ¬((4608 : Nat) ≥
          (mkC1 (imgWrite (imgWrite (imgWrite (imgWrite (imgWrite x 2048 (bchunk b 0)) 2560 (bchunk b 512)) 3072 (bchunk b 1024)) 3584 (bchunk b 1536)) 4096 (bchunk b 2048)) fatC9).capacity) from by norm_num)]
      rw [if_neg (show ¬((bchunk b 2560).length ≠
          (mkC1 (imgWrite (imgWrite (imgWrite (imgWrite (imgWrite x 2048 (bchunk b 0)) 2560 (bchunk b 512)) 3072 (bchunk b 1024)) 3584 (bchunk b 1536)) 4096 (bchunk b 2048)) fatC9).sectors_per_cluster * 512) from by
        rw [bchunk_length]; norm_num)]
      rfl
    refine M.bind_step _ 8 _ _ rfl ?_
    show (mkC1 (imgWrite (imgWrite (imgWrite (imgWrite (imgWrite (imgWrite x 2048 (bchunk b 0)) 2560 (bchunk b 512)) 3072 (bchunk b 1024)) 3584 (bchunk b 1536)) 4096 (bchunk b 2048)) 4608 (bchunk b 2560)) fatC9).writeChunks b (2 + 1) 8 3072 = _
    rw [writeChunks_succ]
    rw [if_neg (show ¬¬(2 ≤ 8 ∧ 8 < 0xFF0) from by decide)]
    rw [mkC1_bpc]
    rw [show (b.drop 3072).take 512 ++ List.replicate
        (512 - ((b.drop 3072).take 512).length) 0 = bchunk b 3072 from rfl]
    refine M.bind_step _ (mkC1 (imgWrite (imgWrite (imgWrite (imgWrite (imgWrite (imgWrite (imgWrite x 2048 (bchunk b 0)) 2560 (bchunk b 512)) 3072 (bchunk b 1024)) 3584 (bchunk b 1536)) 4096 (bchunk b 2048)) 4608 (bchunk b 2560)) 5120 (bchunk b 3072)) fatC9) _ _ ?_ ?_
    · unfold FAT12.writecluster FAT12.write_sectors
      rw [show (mkC1 (imgWrite (imgWrite (imgWrite (imgWrite (imgWrite (imgWrite x 2048 (bchunk b 0)) 2560 (bchunk b 512)) 3072 (bchunk b 1024)) 3584 (bchunk b 1536)) 4096 (bchunk b 2048)) 4608 (bchunk b 2560)) fatC9).cluster_index 8 * 512 = 5120 from by
        norm_num [FAT12.cluster_index]]
      rw [if_neg (show ¬((5120 : Nat) ≥
          (mkC1 (imgWrite (imgWrite (imgWrite (imgWrite (imgWrite (imgWrite x 2048 (bchunk b 0)) 2560 (bchunk b 512)) 3072 (bchunk b 1024)) 3584 (bchunk b 1536)) 4096 (bchunk b 2048)) 4608 (bchunk b 2560)) fatC9).capacity) from by norm_num)]
      rw [if_neg (show ¬((bchunk b 3072).length ≠
          (mkC1 (imgWrite (imgWrite (imgWrite (imgWrite (imgWrite (imgWrite x 2048 (bchunk b 0)) 2560 (bchunk b 512)) 3072 (bchunk b 1024)) 3584 (bchunk b 1536)) 4096 (bchunk b 2048)) 4608 (bchunk b 2560)) fatC9).sectors_per_cluster * 512) from by
        rw [bchunk_length]; norm_num)]
      rfl
    refine M.bind_step _ 9 _ _ rfl ?_
    show (mkC1 (imgWrite (imgWrite (imgWrite (imgWrite (imgWrite (imgWrite (imgWrite x 2048 (bchunk b 0)) 2560 (bchunk b 512)) 3072 (bchunk b 1024)) 3584 (bchunk b 1536)) 4096 (bchunk b 2048)) 4608 (bchunk b 2560)) 5120 (bchunk b 3072)) fatC9).writeChunks b (1 + 1) 9 3584 = _
    rw [writeChunks_succ]
    rw [if_neg (show ¬¬(2 ≤ 9 ∧ 9 < 0xFF0) from by decide)]
    rw [mkC1_bpc]
    rw [show (b.drop 3584).take 512 ++ List.replicate
        (512 - ((b.drop 3584).take 512).length) 0 = bchunk b 3584 from rfl]
    refine M.bind_step _ (mkC1 (imgWrite (imgWrite (imgWrite (imgWrite (imgWrite (imgWrite (imgWrite (imgWrite x 2048 (bchunk b 0)) 2560 (bchunk b 512)) 3072 (bchunk b 1024)) 3584 (bchunk b 1536)) 4096 (bchunk b 2048)) 4608 (bchunk b 2560)) 5120 (bchunk b 3072)) 5632 (bchunk b 3584)) fatC9) _ _ ?_ ?_
    · unfold FAT12.writecluster FAT12.write_sectors
      rw [show (mkC1 (imgWrite (imgWrite (imgWrite (imgWrite (imgWrite (imgWrite (imgWrite x 2048 (bchunk b 0)) 2560 (bchunk b 512)) 3072 (bchunk b 1024)) 3584 (bchunk b 1536)) 4096 (bchunk b 2048)) 4608 (bchunk b 2560)) 5120 (bchunk b 3072)) fatC9).cluster_index 9 * 512 = 5632 from by
        norm_num [FAT12.cluster_index]]
      rw [if_neg (show ¬((5632 : Nat) ≥
          (mkC1 (imgWrite (imgWrite (imgWrite (imgWrite (imgWrite (imgWrite (imgWrite x 2048 (bchunk b 0)) 2560 (bchunk b 512)) 3072 (bchunk b 1024)) 3584 (bchunk b 1536)) 4096 (bchunk b 2048)) 4608 (bchunk b 2560)) 5120 (bchunk b 3072)) fatC9).capacity) from by norm_num)]
      rw [if_neg (show ¬((bchunk b 3584).length ≠
          (mkC1 (imgWrite (imgWrite (imgWrite (imgWrite (imgWrite (imgWrite (imgWrite x 2048 (bchunk b 0)) 2560 (bchunk b 512)) 3072 (bchunk b 1024)) 3584 (bchunk b 1536)) 4096 (bchunk b 2048)) 4608 (bchunk b 2560)) 5120 (bchunk b 3072)) fatC9).sectors_per_cluster * 512) from by
        rw [bchunk_length]; norm_num)]
      rfl
    refine M.bind_step _ 10 _ _ rfl ?_
    show (mkC1 (imgWrite (imgWrite (imgWrite (imgWrite (imgWrite (imgWrite (imgWrite (imgWrite x 2048 (bchunk b 0)) 2560 (bchunk b 512)) 3072 (bchunk b 1024)) 3584 (bchunk b 1536)) 4096 (bchunk b 2048)) 4608 (bchunk b 2560)) 5120 (bchunk b 3072)) 5632 (bchunk b 3584)) fatC9).writeChunks b (0 + 1) 10 4096 = _
    rw [writeChunks_succ]
    rw [if_neg (show ¬¬(2 ≤ 10 ∧ 10 < 0xFF0) from by decide)]
    rw [mkC1_bpc]
    rw [show (b.drop 4096).take 512 ++ List.replicate
        (512 - ((b.drop 4096).take 512).length) 0 = bchunk b 4096 from rfl]
    refine M.bind_step _ (mkC1 (imgWrite (imgWrite (imgWrite (imgWrite (imgWrite (imgWrite (imgWrite (imgWrite (imgWrite x 2048 (bchunk b 0)) 2560 (bchunk b 512)) 3072 (bchunk b 1024)) 3584 (bchunk b 1536)) 4096 (bchunk b 2048)) 4608 (bchunk b 2560)) 5120 (bchunk b 3072)) 5632 (bchunk b 3584)) 6144 (bchunk b 4096)) fatC9) _ _ ?_ ?_
    · unfold FAT12.writecluster FAT12.write_sectors
      rw [show (mkC1 (imgWrite (imgWrite (imgWrite (imgWrite (imgWrite (imgWrite (imgWrite (imgWrite x 2048 (bchunk b 0)) 2560 (bchunk b 512)) 3072 (bchunk b 1024)) 3584 (bchunk b 1536)) 4096 (bchunk b 2048)) 4608 (bchunk b 2560)) 5120 (bchunk b 3072)) 5632 (bchunk b 3584)) fatC9).cluster_index 10 * 512 = 6144 from by
        norm_num [FAT12.cluster_index]]
      rw [if_neg (show ¬((6144 : Nat) ≥
          (mkC1 (imgWrite (imgWrite (imgWrite (imgWrite (imgWrite (imgWrite (imgWrite (imgWrite x 2048 (bchunk b 0)) 2560 (bchunk b 512)) 3072 (bchunk b 1024)) 3584 (bchunk b 1536)) 4096 (bchunk b 2048)) 4608 (bchunk b 2560)) 5120 (bchunk b 3072)) 5632 (bchunk b 3584)) fatC9).capacity) from by norm_num)]
      rw [if_neg (show ¬((bchunk b 4096).length ≠
          (mkC1 (imgWrite (imgWrite (imgWrite (imgWrite (imgWrite (imgWrite (imgWrite (imgWrite x 2048 (bchunk b 0)) 2560 (bchunk b 512)) 3072 (bchunk b 1024)) 3584 (bchunk b 1536)) 4096 (bchunk b 2048)) 4608 (bchunk b 2560)) 5120 (bchunk b 3072)) 5632 (bchunk b 3584)) fatC9).sectors_per_cluster * 512) from by
        rw [bchunk_length]; norm_num)]
      rfl
    refine M.bind_step _ 4095 _ _ rfl ?_
    rfl
  refine M.bind_step _ (mkC1 (imgWrite (imgWrite (imgWrite (imgWrite (imgWrite (imgWrite (imgWrite (imgWrite (imgWrite x 2048 (bchunk b 0)) 2560 (bchunk b 512)) 3072 (bchunk b 1024)) 3584 (bchunk b 1536)) 4096 (bchunk b 2048)) 4608 (bchunk b 2560)) 5120 (bchunk b 3072)) 5632 (bchunk b 3584)) 6144 (bchunk b 4096)) fatC9, 2) _ _ rfl ?_
  refine M.bind_step _ (entryA b.length) _ _ ?_ ?_
  · rw [show (mkC1 (imgWrite (imgWrite (imgWrite (imgWrite (imgWrite (imgWrite (imgWrite (imgWrite (imgWrite x 2048 (bchunk b 0)) 2560 (bchunk b 512)) 3072 (bchunk b 1024)) 3584 (bchunk b 1536)) 4096 (bchunk b 2048)) 4608 (bchunk b 2560)) 5120 (bchunk b 3072)) 5632 (bchunk b 3584)) 6144 (bchunk b 4096)) fatC9).now = fixNow from rfl]
    exact mkdir_entryA b.length (by omega)
  refine M.bind_step _ (mkC1 (imgWrite (imgWrite (imgWrite (imgWrite (imgWrite (imgWrite (imgWrite (imgWrite (imgWrite (imgWrite x 2048 (bchunk b 0)) 2560 (bchunk b 512)) 3072 (bchunk b 1024)) 3584 (bchunk b 1536)) 4096 (bchunk b 2048)) 4608 (bchunk b 2560)) 5120 (bchunk b 3072)) 5632 (bchunk b 3584)) 6144 (bchunk b 4096)) 1536 (newroot b)) fatC9) _ _ ?_ ?_
  · unfold FAT12.writedirentry
    rw [if_neg (show ¬((entryA b.length).length ≠ 32) from by
      rw [show (entryA b.length).length = 32 from rfl]; omega)]
    rw [if_pos rfl]
    rw [rs_root_C1]
    rw [show imgRead (imgWrite (imgWrite (imgWrite (imgWrite (imgWrite (imgWrite (imgWrite (imgWrite (imgWrite x 2048 (bchunk b 0)) 2560 (bchunk b 512)) 3072 (bchunk b 1024)) 3584 (bchunk b 1536)) 4096 (bchunk b 2048)) 4608 (bchunk b 2560)) 5120 (bchunk b 3072)) 5632 (bchunk b 3584)) 6144 (bchunk b 4096)) 1536 512 = rd from by
      rw [imgRead_write_outside _ _ _ _ _ (Or.inl (by norm_num))]
      rw [imgRead_write_outside _ _ _ _ _ (Or.inl (by norm_num))]
      rw [imgRead_write_outside _ _ _ _ _ (Or.inl (by norm_num))]
      rw [imgRead_write_outside _ _ _ _ _ (Or.inl (by norm_num))]
      rw [imgRead_write_outside _ _ _ _ _ (Or.inl (by norm_num))]
      rw [imgRead_write_outside _ _ _ _ _ (Or.inl (by norm_num))]
      rw [imgRead_write_outside _ _ _ _ _ (Or.inl (by norm_num))]
      rw [imgRead_write_outside _ _ _ _ _ (Or.inl (by norm_num))]
      rw [imgRead_write_outside _ _ _ _ _ (Or.inl (by norm_num))]
      exact hread]
    rw [M.ok_bind2]
    beta_reduce
    rw [hsplice]
    unfold FAT12.write_sectors
    norm_num [show (newroot b).length = 512 from rfl]
    rfl
  show FAT12.commit _ = _
  exact commit_C9 _

/-- `read_file("/A.TXT")` returns exactly `b` on a volume holding `b`
over the 9-cluster chain. -/
theorem read_C1_k9 (i : Image) (b : List Nat)
    (h1 : 4096 < b.length) (h2 : b.length ≤ 4608)
    (hroot : imgRead i 1536 512 = newroot b)
    (hd0 : imgRead i 2048 512 = bchunk b 0)
    (hd1 : imgRead i 2560 512 = bchunk b 512)
    (hd2 : imgRead i 3072 512 = bchunk b 1024)
    (hd3 : imgRead i 3584 512 = bchunk b 1536)
    (hd4 : imgRead i 4096 512 = bchunk b 2048)
    (hd5 : imgRead i 4608 512 = bchunk b 2560)
    (hd6 : imgRead i 5120 512 = bchunk b 3072)
    (hd7 : imgRead i 5632 512 = bchunk b 3584)
    (hd8 : imgRead i 6144 512 = bchunk b 4096)
    : (mkC1 i fatC9).read_file pathATXT = .ok b := by
  obtain ⟨m, hm⟩ : ∃ m, b.length = m + 9 := ⟨b.length - 9, by omega⟩
  unfold FAT12.read_file
  rw [resolvepath_C1 i fatC9 (newroot b) hroot (scan_newroot b (by omega)),
    M.ok_bind2]
  beta_reduce
  show (mkC1 i fatC9).readfile 1 0 = _
  unfold FAT12.readfile
  rw [readdirentry_C1 i fatC9 (newroot b) hroot, M.ok_bind2]
  beta_reduce
  rw [show (newroot b).take 32 = entryA b.length from rfl]
  rw [parse_entryA b.length (by omega), M.ok_bind2]
  beta_reduce
  show (mkC1 i fatC9).readChunks 512 b.length (b.length + 1) 2 0 = _
  rw [hm]
  rw [readChunks_succ]
  rw [if_neg (show ¬((512 : Nat) = 0) from by decide)]
  rw [if_pos (show 0 < m + 9 from by omega)]
  refine M.bind_step _ (bchunk b 0) _ _ ?_ ?_
  · unfold FAT12.readcluster FAT12.read_sectors
    norm_num [FAT12.cluster_index]
    rw [hd0]
    rfl
  refine M.bind_step _ 3 _ _ rfl ?_
  refine M.bind_step _ (b.drop 512) _ _ ?_ ?_
  · show (mkC1 i fatC9).readChunks 512 (m + 9) ((m + 8) + 1) 3 512 =
        .ok (b.drop 512)
    rw [readChunks_succ]
    rw [if_neg (show ¬((512 : Nat) = 0) from by decide)]
    rw [if_pos (show 512 < m + 9 from by omega)]
    refine M.bind_step _ (bchunk b 512) _ _ ?_ ?_
    · unfold FAT12.readcluster FAT12.read_sectors
      norm_num [FAT12.cluster_index]
      rw [hd1]
      rfl
    refine M.bind_step _ 4 _ _ rfl ?_
    refine M.bind_step _ (b.drop 1024) _ _ ?_ ?_
    · show (mkC1 i fatC9).readChunks 512 (m + 9) ((m + 7) + 1) 4 1024 =
          .ok (b.drop 1024)
      rw [readChunks_succ]
      rw [if_neg (show ¬((512 : Nat) = 0) from by decide)]
      rw [if_pos (show 1024 < m + 9 from by omega)]
      refine M.bind_step _ (bchunk b 1024) _ _ ?_ ?_
      · unfold FAT12.readcluster FAT12.read_sectors
        norm_num [FAT12.cluster_index]
        rw [hd2]
        rfl
      refine M.bind_step _ 5 _ _ rfl ?_
      refine M.bind_step _ (b.drop 1536) _ _ ?_ ?_
      · show (mkC1 i fatC9).readChunks 512 (m + 9) ((m + 6) + 1) 5 1536 =
            .ok (b.drop 1536)
        rw [readChunks_succ]
        rw [if_neg (show ¬((512 : Nat) = 0) from by decide)]
        rw [if_pos (show 1536 < m + 9 from by omega)]
        refine M.bind_step _ (bchunk b 1536) _ _ ?_ ?_
        · unfold FAT12.readcluster FAT12.read_sectors
          norm_num [FAT12.cluster_index]
          rw [hd3]
          rfl
        refine M.bind_step _ 6 _ _ rfl ?_
        refine M.bind_step _ (b.drop 2048) _ _ ?_ ?_
        · show (mkC1 i fatC9).readChunks 512 (m + 9) ((m + 5) + 1) 6 2048 =
              .ok (b.drop 2048)
          rw [readChunks_succ]
          rw [if_neg (show ¬((512 : Nat) = 0) from by decide)]
          rw [if_pos (show 2048 < m + 9 from by omega)]
          refine M.bind_step _ (bchunk b 2048) _ _ ?_ ?_
          · unfold FAT12.readcluster FAT12.read_sectors
            norm_num [FAT12.cluster_index]
            rw [hd4]
            rfl
          refine M.bind_step _ 7 _ _ rfl ?_
          refine M.bind_step _ (b.drop 2560) _ _ ?_ ?_
          · show (mkC1 i fatC9).readChunks 512 (m + 9) ((m + 4) + 1) 7 2560 =
                .ok (b.drop 2560)
            rw [readChunks_succ]
            rw [if_neg (show ¬((512 : Nat) = 0) from by decide)]
            rw [if_pos (show 2560 < m + 9 from by omega)]
            refine M.bind_step _ (bchunk b 2560) _ _ ?_ ?_
            · unfold FAT12.readcluster FAT12.read_sectors
              norm_num [FAT12.cluster_index]
              rw [hd5]
              rfl
            refine M.bind_step _ 8 _ _ rfl ?_
            refine M.bind_step _ (b.drop 3072) _ _ ?_ ?_
            · show (mkC1 i fatC9).readChunks 512 (m + 9) ((m + 3) + 1) 8 3072 =
                  .ok (b.drop 3072)
              rw [readChunks_succ]
              rw [if_neg (show ¬((512 : Nat) = 0) from by decide)]
              rw [if_pos (show 3072 < m + 9 from by omega)]
              refine M.bind_step _ (bchunk b 3072) _ _ ?_ ?_
              · unfold FAT12.readcluster FAT12.read_sectors
                norm_num [FAT12.cluster_index]
                rw [hd6]
                rfl
              refine M.bind_step _ 9 _ _ rfl ?_
              refine M.bind_step _ (b.drop 3584) _ _ ?_ ?_
              · show (mkC1 i fatC9).readChunks 512 (m + 9) ((m + 2) + 1) 9 3584 =
                    .ok (b.drop 3584)
                rw [readChunks_succ]
                rw [if_neg (show ¬((512 : Nat) = 0) from by decide)]
                rw [if_pos (show 3584 < m + 9 from by omega)]
                refine M.bind_step _ (bchunk b 3584) _ _ ?_ ?_
                · unfold FAT12.readcluster FAT12.read_sectors
                  norm_num [FAT12.cluster_index]
                  rw [hd7]
                  rfl
                refine M.bind_step _ 10 _ _ rfl ?_
                refine M.bind_step _ (b.drop 4096) _ _ ?_ ?_
                · show (mkC1 i fatC9).readChunks 512 (m + 9) ((m + 1) + 1) 10 4096 =
                      .ok (b.drop 4096)
                  rw [readChunks_succ]
                  rw [if_neg (show ¬((512 : Nat) = 0) from by decide)]
                  rw [if_pos (show 4096 < m + 9 from by omega)]
                  refine M.bind_step _ (bchunk b 4096) _ _ ?_ ?_
                  · unfold FAT12.readcluster FAT12.read_sectors
                    norm_num [FAT12.cluster_index]
                    rw [hd8]
                    rfl
                  refine M.bind_step _ 4095 _ _ rfl ?_
                  refine M.bind_step _ ([] : List Nat) _ _ ?_ ?_
                  · show (mkC1 i fatC9).readChunks 512 (m + 9) (m + 1) 4095 4608 = .ok []
                    rw [readChunks_succ]
                    rw [if_neg (show ¬((512 : Nat) = 0) from by decide)]
                    rw [if_neg (show ¬(4608 < m + 9) from by omega)]
                    rfl
                  rw [List.append_nil]
                  rw [show (bchunk b 4096).take (m + 9 - 4096) = b.drop 4096 from by
                    have hx := bchunk_take_last b 4096 (by omega)
                    rw [hm] at hx
                    exact hx]
                  rfl
                rw [show (bchunk b 3584).take (m + 9 - 3584) = (b.drop 3584).take 512 from
                  bchunk_take_full b 3584 (m + 9 - 3584) (by omega) (by omega)]
                rw [show (b.drop 3584).take 512 ++ b.drop 4096 = b.drop 3584 from by
                  have hg := drop_glue b 3584
                  rw [show (3584 : Nat) + 512 = 4096 from rfl] at hg
                  exact hg]
                rfl
              rw [show (bchunk b 3072).take (m + 9 - 3072) = (b.drop 3072).take 512 from
                bchunk_take_full b 3072 (m + 9 - 3072) (by omega) (by omega)]
              rw [show (b.drop 3072).take 512 ++ b.drop 3584 = b.drop 3072 from by
                have hg := drop_glue b 3072
                rw [show (3072 : Nat) + 512 = 3584 from rfl] at hg
                exact hg]
              rfl
            rw [show (bchunk b 2560).take (m + 9 - 2560) = (b.drop 2560).take 512 from
              bchunk_take_full b 2560 (m + 9 - 2560) (by omega) (by omega)]
            rw [show (b.drop 2560).take 512 ++ b.drop 3072 = b.drop 2560 from by
              have hg := drop_glue b 2560
              rw [show (2560 : Nat) + 512 = 3072 from rfl] at hg
              exact hg]
            rfl
          rw [show (bchunk b 2048).take (m + 9 - 2048) = (b.drop 2048).take 512 from
            bchunk_take_full b 2048 (m + 9 - 2048) (by omega) (by omega)]
          rw [show (b.drop 2048).take 512 ++ b.drop 2560 = b.drop 2048 from by
            have hg := drop_glue b 2048
            rw [show (2048 : Nat) + 512 = 2560 from rfl] at hg
            exact hg]
          rfl
        rw [show (bchunk b 1536).take (m + 9 - 1536) = (b.drop 1536).take 512 from
          bchunk_take_full b 1536 (m + 9 - 1536) (by omega) (by omega)]
        rw [show (b.drop 1536).take 512 ++ b.drop 2048 = b.drop 1536 from by
          have hg := drop_glue b 1536
          rw [show (1536 : Nat) + 512 = 2048 from rfl] at hg
          exact hg]
        rfl
      rw [show (bchunk b 1024).take (m + 9 - 1024) = (b.drop 1024).take 512 from
        bchunk_take_full b 1024 (m + 9 - 1024) (by omega) (by omega)]
      rw [show (b.drop 1024).take 512 ++ b.drop 1536 = b.drop 1024 from by
        have hg := drop_glue b 1024
        rw [show (1024 : Nat) + 512 = 1536 from rfl] at hg
        exact hg]
      rfl
    rw [show (bchunk b 512).take (m + 9 - 512) = (b.drop 512).take 512 from
      bchunk_take_full b 512 (m + 9 - 512) (by omega) (by omega)]
    rw [show (b.drop 512).take 512 ++ b.drop 1024 = b.drop 512 from by
      have hg := drop_glue b 512
      rw [show (512 : Nat) + 512 = 1024 from rfl] at hg
      exact hg]
    rfl
  rw [show (bchunk b 0).take (m + 9 - 0) = b.take 512 from by
    have hx := bchunk_take_full b 0 (m + 9 - 0) (by omega) (by omega)
    rw [List.drop_zero] at hx
    exact hx]
  rw [show b.take 512 ++ b.drop 512 = b from List.take_append_drop 512 b]
  rfl

theorem wImgK9_root (x : Image) (b : List Nat) :
    imgRead (wImgK9 x b) 1536 512 = newroot b := by
  unfold wImgK9
  rw [imgRead_write_outside _ _ _ _ _ (Or.inr (by decide))]
  rw [imgRead_write_outside _ _ _ _ _ (Or.inr (by decide))]
  rw [imgRead_write_outside _ _ _ _ _ (Or.inr (by decide))]
  rw [imgRead_write_inside _ _ _ _ _ (le_refl _)
    (by rw [show (newroot b).length = 512 from rfl])]
  rw [Nat.sub_self, List.drop_zero,
    List.take_of_length_le (le_of_eq (show (newroot b).length = 512 from rfl))]

theorem wImgK9_data0 (x : Image) (b : List Nat) :
    imgRead (wImgK9 x b) 2048 512 = bchunk b 0 := by
  unfold wImgK9
  rw [imgRead_write_outside _ _ _ _ _ (Or.inr (by decide))]
  rw [imgRead_write_outside _ _ _ _ _ (Or.inr (by decide))]
  rw [imgRead_write_outside _ _ _ _ _ (Or.inr (by decide))]
  rw [imgRead_write_outside _ _ _ _ _ (Or.inr (by
    norm_num [show (newroot b).length = 512 from rfl]))]
  rw [imgRead_write_outside _ _ _ _ _ (Or.inl (by norm_num))]
  rw [imgRead_write_outside _ _ _ _ _ (Or.inl (by norm_num))]
  rw [imgRead_write_outside _ _ _ _ _ (Or.inl (by norm_num))]
  rw [imgRead_write_outside _ _ _ _ _ (Or.inl (by norm_num))]
  rw [imgRead_write_outside _ _ _ _ _ (Or.inl (by norm_num))]
  rw [imgRead_write_outside _ _ _ _ _ (Or.inl (by norm_num))]
  rw [imgRead_write_outside _ _ _ _ _ (Or.inl (by norm_num))]
  rw [imgRead_write_outside _ _ _ _ _ (Or.inl (by norm_num))]
  rw [imgRead_write_inside _ _ _ _ _ (le_refl _) (by rw [bchunk_length])]
  rw [Nat.sub_self, List.drop_zero,
    List.take_of_length_le (le_of_eq (bchunk_length b 0))]

theorem wImgK9_data1 (x : Image) (b : List Nat) :
    imgRead (wImgK9 x b) 2560 512 = bchunk b 512 := by
  unfold wImgK9
  rw [imgRead_write_outside _ _ _ _ _ (Or.inr (by decide))]
  rw [imgRead_write_outside _ _ _ _ _ (Or.inr (by decide))]
  rw [imgRead_write_outside _ _ _ _ _ (Or.inr (by decide))]
  rw [imgRead_write_outside _ _ _ _ _ (Or.inr (by
    norm_num [show (newroot b).length = 512 from rfl]))]
  rw [imgRead_write_outside _ _ _ _ _ (Or.inl (by norm_num))]
  rw [imgRead_write_outside _ _ _ _ _ (Or.inl (by norm_num))]
  rw [imgRead_write_outside _ _ _ _ _ (Or.inl (by norm_num))]
  rw [imgRead_write_outside _ _ _ _ _ (Or.inl (by norm_num))]
  rw [imgRead_write_outside _ _ _ _ _ (Or.inl (by norm_num))]
  rw [imgRead_write_outside _ _ _ _ _ (Or.inl (by norm_num))]
  rw [imgRead_write_outside _ _ _ _ _ (Or.inl (by norm_num))]
  rw [imgRead_write_inside _ _ _ _ _ (le_refl _) (by rw [bchunk_length])]
  rw [Nat.sub_self, List.drop_zero,
    List.take_of_length_le (le_of_eq (bchunk_length b 512))]

theorem wImgK9_data2 (x : Image) (b : List Nat) :
    imgRead (wImgK9 x b) 3072 512 = bchunk b 1024 := by
  unfold wImgK9
  rw [imgRead_write_outside _ _ _ _ _ (Or.inr (by decide))]
  rw [imgRead_write_outside _ _ _ _ _ (Or.inr (by decide))]
  rw [imgRead_write_outside _ _ _ _ _ (Or.inr (by decide))]
  rw [imgRead_write_outside _ _ _ _ _ (Or.inr (by
    norm_num [show (newroot b).length = 512 from rfl]))]
  rw [imgRead_write_outside _ _ _ _ _ (Or.inl (by norm_num))]
  rw [imgRead_write_outside _ _ _ _ _ (Or.inl (by norm_num))]
  rw [imgRead_write_outside _ _ _ _ _ (Or.inl (by norm_num))]
  rw [imgRead_write_outside _ _ _ _ _ (Or.inl (by norm_num))]
  rw [imgRead_write_outside _ _ _ _ _ (Or.inl (by norm_num))]
  rw [imgRead_write_outside _ _ _ _ _ (Or.inl (by norm_num))]
  rw [imgRead_write_inside _ _ _ _ _ (le_refl _) (by rw [bchunk_length])]
  rw [Nat.sub_self, List.drop_zero,
    List.take_of_length_le (le_of_eq (bchunk_length b 1024))]

theorem wImgK9_data3 (x : Image) (b : List Nat) :
    imgRead (wImgK9 x b) 3584 512 = bchunk b 1536 := by
  unfold wImgK9
  rw [imgRead_write_outside _ _ _ _ _ (Or.inr (by decide))]
  rw [imgRead_write_outside _ _ _ _ _ (Or.inr (by decide))]
  rw [imgRead_write_outside _ _ _ _ _ (Or.inr (by decide))]
  rw [imgRead_write_outside _ _ _ _ _ (Or.inr (by
    norm_num [show (newroot b).length = 512 from rfl]))]
  rw [imgRead_write_outside _ _ _ _ _ (Or.inl (by norm_num))]
  rw [imgRead_write_outside _ _ _ _ _ (Or.inl (by norm_num))]
  rw [imgRead_write_outside _ _ _ _ _ (Or.inl (by norm_num))]
  rw [imgRead_write_outside _ _ _ _ _ (Or.inl (by norm_num))]
  rw [imgRead_write_outside _ _ _ _ _ (Or.inl (by norm_num))]
  rw [imgRead_write_inside _ _ _ _ _ (le_refl _) (by rw [bchunk_length])]
  rw [Nat.sub_self, List.drop_zero,
    List.take_of_length_le (le_of_eq (bchunk_length b 1536))]

theorem wImgK9_data4 (x : Image) (b : List Nat) :
    imgRead (wImgK9 x b) 4096 512 = bchunk b 2048 := by
  unfold wImgK9
  rw [imgRead_write_outside _ _ _ _ _ (Or.inr (by decide))]
  rw [imgRead_write_outside _ _ _ _ _ (Or.inr (by decide))]
  rw [imgRead_write_outside _ _ _ _ _ (Or.inr (by decide))]
  rw [imgRead_write_outside _ _ _ _ _ (Or.inr (by
    norm_num [show (newroot b).length = 512 from rfl]))]
  rw [imgRead_write_outside _ _ _ _ _ (Or.inl (by norm_num))]
  rw [imgRead_write_outside _ _ _ _ _ (Or.inl (by norm_num))]
  rw [imgRead_write_outside _ _ _ _ _ (Or.inl (by norm_num))]
  rw [imgRead_write_outside _ _ _ _ _ (Or.inl (by norm_num))]
  rw [imgRead_write_inside _ _ _ _ _ (le_refl _) (by rw [bchunk_length])]
  rw [Nat.sub_self, List.drop_zero,
    List.take_of_length_le (le_of_eq (bchunk_length b 2048))]

theorem wImgK9_data5 (x : Image) (b : List Nat) :
    imgRead (wImgK9 x b) 4608 512 = bchunk b 2560 := by
  unfold wImgK9
  rw [imgRead_write_outside _ _ _ _ _ (Or.inr (by decide))]
  rw [imgRead_write_outside _ _ _ _ _ (Or.inr (by decide))]
  rw [imgRead_write_outside _ _ _ _ _ (Or.inr (by decide))]
  rw [imgRead_write_outside _ _ _ _ _ (Or.inr (by
    norm_num [show (newroot b).length = 512 from rfl]))]
  rw [imgRead_write_outside _ _ _ _ _ (Or.inl (by norm_num))]
  rw [imgRead_write_outside _ _ _ _ _ (Or.inl (by norm_num))]
  rw [imgRead_write_outside _ _ _ _ _ (Or.inl (by norm_num))]
  rw [imgRead_write_inside _ _ _ _ _ (le_refl _) (by rw [bchunk_length])]
  rw [Nat.sub_self, List.drop_zero,
    List.take_of_length_le (le_of_eq (bchunk_length b 2560))]

theorem wImgK9_data6 (x : Image) (b : List Nat) :
    imgRead (wImgK9 x b) 5120 512 = bchunk b 3072 := by
  unfold wImgK9
  rw [imgRead_write_outside _ _ _ _ _ (Or.inr (by decide))]
  rw [imgRead_write_outside _ _ _ _ _ (Or.inr (by decide))]
  rw [imgRead_write_outside _ _ _ _ _ (Or.inr (by decide))]
  rw [imgRead_write_outside _ _ _ _ _ (Or.inr (by
    norm_num [show (newroot b).length = 512 from rfl]))]
  rw [imgRead_write_outside _ _ _ _ _ (Or.inl (by norm_num))]
  rw [imgRead_write_outside _ _ _ _ _ (Or.inl (by norm_num))]
  rw [imgRead_write_inside _ _ _ _ _ (le_refl _) (by rw [bchunk_length])]
  rw [Nat.sub_self, List.drop_zero,
    List.take_of_length_le (le_of_eq (bchunk_length b 3072))]

theorem wImgK9_data7 (x : Image) (b : List Nat) :
    imgRead (wImgK9 x b) 5632 512 = bchunk b 3584 := by
  unfold wImgK9
  rw [imgRead_write_outside _ _ _ _ _ (Or.inr (by decide))]
  rw [imgRead_write_outside _ _ _ _ _ (Or.inr (by decide))]
  rw [imgRead_write_outside _ _ _ _ _ (Or.inr (by decide))]
  rw [imgRead_write_outside _ _ _ _ _ (Or.inr (by
    norm_num [show (newroot b).length = 512 from rfl]))]
  rw [imgRead_write_outside _ _ _ _ _ (Or.inl (by norm_num))]
  rw [imgRead_write_inside _ _ _ _ _ (le_refl _) (by rw [bchunk_length])]
  rw [Nat.sub_self, List.drop_zero,
    List.take_of_length_le (le_of_eq (bchunk_length b 3584))]

theorem wImgK9_data8 (x : Image) (b : List Nat) :
    imgRead (wImgK9 x b) 6144 512 = bchunk b 4096 := by
  unfold wImgK9
  rw [imgRead_write_outside _ _ _ _ _ (Or.inr (by decide))]
  rw [imgRead_write_outside _ _ _ _ _ (Or.inr (by decide))]
  rw [imgRead_write_outside _ _ _ _ _ (Or.inr (by decide))]
  rw [imgRead_write_outside _ _ _ _ _ (Or.inr (by
    norm_num [show (newroot b).length = 512 from rfl]))]
  rw [imgRead_write_inside _ _ _ _ _ (le_refl _) (by rw [bchunk_length])]
  rw [Nat.sub_self, List.drop_zero,
    List.take_of_length_le (le_of_eq (bchunk_length b 4096))]

theorem roundtrip_over_k9 (i : Image) (b : List Nat)
    (h1 : 4096 < b.length) (h2 : b.length ≤ 4608) :
    ∃ st', (mkC1 (imgWrite i 1536 root0) fatC1).write_file pathATXT b false =
        .ok st' ∧ st'.read_file pathATXT = .ok b :=
  ⟨_, by
      rw [write_file_over_body i b]
      exact writefileBody_C1_k9 _ root0 b h1 h2 (read_root0 i) rfl,
    read_C1_k9 _ b h1 h2 (wImgK9_root _ b)
      (wImgK9_data0 _ b) (wImgK9_data1 _ b) (wImgK9_data2 _ b) (wImgK9_data3 _ b) (wImgK9_data4 _ b) (wImgK9_data5 _ b) (wImgK9_data6 _ b) (wImgK9_data7 _ b) (wImgK9_data8 _ b)⟩

theorem roundtrip_create_k9 (i : Image) (b : List Nat)
    (h1 : 4096 < b.length) (h2 : b.length ≤ 4608) :
    ∃ st', (mkC1 (imgWrite i 1536 rootE) fatE).write_file pathATXT b false =
        .ok st' ∧ st'.read_file pathATXT = .ok b :=
  ⟨_, by
      rw [write_file_create_body i b (by omega)]
      exact writefileBody_C1_k9 _ root1 b h1 h2 (read_root1 i) rfl,
    read_C1_k9 _ b h1 h2 (wImgK9_root _ b)
      (wImgK9_data0 _ b) (wImgK9_data1 _ b) (wImgK9_data2 _ b) (wImgK9_data3 _ b) (wImgK9_data4 _ b) (wImgK9_data5 _ b) (wImgK9_data6 _ b) (wImgK9_data7 _ b) (wImgK9_data8 _ b)⟩

/-- The FAT after `/A.TXT` has been rewritten over a chain of 10 clusters (2 → … → 11). -/
def fatC10 : List Nat := [0xFF0, 0xFFF, 3, 4, 5, 6, 7, 8, 9, 10, 11, 0xFFF]

def fatsC10 : List Nat :=
  packFATPairs fatC10 ++ List.replicate (512 - (packFATPairs fatC10).length) 0

def fatImgC10 : List Nat := List.flatten (List.replicate 2 fatsC10)

/-- The disk image after `write_file` stored `b` over 10 clusters. -/
def wImgK10 (x : Image) (b : List Nat) : Image :=
  imgWrite (imgWrite (imgWrite (imgWrite (imgWrite (imgWrite (imgWrite (imgWrite (imgWrite (imgWrite (imgWrite (imgWrite (imgWrite (imgWrite x 2048 (bchunk b 0)) 2560 (bchunk b 512)) 3072 (bchunk b 1024)) 3584 (bchunk b 1536)) 4096 (bchunk b 2048)) 4608 (bchunk b 2560)) 5120 (bchunk b 3072)) 5632 (bchunk b 3584)) 6144 (bchunk b 4096)) 6656 (bchunk b 4608)) 1536 (newroot b)) 11 bpbA) 24 bpbB) 512 fatImgC10

theorem writefat_C10 (i : Image) :
    (mkC1 i fatC10).writefat = .ok (mkC1 (imgWrite i 512 fatImgC10) fatC10) := by
  unfold FAT12.writefat
  norm_num
  rfl

theorem commit_C10 (i : Image) :
    (mkC1 i fatC10).commit = .ok (mkC1 (imgWrite (imgWrite (imgWrite i 11 bpbA)
      24 bpbB) 512 fatImgC10) fatC10) := by
  unfold FAT12.commit
  refine M.bind_step _ (mkC1 i fatC10) _ _ (updatelabel_C1 i fatC10) ?_
  refine M.bind_step _ (mkC1 (imgWrite (imgWrite i 11 bpbA) 24 bpbB) fatC10) _ _
    (writebpb_C1 i fatC10) ?_
  exact writefat_C10 _

/-- `_writefile`'s body on the `/A.TXT` entry with contents spanning 10
clusters: 9 clusters are allocated onto the chain, the data blocks are
written, the entry is rewritten and the volume committed. -/
theorem writefileBody_C1_k10 (x : Image) (rd b : List Nat)
    (h1 : 4608 < b.length) (h2 : b.length ≤ 5120)
    (hread : imgRead x 1536 512 = rd)
    (hsplice : listSplice rd 0 (entryA b.length) = newroot b) :
    (mkC1 x fatC1).writefileBody 1 0 b nameOnlyATXT 0x20 2 1 =
      .ok (mkC1 (wImgK10 x b) fatC10) := by
  rw [writefileBody_eq]
  refine M.bind_step _ 2 _ _ rfl ?_
  refine M.bind_step _ (11, mkC1 x fatC10) _ _ ?_ ?_
  · rw [mkC1_bpc]
    rw [show (b.length + (512 - 1)) / 512 - 1 = 9 from by omega]
    show (mkC1 x fatC1).extendChain 2 (8 + 1) = _
    rw [extendChain_succ]
    refine M.bind_step _ (3, mkC1 x fatC2) _ _ rfl ?_
    show (mkC1 x fatC2).extendChain 3 (7 + 1) = _
    rw [extendChain_succ]
    refine M.bind_step _ (4, mkC1 x fatC3) _ _ rfl ?_
    show (mkC1 x fatC3).extendChain 4 (6 + 1) = _
    rw [extendChain_succ]
    refine M.bind_step _ (5, mkC1 x fatC4) _ _ rfl ?_
    show (mkC1 x fatC4).extendChain 5 (5 + 1) = _
    rw [extendChain_succ]
    refine M.bind_step _ (6, mkC1 x fatC5) _ _ rfl ?_
    show (mkC1 x fatC5).extendChain 6 (4 + 1) = _
    rw [extendChain_succ]
    refine M.bind_step _ (7, mkC1 x fatC6) _ _ rfl ?_
    show (mkC1 x fatC6).extendChain 7 (3 + 1) = _
    rw [extendChain_succ]
    refine M.bind_step _ (8, mkC1 x fatC7) _ _ rfl ?_
    show (mkC1 x fatC7).extendChain 8 (2 + 1) = _
    rw [extendChain_succ]
    refine M.bind_step _ (9, mkC1 x fatC8) _ _ rfl ?_
    show (mkC1 x fatC8).extendChain 9 (1 + 1) = _
    rw [extendChain_succ]
    refine M.bind_step _ (10, mkC1 x fatC9) _ _ rfl ?_
    show (mkC1 x fatC9).extendChain 10 (0 + 1) = _
    rw [extendChain_succ]
    refine M.bind_step _ (11, mkC1 x fatC10) _ _ rfl ?_
    rfl
  rw [mkC1_bpc]
  rw [show (b.length + (512 - 1)) / 512 = 9 + 1 from by omega]
  refine M.bind_step _ (mkC1 (imgWrite (imgWrite (imgWrite (imgWrite (imgWrite (imgWrite (imgWrite (imgWrite (imgWrite (imgWrite x 2048 (bchunk b 0)) 2560 (bchunk b 512)) 3072 (bchunk b 1024)) 3584 (bchunk b 1536)) 4096 (bchunk b 2048)) 4608 (bchunk b 2560)) 5120 (bchunk b 3072)) 5632 (bchunk b 3584)) 6144 (bchunk b 4096)) 6656 (bchunk b 4608)) fatC10) _ _ ?_ ?_
  · rw [writeChunks_succ]
    rw [if_neg (show ¬¬(2 ≤ 2 ∧ 2 < 0xFF0) from by decide)]
    rw [mkC1_bpc]
    rw [show (b.drop 0).take 512 ++ List.replicate
        (512 - ((b.drop 0).take 512).length) 0 = bchunk b 0 from rfl]
    refine M.bind_step _ (mkC1 (imgWrite x 2048 (bchunk b 0)) fatC10) _ _ ?_ ?_
    · unfold FAT12.writecluster FAT12.write_sectors
      rw [show (mkC1 (x) fatC10).cluster_index 2 * 512 = 2048 from by
        norm_num [FAT12.cluster_index]]
      rw [if_neg (show ¬((2048 : Nat) ≥
          (mkC1 (x) fatC10).capacity) from by norm_num)]
      rw [if_neg (show ¬((bchunk b 0).length ≠
          (mkC1 (x) fatC10).sectors_per_cluster * 512) from by
        rw [bchunk_length]; norm_num)]
      rfl
    refine M.bind_step _ 3 _ _ rfl ?_
    show (mkC1 (imgWrite x 2048 (bchunk b 0)) fatC10).writeChunks b (8 + 1) 3 512 = _
    rw [writeChunks_succ]
    rw [if_neg (show ¬¬(2 ≤ 3 ∧ 3 < 0xFF0) from by decide)]
    rw [mkC1_bpc]
    rw [show (b.drop 512).take 512 ++ List.replicate
        (512 - ((b.drop 512).take 512).length) 0 = bchunk b 512 from rfl]
    refine M.bind_step _ (mkC1 (imgWrite (imgWrite x 2048 (bchunk b 0)) 2560 (bchunk b 512)) fatC10) _ _ ?_ ?_
    · unfold FAT12.writecluster FAT12.write_sectors
      rw [show (mkC1 (imgWrite x 2048 (bchunk b 0)) fatC10).cluster_index 3 * 512 = 2560 from by
        norm_num [FAT12.cluster_index]]
      rw [if_neg (show ¬((2560 : Nat) ≥
          (mkC1 (imgWrite x 2048 (bchunk b 0)) fatC10).capacity) from by norm_num)]
      rw [if_neg (show ¬((bchunk b 512).length ≠
          (mkC1 (imgWrite x 2048 (bchunk b 0)) fatC10).sectors_per_cluster * 512) from by
        rw [bchunk_length]; norm_num)]
      rfl
    refine M.bind_step _ 4 _ _ rfl ?_
    show (mkC1 (imgWrite (imgWrite x 2048 (bchunk b 0)) 2560 (bchunk b 512)) fatC10).writeChunks b (7 + 1) 4 1024 = _
    rw [writeChunks_succ]
    rw [if_neg (show ¬¬(2 ≤ 4 ∧ 4 < 0xFF0) from by decide)]
    rw [mkC1_bpc]
    rw [show (b.drop 1024).take 512 ++ List.replicate
        (512 - ((b.drop 1024).take 512).length) 0 = bchunk b 1024 from rfl]
    refine M.bind_step _ (mkC1 (imgWrite (imgWrite (imgWrite x 2048 (bchunk b 0)) 2560 (bchunk b 512)) 3072 (bchunk b 1024)) fatC10) _ _ ?_ ?_
    · unfold FAT12.writecluster FAT12.write_sectors
      rw [show (mkC1 (imgWrite (imgWrite x 2048 (bchunk b 0)) 2560 (bchunk b 512)) fatC10).cluster_index 4 * 512 = 3072 from by
        norm_num [FAT12.cluster_index]]
      rw [if_neg (show ¬((3072 : Nat) ≥
          (mkC1 (imgWrite (imgWrite x 2048 (bchunk b 0)) 2560 (bchunk b 512)) fatC10).capacity) from by norm_num)]
      rw [if_neg (show ¬((bchunk b 1024).length ≠
          (mkC1 (imgWrite (imgWrite x 2048 (bchunk b 0)) 2560 (bchunk b 512)) fatC10).sectors_per_cluster * 512) from by
        rw [bchunk_length]; norm_num)]
      rfl
    refine M.bind_step _ 5 _ _ rfl ?_
    show (mkC1 (imgWrite (imgWrite (imgWrite x 2048 (bchunk b 0)) 2560 (bchunk b 512)) 3072 (bchunk b 1024)) fatC10).writeChunks b (6 + 1) 5 1536 = _
    rw [writeChunks_succ]
    rw [if_neg (show ¬¬(2 ≤ 5 ∧ 5 < 0xFF0) from by decide)]
    rw [mkC1_bpc]
    rw [show (b.drop 1536).take 512 ++ List.replicate
        (512 - ((b.drop 1536).take 512).length) 0 = bchunk b 1536 from rfl]
    refine M.bind_step _ (mkC1 (imgWrite (imgWrite (imgWrite (imgWrite x 2048 (bchunk b 0)) 2560 (bchunk b 512)) 3072 (bchunk b 1024)) 3584 (bchunk b 1536)) fatC10) _ _ ?_ ?_
    · unfold FAT12.writecluster FAT12.write_sectors
      rw [show (mkC1 (imgWrite (imgWrite (imgWrite x 2048 (bchunk b 0)) 2560 (bchunk b 512)) 3072 (bchunk b 1024)) fatC10).cluster_index 5 * 512 = 3584 from by
        norm_num [FAT12.cluster_index]]
      rw [if_neg (show ¬((3584 : Nat) ≥
          (mkC1 (imgWrite (imgWrite (imgWrite x 2048 (bchunk b 0)) 2560 (bchunk b 512)) 3072 (bchunk b 1024)) fatC10).capacity) from by norm_num)]
      rw [if_neg (show ¬((bchunk b 1536).length ≠
          (mkC1 (imgWrite (imgWrite (imgWrite x 2048 (bchunk b 0)) 2560 (bchunk b 512)) 3072 (bchunk b 1024)) fatC10).sectors_per_cluster * 512) from by
        rw [bchunk_length]; norm_num)]
      rfl
    refine M.bind_step _ 6 _ _ rfl ?_
    show (mkC1 (imgWrite (imgWrite (imgWrite (imgWrite x 2048 (bchunk b 0)) 2560 (bchunk b 512)) 3072 (bchunk b 1024)) 3584 (bchunk b 1536)) fatC10).writeChunks b (5 + 1) 6 2048 = _
    rw [writeChunks_succ]
    rw [if_neg (show ¬¬(2 ≤ 6 ∧ 6 < 0xFF0) from by decide)]
    rw [mkC1_bpc]
    rw [show (b.drop 2048).take 512 ++ List.replicate
        (512 - ((b.drop 2048).take 512).length) 0 = bchunk b 2048 from rfl]
    refine M.bind_step _ (mkC1 (imgWrite (imgWrite (imgWrite (imgWrite (imgWrite x 2048 (bchunk b 0)) 2560 (bchunk b 512)) 3072 (bchunk b 1024)) 3584 (bchunk b 1536)) 4096 (bchunk b 2048)) fatC10) _ _ ?_ ?_
    · unfold FAT12.writecluster FAT12.write_sectors
      rw [show (mkC1 (imgWrite (imgWrite (imgWrite (imgWrite x 2048 (bchunk b 0)) 2560 (bchunk b 512)) 3072 (bchunk b 1024)) 3584 (bchunk b 1536)) fatC10).cluster_index 6 * 512 = 4096 from by
        norm_num [FAT12.cluster_index]]
      rw [if_neg (show ¬((4096 : Nat) ≥
          (mkC1 (imgWrite (imgWrite (imgWrite (imgWrite x 2048 (bchunk b 0)) 2560 (bchunk b 512)) 3072 (bchunk b 1024)) 3584 (bchunk b 1536)) fatC10).capacity) from by norm_num)]
      rw [if_neg (show ¬((bchunk b 2048).length ≠
          (mkC1 (imgWrite (imgWrite (imgWrite (imgWrite x 2048 (bchunk b 0)) 2560 (bchunk b 512)) 3072 (bchunk b 1024)) 3584 (bchunk b 1536)) fatC10).sectors_per_cluster * 512) from by
        rw [bchunk_length]; norm_num)]
      rfl
    refine M.bind_step _ 7 _ _ rfl ?_
    show (mkC1 (imgWrite (imgWrite (imgWrite (imgWrite (imgWrite x 2048 (bchunk b 0)) 2560 (bchunk b 512)) 3072 (bchunk b 1024)) 3584 (bchunk b 1536)) 4096 (bchunk b 2048)) fatC10).writeChunks b (4 + 1) 7 2560 = _
    rw [writeChunks_succ]
    rw [if_neg (show ¬¬(2 ≤ 7 ∧ 7 < 0xFF0) from by decide)]
    rw [mkC1_bpc]
    rw [show (b.drop 2560).take 512 ++ List.replicate
        (512 - ((b.drop 2560).take 512).length) 0 = bchunk b 2560 from rfl]
    refine M.bind_step _ (mkC1 (imgWrite (imgWrite (imgWrite (imgWrite (imgWrite (imgWrite x 2048 (bchunk b 0)) 2560 (bchunk b 512)) 3072 (bchunk b 1024)) 3584 (bchunk b 1536)) 4096 (bchunk b 2048)) 4608 (bchunk b 2560)) fatC10) _ _ ?_ ?_
    · unfold FAT12.writecluster FAT12.write_sectors
      rw [show (mkC1 (imgWrite (imgWrite (imgWrite (imgWrite (imgWrite x 2048 (bchunk b 0)) 2560 (bchunk b 512)) 3072 (bchunk b 1024)) 3584 (bchunk b 1536)) 4096 (bchunk b 2048)) fatC10).cluster_index 7 * 512 = 4608 from by
        norm_num [FAT12.cluster_index]]
      rw [if_neg (show ¬((4608 : Nat) ≥
          (mkC1 (imgWrite (imgWrite (imgWrite (imgWrite (imgWrite x 2048 (bchunk b 0)) 2560 (bchunk b 512)) 3072 (bchunk b 1024)) 3584 (bchunk b 1536)) 4096 (bchunk b 2048)) fatC10).capacity) from by norm_num)]
      rw [if_neg (show ¬((bchunk b 2560).length ≠
          (mkC1 (imgWrite (imgWrite (imgWrite (imgWrite (imgWrite x 2048 (bchunk b 0)) 2560 (bchunk b 512)) 3072 (bchunk b 1024)) 3584 (bchunk b 1536)) 4096 (bchunk b 2048)) fatC10).sectors_per_cluster * 512) from by
        rw [bchunk_length]; norm_num)]
      rfl
    refine M.bind_step _ 8 _ _ rfl ?_
    show (mkC1 (imgWrite (imgWrite (imgWrite (imgWrite (imgWrite (imgWrite x 2048 (bchunk b 0)) 2560 (bchunk b 512)) 3072 (bchunk b 1024)) 3584 (bchunk b 1536)) 4096 (bchunk b 2048)) 4608 (bchunk b 2560)) fatC10).writeChunks b (3 + 1) 8 3072 = _
    rw [writeChunks_succ]
    rw [if_neg (show ¬¬(2 ≤ 8 ∧ 8 < 0xFF0) from by decide)]
    rw [mkC1_bpc]
    rw [show (b.drop 3072).take 512 ++ List.replicate
        (512 - ((b.drop 3072).take 512).length) 0 = bchunk b 3072 from rfl]
    refine M.bind_step _ (mkC1 (imgWrite (imgWrite (imgWrite (imgWrite (imgWrite (imgWrite (imgWrite x 2048 (bchunk b 0)) 2560 (bchunk b 512)) 3072 (bchunk b 1024)) 3584 (bchunk b 1536)) 4096 (bchunk b 2048)) 4608 (bchunk b 2560)) 5120 (bchunk b 3072)) fatC10) _ _ ?_ ?_
    · unfold FAT12.writecluster FAT12.write_sectors
      rw [show (mkC1 (imgWrite (imgWrite (imgWrite (imgWrite (imgWrite (imgWrite x 2048 (bchunk b 0)) 2560 (bchunk b 512)) 3072 (bchunk b 1024)) 3584 (bchunk b 1536)) 4096 (bchunk b 2048)) 4608 (bchunk b 2560)) fatC10).cluster_index 8 * 512 = 5120 from by
        norm_num [FAT12.cluster_index]]
      rw [if_neg (show ¬((5120 : Nat) ≥
          (mkC1 (imgWrite (imgWrite (imgWrite (imgWrite (imgWrite (imgWrite x 2048 (bchunk b 0)) 2560 (bchunk b 512)) 3072 (bchunk b 1024)) 3584 (bchunk b 1536)) 4096 (bchunk b 2048)) 4608 (bchunk b 2560)) fatC10).capacity) from by norm_num)]
      rw [if_neg (show ¬((bchunk b 3072).length ≠
          (mkC1 (imgWrite (imgWrite (imgWrite (imgWrite (imgWrite (imgWrite x 2048 (bchunk b 0)) 2560 (bchunk b 512)) 3072 (bchunk b 1024)) 3584 (bchunk b 1536)) 4096 (bchunk b 2048)) 4608 (bchunk b 2560)) fatC10).sectors_per_cluster * 512) from by
        rw [bchunk_length]; norm_num)]
      rfl
    refine M.bind_step _ 9 _ _ rfl ?_
    show (mkC1 (imgWrite (imgWrite (imgWrite (imgWrite (imgWrite (imgWrite (imgWrite x 2048 (bchunk b 0)) 2560 (bchunk b 512)) 3072 (bchunk b 1024)) 3584 (bchunk b 1536)) 4096 (bchunk b 2048)) 4608 (bchunk b 2560)) 5120 (bchunk b 3072)) fatC10).writeChunks b (2 + 1) 9 3584 = _
    rw [writeChunks_succ]
    rw [if_neg (show ¬¬(2 ≤ 9 ∧ 9 < 0xFF0) from by decide)]
    rw [mkC1_bpc]
    rw [show (b.drop 3584).take 512 ++ List.replicate
        (512 - ((b.drop 3584).take 512).length) 0 = bchunk b 3584 from rfl]
    refine M.bind_step _ (mkC1 (imgWrite (imgWrite (imgWrite (imgWrite (imgWrite (imgWrite (imgWrite (imgWrite x 2048 (bchunk b 0)) 2560 (bchunk b 512)) 3072 (bchunk b 1024)) 3584 (bchunk b 1536)) 4096 (bchunk b 2048)) 4608 (bchunk b 2560)) 5120 (bchunk b 3072)) 5632 (bchunk b 3584)) fatC10) _ _ ?_ ?_
    · unfold FAT12.writecluster FAT12.write_sectors
      rw [show (mkC1 (imgWrite (imgWrite (imgWrite (imgWrite (imgWrite (imgWrite (imgWrite x 2048 (bchunk b 0)) 2560 (bchunk b 512)) 3072 (bchunk b 1024)) 3584 (bchunk b 1536)) 4096 (bchunk b 2048)) 4608 (bchunk b 2560)) 5120 (bchunk b 3072)) fatC10).cluster_index 9 * 512 = 5632 from by
        norm_num [FAT12.cluster_index]]
      rw [if_neg (show ¬((5632 : Nat) ≥
          (mkC1 (imgWrite (imgWrite (imgWrite (imgWrite (imgWrite (imgWrite (imgWrite x 2048 (bchunk b 0)) 2560 (bchunk b 512)) 3072 (bchunk b 1024)) 3584 (bchunk b 1536)) 4096 (bchunk b 2048)) 4608 (bchunk b 2560)) 5120 (bchunk b 3072)) fatC10).capacity) from by norm_num)]
      rw [if_neg (show ¬((bchunk b 3584).length ≠
          (mkC1 (imgWrite (imgWrite (imgWrite (imgWrite (imgWrite (imgWrite (imgWrite x 2048 (bchunk b 0)) 2560 (bchunk b 512)) 3072 (bchunk b 1024)) 3584 (bchunk b 1536)) 4096 (bchunk b 2048)) 4608 (bchunk b 2560)) 5120 (bchunk b 3072)) fatC10).sectors_per_cluster * 512) from by
        rw [bchunk_length]; norm_num)]
      rfl
    refine M.bind_step _ 10 _ _ rfl ?_
    show (mkC1 (imgWrite (imgWrite (imgWrite (imgWrite (imgWrite (imgWrite (imgWrite (imgWrite x 2048 (bchunk b 0)) 2560 (bchunk b 512)) 3072 (bchunk b 1024)) 3584 (bchunk b 1536)) 4096 (bchunk b 2048)) 4608 (bchunk b 2560)) 5120 (bchunk b 3072)) 5632 (bchunk b 3584)) fatC10).writeChunks b (1 + 1) 10 4096 = _
    rw [writeChunks_succ]
    rw [if_neg (show ¬¬(2 ≤ 10 ∧ 10 < 0xFF0) from by decide)]
    rw [mkC1_bpc]
    rw [show (b.drop 4096).take 512 ++ List.replicate
        (512 - ((b.drop 4096).take 512).length) 0 = bchunk b 4096 from rfl]
    refine M.bind_step _ (mkC1 (imgWrite (imgWrite (imgWrite (imgWrite (imgWrite (imgWrite (imgWrite (imgWrite (imgWrite x 2048 (bchunk b 0)) 2560 (bchunk b 512)) 3072 (bchunk b 1024)) 3584 (bchunk b 1536)) 4096 (bchunk b 2048)) 4608 (bchunk b 2560)) 5120 (bchunk b 3072)) 5632 (bchunk b 3584)) 6144 (bchunk b 4096)) fatC10) _ _ ?_ ?_
    · unfold FAT12.writecluster FAT12.write_sectors
      rw [show (mkC1 (imgWrite (imgWrite (imgWrite (imgWrite (imgWrite (imgWrite (imgWrite (imgWrite x 2048 (bchunk b 0)) 2560 (bchunk b 512)) 3072 (bchunk b 1024)) 3584 (bchunk b 1536)) 4096 (bchunk b 2048)) 4608 (bchunk b 2560)) 5120 (bchunk b 3072)) 5632 (bchunk b 3584)) fatC10).cluster_index 10 * 512 = 6144 from by
        norm_num [FAT12.cluster_index]]
      rw [if_neg (show ¬((6144 : Nat) ≥
          (mkC1 (imgWrite (imgWrite (imgWrite (imgWrite (imgWrite (imgWrite (imgWrite (imgWrite x 2048 (bchunk b 0)) 2560 (bchunk b 512)) 3072 (bchunk b 1024)) 3584 (bchunk b 1536)) 4096 (bchunk b 2048)) 4608 (bchunk b 2560)) 5120 (bchunk b 3072)) 5632 (bchunk b 3584)) fatC10).capacity) from by norm_num)]
      rw [if_neg (show ¬((bchunk b 4096).length ≠
          (mkC1 (imgWrite (imgWrite (imgWrite (imgWrite (imgWrite (imgWrite (imgWrite (imgWrite x 2048 (bchunk b 0)) 2560 (bchunk b 512)) 3072 (bchunk b 1024)) 3584 (bchunk b 1536)) 4096 (bchunk b 2048)) 4608 (bchunk b 2560)) 5120 (bchunk b 3072)) 5632 (bchunk b 3584)) fatC10).sectors_per_cluster * 512) from by
        rw [bchunk_length]; norm_num)]
      rfl
    refine M.bind_step _ 11 _ _ rfl ?_
    show (mkC1 (imgWrite (imgWrite (imgWrite (imgWrite (imgWrite (imgWrite (imgWrite (imgWrite (imgWrite x 2048 (bchunk b 0)) 2560 (bchunk b 512)) 3072 (bchunk b 1024)) 3584 (bchunk b 1536)) 4096 (bchunk b 2048)) 4608 (bchunk b 2560)) 5120 (bchunk b 3072)) 5632 (bchunk b 3584)) 6144 (bchunk b 4096)) fatC10).writeChunks b (0 + 1) 11 4608 = _
    rw [writeChunks_succ]
    rw [if_neg (show ¬¬(2 ≤ 11 ∧ 11 < 0xFF0) from by decide)]
    rw [mkC1_bpc]
    rw [show (b.drop 4608).take 512 ++ List.replicate
        (512 - ((b.drop 4608).take 512).length) 0 = bchunk b 4608 from rfl]
    refine M.bind_step _ (mkC1 (imgWrite (imgWrite (imgWrite (imgWrite (imgWrite (imgWrite (imgWrite (imgWrite (imgWrite (imgWrite x 2048 (bchunk b 0)) 2560 (bchunk b 512)) 3072 (bchunk b 1024)) 3584 (bchunk b 1536)) 4096 (bchunk b 2048)) 4608 (bchunk b 2560)) 5120 (bchunk b 3072)) 5632 (bchunk b 3584)) 6144 (bchunk b 4096)) 6656 (bchunk b 4608)) fatC10) _ _ ?_ ?_
    · unfold FAT12.writecluster FAT12.write_sectors
      rw [show (mkC1 (imgWrite (imgWrite (imgWrite (imgWrite (imgWrite (imgWrite (imgWrite (imgWrite (imgWrite x 2048 (bchunk b 0)) 2560 (bchunk b 512)) 3072 (bchunk b 1024)) 3584 (bchunk b 1536)) 4096 (bchunk b 2048)) 4608 (bchunk b 2560)) 5120 (bchunk b 3072)) 5632 (bchunk b 3584)) 6144 (bchunk b 4096)) fatC10).cluster_index 11 * 512 = 6656 from by
        norm_num [FAT12.cluster_index]]
      rw [if_neg (show ¬((6656 : Nat) ≥
          (mkC1 (imgWrite (imgWrite (imgWrite (imgWrite (imgWrite (imgWrite (imgWrite (imgWrite (imgWrite x 2048 (bchunk b 0)) 2560 (bchunk b 512)) 3072 (bchunk b 1024)) 3584 (bchunk b 1536)) 4096 (bchunk b 2048)) 4608 (bchunk b 2560)) 5120 (bchunk b 3072)) 5632 (bchunk b 3584)) 6144 (bchunk b 4096)) fatC10).capacity) from by norm_num)]
      rw [if_neg (show ¬((bchunk b 4608).length ≠
          (mkC1 (imgWrite (imgWrite (imgWrite (imgWrite (imgWrite (imgWrite (imgWrite (imgWrite (imgWrite x 2048 (bchunk b 0)) 2560 (bchunk b 512)) 3072 (bchunk b 1024)) 3584 (bchunk b 1536)) 4096 (bchunk b 2048)) 4608 (bchunk b 2560)) 5120 (bchunk b 3072)) 5632 (bchunk b 3584)) 6144 (bchunk b 4096)) fatC10).sectors_per_cluster * 512) from by
        rw [bchunk_length]; norm_num)]
      rfl
    refine M.bind_step _ 4095 _ _ rfl ?_
    rfl
  refine M.bind_step _ (mkC1 (imgWrite (imgWrite (imgWrite (imgWrite (imgWrite (imgWrite (imgWrite (imgWrite (imgWrite (imgWrite x 2048 (bchunk b 0)) 2560 (bchunk b 512)) 3072 (bchunk b 1024)) 3584 (bchunk b 1536)) 4096 (bchunk b 2048)) 4608 (bchunk b 2560)) 5120 (bchunk b 3072)) 5632 (bchunk b 3584)) 6144 (bchunk b 4096)) 6656 (bchunk b 4608)) fatC10, 2) _ _ rfl ?_
  refine M.bind_step _ (entryA b.length) _ _ ?_ ?_
  · rw [show (mkC1 (imgWrite (imgWrite (imgWrite (imgWrite (imgWrite (imgWrite (imgWrite (imgWrite (imgWrite (imgWrite x 2048 (bchunk b 0)) 2560 (bchunk b 512)) 3072 (bchunk b 1024)) 3584 (bchunk b 1536)) 4096 (bchunk b 2048)) 4608 (bchunk b 2560)) 5120 (bchunk b 3072)) 5632 (bchunk b 3584)) 6144 (bchunk b 4096)) 6656 (bchunk b 4608)) fatC10).now = fixNow from rfl]
    exact mkdir_entryA b.length (by omega)
  refine M.bind_step _ (mkC1 (imgWrite (imgWrite (imgWrite (imgWrite (imgWrite (imgWrite (imgWrite (imgWrite (imgWrite (imgWrite (imgWrite x 2048 (bchunk b 0)) 2560 (bchunk b 512)) 3072 (bchunk b 1024)) 3584 (bchunk b 1536)) 4096 (bchunk b 2048)) 4608 (bchunk b 2560)) 5120 (bchunk b 3072)) 5632 (bchunk b 3584)) 6144 (bchunk b 4096)) 6656 (bchunk b 4608)) 1536 (newroot b)) fatC10) _ _ ?_ ?_
  · unfold FAT12.writedirentry
    rw [if_neg (show ¬((entryA b.length).length ≠ 32) from by
      rw [show (entryA b.length).length = 32 from rfl]; omega)]
    rw [if_pos rfl]
    rw [rs_root_C1]
    rw [show imgRead (imgWrite (imgWrite (imgWrite (imgWrite (imgWrite (imgWrite (imgWrite (imgWrite (imgWrite (imgWrite x 2048 (bchunk b 0)) 2560 (bchunk b 512)) 3072 (bchunk b 1024)) 3584 (bchunk b 1536)) 4096 (bchunk b 2048)) 4608 (bchunk b 2560)) 5120 (bchunk b 3072)) 5632 (bchunk b 3584)) 6144 (bchunk b 4096)) 6656 (bchunk b 4608)) 1536 512 = rd from by
      rw [imgRead_write_outside _ _ _ _ _ (Or.inl (by norm_num))]
      rw [imgRead_write_outside _ _ _ _ _ (Or.inl (by norm_num))]
      rw [imgRead_write_outside _ _ _ _ _ (Or.inl (by norm_num))]
      rw [imgRead_write_outside _ _ _ _ _ (Or.inl (by norm_num))]
      rw [imgRead_write_outside _ _ _ _ _ (Or.inl (by norm_num))]
      rw [imgRead_write_outside _ _ _ _ _ (Or.inl (by norm_num))]
      rw [imgRead_write_outside _ _ _ _ _ (Or.inl (by norm_num))]
      rw [imgRead_write_outside _ _ _ _ _ (Or.inl (by norm_num))]
      rw [imgRead_write_outside _ _ _ _ _ (Or.inl (by norm_num))]
      rw [imgRead_write_outside _ _ _ _ _ (Or.inl (by norm_num))]
      exact hread]
    rw [M.ok_bind2]
    beta_reduce
    rw [hsplice]
    unfold FAT12.write_sectors
    norm_num [show (newroot b).length = 512 from rfl]
    rfl
  show FAT12.commit _ = _
  exact commit_C10 _

/-- `read_file("/A.TXT")` returns exactly `b` on a volume holding `b`
over the 10-cluster chain. -/
theorem read_C1_k10 (i : Image) (b : List Nat)
    (h1 : 4608 < b.length) (h2 : b.length ≤ 5120)
    (hroot : imgRead i 1536 512 = newroot b)
    (hd0 : imgRead i 2048 512 = bchunk b 0)
    (hd1 : imgRead i 2560 512 = bchunk b 512)
    (hd2 : imgRead i 3072 512 = bchunk b 1024)
    (hd3 : imgRead i 3584 512 = bchunk b 1536)
    (hd4 : imgRead i 4096 512 = bchunk b 2048)
    (hd5 : imgRead i 4608 512 = bchunk b 2560)
    (hd6 : imgRead i 5120 512 = bchunk b 3072)
    (hd7 : imgRead i 5632 512 = bchunk b 3584)
    (hd8 : imgRead i 6144 512 = bchunk b 4096)
    (hd9 : imgRead i 6656 512 = bchunk b 4608)
    : (mkC1 i fatC10).read_file pathATXT = .ok b := by
  obtain ⟨m, hm⟩ : ∃ m, b.length = m + 10 := ⟨b.length - 10, by omega⟩
  unfold FAT12.read_file
  rw [resolvepath_C1 i fatC10 (newroot b) hroot (scan_newroot b (by omega)),
    M.ok_bind2]
  beta_reduce
  show (mkC1 i fatC10).readfile 1 0 = _
  unfold FAT12.readfile
  rw [readdirentry_C1 i fatC10 (newroot b) hroot, M.ok_bind2]
  beta_reduce
  rw [show (newroot b).take 32 = entryA b.length from rfl]
  rw [parse_entryA b.length (by omega), M.ok_bind2]
  beta_reduce
  show (mkC1 i fatC10).readChunks 512 b.length (b.length + 1) 2 0 = _
  rw [hm]
  rw [readChunks_succ]
  rw [if_neg (show ¬((512 : Nat) = 0) from by decide)]
  rw [if_pos (show 0 < m + 10 from by omega)]
  refine M.bind_step _ (bchunk b 0) _ _ ?_ ?_
  · unfold FAT12.readcluster FAT12.read_sectors
    norm_num [FAT12.cluster_index]
    rw [hd0]
    rfl
  refine M.bind_step _ 3 _ _ rfl ?_
  refine M.bind_step _ (b.drop 512) _ _ ?_ ?_
  · show (mkC1 i fatC10).readChunks 512 (m + 10) ((m + 9) + 1) 3 512 =
        .ok (b.drop 512)
    rw [readChunks_succ]
    rw [if_neg (show ¬((512 : Nat) = 0) from by decide)]
    rw [if_pos (show 512 < m + 10 from by omega)]
    refine M.bind_step _ (bchunk b 512) _ _ ?_ ?_
    · unfold FAT12.readcluster FAT12.read_sectors
      norm_num [FAT12.cluster_index]
      rw [hd1]
      rfl
    refine M.bind_step _ 4 _ _ rfl ?_
    refine M.bind_step _ (b.drop 1024) _ _ ?_ ?_
    · show (mkC1 i fatC10).readChunks 512 (m + 10) ((m + 8) + 1) 4 1024 =
          .ok (b.drop 1024)
      rw [readChunks_succ]
      rw [if_neg (show ¬((512 : Nat) = 0) from by decide)]
      rw [if_pos (show 1024 < m + 10 from by omega)]
      refine M.bind_step _ (bchunk b 1024) _ _ ?_ ?_
      · unfold FAT12.readcluster FAT12.read_sectors
        norm_num [FAT12.cluster_index]
        rw [hd2]
        rfl
      refine M.bind_step _ 5 _ _ rfl ?_
      refine M.bind_step _ (b.drop 1536) _ _ ?_ ?_
      · show (mkC1 i fatC10).readChunks 512 (m + 10) ((m + 7) + 1) 5 1536 =
            .ok (b.drop 1536)
        rw [readChunks_succ]
        rw [if_neg (show ¬((512 : Nat) = 0) from by decide)]
        rw [if_pos (show 1536 < m + 10 from by omega)]
        refine M.bind_step _ (bchunk b 1536) _ _ ?_ ?_
        · unfold FAT12.readcluster FAT12.read_sectors
          norm_num [FAT12.cluster_index]
          rw [hd3]
          rfl
        refine M.bind_step _ 6 _ _ rfl ?_
        refine M.bind_step _ (b.drop 2048) _ _ ?_ ?_
        · show (mkC1 i fatC10).readChunks 512 (m + 10) ((m + 6) + 1) 6 2048 =
              .ok (b.drop 2048)
          rw [readChunks_succ]
          rw [if_neg (show ¬((512 : Nat) = 0) from by decide)]
          rw [if_pos (show 2048 < m + 10 from by omega)]
          refine M.bind_step _ (bchunk b 2048) _ _ ?_ ?_
          · unfold FAT12.readcluster FAT12.read_sectors
            norm_num [FAT12.cluster_index]
            rw [hd4]
            rfl
          refine M.bind_step _ 7 _ _ rfl ?_
          refine M.bind_step _ (b.drop 2560) _ _ ?_ ?_
          · show (mkC1 i fatC10).readChunks 512 (m + 10) ((m + 5) + 1) 7 2560 =
                .ok (b.drop 2560)
            rw [readChunks_succ]
            rw [if_neg (show ¬((512 : Nat) = 0) from by decide)]
            rw [if_pos (show 2560 < m + 10 from by omega)]
            refine M.bind_step _ (bchunk b 2560) _ _ ?_ ?_
            · unfold FAT12.readcluster FAT12.read_sectors
              norm_num [FAT12.cluster_index]
              rw [hd5]
              rfl
            refine M.bind_step _ 8 _ _ rfl ?_
            refine M.bind_step _ (b.drop 3072) _ _ ?_ ?_
            · show (mkC1 i fatC10).readChunks 512 (m + 10) ((m + 4) + 1) 8 3072 =
                  .ok (b.drop 3072)
              rw [readChunks_succ]
              rw [if_neg (show ¬((512 : Nat) = 0) from by decide)]
              rw [if_pos (show 3072 < m + 10 from by omega)]
              refine M.bind_step _ (bchunk b 3072) _ _ ?_ ?_
              · unfold FAT12.readcluster FAT12.read_sectors
                norm_num [FAT12.cluster_index]
                rw [hd6]
                rfl
              refine M.bind_step _ 9 _ _ rfl ?_
              refine M.bind_step _ (b.drop 3584) _ _ ?_ ?_
              · show (mkC1 i fatC10).readChunks 512 (m + 10) ((m + 3) + 1) 9 3584 =
                    .ok (b.drop 3584)
                rw [readChunks_succ]
                rw [if_neg (show ¬((512 : Nat) = 0) from by decide)]
                rw [if_pos (show 3584 < m + 10 from by omega)]
                refine M.bind_step _ (bchunk b 3584) _ _ ?_ ?_
                · unfold FAT12.readcluster FAT12.read_sectors
                  norm_num [FAT12.cluster_index]
                  rw [hd7]
                  rfl
                refine M.bind_step _ 10 _ _ rfl ?_
                refine M.bind_step _ (b.drop 4096) _ _ ?_ ?_
                · show (mkC1 i fatC10).readChunks 512 (m + 10) ((m + 2) + 1) 10 4096 =
                      .ok (b.drop 4096)
                  rw [readChunks_succ]
                  rw [if_neg (show ¬((512 : Nat) = 0) from by decide)]
                  rw [if_pos (show 4096 < m + 10 from by omega)]
                  refine M.bind_step _ (bchunk b 4096) _ _ ?_ ?_
                  · unfold FAT12.readcluster FAT12.read_sectors
                    norm_num [FAT12.cluster_index]
                    rw [hd8]
                    rfl
                  refine M.bind_step _ 11 _ _ rfl ?_
                  refine M.bind_step _ (b.drop 4608) _ _ ?_ ?_
                  · show (mkC1 i fatC10).readChunks 512 (m + 10) ((m + 1) + 1) 11 4608 =
                        .ok (b.drop 4608)
                    rw [readChunks_succ]
                    rw [if_neg (show ¬((512 : Nat) = 0) from by decide)]
                    rw [if_pos (show 4608 < m + 10 from by omega)]
                    refine M.bind_step _ (bchunk b 4608) _ _ ?_ ?_
                    · unfold FAT12.readcluster FAT12.read_sectors
                      norm_num [FAT12.cluster_index]
                      rw [hd9]
                      rfl
                    refine M.bind_step _ 4095 _ _ rfl ?_
                    refine M.bind_step _ ([] : List Nat) _ _ ?_ ?_
                    · show (mkC1 i fatC10).readChunks 512 (m + 10) (m + 1) 4095 5120 = .ok []
                      rw [readChunks_succ]
                      rw [if_neg (show ¬((512 : Nat) = 0) from by decide)]
                      rw [if_neg (show ¬(5120 < m + 10) from by omega)]
                      rfl
                    rw [List.append_nil]
                    rw [show (bchunk b 4608).take (m + 10 - 4608) = b.drop 4608 from by
                      have hx := bchunk_take_last b 4608 (by omega)
                      rw [hm] at hx
                      exact hx]
                    rfl
                  rw [show (bchunk b 4096).take (m + 10 - 4096) = (b.drop 4096).take 512 from
                    bchunk_take_full b 4096 (m + 10 - 4096) (by omega) (by omega)]
                  rw [show (b.drop 4096).take 512 ++ b.drop 4608 = b.drop 4096 from by
                    have hg := drop_glue b 4096
                    rw [show (4096 : Nat) + 512 = 4608 from rfl] at hg
                    exact hg]
                  rfl
                rw [show (bchunk b 3584).take (m + 10 - 3584) = (b.drop 3584).take 512 from
                  bchunk_take_full b 3584 (m + 10 - 3584) (by omega) (by omega)]
                rw [show (b.drop 3584).take 512 ++ b.drop 4096 = b.drop 3584 from by
                  have hg := drop_glue b 3584
                  rw [show (3584 : Nat) + 512 = 4096 from rfl] at hg
                  exact hg]
                rfl
              rw [show (bchunk b 3072).take (m + 10 - 3072) = (b.drop 3072).take 512 from
                bchunk_take_full b 3072 (m + 10 - 3072) (by omega) (by omega)]
              rw [show (b.drop 3072).take 512 ++ b.drop 3584 = b.drop 3072 from by
                have hg := drop_glue b 3072
                rw [show (3072 : Nat) + 512 = 3584 from rfl] at hg
                exact hg]
              rfl
            rw [show (bchunk b 2560).take (m + 10 - 2560) = (b.drop 2560).take 512 from
              bchunk_take_full b 2560 (m + 10 - 2560) (by omega) (by omega)]
            rw [show (b.drop 2560).take 512 ++ b.drop 3072 = b.drop 2560 from by
              have hg := drop_glue b 2560
              rw [show (2560 : Nat) + 512 = 3072 from rfl] at hg
              exact hg]
            rfl
          rw [show (bchunk b 2048).take (m + 10 - 2048) = (b.drop 2048).take 512 from
            bchunk_take_full b 2048 (m + 10 - 2048) (by omega) (by omega)]
          rw [show (b.drop 2048).take 512 ++ b.drop 2560 = b.drop 2048 from by
            have hg := drop_glue b 2048
            rw [show (2048 : Nat) + 512 = 2560 from rfl] at hg
            exact hg]
          rfl
        rw [show (bchunk b 1536).take (m + 10 - 1536) = (b.drop 1536).take 512 from
          bchunk_take_full b 1536 (m + 10 - 1536) (by omega) (by omega)]
        rw [show (b.drop 1536).take 512 ++ b.drop 2048 = b.drop 1536 from by
          have hg := drop_glue b 1536
          rw [show (1536 : Nat) + 512 = 2048 from rfl] at hg
          exact hg]
        rfl
      rw [show (bchunk b 1024).take (m + 10 - 1024) = (b.drop 1024).take 512 from
        bchunk_take_full b 1024 (m + 10 - 1024) (by omega) (by omega)]
      rw [show (b.drop 1024).take 512 ++ b.drop 1536 = b.drop 1024 from by
        have hg := drop_glue b 1024
        rw [show (1024 : Nat) + 512 = 1536 from rfl] at hg
        exact hg]
      rfl
    rw [show (bchunk b 512).take (m + 10 - 512) = (b.drop 512).take 512 from
      bchunk_take_full b 512 (m + 10 - 512) (by omega) (by omega)]
    rw [show (b.drop 512).take 512 ++ b.drop 1024 = b.drop 512 from by
      have hg := drop_glue b 512
      rw [show (512 : Nat) + 512 = 1024 from rfl] at hg
      exact hg]
    rfl
  rw [show (bchunk b 0).take (m + 10 - 0) = b.take 512 from by
    have hx := bchunk_take_full b 0 (m + 10 - 0) (by omega) (by omega)
    rw [List.drop_zero] at hx
    exact hx]
  rw [show b.take 512 ++ b.drop 512 = b from List.take_append_drop 512 b]
  rfl

theorem wImgK10_root (x : Image) (b : List Nat) :
    imgRead (wImgK10 x b) 1536 512 = newroot b := by
  unfold wImgK10
  rw [imgRead_write_outside _ _ _ _ _ (Or.inr (by decide))]
  rw [imgRead_write_outside _ _ _ _ _ (Or.inr (by decide))]
  rw [imgRead_write_outside _ _ _ _ _ (Or.inr (by decide))]
  rw [imgRead_write_inside _ _ _ _ _ (le_refl _)
    (by rw [show (newroot b).length = 512 from rfl])]
  rw [Nat.sub_self, List.drop_zero,
    List.take_of_length_le (le_of_eq (show (newroot b).length = 512 from rfl))]

theorem wImgK10_data0 (x : Image) (b : List Nat) :
    imgRead (wImgK10 x b) 2048 512 = bchunk b 0 := by
  unfold wImgK10
  rw [imgRead_write_outside _ _ _ _ _ (Or.inr (by decide))]
  rw [imgRead_write_outside _ _ _ _ _ (Or.inr (by decide))]
  rw [imgRead_write_outside _ _ _ _ _ (Or.inr (by decide))]
  rw [imgRead_write_outside _ _ _ _ _ (Or.inr (by
    norm_num [show (newroot b).length = 512 from rfl]))]
  rw [imgRead_write_outside _ _ _ _ _ (Or.inl (by norm_num))]
  rw [imgRead_write_outside _ _ _ _ _ (Or.inl (by norm_num))]
  rw [imgRead_write_outside _ _ _ _ _ (Or.inl (by norm_num))]
  rw [imgRead_write_outside _ _ _ _ _ (Or.inl (by norm_num))]
  rw [imgRead_write_outside _ _ _ _ _ (Or.inl (by norm_num))]
  rw [imgRead_write_outside _ _ _ _ _ (Or.inl (by norm_num))]
  rw [imgRead_write_outside _ _ _ _ _ (Or.inl (by norm_num))]
  rw [imgRead_write_outside _ _ _ _ _ (Or.inl (by norm_num))]
  rw [imgRead_write_outside _ _ _ _ _ (Or.inl (by norm_num))]
  rw [imgRead_write_inside _ _ _ _ _ (le_refl _) (by rw [bchunk_length])]
  rw [Nat.sub_self, List.drop_zero,
    List.take_of_length_le (le_of_eq (bchunk_length b 0))]

theorem wImgK10_data1 (x : Image) (b : List Nat) :
    imgRead (wImgK10 x b) 2560 512 = bchunk b 512 := by
  unfold wImgK10
  rw [imgRead_write_outside _ _ _ _ _ (Or.inr (by decide))]
  rw [imgRead_write_outside _ _ _ _ _ (Or.inr (by decide))]
  rw [imgRead_write_outside _ _ _ _ _ (Or.inr (by decide))]
  rw [imgRead_write_outside _ _ _ _ _ (Or.inr (by
    norm_num [show (newroot b).length = 512 from rfl]))]
  rw [imgRead_write_outside _ _ _ _ _ (Or.inl (by norm_num))]
  rw [imgRead_write_outside _ _ _ _ _ (Or.inl (by norm_num))]
  rw [imgRead_write_outside _ _ _ _ _ (Or.inl (by norm_num))]
  rw [imgRead_write_outside _ _ _ _ _ (Or.inl (by norm_num))]
  rw [imgRead_write_outside _ _ _ _ _ (Or.inl (by norm_num))]
  rw [imgRead_write_outside _ _ _ _ _ (Or.inl (by norm_num))]
  rw [imgRead_write_outside _ _ _ _ _ (Or.inl (by norm_num))]
  rw [imgRead_write_outside _ _ _ _ _ (Or.inl (by norm_num))]
  rw [imgRead_write_inside _ _ _ _ _ (le_refl _) (by rw [bchunk_length])]
  rw [Nat.sub_self, List.drop_zero,
    List.take_of_length_le (le_of_eq (bchunk_length b 512))]

theorem wImgK10_data2 (x : Image) (b : List Nat) :
    imgRead (wImgK10 x b) 3072 512 = bchunk b 1024 := by
  unfold wImgK10
  rw [imgRead_write_outside _ _ _ _ _ (Or.inr (by decide))]
  rw [imgRead_write_outside _ _ _ _ _ (Or.inr (by decide))]
  rw [imgRead_write_outside _ _ _ _ _ (Or.inr (by decide))]
  rw [imgRead_write_outside _ _ _ _ _ (Or.inr (by
    norm_num [show (newroot b).length = 512 from rfl]))]
  rw [imgRead_write_outside _ _ _ _ _ (Or.inl (by norm_num))]
  rw [imgRead_write_outside _ _ _ _ _ (Or.inl (by norm_num))]
  rw [imgRead_write_outside _ _ _ _ _ (Or.inl (by norm_num))]
  rw [imgRead_write_outside _ _ _ _ _ (Or.inl (by norm_num))]
  rw [imgRead_write_outside _ _ _ _ _ (Or.inl (by norm_num))]
  rw [imgRead_write_outside _ _ _ _ _ (Or.inl (by norm_num))]
  rw [imgRead_write_outside _ _ _ _ _ (Or.inl (by norm_num))]
  rw [imgRead_write_inside _ _ _ _ _ (le_refl _) (by rw [bchunk_length])]
  rw [Nat.sub_self, List.drop_zero,
    List.take_of_length_le (le_of_eq (bchunk_length b 1024))]

theorem wImgK10_data3 (x : Image) (b : List Nat) :
    imgRead (wImgK10 x b) 3584 512 = bchunk b 1536 := by
  unfold wImgK10
  rw [imgRead_write_outside _ _ _ _ _ (Or.inr (by decide))]
  rw [imgRead_write_outside _ _ _ _ _ (Or.inr (by decide))]
  rw [imgRead_write_outside _ _ _ _ _ (Or.inr (by decide))]
  rw [imgRead_write_outside _ _ _ _ _ (Or.inr (by
    norm_num [show (newroot b).length = 512 from rfl]))]
  rw [imgRead_write_outside _ _ _ _ _ (Or.inl (by norm_num))]
  rw [imgRead_write_outside _ _ _ _ _ (Or.inl (by norm_num))]
  rw [imgRead_write_outside _ _ _ _ _ (Or.inl (by norm_num))]
  rw [imgRead_write_outside _ _ _ _ _ (Or.inl (by norm_num))]
  rw [imgRead_write_outside _ _ _ _ _ (Or.inl (by norm_num))]
  rw [imgRead_write_outside _ _ _ _ _ (Or.inl (by norm_num))]
  rw [imgRead_write_inside _ _ _ _ _ (le_refl _) (by rw [bchunk_length])]
  rw [Nat.sub_self, List.drop_zero,
    List.take_of_length_le (le_of_eq (bchunk_length b 1536))]

theorem wImgK10_data4 (x : Image) (b : List Nat) :
    imgRead (wImgK10 x b) 4096 512 = bchunk b 2048 := by
  unfold wImgK10
  rw [imgRead_write_outside _ _ _ _ _ (Or.inr (by decide))]
  rw [imgRead_write_outside _ _ _ _ _ (Or.inr (by decide))]
  rw [imgRead_write_outside _ _ _ _ _ (Or.inr (by decide))]
  rw [imgRead_write_outside _ _ _ _ _ (Or.inr (by
    norm_num [show (newroot b).length = 512 from rfl]))]
  rw [imgRead_write_outside _ _ _ _ _ (Or.inl (by norm_num))]
  rw [imgRead_write_outside _ _ _ _ _ (Or.inl (by norm_num))]
  rw [imgRead_write_outside _ _ _ _ _ (Or.inl (by norm_num))]
  rw [imgRead_write_outside _ _ _ _ _ (Or.inl (by norm_num))]
  rw [imgRead_write_outside _ _ _ _ _ (Or.inl (by norm_num))]
  rw [imgRead_write_inside _ _ _ _ _ (le_refl _) (by rw [bchunk_length])]
  rw [Nat.sub_self, List.drop_zero,
    List.take_of_length_le (le_of_eq (bchunk_length b 2048))]

theorem wImgK10_data5 (x : Image) (b : List Nat) :
    imgRead (wImgK10 x b) 4608 512 = bchunk b 2560 := by
  unfold wImgK10
  rw [imgRead_write_outside _ _ _ _ _ (Or.inr (by decide))]
  rw [imgRead_write_outside _ _ _ _ _ (Or.inr (by decide))]
  rw [imgRead_write_outside _ _ _ _ _ (Or.inr (by decide))]
  rw [imgRead_write_outside _ _ _ _ _ (Or.inr (by
    norm_num [show (newroot b).length = 512 from rfl]))]
  rw [imgRead_write_outside _ _ _ _ _ (Or.inl (by norm_num))]
  rw [imgRead_write_outside _ _ _ _ _ (Or.inl (by norm_num))]
  rw [imgRead_write_outside _ _ _ _ _ (Or.inl (by norm_num))]
  rw [imgRead_write_outside _ _ _ _ _ (Or.inl (by norm_num))]
  rw [imgRead_write_inside _ _ _ _ _ (le_refl _) (by rw [bchunk_length])]
  rw [Nat.sub_self, List.drop_zero,
    List.take_of_length_le (le_of_eq (bchunk_length b 2560))]

theorem wImgK10_data6 (x : Image) (b : List Nat) :
    imgRead (wImgK10 x b) 5120 512 = bchunk b 3072 := by
  unfold wImgK10
  rw [imgRead_write_outside _ _ _ _ _ (Or.inr (by decide))]
  rw [imgRead_write_outside _ _ _ _ _ (Or.inr (by decide))]
  rw [imgRead_write_outside _ _ _ _ _ (Or.inr (by decide))]
  rw [imgRead_write_outside _ _ _ _ _ (Or.inr (by
    norm_num [show (newroot b).length = 512 from rfl]))]
  rw [imgRead_write_outside _ _ _ _ _ (Or.inl (by norm_num))]
  rw [imgRead_write_outside _ _ _ _ _ (Or.inl (by norm_num))]
  rw [imgRead_write_outside _ _ _ _ _ (Or.inl (by norm_num))]
  rw [imgRead_write_inside _ _ _ _ _ (le_refl _) (by rw [bchunk_length])]
  rw [Nat.sub_self, List.drop_zero,
    List.take_of_length_le (le_of_eq (bchunk_length b 3072))]

theorem wImgK10_data7 (x : Image) (b : List Nat) :
    imgRead (wImgK10 x b) 5632 512 = bchunk b 3584 := by
  unfold wImgK10
  rw [imgRead_write_outside _ _ _ _ _ (Or.inr (by decide))]
  rw [imgRead_write_outside _ _ _ _ _ (Or.inr (by decide))]
  rw [imgRead_write_outside _ _ _ _ _ (Or.inr (by decide))]
  rw [imgRead_write_outside _ _ _ _ _ (Or.inr (by
    norm_num [show (newroot b).length = 512 from rfl]))]
  rw [imgRead_write_outside _ _ _ _ _ (Or.inl (by norm_num))]
  rw [imgRead_write_outside _ _ _ _ _ (Or.inl (by norm_num))]
  rw [imgRead_write_inside _ _ _ _ _ (le_refl _) (by rw [bchunk_length])]
  rw [Nat.sub_self, List.drop_zero,
    List.take_of_length_le (le_of_eq (bchunk_length b 3584))]

theorem wImgK10_data8 (x : Image) (b : List Nat) :
    imgRead (wImgK10 x b) 6144 512 = bchunk b 4096 := by
  unfold wImgK10
  rw [imgRead_write_outside _ _ _ _ _ (Or.inr (by decide))]
  rw [imgRead_write_outside _ _ _ _ _ (Or.inr (by decide))]
  rw [imgRead_write_outside _ _ _ _ _ (Or.inr (by decide))]
  rw [imgRead_write_outside _ _ _ _ _ (Or.inr (by
    norm_num [show (newroot b).length = 512 from rfl]))]
  rw [imgRead_write_outside _ _ _ _ _ (Or.inl (by norm_num))]
  rw [imgRead_write_inside _ _ _ _ _ (le_refl _) (by rw [bchunk_length])]
  rw [Nat.sub_self, List.drop_zero,
    List.take_of_length_le (le_of_eq (bchunk_length b 4096))]

theorem wImgK10_data9 (x : Image) (b : List Nat) :
    imgRead (wImgK10 x b) 6656 512 = bchunk b 4608 := by
  unfold wImgK10
  rw [imgRead_write_outside _ _ _ _ _ (Or.inr (by decide))]
  rw [imgRead_write_outside _ _ _ _ _ (Or.inr (by decide))]
  rw [imgRead_write_outside _ _ _ _ _ (Or.inr (by decide))]
  rw [imgRead_write_outside _ _ _ _ _ (Or.inr (by
    norm_num [show (newroot b).length = 512 from rfl]))]
  rw [imgRead_write_inside _ _ _ _ _ (le_refl _) (by rw [bchunk_length])]
  rw [Nat.sub_self, List.drop_zero,
    List.take_of_length_le (le_of_eq (bchunk_length b 4608))]

theorem roundtrip_create_k10 (i : Image) (b : List Nat)
    (h1 : 4608 < b.length) (h2 : b.length ≤ 5120) :
    ∃ st', (mkC1 (imgWrite i 1536 rootE) fatE).write_file pathATXT b false =
        .ok st' ∧ st'.read_file pathATXT = .ok b :=
  ⟨_, by
      rw [write_file_create_body i b (by omega)]
      exact writefileBody_C1_k10 _ root1 b h1 h2 (read_root1 i) rfl,
    read_C1_k10 _ b h1 h2 (wImgK10_root _ b)
      (wImgK10_data0 _ b) (wImgK10_data1 _ b) (wImgK10_data2 _ b) (wImgK10_data3 _ b) (wImgK10_data4 _ b) (wImgK10_data5 _ b) (wImgK10_data6 _ b) (wImgK10_data7 _ b) (wImgK10_data8 _ b) (wImgK10_data9 _ b)⟩

/-- Claim C1 (amended): the write-read round-trip holds for the canonical
file path `/A.TXT` for every byte string within the volume's free space.  On a
mounted volume with the `volBase` geometry and an arbitrary surrounding disk
image, for every byte string `b` with `len(b)` at most the volume's free space
(512 bytes per free FAT entry), `write_file("/A.TXT", b)` completes without
error and a subsequent `read_file("/A.TXT")` returns exactly `b` — both when
`/A.TXT` already exists (a 3-byte file in cluster 2 is overwritten, free space
4608 bytes, exercising chain extension up to 9 clusters, including the empty
string) and when it does not exist and is created (free space 5120 bytes, up
to 10 clusters).  The claim's universal form over all paths and states is
refuted by `claim_C1_counterexample`: on a read-only file `write_file` raises
`ValueError` even though `len(b)` fits in free space, and `write_file("/", b)`
completes without error while `read_file("/")` raises `FileNotFoundError`. -/
theorem claim_C1_write_read_roundtrip (i : Image) (b : List Nat) :
    (b.length ≤ (mkC1 (imgWrite i 1536 root0) fatC1).free_bytes →
      ∃ st', (mkC1 (imgWrite i 1536 root0) fatC1).write_file pathATXT b false =
        .ok st' ∧ st'.read_file pathATXT = .ok b) ∧
    (b.length ≤ (mkC1 (imgWrite i 1536 rootE) fatE).free_bytes →
      ∃ st', (mkC1 (imgWrite i 1536 rootE) fatE).write_file pathATXT b false =
        .ok st' ∧ st'.read_file pathATXT = .ok b) := by
  constructor
  · intro h
    rw [show (mkC1 (imgWrite i 1536 root0) fatC1).free_bytes = 4608 from rfl] at h
    rcases Nat.eq_zero_or_pos b.length with h0 | h1
    · have hb : b = [] := List.eq_nil_of_length_eq_zero h0
      subst hb
      exact ⟨_, writefile_over_nil i,
        read_empty _ fatC1 (newroot []) 2 (wImgNil_root _)
          (scan_newroot [] (by decide)) (by decide)⟩
    by_cases c1 : b.length ≤ 512
    · exact roundtrip_over i b h1 c1
    by_cases c2 : b.length ≤ 1024
    · exact roundtrip_over_k2 i b (by omega) c2
    by_cases c3 : b.length ≤ 1536
    · exact roundtrip_over_k3 i b (by omega) c3
    by_cases c4 : b.length ≤ 2048
    · exact roundtrip_over_k4 i b (by omega) c4
    by_cases c5 : b.length ≤ 2560
    · exact roundtrip_over_k5 i b (by omega) c5
    by_cases c6 : b.length ≤ 3072
    · exact roundtrip_over_k6 i b (by omega) c6
    by_cases c7 : b.length ≤ 3584
    · exact roundtrip_over_k7 i b (by omega) c7
    by_cases c8 : b.length ≤ 4096
    · exact roundtrip_over_k8 i b (by omega) c8
    exact roundtrip_over_k9 i b (by omega) (by omega)
  · intro h
    rw [show (mkC1 (imgWrite i 1536 rootE) fatE).free_bytes = 5120 from rfl] at h
    rcases Nat.eq_zero_or_pos b.length with h0 | h1
    · have hb : b = [] := List.eq_nil_of_length_eq_zero h0
      subst hb
      exact ⟨_, writefile_create_nil i,
        read_empty _ fatE root1 0 (read_root1 i) scan_root1 (by decide)⟩
    by_cases c1 : b.length ≤ 512
    · exact ⟨_, writefile_create i b h1 c1,
        read_C1 _ b h1 c1 (wImg_root _ b c1) (wImg_data _ b c1)⟩
    by_cases c2 : b.length ≤ 1024
    · exact roundtrip_create_k2 i b (by omega) c2
    by_cases c3 : b.length ≤ 1536
    · exact roundtrip_create_k3 i b (by omega) c3
    by_cases c4 : b.length ≤ 2048
    · exact roundtrip_create_k4 i b (by omega) c4
    by_cases c5 : b.length ≤ 2560
    · exact roundtrip_create_k5 i b (by omega) c5
    by_cases c6 : b.length ≤ 3072
    · exact roundtrip_create_k6 i b (by omega) c6
    by_cases c7 : b.length ≤ 3584
    · exact roundtrip_create_k7 i b (by omega) c7
    by_cases c8 : b.length ≤ 4096
    · exact roundtrip_create_k8 i b (by omega) c8
    by_cases c9 : b.length ≤ 4608
    · exact roundtrip_create_k9 i b (by omega) c9
    exact roundtrip_create_k10 i b (by omega) (by omega)

/-- Witness for the amended claim C1 at a concrete image and contents. -/
theorem claim_C1_roundtrip_witness :
    (([104, 105] : List Nat).length ≤
      (mkC1 (imgWrite (fun _ => 0) 1536 root0) fatC1).free_bytes ∧
    ∃ st', (mkC1 (imgWrite (fun _ => 0) 1536 root0) fatC1).write_file pathATXT
        [104, 105] false = .ok st' ∧ st'.read_file pathATXT = .ok [104, 105]) ∧
    (([104, 105] : List Nat).length ≤
      (mkC1 (imgWrite (fun _ => 0) 1536 rootE) fatE).free_bytes ∧
    ∃ st', (mkC1 (imgWrite (fun _ => 0) 1536 rootE) fatE).write_file pathATXT
        [104, 105] false = .ok st' ∧ st'.read_file pathATXT = .ok [104, 105]) :=
  ⟨⟨by decide,
    (claim_C1_write_read_roundtrip (fun _ => 0) [104, 105]).1 (by decide)⟩,
   ⟨by decide,
    (claim_C1_write_read_roundtrip (fun _ => 0) [104, 105]).2 (by decide)⟩⟩

